import Mathlib

/-!
# El Chavacano: the combat simulation of `GameStage::run`

A shallow embedding of `src/GameStage.cpp`.  The local variables of
`GameStage::run` become the fields of `GameState`; the body of the frame loop
becomes `tick`, split into one function per block of the source, and the
event switch becomes `handleEvent`.

Conventions of the embedding:

* `float` values are exact rationals (`ℚ`); every constant of the source is
  the rational it is written as (`0.6f` is `3/5`).  Rounding is not modelled.
* `int` values are `Int`.
* an `sf::Clock` is the instant of its last `restart()`; the elapsed time at
  instant `now` is `now - clock`.  All reads of the clocks inside one event
  handler or one frame body see the same instant `now`.
* `std::queue<int>` is a list whose head is the front, `std::stack<string>`
  a list whose head is the top.
* drawing and sound calls are omitted: they write no variable of the
  simulation.
-/

namespace ElChavacano

/-! ## Data model -/

/-- The type `sf::Vector2f`. -/
structure Vector2f where
  x : ℚ
  y : ℚ
deriving DecidableEq

/-- The type `sf::FloatRect`: top-left corner and size. -/
structure FloatRect where
  position : Vector2f
  size : Vector2f
deriving DecidableEq

/-- The enumeration `SpriteState`. -/
inductive SpriteState where
  | Walk | Run | Jump | Shot | Attack | Idle | Hurt | Dead
deriving DecidableEq, Repr

def kStageDurationSeconds : Int := 60
def kMaxAmmo : Int := 5
def kFrameTime : ℚ := 3 / 25

def windowWidth : ℚ := 960
def groundY : ℚ := 300
def playerSpeed : ℚ := 220
def enemySpeed : ℚ := 160
def jumpStrength : ℚ := -420
def gravity : ℚ := 1200
def enemyFireCooldown : ℚ := 4 / 5
def enemyAttackCooldown : ℚ := 7 / 10
def enemyReloadTime : ℚ := 2
def attackCooldownTime : ℚ := 3 / 5
def shootCooldownTime : ℚ := 1 / 2
def maxRounds : Int := 3
def roundEndDisplayTime : ℚ := 3
def hitStunDuration : ℚ := 1 / 2

/-- The struct `Bullet`; `position` is the position of its `sf::Sprite`. -/
structure Bullet where
  position : Vector2f
  velocity : Vector2f
  fromPlayer : Bool
  active : Bool
deriving DecidableEq

/-- The struct `AnimatedSprite` without its texture: the frame geometry and
the animation cursor. -/
structure AnimatedSprite where
  frameWidth : Int
  frameHeight : Int
  frameCount : Int
  currentFrame : Int
  accumulator : ℚ
deriving DecidableEq

/-- The successful branch of `AnimatedSprite::load` for a sheet of
`w` by `h` pixels (unsigned division, as in the source). -/
def AnimatedSprite.load (w h : Nat) : AnimatedSprite :=
  let frameCount : Nat := max 1 (w / h)
  { frameWidth := ((w / frameCount : Nat) : Int)
    frameHeight := (h : Int)
    frameCount := (frameCount : Int)
    currentFrame := 0
    accumulator := 0 }

/-- The method `AnimatedSprite::update`. -/
def AnimatedSprite.update (a : AnimatedSprite) (delta : ℚ) : AnimatedSprite :=
  let acc := a.accumulator + delta
  if acc ≥ kFrameTime then
    { a with accumulator := 0, currentFrame := Int.tmod (a.currentFrame + 1) a.frameCount }
  else
    { a with accumulator := acc }

/-- The struct `CharacterSpriteManager`.  The eight `sf::Sprite` objects
always receive the same scale and position, kept here once as `spriteScale`
and `spritePosition`. -/
structure CharacterSpriteManager where
  idle : AnimatedSprite
  walk : AnimatedSprite
  run : AnimatedSprite
  jump : AnimatedSprite
  shot : AnimatedSprite
  attack : AnimatedSprite
  hurt : AnimatedSprite
  dead : AnimatedSprite
  currentState : SpriteState
  previousState : SpriteState
  actionClock : ℚ
  actionDuration : ℚ
  baseScale : Vector2f
  facingLeft : Bool
  spriteScale : Vector2f
  spritePosition : Vector2f

namespace CharacterSpriteManager

/-- The method `updateScale`: the shared scale, mirrored when facing right. -/
def updateScale (m : CharacterSpriteManager) : CharacterSpriteManager :=
  { m with spriteScale :=
      if ¬ m.facingLeft then { x := -|m.baseScale.x|, y := m.baseScale.y }
      else { x := |m.baseScale.x|, y := m.baseScale.y } }

/-- The method `setScale`. -/
def setScale (m : CharacterSpriteManager) (scale : Vector2f) : CharacterSpriteManager :=
  updateScale { m with baseScale := scale }

/-- The method `setFacingDirection`. -/
def setFacingDirection (m : CharacterSpriteManager) (faceLeft : Bool) :
    CharacterSpriteManager :=
  updateScale { m with facingLeft := faceLeft }

/-- The method `setPosition`. -/
def setPosition (m : CharacterSpriteManager) (pos : Vector2f) : CharacterSpriteManager :=
  { m with spritePosition :=
      if ¬ m.facingLeft ∧ m.walk.frameWidth > 0 then
        { x := pos.x + (m.walk.frameWidth : ℚ) * |m.baseScale.x|, y := pos.y }
      else pos }

/-- The method `canChangeState` at instant `now`. -/
def canChangeState (m : CharacterSpriteManager) (now : ℚ) : Bool :=
  decide (m.actionDuration ≤ 0 ∨ now - m.actionClock ≥ m.actionDuration)

/-- The method `changeState` at instant `now`. -/
def changeState (m : CharacterSpriteManager) (now : ℚ) (newState : SpriteState)
    (duration : ℚ) : CharacterSpriteManager :=
  if newState ≠ m.currentState then
    updateScale
      { m with
        previousState := if m.actionDuration ≤ 0 then m.currentState else m.previousState
        currentState := newState
        actionClock := now
        actionDuration := duration }
  else m

/-- The sheet updates at the head of `update`; the dead sheet is not
advanced. -/
def advanceSheets (m : CharacterSpriteManager) (delta : ℚ) : CharacterSpriteManager :=
  { m with
    idle := m.idle.update delta
    walk := m.walk.update delta
    run := m.run.update delta
    jump := m.jump.update delta
    shot := m.shot.update delta
    attack := m.attack.update delta
    hurt := m.hurt.update delta }

/-- The assignment `actionDuration = 0.f`. -/
def clearDuration (m : CharacterSpriteManager) : CharacterSpriteManager :=
  { m with actionDuration := 0 }

/-- The return from a one-time animation at the tail of `update`. -/
def revertOneShot (m : CharacterSpriteManager) (now : ℚ) : CharacterSpriteManager :=
  if m.actionDuration > 0 ∧ now - m.actionClock ≥ m.actionDuration then
    clearDuration (changeState m now m.previousState 0)
  else m

/-- The method `update` at instant `now`. -/
def update (m : CharacterSpriteManager) (now delta : ℚ) : CharacterSpriteManager :=
  revertOneShot (advanceSheets m delta) now

/-- The two assignments that rewind the dead sheet (lines 1130-1131). -/
def resetDead (m : CharacterSpriteManager) : CharacterSpriteManager :=
  { m with dead := { m.dead with currentFrame := 0, accumulator := 0 } }

/-- The sheet selected by `getCurrentSprite` (all sheets are loaded once
the frame loop runs, so the null fallback is never taken). -/
def getCurrentSprite (m : CharacterSpriteManager) : AnimatedSprite :=
  match m.currentState with
  | .Idle => m.idle
  | .Walk => m.walk
  | .Run => m.run
  | .Jump => m.jump
  | .Shot => m.shot
  | .Attack => m.attack
  | .Hurt => m.hurt
  | .Dead => m.dead

/-- The value of `sf::Sprite::getGlobalBounds` for the current sprite: the
axis-aligned box of the frame rectangle scaled by `spriteScale` and moved to
`spritePosition` (origin `(0,0)`, no rotation). -/
def getGlobalBounds (m : CharacterSpriteManager) : FloatRect :=
  let w : ℚ := |(m.getCurrentSprite.frameWidth : ℚ)|
  let h : ℚ := |(m.getCurrentSprite.frameHeight : ℚ)|
  let x0 := m.spritePosition.x
  let x1 := m.spritePosition.x + m.spriteScale.x * w
  let y0 := m.spritePosition.y
  let y1 := m.spritePosition.y + m.spriteScale.y * h
  { position := { x := min x0 x1, y := min y0 y1 }
    size := { x := max x0 x1 - min x0 x1, y := max y0 y1 - min y0 y1 } }

end CharacterSpriteManager

/-- The value of `getGlobalBounds` for a bullet sprite at `pos`: the bullet
texture scaled by `0.05`. -/
def bulletBounds (texW texH : Nat) (pos : Vector2f) : FloatRect :=
  { position := pos
    size := { x := (1 / 20 : ℚ) * (texW : ℚ), y := (1 / 20 : ℚ) * (texH : ℚ) } }

/-- The overlap test written out twice in the bullet loop. -/
def overlap (bb tb : FloatRect) : Bool :=
  decide (bb.position.x < tb.position.x + tb.size.x ∧
    bb.position.x + bb.size.x > tb.position.x ∧
    bb.position.y < tb.position.y + tb.size.y ∧
    bb.position.y + bb.size.y > tb.position.y)

/-- The function `std::clamp` (for `lo ≤ hi`). -/
def clamp (v lo hi : ℚ) : ℚ :=
  if v < lo then lo else if hi < v then hi else v

/-- The conversion `static_cast<int>` of a `float`: truncation toward zero. -/
def truncToInt (q : ℚ) : Int :=
  if 0 ≤ q then ⌊q⌋ else ⌈q⌉

/-- The local variables of `GameStage::run` that the simulation reads or
writes, with `context.actionHistory` and the function-local statics of the
death animation.  `windowOpen` is `window.isOpen()`. -/
structure GameState where
  playerSprites : CharacterSpriteManager
  enemySprites : CharacterSpriteManager
  playerPosition : Vector2f
  enemyPosition : Vector2f
  bulletTextureWidth : Nat
  bulletTextureHeight : Nat
  bullets : List Bullet
  playerHealth : ℚ
  enemyHealth : ℚ
  playerAmmo : List Int
  playerReloads : Int
  enemyAmmo : Int
  enemyReloads : Int
  waitingForStart : Bool
  movingLeft : Bool
  movingRight : Bool
  isRunning : Bool
  playerJumping : Bool
  enemyJumping : Bool
  playerVerticalVelocity : ℚ
  enemyVerticalVelocity : ℚ
  stageClock : ℚ
  deltaClock : ℚ
  animationClock : ℚ
  enemyDecisionClock : ℚ
  enemyFireClock : ℚ
  enemyAttackClock : ℚ
  enemyReloadClock : ℚ
  playerAttackCooldown : ℚ
  playerShootCooldown : ℚ
  enemyIsReloading : Bool
  enemyIsRunning : Bool
  winNoted : Bool
  defeatNoted : Bool
  enemyDirection : Int
  currentRound : Int
  playerWins : Int
  enemyWins : Int
  roundEnded : Bool
  gameEnded : Bool
  roundEndClock : ℚ
  playerHitStunClock : ℚ
  enemyHitStunClock : ℚ
  playerHitStunned : Bool
  enemyHitStunned : Bool
  actionHistory : List String
  playerDeadAnimating : Bool
  enemyDeadAnimating : Bool
  windowOpen : Bool

/-- The pixel sizes (width, height) of the sprite sheets of one character,
in the order of `loadAll`. -/
structure SheetSizes where
  idle : Nat × Nat
  walk : Nat × Nat
  run : Nat × Nat
  jump : Nat × Nat
  shot : Nat × Nat
  attack : Nat × Nat
  hurt : Nat × Nat
  dead : Nat × Nat

/-- A freshly constructed `CharacterSpriteManager` after a successful
`loadAll`, created at instant `t0`. -/
def CharacterSpriteManager.loadAll (z : SheetSizes) (t0 : ℚ) : CharacterSpriteManager :=
  { idle := AnimatedSprite.load z.idle.1 z.idle.2
    walk := AnimatedSprite.load z.walk.1 z.walk.2
    run := AnimatedSprite.load z.run.1 z.run.2
    jump := AnimatedSprite.load z.jump.1 z.jump.2
    shot := AnimatedSprite.load z.shot.1 z.shot.2
    attack := AnimatedSprite.load z.attack.1 z.attack.2
    hurt := AnimatedSprite.load z.hurt.1 z.hurt.2
    dead := AnimatedSprite.load z.dead.1 z.dead.2
    currentState := SpriteState.Walk
    previousState := SpriteState.Walk
    actionClock := t0
    actionDuration := 0
    baseScale := { x := 9 / 5, y := 9 / 5 }
    facingLeft := true
    spriteScale := { x := 1, y := 1 }
    spritePosition := { x := 0, y := 0 } }

/-- The queue refilled by `reloadPlayer`: the values `0 .. kMaxAmmo - 1`. -/
def fullAmmo : List Int :=
  (List.range kMaxAmmo.toNat).map Int.ofNat

/-- The lambda `reloadPlayer`. -/
def reloadPlayer (s : GameState) (isInitialLoad : Bool) : GameState :=
  if isInitialLoad ∨ s.playerReloads > 0 then
    { s with
      playerAmmo := fullAmmo
      playerReloads := if ¬ isInitialLoad then s.playerReloads - 1 else s.playerReloads
      actionHistory := "Reloaded ammo" :: s.actionHistory }
  else s

/-- The state on entry to the frame loop (lines 255-425), for the given
sheet sizes and bullet texture size, all clocks started at `t0`, the action
history `history` found in the context, and the values `deadAnimP`,
`deadAnimE` the two `static` animation flags hold on entry. -/
def initialState (playerSheets enemySheets : SheetSizes) (bulletW bulletH : Nat)
    (history : List String) (deadAnimP deadAnimE : Bool) (t0 : ℚ) : GameState :=
  reloadPlayer
    { playerSprites :=
        ((CharacterSpriteManager.loadAll playerSheets t0).setScale
          { x := 9 / 5, y := 9 / 5 }).setPosition { x := 120, y := groundY }
      enemySprites :=
        ((CharacterSpriteManager.loadAll enemySheets t0).setScale
          { x := 9 / 5, y := 9 / 5 }).setPosition { x := windowWidth - 250, y := groundY }
      playerPosition := { x := 120, y := groundY }
      enemyPosition := { x := windowWidth - 250, y := groundY }
      bulletTextureWidth := bulletW
      bulletTextureHeight := bulletH
      bullets := []
      playerHealth := 100
      enemyHealth := 100
      playerAmmo := []
      playerReloads := 2
      enemyAmmo := kMaxAmmo
      enemyReloads := 2
      waitingForStart := true
      movingLeft := false
      movingRight := false
      isRunning := false
      playerJumping := false
      enemyJumping := false
      playerVerticalVelocity := 0
      enemyVerticalVelocity := 0
      stageClock := t0
      deltaClock := t0
      animationClock := t0
      enemyDecisionClock := t0
      enemyFireClock := t0
      enemyAttackClock := t0
      enemyReloadClock := t0
      playerAttackCooldown := t0
      playerShootCooldown := t0
      enemyIsReloading := false
      enemyIsRunning := false
      winNoted := false
      defeatNoted := false
      enemyDirection := -1
      currentRound := 1
      playerWins := 0
      enemyWins := 0
      roundEnded := false
      gameEnded := false
      roundEndClock := t0
      playerHitStunClock := t0
      enemyHitStunClock := t0
      playerHitStunned := false
      enemyHitStunned := false
      actionHistory := history
      playerDeadAnimating := deadAnimP
      enemyDeadAnimating := deadAnimE
      windowOpen := true }
    true

/-! ## Events -/

/-- The key codes the event loop distinguishes. -/
inductive Key where
  | Left | Right | Down | Up | A | S | R | Enter | Other
deriving DecidableEq, Repr

/-- The events the event loop distinguishes. -/
inductive Event where
  | Closed
  | KeyPressed (code : Key)
  | KeyReleased (code : Key)
  | Other
deriving DecidableEq, Repr

/-- The bullet pushed by the `A` key (lines 513-546), when the bullet
texture is not empty. -/
def playerBullet (s : GameState) : Bullet :=
  let dir : ℚ := if s.playerSprites.facingLeft then 1 else -1
  let pb := s.playerSprites.getGlobalBounds
  { position :=
      { x := if dir > 0 then pb.position.x + pb.size.x - 10 else pb.position.x + 10
        y := pb.position.y + pb.size.y * (3 / 5) }
    velocity := { x := 700 * dir, y := 0 }
    fromPlayer := true
    active := true }

/-- The case `Key::Up` of the key switch. -/
def jumpKey (now : ℚ) (s : GameState) : GameState :=
  if ¬ s.playerJumping ∧ ¬ s.playerHitStunned then
    { s with
      playerJumping := true
      playerVerticalVelocity := jumpStrength
      playerSprites := s.playerSprites.changeState now SpriteState.Jump 0
      actionHistory := "Player jumped" :: s.actionHistory }
  else s

/-- The condition of the case `Key::A`. -/
def fireAccepted (now : ℚ) (s : GameState) : Bool :=
  decide (s.playerAmmo ≠ [] ∧
    now - s.playerShootCooldown ≥ shootCooldownTime ∧
    s.playerSprites.canChangeState now = true ∧ ¬ s.playerHitStunned ∧
    s.playerHealth > 0 ∧ s.enemyHealth > 0)

/-- The case `Key::A` of the key switch. -/
def fireKey (now : ℚ) (s : GameState) : GameState :=
  if fireAccepted now s then
    { s with
      playerAmmo := s.playerAmmo.tail
      bullets :=
        if s.bulletTextureWidth > 0 ∧ s.bulletTextureHeight > 0 then
          s.bullets ++ [playerBullet s]
        else s.bullets
      playerSprites := s.playerSprites.changeState now SpriteState.Shot shootCooldownTime
      playerShootCooldown := now
      actionHistory := "Player fired" :: s.actionHistory }
  else s

/-- The condition of the case `Key::S`. -/
def meleeAccepted (now : ℚ) (s : GameState) : Bool :=
  decide (now - s.playerAttackCooldown ≥ attackCooldownTime ∧
    s.playerSprites.canChangeState now = true ∧ ¬ s.playerHitStunned ∧
    s.playerHealth > 0 ∧ s.enemyHealth > 0)

/-- The swing of the melee command: the player enters `Attack` (line 556). -/
def meleeSwing (now : ℚ) (s : GameState) : GameState :=
  { s with playerSprites :=
      s.playerSprites.changeState now SpriteState.Attack attackCooldownTime }

/-- The range test of the melee command and its hit (lines 558-567). -/
def meleeHit (now : ℚ) (s : GameState) : GameState :=
  if |s.enemyPosition.x - s.playerPosition.x| < 120 then
    { s with
      enemyHealth := max 0 (s.enemyHealth - 8)
      enemyHitStunned := true
      enemyHitStunClock := now
      enemySprites := s.enemySprites.changeState now SpriteState.Hurt hitStunDuration }
  else s

/-- The tail of the melee command (lines 568-569). -/
def meleeDone (now : ℚ) (s : GameState) : GameState :=
  { s with
    playerAttackCooldown := now
    actionHistory := "Player melee attack" :: s.actionHistory }

/-- The case `Key::S` of the key switch. -/
def meleeKey (now : ℚ) (s : GameState) : GameState :=
  if meleeAccepted now s then meleeDone now (meleeHit now (meleeSwing now s)) else s

/-- The switch over `keyEvent->code` of a `KeyPressed` event (lines 488-577). -/
def keyPressed (now : ℚ) (s : GameState) (code : Key) : GameState :=
  match code with
  | .Left => { s with movingLeft := true }
  | .Right => { s with movingRight := true }
  | .Down => { s with isRunning := true }
  | .Up => jumpKey now s
  | .A => fireKey now s
  | .S => meleeKey now s
  | .R => reloadPlayer s false
  | _ => s

/-- The switch over `keyUp->code` of a `KeyReleased` event (lines 582-594). -/
def keyReleased (s : GameState) (code : Key) : GameState :=
  match code with
  | .Left => { s with movingLeft := false }
  | .Right => { s with movingRight := false }
  | .Down => { s with isRunning := false }
  | _ => s

/-- One iteration of the event loop (lines 468-596) at instant `now`. -/
def handleEvent (now : ℚ) (s : GameState) (e : Event) : GameState :=
  match e with
  | .Closed => { s with windowOpen := false }
  | .KeyPressed code =>
    if s.waitingForStart ∧ code = Key.Enter then
      { s with
        waitingForStart := false
        stageClock := now
        deltaClock := now
        animationClock := now
        enemyDecisionClock := now
        enemyFireClock := now }
    else if s.waitingForStart then s
    else keyPressed now s code
  | .KeyReleased code =>
    if s.waitingForStart then s else keyReleased s code
  | .Other => s

/-! ## The frame body

Every function below is one statement or one block of the loop body, in the
order of the source; a block that runs several statements in sequence is the
composition of their functions. -/

/-- Player hit-stun expiry (lines 659-661). -/
def updatePlayerHitStun (now : ℚ) (s : GameState) : GameState :=
  if s.playerHitStunned ∧ now - s.playerHitStunClock ≥ hitStunDuration then
    { s with playerHitStunned := false }
  else s

/-- Enemy hit-stun expiry (lines 662-664). -/
def updateEnemyHitStun (now : ℚ) (s : GameState) : GameState :=
  if s.enemyHitStunned ∧ now - s.enemyHitStunClock ≥ hitStunDuration then
    { s with enemyHitStunned := false }
  else s

/-- Hit-stun expiry (lines 659-664). -/
def updateHitStun (now : ℚ) (s : GameState) : GameState :=
  updateEnemyHitStun now (updatePlayerHitStun now s)

/-- The local `playerMotion.x` (lines 667-676). -/
def playerMotionX (delta : ℚ) (s : GameState) : ℚ :=
  let currentSpeed : ℚ := if s.isRunning then playerSpeed * (3 / 2) else playerSpeed
  if ¬ s.playerHitStunned ∧ ¬ s.roundEnded ∧ s.playerHealth > 0 then
    let m1 : ℚ := if s.movingLeft then 0 - currentSpeed * delta else 0
    if s.movingRight then m1 + currentSpeed * delta else m1
  else 0

/-- The local `canJumpOver` (lines 678-679). -/
def canJumpOver (s : GameState) : Bool :=
  decide (|s.enemyPosition.x - s.playerPosition.x| < 100 ∧ s.playerJumping)

/-- Player horizontal movement and clamp (lines 667-693). -/
def playerMove (delta : ℚ) (s : GameState) : GameState :=
  { s with playerPosition :=
      { x :=
          if s.playerHealth ≤ 0 then
            clamp (s.playerPosition.x + playerMotionX delta s) 40 (windowWidth - 60)
          else if canJumpOver s then
            clamp (s.playerPosition.x + playerMotionX delta s) 40 (windowWidth - 60)
          else
            clamp (s.playerPosition.x + playerMotionX delta s) 40 (windowWidth / 2 - 60)
        y := s.playerPosition.y + 0 } }

/-- Player facing from the held direction keys (lines 698-702). -/
def playerFacing (s : GameState) : GameState :=
  if s.movingLeft then
    { s with playerSprites := s.playerSprites.setFacingDirection false }
  else if s.movingRight then
    { s with playerSprites := s.playerSprites.setFacingDirection true }
  else s

/-- Keeping the jump sprite while in the air (lines 708-710). -/
def playerKeepJump (now : ℚ) (s : GameState) : GameState :=
  if s.playerSprites.currentState ≠ SpriteState.Jump then
    { s with playerSprites := s.playerSprites.changeState now SpriteState.Jump 0 }
  else s

/-- Gravity on the player (lines 711-712, also 731-732). -/
def playerFall (delta : ℚ) (s : GameState) : GameState :=
  { s with
    playerVerticalVelocity := s.playerVerticalVelocity + gravity * delta
    playerPosition :=
      { s.playerPosition with
        y := s.playerPosition.y + (s.playerVerticalVelocity + gravity * delta) * delta } }

/-- Landing of the jumping player (lines 713-725). -/
def playerLand (now : ℚ) (s : GameState) : GameState :=
  if s.playerPosition.y ≥ groundY then
    { s with
      playerPosition := { s.playerPosition with y := groundY }
      playerJumping := false
      playerVerticalVelocity := 0
      playerSprites :=
        if s.isRunning ∧ (s.movingLeft ∨ s.movingRight) then
          s.playerSprites.changeState now SpriteState.Run 0
        else if s.movingLeft ∨ s.movingRight then
          s.playerSprites.changeState now SpriteState.Walk 0
        else
          s.playerSprites.changeState now SpriteState.Walk 0 }
  else s

/-- The airborne branch of the player update (lines 707-725). -/
def playerAirborne (now delta : ℚ) (s : GameState) : GameState :=
  playerLand now (playerFall delta (playerKeepJump now s))

/-- The dead player coming to rest on the ground (lines 733-736). -/
def playerRest (s : GameState) : GameState :=
  if s.playerPosition.y ≥ groundY then
    { s with playerPosition := { s.playerPosition with y := groundY }
             playerVerticalVelocity := 0 }
  else s

/-- The assignments that put the player on the ground (lines 739-740). -/
def playerToGround (s : GameState) : GameState :=
  { s with playerPosition := { s.playerPosition with y := groundY }
           playerVerticalVelocity := 0 }

/-- Vertical handling of the player when not jumping (lines 729-741). -/
def playerGroundedFall (delta : ℚ) (s : GameState) : GameState :=
  if s.playerHealth ≤ 0 then playerRest (playerFall delta s) else playerToGround s

/-- Sprite state of the player when not jumping (lines 743-763). -/
def playerGroundedSprite (now : ℚ) (s : GameState) : GameState :=
  if s.playerSprites.currentState ≠ SpriteState.Jump ∧
      s.playerSprites.currentState ≠ SpriteState.Shot ∧
      s.playerSprites.currentState ≠ SpriteState.Attack ∧
      s.playerSprites.currentState ≠ SpriteState.Hurt ∧
      s.playerSprites.currentState ≠ SpriteState.Dead then
    if s.playerHealth ≤ 0 then
      { s with playerSprites := s.playerSprites.changeState now SpriteState.Dead 0 }
    else if s.isRunning ∧ (s.movingLeft ∨ s.movingRight) ∧ ¬ s.playerHitStunned then
      { s with playerSprites := s.playerSprites.changeState now SpriteState.Run 0 }
    else if (s.movingLeft ∨ s.movingRight) ∧ ¬ s.playerHitStunned then
      { s with playerSprites := s.playerSprites.changeState now SpriteState.Walk 0 }
    else if ¬ s.playerHitStunned then
      if s.playerHealth > 0 then
        { s with
          playerSprites := s.playerSprites.changeState now SpriteState.Idle 0
          playerPosition := { s.playerPosition with y := groundY }
          playerVerticalVelocity := 0 }
      else
        { s with playerSprites := s.playerSprites.changeState now SpriteState.Idle 0 }
    else s
  else s

/-- The not-jumping branch of the player update (lines 727-763). -/
def playerGrounded (now delta : ℚ) (s : GameState) : GameState :=
  playerGroundedSprite now (playerGroundedFall delta s)

/-- Player jump physics and sprite state (lines 706-764). -/
def playerVertical (now delta : ℚ) (s : GameState) : GameState :=
  if s.playerJumping then playerAirborne now delta s else playerGrounded now delta s

/-- Final ground snap of the player (lines 769-772). -/
def playerSnap (s : GameState) : GameState :=
  if ¬ s.playerJumping ∧ s.playerHealth > 0 then playerToGround s else s

/-- Positioning of the player sprites (line 774). -/
def playerPlaceSprite (s : GameState) : GameState :=
  { s with playerSprites := s.playerSprites.setPosition s.playerPosition }

/-- Final ground snap of the player and sprite positioning (lines 769-774). -/
def playerGroundSnap (s : GameState) : GameState :=
  playerPlaceSprite (playerSnap s)

/-- The test of a player bullet against the enemy (lines 789-813). -/
def bulletHitEnemy (now : ℚ) (s : GameState) (b : Bullet) : GameState × Bullet :=
  if b.fromPlayer ∧ s.enemyHealth > 0 then
    if overlap (bulletBounds s.bulletTextureWidth s.bulletTextureHeight b.position)
        s.enemySprites.getGlobalBounds then
      ({ s with
          enemyHealth := max 0 (s.enemyHealth - 6)
          enemyHitStunned := true
          enemyHitStunClock := now
          enemySprites := s.enemySprites.changeState now SpriteState.Hurt hitStunDuration },
        { b with active := false })
    else (s, b)
  else (s, b)

/-- The test of an enemy bullet against the player (lines 817-840). -/
def bulletHitPlayer (now : ℚ) (s : GameState) (b : Bullet) : GameState × Bullet :=
  if ¬ b.fromPlayer ∧ s.playerHealth > 0 then
    if overlap (bulletBounds s.bulletTextureWidth s.bulletTextureHeight b.position)
        s.playerSprites.getGlobalBounds then
      ({ s with
          playerHealth := max 0 (s.playerHealth - 5)
          playerHitStunned := true
          playerHitStunClock := now
          playerSprites := s.playerSprites.changeState now SpriteState.Hurt hitStunDuration },
        { b with active := false })
    else (s, b)
  else (s, b)

/-- The move of a bullet by `velocity * delta` (line 782). -/
def Bullet.advance (b : Bullet) (delta : ℚ) : Bullet :=
  { b with position :=
      { x := b.position.x + b.velocity.x * delta
        y := b.position.y + b.velocity.y * delta } }

/-- The assignment `b.active = false`. -/
def Bullet.deactivate (b : Bullet) : Bullet :=
  { b with active := false }

/-- The body of the bullet loop for one bullet (lines 781-840). -/
def updateBullet (now delta : ℚ) (s : GameState) (b : Bullet) : GameState × Bullet :=
  if ¬ b.active then (s, b)
  else if (b.advance delta).position.x < -50 ∨
      (b.advance delta).position.x > windowWidth + 50 then
    (s, (b.advance delta).deactivate)
  else
    bulletHitPlayer now (bulletHitEnemy now s (b.advance delta)).1
      (bulletHitEnemy now s (b.advance delta)).2

/-- The bullet loop over the pool, in order (lines 780-841). -/
def updateBulletList (now delta : ℚ) : GameState → List Bullet → GameState × List Bullet
  | s, [] => (s, [])
  | s, b :: bs =>
    ((updateBulletList now delta (updateBullet now delta s b).1 bs).1,
      (updateBullet now delta s b).2 ::
        (updateBulletList now delta (updateBullet now delta s b).1 bs).2)

/-- The assignment of the pool. -/
def setBullets (s : GameState) (bs : List Bullet) : GameState :=
  { s with bullets := bs }

/-- Bullet movement, collision and purge (lines 779-845). -/
def updateBullets (now delta : ℚ) (s : GameState) : GameState :=
  if s.bullets ≠ [] then
    setBullets (updateBulletList now delta s s.bullets).1
      ((updateBulletList now delta s s.bullets).2.filter (fun b => b.active))
  else s

/-- Start of an enemy reload (lines 848-852). -/
def enemyStartReload (now : ℚ) (s : GameState) : GameState :=
  if s.enemyAmmo ≤ 0 ∧ ¬ s.enemyIsReloading ∧ s.enemyReloads > 0 then
    { s with
      enemyIsReloading := true
      enemyReloadClock := now
      actionHistory := "Enemy reloading" :: s.actionHistory }
  else s

/-- Completion of an enemy reload (lines 853-862). -/
def enemyFinishReload (now : ℚ) (s : GameState) : GameState :=
  if s.enemyIsReloading ∧ now - s.enemyReloadClock ≥ enemyReloadTime then
    if s.enemyReloads > 0 then
      { s with
        enemyAmmo := kMaxAmmo
        enemyReloads := s.enemyReloads - 1
        enemyIsReloading := false
        actionHistory := "Enemy reloaded" :: s.actionHistory }
    else
      { s with enemyIsReloading := false }
  else s

/-- Enemy reload logic (lines 848-862). -/
def enemyReload (now : ℚ) (s : GameState) : GameState :=
  enemyFinishReload now (enemyStartReload now s)

/-- The locals computed at lines 864-871, before the enemy moves. -/
structure EnemySense where
  distanceToPlayer : ℚ
  canShoot : Bool
  canMelee : Bool
  isClose : Bool
  isMidRange : Bool

/-- The values of the locals of lines 864-871. -/
def enemySense (now : ℚ) (s : GameState) : EnemySense :=
  { distanceToPlayer := |s.enemyPosition.x - s.playerPosition.x|
    canShoot := decide (¬ s.enemyIsReloading ∧ s.enemyAmmo > 0 ∧
      now - s.enemyFireClock ≥ enemyFireCooldown ∧ s.enemySprites.canChangeState now = true)
    canMelee := decide (now - s.enemyAttackClock ≥ enemyAttackCooldown ∧
      s.enemySprites.canChangeState now = true)
    isClose := decide (|s.enemyPosition.x - s.playerPosition.x| < 120)
    isMidRange := decide (|s.enemyPosition.x - s.playerPosition.x| ≥ 120 ∧
      |s.enemyPosition.x - s.playerPosition.x| < 300) }

/-- The movement choice of the enemy policy (lines 879-912). -/
def enemyChooseDirection (sense : EnemySense) (s : GameState) : GameState :=
  if sense.isClose then
    if s.enemyPosition.x > s.playerPosition.x + 60 then
      { s with enemyDirection := -1, enemyIsRunning := true }
    else if s.enemyPosition.x < s.playerPosition.x - 40 then
      { s with enemyDirection := 1, enemyIsRunning := true }
    else
      { s with enemyDirection := 0, enemyIsRunning := false }
  else if sense.isMidRange then
    if s.enemyPosition.x > s.playerPosition.x + 180 then
      { s with enemyDirection := -1, enemyIsRunning := false }
    else if s.enemyPosition.x < s.playerPosition.x - 80 then
      { s with enemyDirection := 1, enemyIsRunning := false }
    else
      { s with enemyDirection := 0, enemyIsRunning := false }
  else
    if s.enemyPosition.x > s.playerPosition.x + 100 then
      { s with enemyDirection := -1, enemyIsRunning := true }
    else
      { s with enemyDirection := 1, enemyIsRunning := true }

/-- The jump of the enemy policy (lines 915-920). -/
def enemyPolicyJump (now : ℚ) (sense : EnemySense) (s : GameState) : GameState :=
  if ¬ s.enemyJumping ∧ sense.distanceToPlayer < 80 ∧
      |s.enemyPosition.y - s.playerPosition.y| < 10 then
    { s with
      enemyJumping := true
      enemyVerticalVelocity := jumpStrength * (17 / 20)
      enemySprites := s.enemySprites.changeState now SpriteState.Jump 0 }
  else s

/-- The restart of the decision clock (line 875). -/
def restartDecisionClock (now : ℚ) (s : GameState) : GameState :=
  { s with enemyDecisionClock := now }

/-- Enemy decision making on its cadence (lines 874-922). -/
def enemyDecision (now : ℚ) (sense : EnemySense) (s : GameState) : GameState :=
  if now - s.enemyDecisionClock > 3 / 10 then
    if s.enemyIsReloading ∨ ¬ s.enemyJumping then
      enemyPolicyJump now sense (enemyChooseDirection sense (restartDecisionClock now s))
    else restartDecisionClock now s
  else s

/-- The local `enemyMotion.x` (lines 925-929). -/
def enemyMotionX (delta : ℚ) (s : GameState) : ℚ :=
  let currentEnemySpeed : ℚ := if s.enemyIsRunning then enemySpeed * (7 / 5) else enemySpeed
  if ¬ s.enemyHitStunned ∧ ¬ s.roundEnded ∧ s.enemyHealth > 0 ∧ s.playerHealth > 0 then
    (s.enemyDirection : ℚ) * currentEnemySpeed * delta
  else 0

/-- The local `minEnemyX` (lines 932-936). -/
def minEnemyX (s : GameState) : ℚ :=
  if s.enemyHealth > 0 ∧ s.playerHealth > 0 then s.playerPosition.x + 40 else 40

/-- Enemy horizontal movement and clamp (lines 925-938). -/
def enemyMove (delta : ℚ) (s : GameState) : GameState :=
  { s with enemyPosition :=
      { x := clamp (s.enemyPosition.x + enemyMotionX delta s) (minEnemyX s) (windowWidth - 120)
        y := s.enemyPosition.y + 0 } }

/-- Keeping the jump sprite while the enemy is in the air (lines 942-944). -/
def enemyKeepJump (now : ℚ) (s : GameState) : GameState :=
  if s.enemySprites.currentState ≠ SpriteState.Jump then
    { s with enemySprites := s.enemySprites.changeState now SpriteState.Jump 0 }
  else s

/-- Gravity on the enemy (lines 945-946, also 968-969). -/
def enemyFall (delta : ℚ) (s : GameState) : GameState :=
  { s with
    enemyVerticalVelocity := s.enemyVerticalVelocity + gravity * delta
    enemyPosition :=
      { s.enemyPosition with
        y := s.enemyPosition.y + (s.enemyVerticalVelocity + gravity * delta) * delta } }

/-- Landing of the jumping enemy (lines 947-959). -/
def enemyLand (now : ℚ) (s : GameState) : GameState :=
  if s.enemyPosition.y ≥ groundY then
    { s with
      enemyPosition := { s.enemyPosition with y := groundY }
      enemyJumping := false
      enemyVerticalVelocity := 0
      enemySprites :=
        if s.enemyIsRunning ∧ s.enemyDirection ≠ 0 then
          s.enemySprites.changeState now SpriteState.Run 0
        else if s.enemyDirection ≠ 0 then
          s.enemySprites.changeState now SpriteState.Walk 0
        else
          s.enemySprites.changeState now SpriteState.Walk 0 }
  else s

/-- The airborne branch of the enemy update (lines 942-959). -/
def enemyAirborne (now delta : ℚ) (s : GameState) : GameState :=
  enemyLand now (enemyFall delta (enemyKeepJump now s))

/-- The dead enemy coming to rest on the ground (lines 970-973). -/
def enemyRest (s : GameState) : GameState :=
  if s.enemyPosition.y ≥ groundY then
    { s with enemyPosition := { s.enemyPosition with y := groundY }
             enemyVerticalVelocity := 0 }
  else s

/-- The assignments that put the enemy on the ground (lines 964-965). -/
def enemyToGround (s : GameState) : GameState :=
  { s with enemyPosition := { s.enemyPosition with y := groundY }
           enemyVerticalVelocity := 0 }

/-- Vertical handling of the enemy when not jumping (lines 962-974). -/
def enemyGroundedFall (delta : ℚ) (s : GameState) : GameState :=
  if s.enemyHealth > 0 then enemyToGround s else enemyRest (enemyFall delta s)

/-- Sprite state of the enemy when not jumping (lines 976-996). -/
def enemyGroundedSprite (now : ℚ) (s : GameState) : GameState :=
  if s.enemySprites.currentState ≠ SpriteState.Jump ∧
      s.enemySprites.currentState ≠ SpriteState.Shot ∧
      s.enemySprites.currentState ≠ SpriteState.Attack ∧
      s.enemySprites.currentState ≠ SpriteState.Hurt ∧
      s.enemySprites.currentState ≠ SpriteState.Dead then
    if s.enemyHealth ≤ 0 then
      { s with enemySprites := s.enemySprites.changeState now SpriteState.Dead 0 }
    else if s.enemyIsRunning ∧ s.enemyDirection ≠ 0 ∧ ¬ s.enemyHitStunned then
      { s with enemySprites := s.enemySprites.changeState now SpriteState.Run 0 }
    else if s.enemyDirection ≠ 0 ∧ ¬ s.enemyHitStunned then
      { s with enemySprites := s.enemySprites.changeState now SpriteState.Walk 0 }
    else if ¬ s.enemyHitStunned then
      if s.enemyHealth > 0 then
        { s with
          enemySprites := s.enemySprites.changeState now SpriteState.Idle 0
          enemyPosition := { s.enemyPosition with y := groundY }
          enemyVerticalVelocity := 0 }
      else
        { s with enemySprites := s.enemySprites.changeState now SpriteState.Idle 0 }
    else s
  else s

/-- The not-jumping branch of the enemy update (lines 961-996). -/
def enemyGrounded (now delta : ℚ) (s : GameState) : GameState :=
  enemyGroundedSprite now (enemyGroundedFall delta s)

/-- Enemy jump physics and sprite state (lines 941-997). -/
def enemyVertical (now delta : ℚ) (s : GameState) : GameState :=
  if s.enemyJumping then enemyAirborne now delta s else enemyGrounded now delta s

/-- The local `enemyShouldFaceLeft` (lines 1003-1006). -/
def enemyShouldFaceLeft (s : GameState) : Bool :=
  !(decide (s.enemyPosition.x > s.playerPosition.x))

/-- Turning the enemy toward the player (line 1007). -/
def enemyFace (s : GameState) : GameState :=
  { s with enemySprites := s.enemySprites.setFacingDirection (enemyShouldFaceLeft s) }

/-- Final ground snap of the enemy (lines 1010-1013). -/
def enemySnap (s : GameState) : GameState :=
  if ¬ s.enemyJumping ∧ s.enemyHealth > 0 then enemyToGround s else s

/-- Positioning of the enemy sprites (line 1015). -/
def enemyPlaceSprite (s : GameState) : GameState :=
  { s with enemySprites := s.enemySprites.setPosition s.enemyPosition }

/-- Enemy facing, final ground snap and sprite positioning (lines 1003-1015). -/
def enemyFacing (s : GameState) : GameState :=
  enemyPlaceSprite (enemySnap (enemyFace s))

/-- The enemy melee branch (lines 1023-1033). -/
def enemyMelee (now : ℚ) (s : GameState) : GameState :=
  { s with
    enemySprites :=
      ((s.enemySprites.setFacingDirection (enemyShouldFaceLeft s)).setPosition
        s.enemyPosition).changeState now SpriteState.Attack enemyAttackCooldown
    playerHealth := max 0 (s.playerHealth - 7)
    playerHitStunned := true
    playerHitStunClock := now
    playerSprites := s.playerSprites.changeState now SpriteState.Hurt hitStunDuration
    enemyAttackClock := now
    actionHistory := "Enemy melee attack" :: s.actionHistory }

/-- The bullet pushed by the enemy ranged attack (lines 1042-1067), for the
enemy sprites `e` as positioned just before. -/
def enemyBullet (s : GameState) (e : CharacterSpriteManager) : Bullet :=
  let dir : ℚ := if s.playerPosition.x ≥ s.enemyPosition.x then 1 else -1
  let eb := e.getGlobalBounds
  { position :=
      { x := if dir > 0 then eb.position.x + eb.size.x - 10 else eb.position.x + 10
        y := eb.position.y + eb.size.y * (3 / 5) }
    velocity := { x := 700 * dir, y := 0 }
    fromPlayer := false
    active := true }

/-- The enemy ranged branch (lines 1035-1078). -/
def enemyShoot (now : ℚ) (s : GameState) : GameState :=
  { s with
    enemyAmmo := s.enemyAmmo - 1
    bullets :=
      if s.bulletTextureWidth > 0 ∧ s.bulletTextureHeight > 0 then
        s.bullets ++ [enemyBullet s
          ((s.enemySprites.setFacingDirection (enemyShouldFaceLeft s)).setPosition
            s.enemyPosition)]
      else s.bullets
    enemySprites :=
      ((s.enemySprites.setFacingDirection (enemyShouldFaceLeft s)).setPosition
        s.enemyPosition).changeState now SpriteState.Shot enemyFireCooldown
    enemyFireClock := now
    actionHistory := "Enemy fired" :: s.actionHistory }

/-- Enemy attack decision (lines 1020-1080), with the locals of lines 864-871. -/
def enemyAttack (now : ℚ) (sense : EnemySense) (s : GameState) : GameState :=
  if ¬ s.enemyJumping ∧ ¬ s.enemyIsReloading ∧ ¬ s.enemyHitStunned ∧
      s.playerHealth > 0 ∧ s.enemyHealth > 0 then
    if sense.isClose ∧ sense.canMelee then enemyMelee now s
    else if sense.isMidRange ∧ sense.canShoot then enemyShoot now s
    else s
  else s

/-- The local `timeLeft` (lines 1082-1083). -/
def timeLeft (now : ℚ) (s : GameState) : Int :=
  max 0 (kStageDurationSeconds - truncToInt (now - s.stageClock))

/-- Player death transition (lines 1127-1150). -/
def playerDeath (now : ℚ) (s : GameState) : GameState :=
  if s.playerHealth ≤ 0 ∧ s.playerSprites.currentState ≠ SpriteState.Dead then
    { s with
      playerSprites := (s.playerSprites.changeState now SpriteState.Dead 0).resetDead
      playerDeadAnimating := true
      movingLeft := false
      movingRight := false
      isRunning := false
      playerJumping := false
      playerVerticalVelocity := 0
      enemyDirection := 0
      enemyIsRunning := false
      enemyJumping := false }
  else s

/-- Enemy death transition (lines 1152-1175). -/
def enemyDeath (now : ℚ) (s : GameState) : GameState :=
  if s.enemyHealth ≤ 0 ∧ s.enemySprites.currentState ≠ SpriteState.Dead then
    { s with
      enemySprites := (s.enemySprites.changeState now SpriteState.Dead 0).resetDead
      enemyDeadAnimating := true
      movingLeft := false
      movingRight := false
      isRunning := false
      playerJumping := false
      enemyDirection := 0
      enemyIsRunning := false
      enemyJumping := false
      enemyVerticalVelocity := 0 }
  else s

/-- One step of a death animation on the dead sheet `d` (lines 1179-1191):
the new sheet and whether the animation goes on. -/
def deadSheetStep (d : AnimatedSprite) (dt : ℚ) : AnimatedSprite × Bool :=
  if d.accumulator + dt ≥ kFrameTime then
    if d.currentFrame < d.frameCount - 1 then
      ({ d with accumulator := 0, currentFrame := d.currentFrame + 1 }, true)
    else
      ({ d with accumulator := 0 }, false)
  else ({ d with accumulator := d.accumulator + dt }, true)

/-- Replacement of the dead sheet of a sprite manager. -/
def CharacterSpriteManager.setDead (m : CharacterSpriteManager) (d : AnimatedSprite) :
    CharacterSpriteManager :=
  { m with dead := d }

/-- The player death animation (lines 1178-1192), advanced on `delta`. -/
def playerDeadAnimation (delta : ℚ) (s : GameState) : GameState :=
  if s.playerDeadAnimating then
    { s with
      playerSprites := s.playerSprites.setDead (deadSheetStep s.playerSprites.dead delta).1
      playerDeadAnimating := (deadSheetStep s.playerSprites.dead delta).2 }
  else s

/-- The enemy death animation (lines 1194-1208), advanced on
`animationDelta`. -/
def enemyDeadAnimation (animationDelta : ℚ) (s : GameState) : GameState :=
  if s.enemyDeadAnimating then
    { s with
      enemySprites := s.enemySprites.setDead (deadSheetStep s.enemySprites.dead animationDelta).1
      enemyDeadAnimating := (deadSheetStep s.enemySprites.dead animationDelta).2 }
  else s

/-- The death animations (lines 1178-1208). -/
def deadAnimation (delta animationDelta : ℚ) (s : GameState) : GameState :=
  enemyDeadAnimation animationDelta (playerDeadAnimation delta s)

/-- The local `playerWon` (line 1212). -/
def playerWon (s : GameState) : Bool :=
  decide (s.enemyHealth ≤ 0)

/-- The local `playerLost` (line 1213). -/
def playerLost (now : ℚ) (s : GameState) : Bool :=
  decide (s.playerHealth ≤ 0 ∨ (timeLeft now s = 0 ∧ ¬ playerWon s))

/-- Recording of the round outcome (lines 1216-1242). -/
def noteOutcome (now : ℚ) (s : GameState) : GameState :=
  if playerWon s ∧ ¬ s.winNoted then
    { s with
      actionHistory := "Player victory" :: s.actionHistory
      playerWins := s.playerWins + 1
      winNoted := true
      roundEnded := true
      roundEndClock := now
      movingLeft := false
      movingRight := false
      isRunning := false
      playerHitStunned := false
      enemyHitStunned := false }
  else if playerLost now s ∧ ¬ s.defeatNoted then
    { s with
      actionHistory := "Player down" :: s.actionHistory
      enemyWins := s.enemyWins + 1
      defeatNoted := true
      roundEnded := true
      roundEndClock := now
      movingLeft := false
      movingRight := false
      isRunning := false
      playerHitStunned := false
      enemyHitStunned := false }
  else s

/-- Intent clearing once the round has ended (lines 1245-1249). -/
def clearIntents (s : GameState) : GameState :=
  if s.roundEnded then
    { s with movingLeft := false, movingRight := false, isRunning := false }
  else s

/-- Round outcome and intent clearing (lines 1212-1249). -/
def roundOutcome (now : ℚ) (s : GameState) : GameState :=
  clearIntents (noteOutcome now s)

/-- Reset of the fighters for the next round (lines 1303-1312). -/
def resetFighters (s : GameState) : GameState :=
  { s with
    playerHealth := 100
    enemyHealth := 100
    winNoted := false
    defeatNoted := false
    playerHitStunned := false
    enemyHitStunned := false
    playerJumping := false
    enemyJumping := false
    playerPosition := { x := 120, y := groundY }
    enemyPosition := { x := windowWidth - 250, y := groundY } }

/-- Reset of the sprites and of the player reload budget (lines 1313-1317). -/
def resetSprites (now : ℚ) (s : GameState) : GameState :=
  { s with
    playerSprites :=
      (s.playerSprites.setPosition s.playerPosition).changeState now SpriteState.Walk 0
    enemySprites :=
      (s.enemySprites.setPosition s.enemyPosition).changeState now SpriteState.Walk 0
    playerReloads := 2 }

/-- Reset of the enemy ammunition and of the stage clock (lines 1319-1321). -/
def resetEnemyAmmo (now : ℚ) (s : GameState) : GameState :=
  { s with enemyReloads := 2, enemyAmmo := kMaxAmmo, stageClock := now }

/-- The reset for the next round (lines 1303-1321). -/
def resetRound (now : ℚ) (s : GameState) : GameState :=
  resetEnemyAmmo now (reloadPlayer (resetSprites now (resetFighters s)) true)

/-- The assignment `gameEnded = true` followed by `break`. -/
def endGame (s : GameState) : GameState :=
  { s with gameEnded := true }

/-- The two statements `roundEnded = false; currentRound++` (lines 1295-1296). -/
def nextRound (s : GameState) : GameState :=
  { s with roundEnded := false, currentRound := s.currentRound + 1 }

/-- Round end handling (lines 1288-1326).  Both `break` statements set
`gameEnded`, which is what ends the frame loop. -/
def roundEndHandling (now : ℚ) (s : GameState) : GameState :=
  if s.roundEnded then
    if now - s.roundEndClock ≥ roundEndDisplayTime then
      if s.playerWins ≥ 2 ∨ s.enemyWins ≥ 2 then endGame s
      else if (nextRound s).currentRound > maxRounds then endGame (nextRound s)
      else resetRound now (nextRound s)
    else s
  else s

/-- The start of the frame body (lines 598-601): the two frame clocks are
restarted and both sprite managers updated with `animationDelta`. -/
def frameStart (now : ℚ) (s : GameState) : GameState :=
  { s with
    deltaClock := now
    animationClock := now
    playerSprites := s.playerSprites.update now (now - s.animationClock)
    enemySprites := s.enemySprites.update now (now - s.animationClock) }

/-- The player part of the frame body (lines 659-774). -/
def playerPhase (now delta : ℚ) (s : GameState) : GameState :=
  playerGroundSnap (playerVertical now delta (playerFacing (playerMove delta
    (updateHitStun now s))))

/-- The enemy part of the frame body (lines 864-1080), after the reload
logic: the locals of lines 864-871 are taken first and used throughout. -/
def enemyPhase (now delta : ℚ) (s : GameState) : GameState :=
  enemyAttack now (enemySense now s) (enemyFacing (enemyVertical now delta
    (enemyMove delta (enemyDecision now (enemySense now s) s))))

/-- The state of a frame just before the round outcome is evaluated
(lines 659-1208), for a round that has started. -/
def simulate (now delta animationDelta : ℚ) (s : GameState) : GameState :=
  deadAnimation delta animationDelta (enemyDeath now (playerDeath now
    (enemyPhase now delta (enemyReload now (updateBullets now delta
      (playerPhase now delta s))))))

/-- The state of the frame at instant `now` just before the round outcome is
evaluated (lines 598-1208), for a round that has started: `delta` and
`animationDelta` are the times since the previous frame. -/
def beforeOutcome (now : ℚ) (s : GameState) : GameState :=
  simulate now (now - s.deltaClock) (now - s.animationClock) (frameStart now s)

/-- One frame body (lines 598-1326) at instant `now`: while waiting for the
start only the sprites animate. -/
def tick (now : ℚ) (s : GameState) : GameState :=
  if s.waitingForStart then frameStart now s
  else roundEndHandling now (roundOutcome now (beforeOutcome now s))

/-- Whether the frame body at instant `now` from `s` runs the reset for the
next round (lines 1302-1324): the round has started, and after the round
outcome the display delay has elapsed, no tally has reached 2 and the
incremented round number does not exceed `maxRounds`. -/
def resetsRound (now : ℚ) (s : GameState) : Bool :=
  decide (s.waitingForStart = false ∧
    (roundOutcome now (beforeOutcome now s)).roundEnded = true ∧
    now - (roundOutcome now (beforeOutcome now s)).roundEndClock ≥ roundEndDisplayTime ∧
    ¬ ((roundOutcome now (beforeOutcome now s)).playerWins ≥ 2 ∨
      (roundOutcome now (beforeOutcome now s)).enemyWins ≥ 2) ∧
    ¬ (nextRound (roundOutcome now (beforeOutcome now s))).currentRound > maxRounds)

/-- The state of a started frame at line 864: after the player part, the
bullet loop and the enemy reload logic, before the enemy senses. -/
def beforeEnemy (now : ℚ) (s : GameState) : GameState :=
  enemyReload now (updateBullets now (now - s.deltaClock)
    (playerPhase now (now - s.deltaClock) (frameStart now s)))

/-- The state of a started frame at line 1127: after the enemy part, just
before the death transitions. -/
def beforeDeath (now : ℚ) (s : GameState) : GameState :=
  enemyPhase now (now - s.deltaClock) (beforeEnemy now s)

/-- Whether the player death transition fires in the frame (condition of
line 1127). -/
def playerDies (now : ℚ) (s : GameState) : Bool :=
  decide ((beforeDeath now s).playerHealth ≤ 0 ∧
    (beforeDeath now s).playerSprites.currentState ≠ SpriteState.Dead)

/-- Whether the enemy death transition fires in the frame (condition of
line 1152, evaluated after the player death transition). -/
def enemyDies (now : ℚ) (s : GameState) : Bool :=
  decide ((playerDeath now (beforeDeath now s)).enemyHealth ≤ 0 ∧
    (playerDeath now (beforeDeath now s)).enemySprites.currentState ≠ SpriteState.Dead)

/-- Whether the enemy is jumping in the frame once its decision step has run
(the flag `enemyJumping` after line 922). -/
def enemyJumps (now : ℚ) (s : GameState) : Bool :=
  (enemyDecision now (enemySense now (beforeEnemy now s)) (beforeEnemy now s)).enemyJumping

/-- The hit branch of an enemy bullet on the player (lines 828-831). -/
def projectileHitsPlayer (now : ℚ) (s : GameState) : GameState :=
  { s with
    playerHealth := max 0 (s.playerHealth - 5)
    playerHitStunned := true
    playerHitStunClock := now
    playerSprites := s.playerSprites.changeState now SpriteState.Hurt hitStunDuration }

/-- The one-shot states `Shot`, `Attack` and `Hurt`. -/
def SpriteState.isOneShot : SpriteState → Bool
  | .Shot => true
  | .Attack => true
  | .Hurt => true
  | _ => false

/-- The sprite managers reached after a one-shot has been entered from the
state `P` held with `actionDuration <= 0`: the entry itself, then only
entries into one-shots with a positive duration and calls of `update` made
before the current duration has elapsed. -/
inductive OneShotRun (P : SpriteState) : CharacterSpriteManager → Prop where
  | enter (m : CharacterSpriteManager) (now : ℚ) (X : SpriteState) (d : ℚ) :
      m.actionDuration ≤ 0 → m.currentState = P → X.isOneShot = true → X ≠ P → 0 < d →
      OneShotRun P (m.changeState now X d)
  | again (m : CharacterSpriteManager) (now : ℚ) (Y : SpriteState) (d : ℚ) :
      OneShotRun P m → Y.isOneShot = true → 0 < d → OneShotRun P (m.changeState now Y d)
  | wait (m : CharacterSpriteManager) (now delta : ℚ) :
      OneShotRun P m → now - m.actionClock < m.actionDuration →
      OneShotRun P (m.update now delta)

/-! ## Executions -/

/-- One step of the frame loop while it runs: an event is handled or a frame
body is executed, at some instant `now`.  The instants of successive steps
are not constrained and events and frame bodies interleave freely, so the
steps cover every execution of the loop. -/
inductive Step : GameState → GameState → Prop where
  | event (now : ℚ) (e : Event) (s : GameState) :
      s.windowOpen = true → s.gameEnded = false → Step s (handleEvent now s e)
  | frame (now : ℚ) (s : GameState) :
      s.windowOpen = true → s.gameEnded = false → Step s (tick now s)

/-- A step of the frame loop inside one round: an event, or a frame body
that does not run the reset for the next round. -/
inductive RoundStep : GameState → GameState → Prop where
  | event (now : ℚ) (e : Event) (s : GameState) :
      s.windowOpen = true → s.gameEnded = false → RoundStep s (handleEvent now s e)
  | frame (now : ℚ) (s : GameState) :
      s.windowOpen = true → s.gameEnded = false → resetsRound now s = false →
      RoundStep s (tick now s)

/-- A run of the frame loop between two round resets. -/
def RoundRun : GameState → GameState → Prop :=
  Relation.ReflTransGen RoundStep

/-- The states of the frame loop reachable from entries to `GameStage::run`. -/
inductive Reachable : GameState → Prop where
  | start (playerSheets enemySheets : SheetSizes) (bulletW bulletH : Nat)
      (history : List String) (deadAnimP deadAnimE : Bool) (t0 : ℚ) :
      Reachable
        (initialState playerSheets enemySheets bulletW bulletH history deadAnimP deadAnimE t0)
  | step {s s' : GameState} : Reachable s → Step s s' → Reachable s'



/-! ## A concrete session -/

/-- Sheet sizes of a concrete character: frames of 128 by 128 pixels. -/
def demoSheets : SheetSizes :=
  { idle := (768, 128)
    walk := (1280, 128)
    run := (1280, 128)
    jump := (1280, 128)
    shot := (512, 128)
    attack := (768, 128)
    hurt := (512, 128)
    dead := (640, 128) }

/-- The state on entry to the frame loop of a concrete session: a bullet
texture of 64 by 32 pixels, an empty action history, clocks started at 0. -/
def demoStart : GameState :=
  initialState demoSheets demoSheets 64 32 [] false false 0

/-- The concrete session after the start key, pressed at instant 1. -/
def demoRunning : GameState :=
  handleEvent 1 demoStart (Event.KeyPressed Key.Enter)

/-- The running concrete session with the enemy down and the win noted. -/
def demoWon : GameState :=
  { demoRunning with
    enemyHealth := 0
    winNoted := true
    roundEnded := true
    roundEndClock := 3 / 2
    playerWins := 1 }

/-- The running concrete session in round 2 with the player at two wins and
the round ended at instant 2. -/
def demoMatchWon : GameState :=
  { demoRunning with
    enemyHealth := 0
    winNoted := true
    roundEnded := true
    roundEndClock := 2
    playerWins := 2
    currentRound := 2 }

/-- The running concrete session with the stage clock at 0 and the last
enemy melee at instant 59.8. -/
def demoTimeout : GameState :=
  { demoRunning with
    stageClock := 0
    enemyAttackClock := 299 / 5 }

/-- The running concrete session at instant 3 with the enemy moved next to
the player. -/
def demoClose : GameState :=
  { demoRunning with enemyPosition := { x := 200, y := groundY } }

/-- The running concrete session with three units left in the queue and one
reload left. -/
def demoLowAmmo : GameState :=
  { demoRunning with
    playerAmmo := [2, 3, 4]
    playerReloads := 1 }

/-- The running concrete session with the reload budget used up. -/
def demoNoReloads : GameState :=
  { demoRunning with
    playerAmmo := [4]
    playerReloads := 0 }

/-- A player bullet in flight to the right at the height of the enemy, at
`x = 1000`. -/
def demoBulletFar : Bullet :=
  { position := { x := 1000, y := 440 }
    velocity := { x := 700, y := 0 }
    fromPlayer := true
    active := true }

/-- The running concrete session with the enemy at the right end of its
range, `x = 840`, turned toward the player, its sprites positioned there,
and the bullet `demoBulletFar` in the pool. -/
def demoEdge : GameState :=
  { demoRunning with
    enemyPosition := { x := 840, y := groundY }
    enemySprites :=
      (demoRunning.enemySprites.setFacingDirection false).setPosition { x := 840, y := groundY }
    bullets := [demoBulletFar] }

/-- A player bullet in flight to the right at the height of the enemy, at
`x = 900`. -/
def demoBulletNear : Bullet :=
  { position := { x := 900, y := 440 }
    velocity := { x := 700, y := 0 }
    fromPlayer := true
    active := true }

/-! ## Explicit concrete states -/

/-- A loaded sheet with `n` frames of 128 by 128 pixels. -/
def sheet128 (n : Int) : AnimatedSprite :=
  { frameWidth := 128, frameHeight := 128, frameCount := n, currentFrame := 0, accumulator := 0 }

/-- A concrete sprite manager in state `st`, entered at instant `clock` with
duration `dur`, facing `faceLeft`, its sprites at `pos`. -/
def spritesAt (st : SpriteState) (clock dur : ℚ) (faceLeft : Bool) (pos : Vector2f) :
    CharacterSpriteManager :=
  { idle := sheet128 6
    walk := sheet128 10
    run := sheet128 10
    jump := sheet128 10
    shot := sheet128 4
    attack := sheet128 6
    hurt := sheet128 4
    dead := sheet128 5
    currentState := st
    previousState := SpriteState.Walk
    actionClock := clock
    actionDuration := dur
    baseScale := { x := 9 / 5, y := 9 / 5 }
    facingLeft := faceLeft
    spriteScale := { x := if faceLeft then 9 / 5 else -(9 / 5), y := 9 / 5 }
    spritePosition := pos }

/-- A concrete state of round 1 shortly before instant 6: both fighters on
the ground with full health, the player at `x = 120`, the enemy at
`x = 710` turned toward the player, an empty pool, all cooldowns running
since instant 5.9, the previous frame at instant 5.99. -/
def arena : GameState :=
  { playerSprites := spritesAt SpriteState.Idle 5 0 true { x := 120, y := 300 }
    enemySprites := spritesAt SpriteState.Idle 5 0 false { x := 710 + 1152 / 5, y := 300 }
    playerPosition := { x := 120, y := 300 }
    enemyPosition := { x := 710, y := 300 }
    bulletTextureWidth := 64
    bulletTextureHeight := 32
    bullets := []
    playerHealth := 100
    enemyHealth := 100
    playerAmmo := [0, 1, 2, 3, 4]
    playerReloads := 2
    enemyAmmo := 5
    enemyReloads := 2
    waitingForStart := false
    movingLeft := false
    movingRight := false
    isRunning := false
    playerJumping := false
    enemyJumping := false
    playerVerticalVelocity := 0
    enemyVerticalVelocity := 0
    stageClock := 0
    deltaClock := 599 / 100
    animationClock := 599 / 100
    enemyDecisionClock := 59 / 10
    enemyFireClock := 59 / 10
    enemyAttackClock := 59 / 10
    enemyReloadClock := 0
    playerAttackCooldown := 0
    playerShootCooldown := 0
    enemyIsReloading := false
    enemyIsRunning := false
    winNoted := false
    defeatNoted := false
    enemyDirection := 0
    currentRound := 1
    playerWins := 0
    enemyWins := 0
    roundEnded := false
    gameEnded := false
    roundEndClock := 0
    playerHitStunClock := 0
    enemyHitStunClock := 0
    playerHitStunned := false
    enemyHitStunned := false
    actionHistory := []
    playerDeadAnimating := false
    enemyDeadAnimating := false
    windowOpen := true }

/-- The player sprites of `arena` after a shot at instant 6 and, before its
end, a hit at instant 6.2. -/
def shotThenHurt : CharacterSpriteManager :=
  (((spritesAt SpriteState.Idle 5 0 true { x := 120, y := 300 }).changeState 6
    SpriteState.Shot shootCooldownTime).update (61 / 10) (1 / 10)).changeState (31 / 5)
    SpriteState.Hurt hitStunDuration

/-- The concrete session run to its end on the timer: round 1 times out in
the frame at instant 62, the reset runs at instant 65, round 2 times out at
instant 127 and the frame at instant 130 ends the match. -/
def exitRun : GameState :=
  tick 130 (tick 127 (tick 65 (tick 62 demoRunning)))

/-- The state `arena` with the player in the air, rising, 80 units from an
enemy that has 8 health points left. -/
def airStrike : GameState :=
  { arena with
    playerSprites := spritesAt SpriteState.Jump 5 0 true { x := 120, y := 200 }
    playerPosition := { x := 120, y := 200 }
    playerJumping := true
    playerVerticalVelocity := -300
    enemyHealth := 8
    enemyPosition := { x := 200, y := 300 }
    enemySprites := spritesAt SpriteState.Idle 5 0 false { x := 200 + 1152 / 5, y := 300 } }

/-- A concrete run of the session `demoRunning`: the right key at instant 1,
a frame at instant 2.4 that takes the player to the edge of its half at
`x = 420` and the enemy next to it, the jump key, and a frame at instant 4.4
in which the jumping player passes the enemy. -/
def overtakeRun : GameState :=
  tick (22 / 5) (handleEvent (12 / 5)
    (tick (12 / 5) (handleEvent 1 demoRunning (Event.KeyPressed Key.Right)))
    (Event.KeyPressed Key.Up))

/-- The state `arena` with the player down to 5 health points and the enemy
80 units away, its melee cooldown over. -/
def lastBlow : GameState :=
  { arena with
    playerHealth := 5
    enemyPosition := { x := 200, y := 300 }
    enemySprites := spritesAt SpriteState.Idle 5 0 false { x := 200 + 1152 / 5, y := 300 }
    enemyAttackClock := 5 }

/-- The state `arena` with the enemy in `Dead` at health 0, the player 70
units away, the round ended at instant 5.9 and the last enemy decision taken
at instant 5.6. -/
def enemyDown : GameState :=
  { arena with
    enemyHealth := 0
    enemyPosition := { x := 190, y := 300 }
    enemySprites := spritesAt SpriteState.Dead (59 / 10) 0 false { x := 190 + 1152 / 5, y := 300 }
    enemyDecisionClock := 28 / 5
    winNoted := true
    playerWins := 1
    roundEnded := true
    roundEndClock := 59 / 10 }

/-- The state `arena` with the enemy hit at instant 5.9: hit-stunned and in
`Hurt`, the player 70 units away, the last decision taken at instant 5.6. -/
def stunnedEnemy : GameState :=
  { arena with
    enemyHealth := 92
    enemyPosition := { x := 190, y := 300 }
    enemySprites := spritesAt SpriteState.Hurt (59 / 10) (1 / 2) false
      { x := 190 + 1152 / 5, y := 300 }
    enemyHitStunned := true
    enemyHitStunClock := 59 / 10
    enemyDecisionClock := 28 / 5 }

/-- The state `arena` with the player in `Shot` and the enemy hit and in
`Hurt`, both since instant 5.9. -/
def lockedPair : GameState :=
  { arena with
    playerSprites := spritesAt SpriteState.Shot (59 / 10) (1 / 2) true { x := 120, y := 300 }
    enemySprites := spritesAt SpriteState.Hurt (59 / 10) (1 / 2) false
      { x := 710 + 1152 / 5, y := 300 }
    enemyHealth := 94
    enemyHitStunned := true
    enemyHitStunClock := 59 / 10 }

/-- The state `arena` with the enemy 70 units right of the player, both on
the ground, the last enemy decision taken at instant 5.8. -/
def nearEnemy : GameState :=
  { arena with
    enemyPosition := { x := 190, y := 300 }
    enemySprites := spritesAt SpriteState.Idle 5 0 false { x := 190 + 1152 / 5, y := 300 }
    enemyDecisionClock := 29 / 5 }

/-- The function `applyFirstFrame` of the character selection scene
(CharacterSelectionScene.cpp, lines 10-23) for a texture of `w` by `h`
pixels: the size `(frameWidth, frameHeight)` of the texture rectangle it
sets, or `none` when it returns `false`. -/
def applyFirstFrame (w h : Nat) : Option (Int × Int) :=
  if h = 0 ∨ w = 0 then none
  else
    let frameHeight : Int := (h : Int)
    let frameWidth : Int :=
      if frameHeight > 0 then ((w / max 1 (w / h) : Nat) : Int) else (w : Int)
    some (frameWidth, frameHeight)

/-- The left edge and the width of the texture rectangle that
`AnimatedSprite::update` sets: `sf::IntRect` at `currentFrame * frameWidth`
of width `frameWidth`. -/
def AnimatedSprite.textureRect (a : AnimatedSprite) : Int × Int :=
  (a.currentFrame * a.frameWidth, a.frameWidth)

/-- Successive calls of `AnimatedSprite::update`, one for each element of
`deltas`. -/
def AnimatedSprite.updates (a : AnimatedSprite) : List ℚ → AnimatedSprite
  | [] => a
  | d :: ds => AnimatedSprite.updates (a.update d) ds

/-- A projectile box of 10 by 10 at the origin. -/
def wideBox : FloatRect :=
  { position := { x := 0, y := 0 }, size := { x := 10, y := 10 } }

/-- A target box of zero width and zero height at `(5, 5)`. -/
def pointBox : FloatRect :=
  { position := { x := 5, y := 5 }, size := { x := 0, y := 0 } }

/-- A sprite manager whose sheets all have frames of zero width and zero
height, in `Idle` at `(400, 300)`. -/
def emptySprites : CharacterSpriteManager :=
  { idle := { frameWidth := 0, frameHeight := 0, frameCount := 1, currentFrame := 0,
              accumulator := 0 }
    walk := { frameWidth := 0, frameHeight := 0, frameCount := 1, currentFrame := 0,
              accumulator := 0 }
    run := { frameWidth := 0, frameHeight := 0, frameCount := 1, currentFrame := 0,
             accumulator := 0 }
    jump := { frameWidth := 0, frameHeight := 0, frameCount := 1, currentFrame := 0,
              accumulator := 0 }
    shot := { frameWidth := 0, frameHeight := 0, frameCount := 1, currentFrame := 0,
              accumulator := 0 }
    attack := { frameWidth := 0, frameHeight := 0, frameCount := 1, currentFrame := 0,
                accumulator := 0 }
    hurt := { frameWidth := 0, frameHeight := 0, frameCount := 1, currentFrame := 0,
              accumulator := 0 }
    dead := { frameWidth := 0, frameHeight := 0, frameCount := 1, currentFrame := 0,
              accumulator := 0 }
    currentState := SpriteState.Idle
    previousState := SpriteState.Walk
    actionClock := 5
    actionDuration := 0
    baseScale := { x := 9 / 5, y := 9 / 5 }
    facingLeft := false
    spriteScale := { x := -(9 / 5), y := 9 / 5 }
    spritePosition := { x := 400, y := 300 } }

/-- The state `arena` with the enemy at `x = 400` drawn by `emptySprites`. -/
def emptyTarget : GameState :=
  { arena with
    enemyPosition := { x := 400, y := 300 }
    enemySprites := emptySprites }

/-- A player projectile whose box of 3.2 by 1.6 holds the point
`(400, 300)`. -/
def grazing : Bullet :=
  { position := { x := 399, y := 299 }
    velocity := { x := 700, y := 0 }
    fromPlayer := true
    active := true }

/-- Whether the advanced projectile `b` hits its target in the state `s`: a
player projectile hits an enemy with health above 0 whose bounds its box
overlaps, an enemy projectile likewise the player. -/
def hitsTarget (s : GameState) (b : Bullet) : Bool :=
  if b.fromPlayer then
    decide (s.enemyHealth > 0) &&
      overlap (bulletBounds s.bulletTextureWidth s.bulletTextureHeight b.position)
        s.enemySprites.getGlobalBounds
  else
    decide (s.playerHealth > 0) &&
      overlap (bulletBounds s.bulletTextureWidth s.bulletTextureHeight b.position)
        s.playerSprites.getGlobalBounds

/-- The pool as the claim describes it after the projectile update: of the
projectiles `bs`, in their order and each advanced by `velocity * delta`,
those whose advanced position has `x` in `[-50, windowWidth + 50]` and that
do not hit their target in the state in which they are tested, which is the
state left by the tests of the projectiles before them. -/
def keptPool (now delta : ℚ) : GameState → List Bullet → List Bullet
  | _, [] => []
  | s, b :: bs =>
    if -50 ≤ (b.advance delta).position.x ∧ (b.advance delta).position.x ≤ windowWidth + 50 ∧
        hitsTarget s (b.advance delta) = false then
      b.advance delta :: keptPool now delta (updateBullet now delta s b).1 bs
    else keptPool now delta (updateBullet now delta s b).1 bs

/-- The concrete session after a shot of the player at instant 3. -/
def demoFired : GameState :=
  handleEvent 3 demoRunning (Event.KeyPressed Key.A)

/-- The state `arena` sixty seconds into the round, the enemy 80 units from
the player with its melee cooldown running until instant 6.6. -/
def lastSecond : GameState :=
  { arena with
    stageClock := -54
    enemyPosition := { x := 200, y := 300 }
    enemySprites := spritesAt SpriteState.Idle 5 0 false { x := 200 + 1152 / 5, y := 300 }
    enemyAttackClock := 59 / 10 }

/-- The concrete session after a frame at instant 3.5 in which the enemy
runs up to the player: the player at `x = 120`, the enemy at `x = 160`. -/
def closeIn : GameState :=
  tick (7 / 2) demoRunning

/-- The session `closeIn` after the melee key and the right key at instant
3.5 and a frame at instant 3.9: the player has walked past the hit-stunned
enemy, and the enemy decision of that frame has set the direction `+1`. -/
def passBy : GameState :=
  tick (39 / 10)
    (handleEvent (7 / 2) (handleEvent (7 / 2) closeIn (Event.KeyPressed Key.S))
      (Event.KeyPressed Key.Right))

/-- The session `passBy` after the release of the right key and the left
key at instant 3.9. -/
def turnBack : GameState :=
  handleEvent (39 / 10) (handleEvent (39 / 10) passBy (Event.KeyReleased Key.Right))
    (Event.KeyPressed Key.Left)

/-- The session `closeIn` after a frame at instant 3.6 in which the enemy,
40 units from the player, strikes: the enemy is in `Attack` for 0.7 s and the
player is down to 93 health points. -/
def struck : GameState :=
  tick (18 / 5) closeIn

/-- The state `arena` with the fighters 240 units apart, the player at 5
health points and the enemy at 6, and two projectiles in flight: one of the
enemy just right of the player box, one of the player just left of the enemy
box. -/
def crossfire : GameState :=
  { arena with
    playerHealth := 5
    enemyHealth := 6
    enemyPosition := { x := 360, y := 300 }
    enemySprites := spritesAt SpriteState.Idle 5 0 false { x := 360 + 1152 / 5, y := 300 }
    bullets :=
      [{ position := { x := 352, y := 10956 / 25 }
         velocity := { x := -700, y := 0 }
         fromPlayer := false
         active := true },
       { position := { x := 354, y := 10956 / 25 }
         velocity := { x := 700, y := 0 }
         fromPlayer := true
         active := true }] }

/-! ## Frame lemmas

What each step leaves unchanged, stated on views of the state. -/

/-- The two health values of a state. -/
def healthView (s : GameState) : ℚ × ℚ := (s.playerHealth, s.enemyHealth)

/-- The match bookkeeping of a state: tallies, noted flags, round number,
end flags, round-end clock, stage clock, start and window flags. -/
def matchView (s : GameState) :
    Int × Int × Bool × Bool × Int × Bool × Bool × ℚ × ℚ × Bool × Bool :=
  (s.playerWins, s.enemyWins, s.winNoted, s.defeatNoted, s.currentRound, s.gameEnded,
    s.roundEnded, s.roundEndClock, s.stageClock, s.waitingForStart, s.windowOpen)

/-- The ammunition of a state: the player queue and reload budget, the enemy
counter and reload budget. -/
def ammoView (s : GameState) : List Int × Int × Int × Int :=
  (s.playerAmmo, s.playerReloads, s.enemyAmmo, s.enemyReloads)

/-- The bullet pool and the enemy melee clock of a state. -/
def poolView (s : GameState) : List Bullet × ℚ :=
  (s.bullets, s.enemyAttackClock)

/-- The animation state of a sprite manager: current state, previous state
and action duration. -/
def animView (m : CharacterSpriteManager) : SpriteState × SpriteState × ℚ :=
  (m.currentState, m.previousState, m.actionDuration)

/-- The animation state of the player. -/
def playerAnimView (s : GameState) : SpriteState × SpriteState × ℚ :=
  animView s.playerSprites

/-! ## Invariants and measures -/

/-- Both health values lie in `[0, 100]`. -/
def HealthOk (s : GameState) : Prop :=
  0 ≤ s.playerHealth ∧ s.playerHealth ≤ 100 ∧ 0 ≤ s.enemyHealth ∧ s.enemyHealth ≤ 100

/-- The tallies and the noted flags of a state. -/
def tallyView (s : GameState) : Int × Int × Bool × Bool :=
  (s.playerWins, s.enemyWins, s.winNoted, s.defeatNoted)

/-- The wins still to be recorded in the round for a noted flag. -/
def pending (noted : Bool) : Int := if noted then 0 else 1

/-- The quantity that no step inside a round increases, with the tallies
themselves never decreasing. -/
def TallyStep (s s' : GameState) : Prop :=
  s.playerWins ≤ s'.playerWins ∧
    s'.playerWins + pending s'.winNoted ≤ s.playerWins + pending s.winNoted ∧
    s.enemyWins ≤ s'.enemyWins ∧
    s'.enemyWins + pending s'.defeatNoted ≤ s.enemyWins + pending s.defeatNoted

/-- The round number is between 1 and 4, and at most 3 while the frame loop
runs. -/
def RoundOk (s : GameState) : Prop :=
  1 ≤ s.currentRound ∧ s.currentRound ≤ 4 ∧ (s.gameEnded = false → s.currentRound ≤ 3)

/-- The duration with which the player enters each state: positive for the
one-shots `Shot`, `Attack` and `Hurt`, zero for the others. -/
def playerOneShot : SpriteState → ℚ
  | .Shot => shootCooldownTime
  | .Attack => attackCooldownTime
  | .Hurt => hitStunDuration
  | _ => 0

/-- The action duration is the one of the current state, and the previous
state is not a one-shot. -/
def AnimOk (v : SpriteState × SpriteState × ℚ) : Prop :=
  v.2.2 = playerOneShot v.1 ∧ playerOneShot v.2.1 = 0

/-- The animation invariant of the player. -/
def PlayerAnimOk (s : GameState) : Prop := AnimOk (playerAnimView s)

/-- The player queue holds at most 5 units and the enemy counter is between
0 and 5. -/
def AmmoOk (s : GameState) : Prop :=
  s.playerAmmo.length ≤ 5 ∧ 0 ≤ s.enemyAmmo ∧ s.enemyAmmo ≤ 5

/-- The vertical state of the player: height, vertical velocity and the
jumping flag. -/
def playerBodyView (s : GameState) : ℚ × ℚ × Bool :=
  (s.playerPosition.y, s.playerVerticalVelocity, s.playerJumping)

/-- The vertical state of the enemy: height, vertical velocity and the
jumping flag. -/
def enemyBodyView (s : GameState) : ℚ × ℚ × Bool :=
  (s.enemyPosition.y, s.enemyVerticalVelocity, s.enemyJumping)

/-- What the test `canChangeState` of a sprite manager reads, with the
current state: the state, the instant of entry and the duration. -/
def lockView (m : CharacterSpriteManager) : SpriteState × ℚ × ℚ :=
  (m.currentState, m.actionClock, m.actionDuration)

/-- The lock of the player sprites. -/
def playerLockView (s : GameState) : SpriteState × ℚ × ℚ :=
  lockView s.playerSprites

/-- The lock of the enemy sprites. -/
def enemyLockView (s : GameState) : SpriteState × ℚ × ℚ :=
  lockView s.enemySprites

/-- The round number is between 1 and 3 and at most one more than the number
of tally points given so far; once the round has ended it is at most that
number. -/
def RoundTally (s : GameState) : Prop :=
  1 ≤ s.currentRound ∧ s.currentRound ≤ 3 ∧
    s.currentRound ≤ s.playerWins + s.enemyWins + 1 ∧
    (s.roundEnded = true → s.currentRound ≤ s.playerWins + s.enemyWins)

/-- A player with health above 0 that is not jumping stands on the ground
with no vertical velocity. -/
def PlayerAtRest (s : GameState) : Prop :=
  s.playerHealth > 0 → s.playerJumping = false →
    s.playerPosition.y = groundY ∧ s.playerVerticalVelocity = 0

/-- An enemy with health above 0 that is not jumping stands on the ground
with no vertical velocity. -/
def EnemyAtRest (s : GameState) : Prop :=
  s.enemyHealth > 0 → s.enemyJumping = false →
    s.enemyPosition.y = groundY ∧ s.enemyVerticalVelocity = 0

/-- A sprite manager held by a one-shot entered in state `c`, at instant
`now`: `canChangeState` is false and the current state is `c` or `Hurt`. -/
def Held (c : SpriteState) (now : ℚ) (m : CharacterSpriteManager) : Prop :=
  m.canChangeState now = false ∧ (m.currentState = c ∨ m.currentState = SpriteState.Hurt)

/-- The hit-stun of the player: the flag and the instant of the last hit. -/
def playerStunView (s : GameState) : Bool × ℚ :=
  (s.playerHitStunned, s.playerHitStunClock)

/-- Every projectile in the pool is active. -/
def PoolActive (s : GameState) : Prop :=
  ∀ b ∈ s.bullets, b.active = true

/-- A reset leaves a round start: neither outcome noted, the round not
ended. Within the round that follows, each tally is the one of the round
start plus 1 if its outcome is noted, and an ended round has an outcome
noted. -/
def RoundCredit (s0 s : GameState) : Prop :=
  s.playerWins = s0.playerWins + (if s.winNoted then 1 else 0) ∧
    s.enemyWins = s0.enemyWins + (if s.defeatNoted then 1 else 0) ∧
    (s.roundEnded = true → s.winNoted = true ∨ s.defeatNoted = true)

@[simp] theorem reloadPlayer_healthView (b : Bool) (s : GameState) :
    healthView (reloadPlayer s b) = healthView s := by
  unfold reloadPlayer
  split_ifs <;> rfl

@[simp] theorem jumpKey_healthView (now : ℚ) (s : GameState) :
    healthView (jumpKey now s) = healthView s := by
  unfold jumpKey
  split_ifs <;> rfl

@[simp] theorem fireKey_healthView (now : ℚ) (s : GameState) :
    healthView (fireKey now s) = healthView s := by
  unfold fireKey
  split_ifs <;> rfl

@[simp] theorem meleeSwing_healthView (now : ℚ) (s : GameState) :
    healthView (meleeSwing now s) = healthView s := by
  rfl

@[simp] theorem meleeDone_healthView (now : ℚ) (s : GameState) :
    healthView (meleeDone now s) = healthView s := by
  rfl

@[simp] theorem keyReleased_healthView (code : Key) (s : GameState) :
    healthView (keyReleased s code) = healthView s := by
  cases code <;> rfl

@[simp] theorem updatePlayerHitStun_healthView (now : ℚ) (s : GameState) :
    healthView (updatePlayerHitStun now s) = healthView s := by
  unfold updatePlayerHitStun
  split_ifs <;> rfl

@[simp] theorem updateEnemyHitStun_healthView (now : ℚ) (s : GameState) :
    healthView (updateEnemyHitStun now s) = healthView s := by
  unfold updateEnemyHitStun
  split_ifs <;> rfl

@[simp] theorem updateHitStun_healthView (now : ℚ) (s : GameState) :
    healthView (updateHitStun now s) = healthView s := by
  unfold updateHitStun
  simp

@[simp] theorem playerMove_healthView (delta : ℚ) (s : GameState) :
    healthView (playerMove delta s) = healthView s := by
  rfl

@[simp] theorem playerFacing_healthView (s : GameState) :
    healthView (playerFacing s) = healthView s := by
  unfold playerFacing
  split_ifs <;> rfl

@[simp] theorem playerKeepJump_healthView (now : ℚ) (s : GameState) :
    healthView (playerKeepJump now s) = healthView s := by
  unfold playerKeepJump
  split_ifs <;> rfl

@[simp] theorem playerFall_healthView (delta : ℚ) (s : GameState) :
    healthView (playerFall delta s) = healthView s := by
  rfl

@[simp] theorem playerLand_healthView (now : ℚ) (s : GameState) :
    healthView (playerLand now s) = healthView s := by
  unfold playerLand
  split_ifs <;> rfl

@[simp] theorem playerAirborne_healthView (now delta : ℚ) (s : GameState) :
    healthView (playerAirborne now delta s) = healthView s := by
  unfold playerAirborne
  simp

@[simp] theorem playerRest_healthView (s : GameState) :
    healthView (playerRest s) = healthView s := by
  unfold playerRest
  split_ifs <;> rfl

@[simp] theorem playerToGround_healthView (s : GameState) :
    healthView (playerToGround s) = healthView s := by
  rfl

@[simp] theorem playerGroundedFall_healthView (delta : ℚ) (s : GameState) :
    healthView (playerGroundedFall delta s) = healthView s := by
  unfold playerGroundedFall
  split_ifs <;> simp

@[simp] theorem playerGroundedSprite_healthView (now : ℚ) (s : GameState) :
    healthView (playerGroundedSprite now s) = healthView s := by
  unfold playerGroundedSprite
  split_ifs <;> rfl

@[simp] theorem playerGrounded_healthView (now delta : ℚ) (s : GameState) :
    healthView (playerGrounded now delta s) = healthView s := by
  unfold playerGrounded
  simp

@[simp] theorem playerVertical_healthView (now delta : ℚ) (s : GameState) :
    healthView (playerVertical now delta s) = healthView s := by
  unfold playerVertical
  split_ifs <;> simp

@[simp] theorem playerSnap_healthView (s : GameState) :
    healthView (playerSnap s) = healthView s := by
  unfold playerSnap
  split_ifs <;> rfl

@[simp] theorem playerPlaceSprite_healthView (s : GameState) :
    healthView (playerPlaceSprite s) = healthView s := by
  rfl

@[simp] theorem playerGroundSnap_healthView (s : GameState) :
    healthView (playerGroundSnap s) = healthView s := by
  unfold playerGroundSnap
  simp

@[simp] theorem playerPhase_healthView (now delta : ℚ) (s : GameState) :
    healthView (playerPhase now delta s) = healthView s := by
  unfold playerPhase
  simp

@[simp] theorem setBullets_healthView (bs : List Bullet) (s : GameState) :
    healthView (setBullets s bs) = healthView s := by
  rfl

@[simp] theorem enemyStartReload_healthView (now : ℚ) (s : GameState) :
    healthView (enemyStartReload now s) = healthView s := by
  unfold enemyStartReload
  split_ifs <;> rfl

@[simp] theorem enemyFinishReload_healthView (now : ℚ) (s : GameState) :
    healthView (enemyFinishReload now s) = healthView s := by
  unfold enemyFinishReload
  split_ifs <;> rfl

@[simp] theorem enemyReload_healthView (now : ℚ) (s : GameState) :
    healthView (enemyReload now s) = healthView s := by
  unfold enemyReload
  simp

@[simp] theorem enemyChooseDirection_healthView (sense : EnemySense) (s : GameState) :
    healthView (enemyChooseDirection sense s) = healthView s := by
  unfold enemyChooseDirection
  split_ifs <;> rfl

@[simp] theorem enemyPolicyJump_healthView (now : ℚ) (sense : EnemySense) (s : GameState) :
    healthView (enemyPolicyJump now sense s) = healthView s := by
  unfold enemyPolicyJump
  split_ifs <;> rfl

@[simp] theorem restartDecisionClock_healthView (now : ℚ) (s : GameState) :
    healthView (restartDecisionClock now s) = healthView s := by
  rfl

@[simp] theorem enemyDecision_healthView (now : ℚ) (sense : EnemySense) (s : GameState) :
    healthView (enemyDecision now sense s) = healthView s := by
  unfold enemyDecision
  split_ifs <;> simp

@[simp] theorem enemyMove_healthView (delta : ℚ) (s : GameState) :
    healthView (enemyMove delta s) = healthView s := by
  rfl

@[simp] theorem enemyKeepJump_healthView (now : ℚ) (s : GameState) :
    healthView (enemyKeepJump now s) = healthView s := by
  unfold enemyKeepJump
  split_ifs <;> rfl

@[simp] theorem enemyFall_healthView (delta : ℚ) (s : GameState) :
    healthView (enemyFall delta s) = healthView s := by
  rfl

@[simp] theorem enemyLand_healthView (now : ℚ) (s : GameState) :
    healthView (enemyLand now s) = healthView s := by
  unfold enemyLand
  split_ifs <;> rfl

@[simp] theorem enemyAirborne_healthView (now delta : ℚ) (s : GameState) :
    healthView (enemyAirborne now delta s) = healthView s := by
  unfold enemyAirborne
  simp

@[simp] theorem enemyRest_healthView (s : GameState) :
    healthView (enemyRest s) = healthView s := by
  unfold enemyRest
  split_ifs <;> rfl

@[simp] theorem enemyToGround_healthView (s : GameState) :
    healthView (enemyToGround s) = healthView s := by
  rfl

@[simp] theorem enemyGroundedFall_healthView (delta : ℚ) (s : GameState) :
    healthView (enemyGroundedFall delta s) = healthView s := by
  unfold enemyGroundedFall
  split_ifs <;> simp

@[simp] theorem enemyGroundedSprite_healthView (now : ℚ) (s : GameState) :
    healthView (enemyGroundedSprite now s) = healthView s := by
  unfold enemyGroundedSprite
  split_ifs <;> rfl

@[simp] theorem enemyGrounded_healthView (now delta : ℚ) (s : GameState) :
    healthView (enemyGrounded now delta s) = healthView s := by
  unfold enemyGrounded
  simp

@[simp] theorem enemyVertical_healthView (now delta : ℚ) (s : GameState) :
    healthView (enemyVertical now delta s) = healthView s := by
  unfold enemyVertical
  split_ifs <;> simp

@[simp] theorem enemyFace_healthView (s : GameState) :
    healthView (enemyFace s) = healthView s := by
  rfl

@[simp] theorem enemySnap_healthView (s : GameState) :
    healthView (enemySnap s) = healthView s := by
  unfold enemySnap
  split_ifs <;> rfl

@[simp] theorem enemyPlaceSprite_healthView (s : GameState) :
    healthView (enemyPlaceSprite s) = healthView s := by
  rfl

@[simp] theorem enemyFacing_healthView (s : GameState) :
    healthView (enemyFacing s) = healthView s := by
  unfold enemyFacing
  simp

@[simp] theorem enemyShoot_healthView (now : ℚ) (s : GameState) :
    healthView (enemyShoot now s) = healthView s := by
  rfl

@[simp] theorem playerDeath_healthView (now : ℚ) (s : GameState) :
    healthView (playerDeath now s) = healthView s := by
  unfold playerDeath
  split_ifs <;> rfl

@[simp] theorem enemyDeath_healthView (now : ℚ) (s : GameState) :
    healthView (enemyDeath now s) = healthView s := by
  unfold enemyDeath
  split_ifs <;> rfl

@[simp] theorem playerDeadAnimation_healthView (delta : ℚ) (s : GameState) :
    healthView (playerDeadAnimation delta s) = healthView s := by
  unfold playerDeadAnimation
  split_ifs <;> rfl

@[simp] theorem enemyDeadAnimation_healthView (animationDelta : ℚ) (s : GameState) :
    healthView (enemyDeadAnimation animationDelta s) = healthView s := by
  unfold enemyDeadAnimation
  split_ifs <;> rfl

@[simp] theorem deadAnimation_healthView (delta animationDelta : ℚ) (s : GameState) :
    healthView (deadAnimation delta animationDelta s) = healthView s := by
  unfold deadAnimation
  simp

@[simp] theorem frameStart_healthView (now : ℚ) (s : GameState) :
    healthView (frameStart now s) = healthView s := by
  rfl

@[simp] theorem noteOutcome_healthView (now : ℚ) (s : GameState) :
    healthView (noteOutcome now s) = healthView s := by
  unfold noteOutcome
  split_ifs <;> rfl

@[simp] theorem clearIntents_healthView (s : GameState) :
    healthView (clearIntents s) = healthView s := by
  unfold clearIntents
  split_ifs <;> rfl

@[simp] theorem roundOutcome_healthView (now : ℚ) (s : GameState) :
    healthView (roundOutcome now s) = healthView s := by
  unfold roundOutcome
  simp

@[simp] theorem resetSprites_healthView (now : ℚ) (s : GameState) :
    healthView (resetSprites now s) = healthView s := by
  rfl

@[simp] theorem resetEnemyAmmo_healthView (now : ℚ) (s : GameState) :
    healthView (resetEnemyAmmo now s) = healthView s := by
  rfl

@[simp] theorem endGame_healthView (s : GameState) :
    healthView (endGame s) = healthView s := by
  rfl

@[simp] theorem nextRound_healthView (s : GameState) :
    healthView (nextRound s) = healthView s := by
  rfl

@[simp] theorem reloadPlayer_matchView (b : Bool) (s : GameState) :
    matchView (reloadPlayer s b) = matchView s := by
  unfold reloadPlayer
  split_ifs <;> rfl

@[simp] theorem jumpKey_matchView (now : ℚ) (s : GameState) :
    matchView (jumpKey now s) = matchView s := by
  unfold jumpKey
  split_ifs <;> rfl

@[simp] theorem fireKey_matchView (now : ℚ) (s : GameState) :
    matchView (fireKey now s) = matchView s := by
  unfold fireKey
  split_ifs <;> rfl

@[simp] theorem meleeSwing_matchView (now : ℚ) (s : GameState) :
    matchView (meleeSwing now s) = matchView s := by
  rfl

@[simp] theorem meleeHit_matchView (now : ℚ) (s : GameState) :
    matchView (meleeHit now s) = matchView s := by
  unfold meleeHit
  split_ifs <;> rfl

@[simp] theorem meleeDone_matchView (now : ℚ) (s : GameState) :
    matchView (meleeDone now s) = matchView s := by
  rfl

@[simp] theorem meleeKey_matchView (now : ℚ) (s : GameState) :
    matchView (meleeKey now s) = matchView s := by
  unfold meleeKey
  split_ifs <;> simp

@[simp] theorem keyPressed_matchView (now : ℚ) (code : Key) (s : GameState) :
    matchView (keyPressed now s code) = matchView s := by
  cases code <;> first | rfl | simp [keyPressed]

@[simp] theorem keyReleased_matchView (code : Key) (s : GameState) :
    matchView (keyReleased s code) = matchView s := by
  cases code <;> rfl

@[simp] theorem updatePlayerHitStun_matchView (now : ℚ) (s : GameState) :
    matchView (updatePlayerHitStun now s) = matchView s := by
  unfold updatePlayerHitStun
  split_ifs <;> rfl

@[simp] theorem updateEnemyHitStun_matchView (now : ℚ) (s : GameState) :
    matchView (updateEnemyHitStun now s) = matchView s := by
  unfold updateEnemyHitStun
  split_ifs <;> rfl

@[simp] theorem updateHitStun_matchView (now : ℚ) (s : GameState) :
    matchView (updateHitStun now s) = matchView s := by
  unfold updateHitStun
  simp

@[simp] theorem playerMove_matchView (delta : ℚ) (s : GameState) :
    matchView (playerMove delta s) = matchView s := by
  rfl

@[simp] theorem playerFacing_matchView (s : GameState) :
    matchView (playerFacing s) = matchView s := by
  unfold playerFacing
  split_ifs <;> rfl

@[simp] theorem playerKeepJump_matchView (now : ℚ) (s : GameState) :
    matchView (playerKeepJump now s) = matchView s := by
  unfold playerKeepJump
  split_ifs <;> rfl

@[simp] theorem playerFall_matchView (delta : ℚ) (s : GameState) :
    matchView (playerFall delta s) = matchView s := by
  rfl

@[simp] theorem playerLand_matchView (now : ℚ) (s : GameState) :
    matchView (playerLand now s) = matchView s := by
  unfold playerLand
  split_ifs <;> rfl

@[simp] theorem playerAirborne_matchView (now delta : ℚ) (s : GameState) :
    matchView (playerAirborne now delta s) = matchView s := by
  unfold playerAirborne
  simp

@[simp] theorem playerRest_matchView (s : GameState) :
    matchView (playerRest s) = matchView s := by
  unfold playerRest
  split_ifs <;> rfl

@[simp] theorem playerToGround_matchView (s : GameState) :
    matchView (playerToGround s) = matchView s := by
  rfl

@[simp] theorem playerGroundedFall_matchView (delta : ℚ) (s : GameState) :
    matchView (playerGroundedFall delta s) = matchView s := by
  unfold playerGroundedFall
  split_ifs <;> simp

@[simp] theorem playerGroundedSprite_matchView (now : ℚ) (s : GameState) :
    matchView (playerGroundedSprite now s) = matchView s := by
  unfold playerGroundedSprite
  split_ifs <;> rfl

@[simp] theorem playerGrounded_matchView (now delta : ℚ) (s : GameState) :
    matchView (playerGrounded now delta s) = matchView s := by
  unfold playerGrounded
  simp

@[simp] theorem playerVertical_matchView (now delta : ℚ) (s : GameState) :
    matchView (playerVertical now delta s) = matchView s := by
  unfold playerVertical
  split_ifs <;> simp

@[simp] theorem playerSnap_matchView (s : GameState) :
    matchView (playerSnap s) = matchView s := by
  unfold playerSnap
  split_ifs <;> rfl

@[simp] theorem playerPlaceSprite_matchView (s : GameState) :
    matchView (playerPlaceSprite s) = matchView s := by
  rfl

@[simp] theorem playerGroundSnap_matchView (s : GameState) :
    matchView (playerGroundSnap s) = matchView s := by
  unfold playerGroundSnap
  simp

@[simp] theorem playerPhase_matchView (now delta : ℚ) (s : GameState) :
    matchView (playerPhase now delta s) = matchView s := by
  unfold playerPhase
  simp

@[simp] theorem setBullets_matchView (bs : List Bullet) (s : GameState) :
    matchView (setBullets s bs) = matchView s := by
  rfl

@[simp] theorem bulletHitEnemy_matchView (now : ℚ) (b : Bullet) (s : GameState) :
    matchView ((bulletHitEnemy now s b).1) = matchView s := by
  unfold bulletHitEnemy
  split_ifs <;> rfl

@[simp] theorem bulletHitPlayer_matchView (now : ℚ) (b : Bullet) (s : GameState) :
    matchView ((bulletHitPlayer now s b).1) = matchView s := by
  unfold bulletHitPlayer
  split_ifs <;> rfl

@[simp] theorem updateBullet_matchView (now delta : ℚ) (b : Bullet) (s : GameState) :
    matchView ((updateBullet now delta s b).1) = matchView s := by
  unfold updateBullet
  split_ifs <;> simp

@[simp] theorem updateBulletList_matchView (now delta : ℚ) (bs : List Bullet) (s : GameState) :
    matchView ((updateBulletList now delta s bs).1) = matchView s := by
  induction bs generalizing s with
  | nil => rfl
  | cons b bs ih => simp [updateBulletList, ih]

@[simp] theorem updateBullets_matchView (now delta : ℚ) (s : GameState) :
    matchView (updateBullets now delta s) = matchView s := by
  unfold updateBullets
  split_ifs <;> simp

@[simp] theorem enemyStartReload_matchView (now : ℚ) (s : GameState) :
    matchView (enemyStartReload now s) = matchView s := by
  unfold enemyStartReload
  split_ifs <;> rfl

@[simp] theorem enemyFinishReload_matchView (now : ℚ) (s : GameState) :
    matchView (enemyFinishReload now s) = matchView s := by
  unfold enemyFinishReload
  split_ifs <;> rfl

@[simp] theorem enemyReload_matchView (now : ℚ) (s : GameState) :
    matchView (enemyReload now s) = matchView s := by
  unfold enemyReload
  simp

@[simp] theorem enemyChooseDirection_matchView (sense : EnemySense) (s : GameState) :
    matchView (enemyChooseDirection sense s) = matchView s := by
  unfold enemyChooseDirection
  split_ifs <;> rfl

@[simp] theorem enemyPolicyJump_matchView (now : ℚ) (sense : EnemySense) (s : GameState) :
    matchView (enemyPolicyJump now sense s) = matchView s := by
  unfold enemyPolicyJump
  split_ifs <;> rfl

@[simp] theorem restartDecisionClock_matchView (now : ℚ) (s : GameState) :
    matchView (restartDecisionClock now s) = matchView s := by
  rfl

@[simp] theorem enemyDecision_matchView (now : ℚ) (sense : EnemySense) (s : GameState) :
    matchView (enemyDecision now sense s) = matchView s := by
  unfold enemyDecision
  split_ifs <;> simp

@[simp] theorem enemyMove_matchView (delta : ℚ) (s : GameState) :
    matchView (enemyMove delta s) = matchView s := by
  rfl

@[simp] theorem enemyKeepJump_matchView (now : ℚ) (s : GameState) :
    matchView (enemyKeepJump now s) = matchView s := by
  unfold enemyKeepJump
  split_ifs <;> rfl

@[simp] theorem enemyFall_matchView (delta : ℚ) (s : GameState) :
    matchView (enemyFall delta s) = matchView s := by
  rfl

@[simp] theorem enemyLand_matchView (now : ℚ) (s : GameState) :
    matchView (enemyLand now s) = matchView s := by
  unfold enemyLand
  split_ifs <;> rfl

@[simp] theorem enemyAirborne_matchView (now delta : ℚ) (s : GameState) :
    matchView (enemyAirborne now delta s) = matchView s := by
  unfold enemyAirborne
  simp

@[simp] theorem enemyRest_matchView (s : GameState) :
    matchView (enemyRest s) = matchView s := by
  unfold enemyRest
  split_ifs <;> rfl

@[simp] theorem enemyToGround_matchView (s : GameState) :
    matchView (enemyToGround s) = matchView s := by
  rfl

@[simp] theorem enemyGroundedFall_matchView (delta : ℚ) (s : GameState) :
    matchView (enemyGroundedFall delta s) = matchView s := by
  unfold enemyGroundedFall
  split_ifs <;> simp

@[simp] theorem enemyGroundedSprite_matchView (now : ℚ) (s : GameState) :
    matchView (enemyGroundedSprite now s) = matchView s := by
  unfold enemyGroundedSprite
  split_ifs <;> rfl

@[simp] theorem enemyGrounded_matchView (now delta : ℚ) (s : GameState) :
    matchView (enemyGrounded now delta s) = matchView s := by
  unfold enemyGrounded
  simp

@[simp] theorem enemyVertical_matchView (now delta : ℚ) (s : GameState) :
    matchView (enemyVertical now delta s) = matchView s := by
  unfold enemyVertical
  split_ifs <;> simp

@[simp] theorem enemyFace_matchView (s : GameState) :
    matchView (enemyFace s) = matchView s := by
  rfl

@[simp] theorem enemySnap_matchView (s : GameState) :
    matchView (enemySnap s) = matchView s := by
  unfold enemySnap
  split_ifs <;> rfl

@[simp] theorem enemyPlaceSprite_matchView (s : GameState) :
    matchView (enemyPlaceSprite s) = matchView s := by
  rfl

@[simp] theorem enemyFacing_matchView (s : GameState) :
    matchView (enemyFacing s) = matchView s := by
  unfold enemyFacing
  simp

@[simp] theorem enemyShoot_matchView (now : ℚ) (s : GameState) :
    matchView (enemyShoot now s) = matchView s := by
  rfl

@[simp] theorem enemyAttack_matchView (now : ℚ) (sense : EnemySense) (s : GameState) :
    matchView (enemyAttack now sense s) = matchView s := by
  unfold enemyAttack
  split_ifs <;> rfl

@[simp] theorem enemyPhase_matchView (now delta : ℚ) (s : GameState) :
    matchView (enemyPhase now delta s) = matchView s := by
  unfold enemyPhase
  simp

@[simp] theorem playerDeath_matchView (now : ℚ) (s : GameState) :
    matchView (playerDeath now s) = matchView s := by
  unfold playerDeath
  split_ifs <;> rfl

@[simp] theorem enemyDeath_matchView (now : ℚ) (s : GameState) :
    matchView (enemyDeath now s) = matchView s := by
  unfold enemyDeath
  split_ifs <;> rfl

@[simp] theorem playerDeadAnimation_matchView (delta : ℚ) (s : GameState) :
    matchView (playerDeadAnimation delta s) = matchView s := by
  unfold playerDeadAnimation
  split_ifs <;> rfl

@[simp] theorem enemyDeadAnimation_matchView (animationDelta : ℚ) (s : GameState) :
    matchView (enemyDeadAnimation animationDelta s) = matchView s := by
  unfold enemyDeadAnimation
  split_ifs <;> rfl

@[simp] theorem deadAnimation_matchView (delta animationDelta : ℚ) (s : GameState) :
    matchView (deadAnimation delta animationDelta s) = matchView s := by
  unfold deadAnimation
  simp

@[simp] theorem frameStart_matchView (now : ℚ) (s : GameState) :
    matchView (frameStart now s) = matchView s := by
  rfl

@[simp] theorem simulate_matchView (now delta animationDelta : ℚ) (s : GameState) :
    matchView (simulate now delta animationDelta s) = matchView s := by
  unfold simulate
  simp

@[simp] theorem beforeOutcome_matchView (now : ℚ) (s : GameState) :
    matchView (beforeOutcome now s) = matchView s := by
  unfold beforeOutcome
  simp

@[simp] theorem clearIntents_matchView (s : GameState) :
    matchView (clearIntents s) = matchView s := by
  unfold clearIntents
  split_ifs <;> rfl

@[simp] theorem resetSprites_matchView (now : ℚ) (s : GameState) :
    matchView (resetSprites now s) = matchView s := by
  rfl

@[simp] theorem jumpKey_ammoView (now : ℚ) (s : GameState) :
    ammoView (jumpKey now s) = ammoView s := by
  unfold jumpKey
  split_ifs <;> rfl

@[simp] theorem meleeSwing_ammoView (now : ℚ) (s : GameState) :
    ammoView (meleeSwing now s) = ammoView s := by
  rfl

@[simp] theorem meleeHit_ammoView (now : ℚ) (s : GameState) :
    ammoView (meleeHit now s) = ammoView s := by
  unfold meleeHit
  split_ifs <;> rfl

@[simp] theorem meleeDone_ammoView (now : ℚ) (s : GameState) :
    ammoView (meleeDone now s) = ammoView s := by
  rfl

@[simp] theorem meleeKey_ammoView (now : ℚ) (s : GameState) :
    ammoView (meleeKey now s) = ammoView s := by
  unfold meleeKey
  split_ifs <;> simp

@[simp] theorem keyReleased_ammoView (code : Key) (s : GameState) :
    ammoView (keyReleased s code) = ammoView s := by
  cases code <;> rfl

@[simp] theorem updatePlayerHitStun_ammoView (now : ℚ) (s : GameState) :
    ammoView (updatePlayerHitStun now s) = ammoView s := by
  unfold updatePlayerHitStun
  split_ifs <;> rfl

@[simp] theorem updateEnemyHitStun_ammoView (now : ℚ) (s : GameState) :
    ammoView (updateEnemyHitStun now s) = ammoView s := by
  unfold updateEnemyHitStun
  split_ifs <;> rfl

@[simp] theorem updateHitStun_ammoView (now : ℚ) (s : GameState) :
    ammoView (updateHitStun now s) = ammoView s := by
  unfold updateHitStun
  simp

@[simp] theorem playerMove_ammoView (delta : ℚ) (s : GameState) :
    ammoView (playerMove delta s) = ammoView s := by
  rfl

@[simp] theorem playerFacing_ammoView (s : GameState) :
    ammoView (playerFacing s) = ammoView s := by
  unfold playerFacing
  split_ifs <;> rfl

@[simp] theorem playerKeepJump_ammoView (now : ℚ) (s : GameState) :
    ammoView (playerKeepJump now s) = ammoView s := by
  unfold playerKeepJump
  split_ifs <;> rfl

@[simp] theorem playerFall_ammoView (delta : ℚ) (s : GameState) :
    ammoView (playerFall delta s) = ammoView s := by
  rfl

@[simp] theorem playerLand_ammoView (now : ℚ) (s : GameState) :
    ammoView (playerLand now s) = ammoView s := by
  unfold playerLand
  split_ifs <;> rfl

@[simp] theorem playerAirborne_ammoView (now delta : ℚ) (s : GameState) :
    ammoView (playerAirborne now delta s) = ammoView s := by
  unfold playerAirborne
  simp

@[simp] theorem playerRest_ammoView (s : GameState) :
    ammoView (playerRest s) = ammoView s := by
  unfold playerRest
  split_ifs <;> rfl

@[simp] theorem playerToGround_ammoView (s : GameState) :
    ammoView (playerToGround s) = ammoView s := by
  rfl

@[simp] theorem playerGroundedFall_ammoView (delta : ℚ) (s : GameState) :
    ammoView (playerGroundedFall delta s) = ammoView s := by
  unfold playerGroundedFall
  split_ifs <;> simp

@[simp] theorem playerGroundedSprite_ammoView (now : ℚ) (s : GameState) :
    ammoView (playerGroundedSprite now s) = ammoView s := by
  unfold playerGroundedSprite
  split_ifs <;> rfl

@[simp] theorem playerGrounded_ammoView (now delta : ℚ) (s : GameState) :
    ammoView (playerGrounded now delta s) = ammoView s := by
  unfold playerGrounded
  simp

@[simp] theorem playerVertical_ammoView (now delta : ℚ) (s : GameState) :
    ammoView (playerVertical now delta s) = ammoView s := by
  unfold playerVertical
  split_ifs <;> simp

@[simp] theorem playerSnap_ammoView (s : GameState) :
    ammoView (playerSnap s) = ammoView s := by
  unfold playerSnap
  split_ifs <;> rfl

@[simp] theorem playerPlaceSprite_ammoView (s : GameState) :
    ammoView (playerPlaceSprite s) = ammoView s := by
  rfl

@[simp] theorem playerGroundSnap_ammoView (s : GameState) :
    ammoView (playerGroundSnap s) = ammoView s := by
  unfold playerGroundSnap
  simp

@[simp] theorem playerPhase_ammoView (now delta : ℚ) (s : GameState) :
    ammoView (playerPhase now delta s) = ammoView s := by
  unfold playerPhase
  simp

@[simp] theorem setBullets_ammoView (bs : List Bullet) (s : GameState) :
    ammoView (setBullets s bs) = ammoView s := by
  rfl

@[simp] theorem bulletHitEnemy_ammoView (now : ℚ) (b : Bullet) (s : GameState) :
    ammoView ((bulletHitEnemy now s b).1) = ammoView s := by
  unfold bulletHitEnemy
  split_ifs <;> rfl

@[simp] theorem bulletHitPlayer_ammoView (now : ℚ) (b : Bullet) (s : GameState) :
    ammoView ((bulletHitPlayer now s b).1) = ammoView s := by
  unfold bulletHitPlayer
  split_ifs <;> rfl

@[simp] theorem updateBullet_ammoView (now delta : ℚ) (b : Bullet) (s : GameState) :
    ammoView ((updateBullet now delta s b).1) = ammoView s := by
  unfold updateBullet
  split_ifs <;> simp

@[simp] theorem updateBulletList_ammoView (now delta : ℚ) (bs : List Bullet) (s : GameState) :
    ammoView ((updateBulletList now delta s bs).1) = ammoView s := by
  induction bs generalizing s with
  | nil => rfl
  | cons b bs ih => simp [updateBulletList, ih]

@[simp] theorem updateBullets_ammoView (now delta : ℚ) (s : GameState) :
    ammoView (updateBullets now delta s) = ammoView s := by
  unfold updateBullets
  split_ifs <;> simp

@[simp] theorem enemyStartReload_ammoView (now : ℚ) (s : GameState) :
    ammoView (enemyStartReload now s) = ammoView s := by
  unfold enemyStartReload
  split_ifs <;> rfl

@[simp] theorem enemyChooseDirection_ammoView (sense : EnemySense) (s : GameState) :
    ammoView (enemyChooseDirection sense s) = ammoView s := by
  unfold enemyChooseDirection
  split_ifs <;> rfl

@[simp] theorem enemyPolicyJump_ammoView (now : ℚ) (sense : EnemySense) (s : GameState) :
    ammoView (enemyPolicyJump now sense s) = ammoView s := by
  unfold enemyPolicyJump
  split_ifs <;> rfl

@[simp] theorem restartDecisionClock_ammoView (now : ℚ) (s : GameState) :
    ammoView (restartDecisionClock now s) = ammoView s := by
  rfl

@[simp] theorem enemyDecision_ammoView (now : ℚ) (sense : EnemySense) (s : GameState) :
    ammoView (enemyDecision now sense s) = ammoView s := by
  unfold enemyDecision
  split_ifs <;> simp

@[simp] theorem enemyMove_ammoView (delta : ℚ) (s : GameState) :
    ammoView (enemyMove delta s) = ammoView s := by
  rfl

@[simp] theorem enemyKeepJump_ammoView (now : ℚ) (s : GameState) :
    ammoView (enemyKeepJump now s) = ammoView s := by
  unfold enemyKeepJump
  split_ifs <;> rfl

@[simp] theorem enemyFall_ammoView (delta : ℚ) (s : GameState) :
    ammoView (enemyFall delta s) = ammoView s := by
  rfl

@[simp] theorem enemyLand_ammoView (now : ℚ) (s : GameState) :
    ammoView (enemyLand now s) = ammoView s := by
  unfold enemyLand
  split_ifs <;> rfl

@[simp] theorem enemyAirborne_ammoView (now delta : ℚ) (s : GameState) :
    ammoView (enemyAirborne now delta s) = ammoView s := by
  unfold enemyAirborne
  simp

@[simp] theorem enemyRest_ammoView (s : GameState) :
    ammoView (enemyRest s) = ammoView s := by
  unfold enemyRest
  split_ifs <;> rfl

@[simp] theorem enemyToGround_ammoView (s : GameState) :
    ammoView (enemyToGround s) = ammoView s := by
  rfl

@[simp] theorem enemyGroundedFall_ammoView (delta : ℚ) (s : GameState) :
    ammoView (enemyGroundedFall delta s) = ammoView s := by
  unfold enemyGroundedFall
  split_ifs <;> simp

@[simp] theorem enemyGroundedSprite_ammoView (now : ℚ) (s : GameState) :
    ammoView (enemyGroundedSprite now s) = ammoView s := by
  unfold enemyGroundedSprite
  split_ifs <;> rfl

@[simp] theorem enemyGrounded_ammoView (now delta : ℚ) (s : GameState) :
    ammoView (enemyGrounded now delta s) = ammoView s := by
  unfold enemyGrounded
  simp

@[simp] theorem enemyVertical_ammoView (now delta : ℚ) (s : GameState) :
    ammoView (enemyVertical now delta s) = ammoView s := by
  unfold enemyVertical
  split_ifs <;> simp

@[simp] theorem enemyFace_ammoView (s : GameState) :
    ammoView (enemyFace s) = ammoView s := by
  rfl

@[simp] theorem enemySnap_ammoView (s : GameState) :
    ammoView (enemySnap s) = ammoView s := by
  unfold enemySnap
  split_ifs <;> rfl

@[simp] theorem enemyPlaceSprite_ammoView (s : GameState) :
    ammoView (enemyPlaceSprite s) = ammoView s := by
  rfl

@[simp] theorem enemyFacing_ammoView (s : GameState) :
    ammoView (enemyFacing s) = ammoView s := by
  unfold enemyFacing
  simp

@[simp] theorem enemyMelee_ammoView (now : ℚ) (s : GameState) :
    ammoView (enemyMelee now s) = ammoView s := by
  rfl

@[simp] theorem playerDeath_ammoView (now : ℚ) (s : GameState) :
    ammoView (playerDeath now s) = ammoView s := by
  unfold playerDeath
  split_ifs <;> rfl

@[simp] theorem enemyDeath_ammoView (now : ℚ) (s : GameState) :
    ammoView (enemyDeath now s) = ammoView s := by
  unfold enemyDeath
  split_ifs <;> rfl

@[simp] theorem playerDeadAnimation_ammoView (delta : ℚ) (s : GameState) :
    ammoView (playerDeadAnimation delta s) = ammoView s := by
  unfold playerDeadAnimation
  split_ifs <;> rfl

@[simp] theorem enemyDeadAnimation_ammoView (animationDelta : ℚ) (s : GameState) :
    ammoView (enemyDeadAnimation animationDelta s) = ammoView s := by
  unfold enemyDeadAnimation
  split_ifs <;> rfl

@[simp] theorem deadAnimation_ammoView (delta animationDelta : ℚ) (s : GameState) :
    ammoView (deadAnimation delta animationDelta s) = ammoView s := by
  unfold deadAnimation
  simp

@[simp] theorem frameStart_ammoView (now : ℚ) (s : GameState) :
    ammoView (frameStart now s) = ammoView s := by
  rfl

@[simp] theorem noteOutcome_ammoView (now : ℚ) (s : GameState) :
    ammoView (noteOutcome now s) = ammoView s := by
  unfold noteOutcome
  split_ifs <;> rfl

@[simp] theorem clearIntents_ammoView (s : GameState) :
    ammoView (clearIntents s) = ammoView s := by
  unfold clearIntents
  split_ifs <;> rfl

@[simp] theorem roundOutcome_ammoView (now : ℚ) (s : GameState) :
    ammoView (roundOutcome now s) = ammoView s := by
  unfold roundOutcome
  simp

@[simp] theorem resetFighters_ammoView (s : GameState) :
    ammoView (resetFighters s) = ammoView s := by
  rfl

@[simp] theorem endGame_ammoView (s : GameState) :
    ammoView (endGame s) = ammoView s := by
  rfl

@[simp] theorem nextRound_ammoView (s : GameState) :
    ammoView (nextRound s) = ammoView s := by
  rfl

@[simp] theorem reloadPlayer_poolView (b : Bool) (s : GameState) :
    poolView (reloadPlayer s b) = poolView s := by
  unfold reloadPlayer
  split_ifs <;> rfl

@[simp] theorem jumpKey_poolView (now : ℚ) (s : GameState) :
    poolView (jumpKey now s) = poolView s := by
  unfold jumpKey
  split_ifs <;> rfl

@[simp] theorem meleeSwing_poolView (now : ℚ) (s : GameState) :
    poolView (meleeSwing now s) = poolView s := by
  rfl

@[simp] theorem meleeHit_poolView (now : ℚ) (s : GameState) :
    poolView (meleeHit now s) = poolView s := by
  unfold meleeHit
  split_ifs <;> rfl

@[simp] theorem meleeDone_poolView (now : ℚ) (s : GameState) :
    poolView (meleeDone now s) = poolView s := by
  rfl

@[simp] theorem meleeKey_poolView (now : ℚ) (s : GameState) :
    poolView (meleeKey now s) = poolView s := by
  unfold meleeKey
  split_ifs <;> simp

@[simp] theorem keyReleased_poolView (code : Key) (s : GameState) :
    poolView (keyReleased s code) = poolView s := by
  cases code <;> rfl

@[simp] theorem updatePlayerHitStun_poolView (now : ℚ) (s : GameState) :
    poolView (updatePlayerHitStun now s) = poolView s := by
  unfold updatePlayerHitStun
  split_ifs <;> rfl

@[simp] theorem updateEnemyHitStun_poolView (now : ℚ) (s : GameState) :
    poolView (updateEnemyHitStun now s) = poolView s := by
  unfold updateEnemyHitStun
  split_ifs <;> rfl

@[simp] theorem updateHitStun_poolView (now : ℚ) (s : GameState) :
    poolView (updateHitStun now s) = poolView s := by
  unfold updateHitStun
  simp

@[simp] theorem playerMove_poolView (delta : ℚ) (s : GameState) :
    poolView (playerMove delta s) = poolView s := by
  rfl

@[simp] theorem playerFacing_poolView (s : GameState) :
    poolView (playerFacing s) = poolView s := by
  unfold playerFacing
  split_ifs <;> rfl

@[simp] theorem playerKeepJump_poolView (now : ℚ) (s : GameState) :
    poolView (playerKeepJump now s) = poolView s := by
  unfold playerKeepJump
  split_ifs <;> rfl

@[simp] theorem playerFall_poolView (delta : ℚ) (s : GameState) :
    poolView (playerFall delta s) = poolView s := by
  rfl

@[simp] theorem playerLand_poolView (now : ℚ) (s : GameState) :
    poolView (playerLand now s) = poolView s := by
  unfold playerLand
  split_ifs <;> rfl

@[simp] theorem playerAirborne_poolView (now delta : ℚ) (s : GameState) :
    poolView (playerAirborne now delta s) = poolView s := by
  unfold playerAirborne
  simp

@[simp] theorem playerRest_poolView (s : GameState) :
    poolView (playerRest s) = poolView s := by
  unfold playerRest
  split_ifs <;> rfl

@[simp] theorem playerToGround_poolView (s : GameState) :
    poolView (playerToGround s) = poolView s := by
  rfl

@[simp] theorem playerGroundedFall_poolView (delta : ℚ) (s : GameState) :
    poolView (playerGroundedFall delta s) = poolView s := by
  unfold playerGroundedFall
  split_ifs <;> simp

@[simp] theorem playerGroundedSprite_poolView (now : ℚ) (s : GameState) :
    poolView (playerGroundedSprite now s) = poolView s := by
  unfold playerGroundedSprite
  split_ifs <;> rfl

@[simp] theorem playerGrounded_poolView (now delta : ℚ) (s : GameState) :
    poolView (playerGrounded now delta s) = poolView s := by
  unfold playerGrounded
  simp

@[simp] theorem playerVertical_poolView (now delta : ℚ) (s : GameState) :
    poolView (playerVertical now delta s) = poolView s := by
  unfold playerVertical
  split_ifs <;> simp

@[simp] theorem playerSnap_poolView (s : GameState) :
    poolView (playerSnap s) = poolView s := by
  unfold playerSnap
  split_ifs <;> rfl

@[simp] theorem playerPlaceSprite_poolView (s : GameState) :
    poolView (playerPlaceSprite s) = poolView s := by
  rfl

@[simp] theorem playerGroundSnap_poolView (s : GameState) :
    poolView (playerGroundSnap s) = poolView s := by
  unfold playerGroundSnap
  simp

@[simp] theorem playerPhase_poolView (now delta : ℚ) (s : GameState) :
    poolView (playerPhase now delta s) = poolView s := by
  unfold playerPhase
  simp

@[simp] theorem bulletHitEnemy_poolView (now : ℚ) (b : Bullet) (s : GameState) :
    poolView ((bulletHitEnemy now s b).1) = poolView s := by
  unfold bulletHitEnemy
  split_ifs <;> rfl

@[simp] theorem bulletHitPlayer_poolView (now : ℚ) (b : Bullet) (s : GameState) :
    poolView ((bulletHitPlayer now s b).1) = poolView s := by
  unfold bulletHitPlayer
  split_ifs <;> rfl

@[simp] theorem updateBullet_poolView (now delta : ℚ) (b : Bullet) (s : GameState) :
    poolView ((updateBullet now delta s b).1) = poolView s := by
  unfold updateBullet
  split_ifs <;> simp

@[simp] theorem updateBulletList_poolView (now delta : ℚ) (bs : List Bullet) (s : GameState) :
    poolView ((updateBulletList now delta s bs).1) = poolView s := by
  induction bs generalizing s with
  | nil => rfl
  | cons b bs ih => simp [updateBulletList, ih]

@[simp] theorem enemyStartReload_poolView (now : ℚ) (s : GameState) :
    poolView (enemyStartReload now s) = poolView s := by
  unfold enemyStartReload
  split_ifs <;> rfl

@[simp] theorem enemyFinishReload_poolView (now : ℚ) (s : GameState) :
    poolView (enemyFinishReload now s) = poolView s := by
  unfold enemyFinishReload
  split_ifs <;> rfl

@[simp] theorem enemyReload_poolView (now : ℚ) (s : GameState) :
    poolView (enemyReload now s) = poolView s := by
  unfold enemyReload
  simp

@[simp] theorem enemyChooseDirection_poolView (sense : EnemySense) (s : GameState) :
    poolView (enemyChooseDirection sense s) = poolView s := by
  unfold enemyChooseDirection
  split_ifs <;> rfl

@[simp] theorem enemyPolicyJump_poolView (now : ℚ) (sense : EnemySense) (s : GameState) :
    poolView (enemyPolicyJump now sense s) = poolView s := by
  unfold enemyPolicyJump
  split_ifs <;> rfl

@[simp] theorem restartDecisionClock_poolView (now : ℚ) (s : GameState) :
    poolView (restartDecisionClock now s) = poolView s := by
  rfl

@[simp] theorem enemyDecision_poolView (now : ℚ) (sense : EnemySense) (s : GameState) :
    poolView (enemyDecision now sense s) = poolView s := by
  unfold enemyDecision
  split_ifs <;> simp

@[simp] theorem enemyMove_poolView (delta : ℚ) (s : GameState) :
    poolView (enemyMove delta s) = poolView s := by
  rfl

@[simp] theorem enemyKeepJump_poolView (now : ℚ) (s : GameState) :
    poolView (enemyKeepJump now s) = poolView s := by
  unfold enemyKeepJump
  split_ifs <;> rfl

@[simp] theorem enemyFall_poolView (delta : ℚ) (s : GameState) :
    poolView (enemyFall delta s) = poolView s := by
  rfl

@[simp] theorem enemyLand_poolView (now : ℚ) (s : GameState) :
    poolView (enemyLand now s) = poolView s := by
  unfold enemyLand
  split_ifs <;> rfl

@[simp] theorem enemyAirborne_poolView (now delta : ℚ) (s : GameState) :
    poolView (enemyAirborne now delta s) = poolView s := by
  unfold enemyAirborne
  simp

@[simp] theorem enemyRest_poolView (s : GameState) :
    poolView (enemyRest s) = poolView s := by
  unfold enemyRest
  split_ifs <;> rfl

@[simp] theorem enemyToGround_poolView (s : GameState) :
    poolView (enemyToGround s) = poolView s := by
  rfl

@[simp] theorem enemyGroundedFall_poolView (delta : ℚ) (s : GameState) :
    poolView (enemyGroundedFall delta s) = poolView s := by
  unfold enemyGroundedFall
  split_ifs <;> simp

@[simp] theorem enemyGroundedSprite_poolView (now : ℚ) (s : GameState) :
    poolView (enemyGroundedSprite now s) = poolView s := by
  unfold enemyGroundedSprite
  split_ifs <;> rfl

@[simp] theorem enemyGrounded_poolView (now delta : ℚ) (s : GameState) :
    poolView (enemyGrounded now delta s) = poolView s := by
  unfold enemyGrounded
  simp

@[simp] theorem enemyVertical_poolView (now delta : ℚ) (s : GameState) :
    poolView (enemyVertical now delta s) = poolView s := by
  unfold enemyVertical
  split_ifs <;> simp

@[simp] theorem enemyFace_poolView (s : GameState) :
    poolView (enemyFace s) = poolView s := by
  rfl

@[simp] theorem enemySnap_poolView (s : GameState) :
    poolView (enemySnap s) = poolView s := by
  unfold enemySnap
  split_ifs <;> rfl

@[simp] theorem enemyPlaceSprite_poolView (s : GameState) :
    poolView (enemyPlaceSprite s) = poolView s := by
  rfl

@[simp] theorem enemyFacing_poolView (s : GameState) :
    poolView (enemyFacing s) = poolView s := by
  unfold enemyFacing
  simp

@[simp] theorem playerDeath_poolView (now : ℚ) (s : GameState) :
    poolView (playerDeath now s) = poolView s := by
  unfold playerDeath
  split_ifs <;> rfl

@[simp] theorem enemyDeath_poolView (now : ℚ) (s : GameState) :
    poolView (enemyDeath now s) = poolView s := by
  unfold enemyDeath
  split_ifs <;> rfl

@[simp] theorem playerDeadAnimation_poolView (delta : ℚ) (s : GameState) :
    poolView (playerDeadAnimation delta s) = poolView s := by
  unfold playerDeadAnimation
  split_ifs <;> rfl

@[simp] theorem enemyDeadAnimation_poolView (animationDelta : ℚ) (s : GameState) :
    poolView (enemyDeadAnimation animationDelta s) = poolView s := by
  unfold enemyDeadAnimation
  split_ifs <;> rfl

@[simp] theorem deadAnimation_poolView (delta animationDelta : ℚ) (s : GameState) :
    poolView (deadAnimation delta animationDelta s) = poolView s := by
  unfold deadAnimation
  simp

@[simp] theorem frameStart_poolView (now : ℚ) (s : GameState) :
    poolView (frameStart now s) = poolView s := by
  rfl

@[simp] theorem noteOutcome_poolView (now : ℚ) (s : GameState) :
    poolView (noteOutcome now s) = poolView s := by
  unfold noteOutcome
  split_ifs <;> rfl

@[simp] theorem clearIntents_poolView (s : GameState) :
    poolView (clearIntents s) = poolView s := by
  unfold clearIntents
  split_ifs <;> rfl

@[simp] theorem roundOutcome_poolView (now : ℚ) (s : GameState) :
    poolView (roundOutcome now s) = poolView s := by
  unfold roundOutcome
  simp

@[simp] theorem resetFighters_poolView (s : GameState) :
    poolView (resetFighters s) = poolView s := by
  rfl

@[simp] theorem resetSprites_poolView (now : ℚ) (s : GameState) :
    poolView (resetSprites now s) = poolView s := by
  rfl

@[simp] theorem resetEnemyAmmo_poolView (now : ℚ) (s : GameState) :
    poolView (resetEnemyAmmo now s) = poolView s := by
  rfl

@[simp] theorem resetRound_poolView (now : ℚ) (s : GameState) :
    poolView (resetRound now s) = poolView s := by
  rfl

@[simp] theorem endGame_poolView (s : GameState) :
    poolView (endGame s) = poolView s := by
  rfl

@[simp] theorem nextRound_poolView (s : GameState) :
    poolView (nextRound s) = poolView s := by
  rfl

@[simp] theorem roundEndHandling_poolView (now : ℚ) (s : GameState) :
    poolView (roundEndHandling now s) = poolView s := by
  unfold roundEndHandling
  split_ifs <;> rfl

@[simp] theorem reloadPlayer_playerAnimView (b : Bool) (s : GameState) :
    playerAnimView (reloadPlayer s b) = playerAnimView s := by
  unfold reloadPlayer
  split_ifs <;> rfl

@[simp] theorem meleeHit_playerAnimView (now : ℚ) (s : GameState) :
    playerAnimView (meleeHit now s) = playerAnimView s := by
  unfold meleeHit
  split_ifs <;> rfl

@[simp] theorem meleeDone_playerAnimView (now : ℚ) (s : GameState) :
    playerAnimView (meleeDone now s) = playerAnimView s := by
  rfl

@[simp] theorem keyReleased_playerAnimView (code : Key) (s : GameState) :
    playerAnimView (keyReleased s code) = playerAnimView s := by
  cases code <;> rfl

@[simp] theorem updatePlayerHitStun_playerAnimView (now : ℚ) (s : GameState) :
    playerAnimView (updatePlayerHitStun now s) = playerAnimView s := by
  unfold updatePlayerHitStun
  split_ifs <;> rfl

@[simp] theorem updateEnemyHitStun_playerAnimView (now : ℚ) (s : GameState) :
    playerAnimView (updateEnemyHitStun now s) = playerAnimView s := by
  unfold updateEnemyHitStun
  split_ifs <;> rfl

@[simp] theorem updateHitStun_playerAnimView (now : ℚ) (s : GameState) :
    playerAnimView (updateHitStun now s) = playerAnimView s := by
  unfold updateHitStun
  simp

@[simp] theorem playerMove_playerAnimView (delta : ℚ) (s : GameState) :
    playerAnimView (playerMove delta s) = playerAnimView s := by
  rfl

@[simp] theorem playerFacing_playerAnimView (s : GameState) :
    playerAnimView (playerFacing s) = playerAnimView s := by
  unfold playerFacing
  split_ifs <;> rfl

@[simp] theorem playerFall_playerAnimView (delta : ℚ) (s : GameState) :
    playerAnimView (playerFall delta s) = playerAnimView s := by
  rfl

@[simp] theorem playerRest_playerAnimView (s : GameState) :
    playerAnimView (playerRest s) = playerAnimView s := by
  unfold playerRest
  split_ifs <;> rfl

@[simp] theorem playerToGround_playerAnimView (s : GameState) :
    playerAnimView (playerToGround s) = playerAnimView s := by
  rfl

@[simp] theorem playerGroundedFall_playerAnimView (delta : ℚ) (s : GameState) :
    playerAnimView (playerGroundedFall delta s) = playerAnimView s := by
  unfold playerGroundedFall
  split_ifs <;> simp

@[simp] theorem playerSnap_playerAnimView (s : GameState) :
    playerAnimView (playerSnap s) = playerAnimView s := by
  unfold playerSnap
  split_ifs <;> rfl

@[simp] theorem playerPlaceSprite_playerAnimView (s : GameState) :
    playerAnimView (playerPlaceSprite s) = playerAnimView s := by
  rfl

@[simp] theorem playerGroundSnap_playerAnimView (s : GameState) :
    playerAnimView (playerGroundSnap s) = playerAnimView s := by
  unfold playerGroundSnap
  simp

@[simp] theorem setBullets_playerAnimView (bs : List Bullet) (s : GameState) :
    playerAnimView (setBullets s bs) = playerAnimView s := by
  rfl

@[simp] theorem bulletHitEnemy_playerAnimView (now : ℚ) (b : Bullet) (s : GameState) :
    playerAnimView ((bulletHitEnemy now s b).1) = playerAnimView s := by
  unfold bulletHitEnemy
  split_ifs <;> rfl

@[simp] theorem enemyStartReload_playerAnimView (now : ℚ) (s : GameState) :
    playerAnimView (enemyStartReload now s) = playerAnimView s := by
  unfold enemyStartReload
  split_ifs <;> rfl

@[simp] theorem enemyFinishReload_playerAnimView (now : ℚ) (s : GameState) :
    playerAnimView (enemyFinishReload now s) = playerAnimView s := by
  unfold enemyFinishReload
  split_ifs <;> rfl

@[simp] theorem enemyReload_playerAnimView (now : ℚ) (s : GameState) :
    playerAnimView (enemyReload now s) = playerAnimView s := by
  unfold enemyReload
  simp

@[simp] theorem enemyChooseDirection_playerAnimView (sense : EnemySense) (s : GameState) :
    playerAnimView (enemyChooseDirection sense s) = playerAnimView s := by
  unfold enemyChooseDirection
  split_ifs <;> rfl

@[simp] theorem enemyPolicyJump_playerAnimView (now : ℚ) (sense : EnemySense) (s : GameState) :
    playerAnimView (enemyPolicyJump now sense s) = playerAnimView s := by
  unfold enemyPolicyJump
  split_ifs <;> rfl

@[simp] theorem restartDecisionClock_playerAnimView (now : ℚ) (s : GameState) :
    playerAnimView (restartDecisionClock now s) = playerAnimView s := by
  rfl

@[simp] theorem enemyDecision_playerAnimView (now : ℚ) (sense : EnemySense) (s : GameState) :
    playerAnimView (enemyDecision now sense s) = playerAnimView s := by
  unfold enemyDecision
  split_ifs <;> simp

@[simp] theorem enemyMove_playerAnimView (delta : ℚ) (s : GameState) :
    playerAnimView (enemyMove delta s) = playerAnimView s := by
  rfl

@[simp] theorem enemyKeepJump_playerAnimView (now : ℚ) (s : GameState) :
    playerAnimView (enemyKeepJump now s) = playerAnimView s := by
  unfold enemyKeepJump
  split_ifs <;> rfl

@[simp] theorem enemyFall_playerAnimView (delta : ℚ) (s : GameState) :
    playerAnimView (enemyFall delta s) = playerAnimView s := by
  rfl

@[simp] theorem enemyLand_playerAnimView (now : ℚ) (s : GameState) :
    playerAnimView (enemyLand now s) = playerAnimView s := by
  unfold enemyLand
  split_ifs <;> rfl

@[simp] theorem enemyAirborne_playerAnimView (now delta : ℚ) (s : GameState) :
    playerAnimView (enemyAirborne now delta s) = playerAnimView s := by
  unfold enemyAirborne
  simp

@[simp] theorem enemyRest_playerAnimView (s : GameState) :
    playerAnimView (enemyRest s) = playerAnimView s := by
  unfold enemyRest
  split_ifs <;> rfl

@[simp] theorem enemyToGround_playerAnimView (s : GameState) :
    playerAnimView (enemyToGround s) = playerAnimView s := by
  rfl

@[simp] theorem enemyGroundedFall_playerAnimView (delta : ℚ) (s : GameState) :
    playerAnimView (enemyGroundedFall delta s) = playerAnimView s := by
  unfold enemyGroundedFall
  split_ifs <;> simp

@[simp] theorem enemyGroundedSprite_playerAnimView (now : ℚ) (s : GameState) :
    playerAnimView (enemyGroundedSprite now s) = playerAnimView s := by
  unfold enemyGroundedSprite
  split_ifs <;> rfl

@[simp] theorem enemyGrounded_playerAnimView (now delta : ℚ) (s : GameState) :
    playerAnimView (enemyGrounded now delta s) = playerAnimView s := by
  unfold enemyGrounded
  simp

@[simp] theorem enemyVertical_playerAnimView (now delta : ℚ) (s : GameState) :
    playerAnimView (enemyVertical now delta s) = playerAnimView s := by
  unfold enemyVertical
  split_ifs <;> simp

@[simp] theorem enemyFace_playerAnimView (s : GameState) :
    playerAnimView (enemyFace s) = playerAnimView s := by
  rfl

@[simp] theorem enemySnap_playerAnimView (s : GameState) :
    playerAnimView (enemySnap s) = playerAnimView s := by
  unfold enemySnap
  split_ifs <;> rfl

@[simp] theorem enemyPlaceSprite_playerAnimView (s : GameState) :
    playerAnimView (enemyPlaceSprite s) = playerAnimView s := by
  rfl

@[simp] theorem enemyFacing_playerAnimView (s : GameState) :
    playerAnimView (enemyFacing s) = playerAnimView s := by
  unfold enemyFacing
  simp

@[simp] theorem enemyShoot_playerAnimView (now : ℚ) (s : GameState) :
    playerAnimView (enemyShoot now s) = playerAnimView s := by
  rfl

@[simp] theorem enemyDeath_playerAnimView (now : ℚ) (s : GameState) :
    playerAnimView (enemyDeath now s) = playerAnimView s := by
  unfold enemyDeath
  split_ifs <;> rfl

@[simp] theorem playerDeadAnimation_playerAnimView (delta : ℚ) (s : GameState) :
    playerAnimView (playerDeadAnimation delta s) = playerAnimView s := by
  unfold playerDeadAnimation
  split_ifs <;> rfl

@[simp] theorem enemyDeadAnimation_playerAnimView (animationDelta : ℚ) (s : GameState) :
    playerAnimView (enemyDeadAnimation animationDelta s) = playerAnimView s := by
  unfold enemyDeadAnimation
  split_ifs <;> rfl

@[simp] theorem deadAnimation_playerAnimView (delta animationDelta : ℚ) (s : GameState) :
    playerAnimView (deadAnimation delta animationDelta s) = playerAnimView s := by
  unfold deadAnimation
  simp

@[simp] theorem noteOutcome_playerAnimView (now : ℚ) (s : GameState) :
    playerAnimView (noteOutcome now s) = playerAnimView s := by
  unfold noteOutcome
  split_ifs <;> rfl

@[simp] theorem clearIntents_playerAnimView (s : GameState) :
    playerAnimView (clearIntents s) = playerAnimView s := by
  unfold clearIntents
  split_ifs <;> rfl

@[simp] theorem roundOutcome_playerAnimView (now : ℚ) (s : GameState) :
    playerAnimView (roundOutcome now s) = playerAnimView s := by
  unfold roundOutcome
  simp

@[simp] theorem resetFighters_playerAnimView (s : GameState) :
    playerAnimView (resetFighters s) = playerAnimView s := by
  rfl

@[simp] theorem resetEnemyAmmo_playerAnimView (now : ℚ) (s : GameState) :
    playerAnimView (resetEnemyAmmo now s) = playerAnimView s := by
  rfl

@[simp] theorem endGame_playerAnimView (s : GameState) :
    playerAnimView (endGame s) = playerAnimView s := by
  rfl

@[simp] theorem nextRound_playerAnimView (s : GameState) :
    playerAnimView (nextRound s) = playerAnimView s := by
  rfl

@[simp] theorem reloadPlayer_playerBodyView (b : Bool) (s : GameState) :
    playerBodyView (reloadPlayer s b) = playerBodyView s := by
  unfold reloadPlayer
  split_ifs <;> rfl

@[simp] theorem fireKey_playerBodyView (now : ℚ) (s : GameState) :
    playerBodyView (fireKey now s) = playerBodyView s := by
  unfold fireKey
  split_ifs <;> rfl

@[simp] theorem meleeSwing_playerBodyView (now : ℚ) (s : GameState) :
    playerBodyView (meleeSwing now s) = playerBodyView s := by
  rfl

@[simp] theorem meleeHit_playerBodyView (now : ℚ) (s : GameState) :
    playerBodyView (meleeHit now s) = playerBodyView s := by
  unfold meleeHit
  split_ifs <;> rfl

@[simp] theorem meleeDone_playerBodyView (now : ℚ) (s : GameState) :
    playerBodyView (meleeDone now s) = playerBodyView s := by
  rfl

@[simp] theorem meleeKey_playerBodyView (now : ℚ) (s : GameState) :
    playerBodyView (meleeKey now s) = playerBodyView s := by
  unfold meleeKey
  split_ifs <;> simp

@[simp] theorem keyReleased_playerBodyView (code : Key) (s : GameState) :
    playerBodyView (keyReleased s code) = playerBodyView s := by
  cases code <;> rfl

@[simp] theorem updatePlayerHitStun_playerBodyView (now : ℚ) (s : GameState) :
    playerBodyView (updatePlayerHitStun now s) = playerBodyView s := by
  unfold updatePlayerHitStun
  split_ifs <;> rfl

@[simp] theorem updateEnemyHitStun_playerBodyView (now : ℚ) (s : GameState) :
    playerBodyView (updateEnemyHitStun now s) = playerBodyView s := by
  unfold updateEnemyHitStun
  split_ifs <;> rfl

@[simp] theorem updateHitStun_playerBodyView (now : ℚ) (s : GameState) :
    playerBodyView (updateHitStun now s) = playerBodyView s := by
  unfold updateHitStun
  simp

@[simp] theorem playerFacing_playerBodyView (s : GameState) :
    playerBodyView (playerFacing s) = playerBodyView s := by
  unfold playerFacing
  split_ifs <;> rfl

@[simp] theorem playerKeepJump_playerBodyView (now : ℚ) (s : GameState) :
    playerBodyView (playerKeepJump now s) = playerBodyView s := by
  unfold playerKeepJump
  split_ifs <;> rfl

@[simp] theorem playerPlaceSprite_playerBodyView (s : GameState) :
    playerBodyView (playerPlaceSprite s) = playerBodyView s := by
  rfl

@[simp] theorem setBullets_playerBodyView (bs : List Bullet) (s : GameState) :
    playerBodyView (setBullets s bs) = playerBodyView s := by
  rfl

@[simp] theorem bulletHitEnemy_playerBodyView (now : ℚ) (b : Bullet) (s : GameState) :
    playerBodyView ((bulletHitEnemy now s b).1) = playerBodyView s := by
  unfold bulletHitEnemy
  split_ifs <;> rfl

@[simp] theorem bulletHitPlayer_playerBodyView (now : ℚ) (b : Bullet) (s : GameState) :
    playerBodyView ((bulletHitPlayer now s b).1) = playerBodyView s := by
  unfold bulletHitPlayer
  split_ifs <;> rfl

@[simp] theorem updateBullet_playerBodyView (now delta : ℚ) (b : Bullet) (s : GameState) :
    playerBodyView ((updateBullet now delta s b).1) = playerBodyView s := by
  unfold updateBullet
  split_ifs <;> simp

@[simp] theorem updateBulletList_playerBodyView (now delta : ℚ) (bs : List Bullet) (s : GameState) :
    playerBodyView ((updateBulletList now delta s bs).1) = playerBodyView s := by
  induction bs generalizing s with
  | nil => rfl
  | cons b bs ih => simp [updateBulletList, ih]

@[simp] theorem updateBullets_playerBodyView (now delta : ℚ) (s : GameState) :
    playerBodyView (updateBullets now delta s) = playerBodyView s := by
  unfold updateBullets
  split_ifs <;> simp

@[simp] theorem enemyStartReload_playerBodyView (now : ℚ) (s : GameState) :
    playerBodyView (enemyStartReload now s) = playerBodyView s := by
  unfold enemyStartReload
  split_ifs <;> rfl

@[simp] theorem enemyFinishReload_playerBodyView (now : ℚ) (s : GameState) :
    playerBodyView (enemyFinishReload now s) = playerBodyView s := by
  unfold enemyFinishReload
  split_ifs <;> rfl

@[simp] theorem enemyReload_playerBodyView (now : ℚ) (s : GameState) :
    playerBodyView (enemyReload now s) = playerBodyView s := by
  unfold enemyReload
  simp

@[simp] theorem enemyChooseDirection_playerBodyView (sense : EnemySense) (s : GameState) :
    playerBodyView (enemyChooseDirection sense s) = playerBodyView s := by
  unfold enemyChooseDirection
  split_ifs <;> rfl

@[simp] theorem enemyPolicyJump_playerBodyView (now : ℚ) (sense : EnemySense) (s : GameState) :
    playerBodyView (enemyPolicyJump now sense s) = playerBodyView s := by
  unfold enemyPolicyJump
  split_ifs <;> rfl

@[simp] theorem restartDecisionClock_playerBodyView (now : ℚ) (s : GameState) :
    playerBodyView (restartDecisionClock now s) = playerBodyView s := by
  rfl

@[simp] theorem enemyDecision_playerBodyView (now : ℚ) (sense : EnemySense) (s : GameState) :
    playerBodyView (enemyDecision now sense s) = playerBodyView s := by
  unfold enemyDecision
  split_ifs <;> simp

@[simp] theorem enemyMove_playerBodyView (delta : ℚ) (s : GameState) :
    playerBodyView (enemyMove delta s) = playerBodyView s := by
  rfl

@[simp] theorem enemyKeepJump_playerBodyView (now : ℚ) (s : GameState) :
    playerBodyView (enemyKeepJump now s) = playerBodyView s := by
  unfold enemyKeepJump
  split_ifs <;> rfl

@[simp] theorem enemyFall_playerBodyView (delta : ℚ) (s : GameState) :
    playerBodyView (enemyFall delta s) = playerBodyView s := by
  rfl

@[simp] theorem enemyLand_playerBodyView (now : ℚ) (s : GameState) :
    playerBodyView (enemyLand now s) = playerBodyView s := by
  unfold enemyLand
  split_ifs <;> rfl

@[simp] theorem enemyAirborne_playerBodyView (now delta : ℚ) (s : GameState) :
    playerBodyView (enemyAirborne now delta s) = playerBodyView s := by
  unfold enemyAirborne
  simp

@[simp] theorem enemyRest_playerBodyView (s : GameState) :
    playerBodyView (enemyRest s) = playerBodyView s := by
  unfold enemyRest
  split_ifs <;> rfl

@[simp] theorem enemyToGround_playerBodyView (s : GameState) :
    playerBodyView (enemyToGround s) = playerBodyView s := by
  rfl

@[simp] theorem enemyGroundedFall_playerBodyView (delta : ℚ) (s : GameState) :
    playerBodyView (enemyGroundedFall delta s) = playerBodyView s := by
  unfold enemyGroundedFall
  split_ifs <;> simp

@[simp] theorem enemyGroundedSprite_playerBodyView (now : ℚ) (s : GameState) :
    playerBodyView (enemyGroundedSprite now s) = playerBodyView s := by
  unfold enemyGroundedSprite
  split_ifs <;> rfl

@[simp] theorem enemyGrounded_playerBodyView (now delta : ℚ) (s : GameState) :
    playerBodyView (enemyGrounded now delta s) = playerBodyView s := by
  unfold enemyGrounded
  simp

@[simp] theorem enemyVertical_playerBodyView (now delta : ℚ) (s : GameState) :
    playerBodyView (enemyVertical now delta s) = playerBodyView s := by
  unfold enemyVertical
  split_ifs <;> simp

@[simp] theorem enemyFace_playerBodyView (s : GameState) :
    playerBodyView (enemyFace s) = playerBodyView s := by
  rfl

@[simp] theorem enemySnap_playerBodyView (s : GameState) :
    playerBodyView (enemySnap s) = playerBodyView s := by
  unfold enemySnap
  split_ifs <;> rfl

@[simp] theorem enemyPlaceSprite_playerBodyView (s : GameState) :
    playerBodyView (enemyPlaceSprite s) = playerBodyView s := by
  rfl

@[simp] theorem enemyFacing_playerBodyView (s : GameState) :
    playerBodyView (enemyFacing s) = playerBodyView s := by
  unfold enemyFacing
  simp

@[simp] theorem enemyMelee_playerBodyView (now : ℚ) (s : GameState) :
    playerBodyView (enemyMelee now s) = playerBodyView s := by
  rfl

@[simp] theorem enemyShoot_playerBodyView (now : ℚ) (s : GameState) :
    playerBodyView (enemyShoot now s) = playerBodyView s := by
  rfl

@[simp] theorem enemyAttack_playerBodyView (now : ℚ) (sense : EnemySense) (s : GameState) :
    playerBodyView (enemyAttack now sense s) = playerBodyView s := by
  unfold enemyAttack
  split_ifs <;> rfl

@[simp] theorem enemyPhase_playerBodyView (now delta : ℚ) (s : GameState) :
    playerBodyView (enemyPhase now delta s) = playerBodyView s := by
  unfold enemyPhase
  simp

@[simp] theorem playerDeadAnimation_playerBodyView (delta : ℚ) (s : GameState) :
    playerBodyView (playerDeadAnimation delta s) = playerBodyView s := by
  unfold playerDeadAnimation
  split_ifs <;> rfl

@[simp] theorem enemyDeadAnimation_playerBodyView (animationDelta : ℚ) (s : GameState) :
    playerBodyView (enemyDeadAnimation animationDelta s) = playerBodyView s := by
  unfold enemyDeadAnimation
  split_ifs <;> rfl

@[simp] theorem deadAnimation_playerBodyView (delta animationDelta : ℚ) (s : GameState) :
    playerBodyView (deadAnimation delta animationDelta s) = playerBodyView s := by
  unfold deadAnimation
  simp

@[simp] theorem frameStart_playerBodyView (now : ℚ) (s : GameState) :
    playerBodyView (frameStart now s) = playerBodyView s := by
  rfl

@[simp] theorem noteOutcome_playerBodyView (now : ℚ) (s : GameState) :
    playerBodyView (noteOutcome now s) = playerBodyView s := by
  unfold noteOutcome
  split_ifs <;> rfl

@[simp] theorem clearIntents_playerBodyView (s : GameState) :
    playerBodyView (clearIntents s) = playerBodyView s := by
  unfold clearIntents
  split_ifs <;> rfl

@[simp] theorem roundOutcome_playerBodyView (now : ℚ) (s : GameState) :
    playerBodyView (roundOutcome now s) = playerBodyView s := by
  unfold roundOutcome
  simp

@[simp] theorem resetSprites_playerBodyView (now : ℚ) (s : GameState) :
    playerBodyView (resetSprites now s) = playerBodyView s := by
  rfl

@[simp] theorem resetEnemyAmmo_playerBodyView (now : ℚ) (s : GameState) :
    playerBodyView (resetEnemyAmmo now s) = playerBodyView s := by
  rfl

@[simp] theorem endGame_playerBodyView (s : GameState) :
    playerBodyView (endGame s) = playerBodyView s := by
  rfl

@[simp] theorem nextRound_playerBodyView (s : GameState) :
    playerBodyView (nextRound s) = playerBodyView s := by
  rfl

@[simp] theorem reloadPlayer_enemyBodyView (b : Bool) (s : GameState) :
    enemyBodyView (reloadPlayer s b) = enemyBodyView s := by
  unfold reloadPlayer
  split_ifs <;> rfl

@[simp] theorem jumpKey_enemyBodyView (now : ℚ) (s : GameState) :
    enemyBodyView (jumpKey now s) = enemyBodyView s := by
  unfold jumpKey
  split_ifs <;> rfl

@[simp] theorem fireKey_enemyBodyView (now : ℚ) (s : GameState) :
    enemyBodyView (fireKey now s) = enemyBodyView s := by
  unfold fireKey
  split_ifs <;> rfl

@[simp] theorem meleeSwing_enemyBodyView (now : ℚ) (s : GameState) :
    enemyBodyView (meleeSwing now s) = enemyBodyView s := by
  rfl

@[simp] theorem meleeHit_enemyBodyView (now : ℚ) (s : GameState) :
    enemyBodyView (meleeHit now s) = enemyBodyView s := by
  unfold meleeHit
  split_ifs <;> rfl

@[simp] theorem meleeDone_enemyBodyView (now : ℚ) (s : GameState) :
    enemyBodyView (meleeDone now s) = enemyBodyView s := by
  rfl

@[simp] theorem meleeKey_enemyBodyView (now : ℚ) (s : GameState) :
    enemyBodyView (meleeKey now s) = enemyBodyView s := by
  unfold meleeKey
  split_ifs <;> simp

@[simp] theorem keyPressed_enemyBodyView (now : ℚ) (code : Key) (s : GameState) :
    enemyBodyView (keyPressed now s code) = enemyBodyView s := by
  cases code <;> first | rfl | simp [keyPressed]

@[simp] theorem keyReleased_enemyBodyView (code : Key) (s : GameState) :
    enemyBodyView (keyReleased s code) = enemyBodyView s := by
  cases code <;> rfl

@[simp] theorem handleEvent_enemyBodyView (now : ℚ) (e : Event) (s : GameState) :
    enemyBodyView (handleEvent now s e) = enemyBodyView s := by
  cases e with
  | Closed => rfl
  | Other => rfl
  | KeyPressed code =>
    dsimp only [handleEvent]
    split_ifs <;> first | rfl | simp
  | KeyReleased code =>
    dsimp only [handleEvent]
    split_ifs <;> first | rfl | simp

@[simp] theorem updatePlayerHitStun_enemyBodyView (now : ℚ) (s : GameState) :
    enemyBodyView (updatePlayerHitStun now s) = enemyBodyView s := by
  unfold updatePlayerHitStun
  split_ifs <;> rfl

@[simp] theorem updateEnemyHitStun_enemyBodyView (now : ℚ) (s : GameState) :
    enemyBodyView (updateEnemyHitStun now s) = enemyBodyView s := by
  unfold updateEnemyHitStun
  split_ifs <;> rfl

@[simp] theorem updateHitStun_enemyBodyView (now : ℚ) (s : GameState) :
    enemyBodyView (updateHitStun now s) = enemyBodyView s := by
  unfold updateHitStun
  simp

@[simp] theorem playerMove_enemyBodyView (delta : ℚ) (s : GameState) :
    enemyBodyView (playerMove delta s) = enemyBodyView s := by
  rfl

@[simp] theorem playerFacing_enemyBodyView (s : GameState) :
    enemyBodyView (playerFacing s) = enemyBodyView s := by
  unfold playerFacing
  split_ifs <;> rfl

@[simp] theorem playerKeepJump_enemyBodyView (now : ℚ) (s : GameState) :
    enemyBodyView (playerKeepJump now s) = enemyBodyView s := by
  unfold playerKeepJump
  split_ifs <;> rfl

@[simp] theorem playerFall_enemyBodyView (delta : ℚ) (s : GameState) :
    enemyBodyView (playerFall delta s) = enemyBodyView s := by
  rfl

@[simp] theorem playerLand_enemyBodyView (now : ℚ) (s : GameState) :
    enemyBodyView (playerLand now s) = enemyBodyView s := by
  unfold playerLand
  split_ifs <;> rfl

@[simp] theorem playerAirborne_enemyBodyView (now delta : ℚ) (s : GameState) :
    enemyBodyView (playerAirborne now delta s) = enemyBodyView s := by
  unfold playerAirborne
  simp

@[simp] theorem playerRest_enemyBodyView (s : GameState) :
    enemyBodyView (playerRest s) = enemyBodyView s := by
  unfold playerRest
  split_ifs <;> rfl

@[simp] theorem playerToGround_enemyBodyView (s : GameState) :
    enemyBodyView (playerToGround s) = enemyBodyView s := by
  rfl

@[simp] theorem playerGroundedFall_enemyBodyView (delta : ℚ) (s : GameState) :
    enemyBodyView (playerGroundedFall delta s) = enemyBodyView s := by
  unfold playerGroundedFall
  split_ifs <;> simp

@[simp] theorem playerGroundedSprite_enemyBodyView (now : ℚ) (s : GameState) :
    enemyBodyView (playerGroundedSprite now s) = enemyBodyView s := by
  unfold playerGroundedSprite
  split_ifs <;> rfl

@[simp] theorem playerGrounded_enemyBodyView (now delta : ℚ) (s : GameState) :
    enemyBodyView (playerGrounded now delta s) = enemyBodyView s := by
  unfold playerGrounded
  simp

@[simp] theorem playerVertical_enemyBodyView (now delta : ℚ) (s : GameState) :
    enemyBodyView (playerVertical now delta s) = enemyBodyView s := by
  unfold playerVertical
  split_ifs <;> simp

@[simp] theorem playerSnap_enemyBodyView (s : GameState) :
    enemyBodyView (playerSnap s) = enemyBodyView s := by
  unfold playerSnap
  split_ifs <;> rfl

@[simp] theorem playerPlaceSprite_enemyBodyView (s : GameState) :
    enemyBodyView (playerPlaceSprite s) = enemyBodyView s := by
  rfl

@[simp] theorem playerGroundSnap_enemyBodyView (s : GameState) :
    enemyBodyView (playerGroundSnap s) = enemyBodyView s := by
  unfold playerGroundSnap
  simp

@[simp] theorem playerPhase_enemyBodyView (now delta : ℚ) (s : GameState) :
    enemyBodyView (playerPhase now delta s) = enemyBodyView s := by
  unfold playerPhase
  simp

@[simp] theorem setBullets_enemyBodyView (bs : List Bullet) (s : GameState) :
    enemyBodyView (setBullets s bs) = enemyBodyView s := by
  rfl

@[simp] theorem bulletHitEnemy_enemyBodyView (now : ℚ) (b : Bullet) (s : GameState) :
    enemyBodyView ((bulletHitEnemy now s b).1) = enemyBodyView s := by
  unfold bulletHitEnemy
  split_ifs <;> rfl

@[simp] theorem bulletHitPlayer_enemyBodyView (now : ℚ) (b : Bullet) (s : GameState) :
    enemyBodyView ((bulletHitPlayer now s b).1) = enemyBodyView s := by
  unfold bulletHitPlayer
  split_ifs <;> rfl

@[simp] theorem updateBullet_enemyBodyView (now delta : ℚ) (b : Bullet) (s : GameState) :
    enemyBodyView ((updateBullet now delta s b).1) = enemyBodyView s := by
  unfold updateBullet
  split_ifs <;> simp

@[simp] theorem updateBulletList_enemyBodyView (now delta : ℚ) (bs : List Bullet) (s : GameState) :
    enemyBodyView ((updateBulletList now delta s bs).1) = enemyBodyView s := by
  induction bs generalizing s with
  | nil => rfl
  | cons b bs ih => simp [updateBulletList, ih]

@[simp] theorem updateBullets_enemyBodyView (now delta : ℚ) (s : GameState) :
    enemyBodyView (updateBullets now delta s) = enemyBodyView s := by
  unfold updateBullets
  split_ifs <;> simp

@[simp] theorem enemyStartReload_enemyBodyView (now : ℚ) (s : GameState) :
    enemyBodyView (enemyStartReload now s) = enemyBodyView s := by
  unfold enemyStartReload
  split_ifs <;> rfl

@[simp] theorem enemyFinishReload_enemyBodyView (now : ℚ) (s : GameState) :
    enemyBodyView (enemyFinishReload now s) = enemyBodyView s := by
  unfold enemyFinishReload
  split_ifs <;> rfl

@[simp] theorem enemyReload_enemyBodyView (now : ℚ) (s : GameState) :
    enemyBodyView (enemyReload now s) = enemyBodyView s := by
  unfold enemyReload
  simp

@[simp] theorem enemyChooseDirection_enemyBodyView (sense : EnemySense) (s : GameState) :
    enemyBodyView (enemyChooseDirection sense s) = enemyBodyView s := by
  unfold enemyChooseDirection
  split_ifs <;> rfl

@[simp] theorem restartDecisionClock_enemyBodyView (now : ℚ) (s : GameState) :
    enemyBodyView (restartDecisionClock now s) = enemyBodyView s := by
  rfl

@[simp] theorem enemyKeepJump_enemyBodyView (now : ℚ) (s : GameState) :
    enemyBodyView (enemyKeepJump now s) = enemyBodyView s := by
  unfold enemyKeepJump
  split_ifs <;> rfl

@[simp] theorem enemyFace_enemyBodyView (s : GameState) :
    enemyBodyView (enemyFace s) = enemyBodyView s := by
  rfl

@[simp] theorem enemyPlaceSprite_enemyBodyView (s : GameState) :
    enemyBodyView (enemyPlaceSprite s) = enemyBodyView s := by
  rfl

@[simp] theorem enemyMelee_enemyBodyView (now : ℚ) (s : GameState) :
    enemyBodyView (enemyMelee now s) = enemyBodyView s := by
  rfl

@[simp] theorem enemyShoot_enemyBodyView (now : ℚ) (s : GameState) :
    enemyBodyView (enemyShoot now s) = enemyBodyView s := by
  rfl

@[simp] theorem enemyAttack_enemyBodyView (now : ℚ) (sense : EnemySense) (s : GameState) :
    enemyBodyView (enemyAttack now sense s) = enemyBodyView s := by
  unfold enemyAttack
  split_ifs <;> rfl

@[simp] theorem playerDeadAnimation_enemyBodyView (delta : ℚ) (s : GameState) :
    enemyBodyView (playerDeadAnimation delta s) = enemyBodyView s := by
  unfold playerDeadAnimation
  split_ifs <;> rfl

@[simp] theorem enemyDeadAnimation_enemyBodyView (animationDelta : ℚ) (s : GameState) :
    enemyBodyView (enemyDeadAnimation animationDelta s) = enemyBodyView s := by
  unfold enemyDeadAnimation
  split_ifs <;> rfl

@[simp] theorem deadAnimation_enemyBodyView (delta animationDelta : ℚ) (s : GameState) :
    enemyBodyView (deadAnimation delta animationDelta s) = enemyBodyView s := by
  unfold deadAnimation
  simp

@[simp] theorem frameStart_enemyBodyView (now : ℚ) (s : GameState) :
    enemyBodyView (frameStart now s) = enemyBodyView s := by
  rfl

@[simp] theorem noteOutcome_enemyBodyView (now : ℚ) (s : GameState) :
    enemyBodyView (noteOutcome now s) = enemyBodyView s := by
  unfold noteOutcome
  split_ifs <;> rfl

@[simp] theorem clearIntents_enemyBodyView (s : GameState) :
    enemyBodyView (clearIntents s) = enemyBodyView s := by
  unfold clearIntents
  split_ifs <;> rfl

@[simp] theorem roundOutcome_enemyBodyView (now : ℚ) (s : GameState) :
    enemyBodyView (roundOutcome now s) = enemyBodyView s := by
  unfold roundOutcome
  simp

@[simp] theorem resetSprites_enemyBodyView (now : ℚ) (s : GameState) :
    enemyBodyView (resetSprites now s) = enemyBodyView s := by
  rfl

@[simp] theorem resetEnemyAmmo_enemyBodyView (now : ℚ) (s : GameState) :
    enemyBodyView (resetEnemyAmmo now s) = enemyBodyView s := by
  rfl

@[simp] theorem endGame_enemyBodyView (s : GameState) :
    enemyBodyView (endGame s) = enemyBodyView s := by
  rfl

@[simp] theorem nextRound_enemyBodyView (s : GameState) :
    enemyBodyView (nextRound s) = enemyBodyView s := by
  rfl

@[simp] theorem reloadPlayer_playerLockView (b : Bool) (s : GameState) :
    playerLockView (reloadPlayer s b) = playerLockView s := by
  unfold reloadPlayer
  split_ifs <;> rfl

@[simp] theorem meleeHit_playerLockView (now : ℚ) (s : GameState) :
    playerLockView (meleeHit now s) = playerLockView s := by
  unfold meleeHit
  split_ifs <;> rfl

@[simp] theorem meleeDone_playerLockView (now : ℚ) (s : GameState) :
    playerLockView (meleeDone now s) = playerLockView s := by
  rfl

@[simp] theorem keyReleased_playerLockView (code : Key) (s : GameState) :
    playerLockView (keyReleased s code) = playerLockView s := by
  cases code <;> rfl

@[simp] theorem updatePlayerHitStun_playerLockView (now : ℚ) (s : GameState) :
    playerLockView (updatePlayerHitStun now s) = playerLockView s := by
  unfold updatePlayerHitStun
  split_ifs <;> rfl

@[simp] theorem updateEnemyHitStun_playerLockView (now : ℚ) (s : GameState) :
    playerLockView (updateEnemyHitStun now s) = playerLockView s := by
  unfold updateEnemyHitStun
  split_ifs <;> rfl

@[simp] theorem updateHitStun_playerLockView (now : ℚ) (s : GameState) :
    playerLockView (updateHitStun now s) = playerLockView s := by
  unfold updateHitStun
  simp

@[simp] theorem playerMove_playerLockView (delta : ℚ) (s : GameState) :
    playerLockView (playerMove delta s) = playerLockView s := by
  rfl

@[simp] theorem playerFacing_playerLockView (s : GameState) :
    playerLockView (playerFacing s) = playerLockView s := by
  unfold playerFacing
  split_ifs <;> rfl

@[simp] theorem playerFall_playerLockView (delta : ℚ) (s : GameState) :
    playerLockView (playerFall delta s) = playerLockView s := by
  rfl

@[simp] theorem playerRest_playerLockView (s : GameState) :
    playerLockView (playerRest s) = playerLockView s := by
  unfold playerRest
  split_ifs <;> rfl

@[simp] theorem playerToGround_playerLockView (s : GameState) :
    playerLockView (playerToGround s) = playerLockView s := by
  rfl

@[simp] theorem playerGroundedFall_playerLockView (delta : ℚ) (s : GameState) :
    playerLockView (playerGroundedFall delta s) = playerLockView s := by
  unfold playerGroundedFall
  split_ifs <;> simp

@[simp] theorem playerSnap_playerLockView (s : GameState) :
    playerLockView (playerSnap s) = playerLockView s := by
  unfold playerSnap
  split_ifs <;> rfl

@[simp] theorem playerPlaceSprite_playerLockView (s : GameState) :
    playerLockView (playerPlaceSprite s) = playerLockView s := by
  rfl

@[simp] theorem playerGroundSnap_playerLockView (s : GameState) :
    playerLockView (playerGroundSnap s) = playerLockView s := by
  unfold playerGroundSnap
  simp

@[simp] theorem setBullets_playerLockView (bs : List Bullet) (s : GameState) :
    playerLockView (setBullets s bs) = playerLockView s := by
  rfl

@[simp] theorem bulletHitEnemy_playerLockView (now : ℚ) (b : Bullet) (s : GameState) :
    playerLockView ((bulletHitEnemy now s b).1) = playerLockView s := by
  unfold bulletHitEnemy
  split_ifs <;> rfl

@[simp] theorem enemyStartReload_playerLockView (now : ℚ) (s : GameState) :
    playerLockView (enemyStartReload now s) = playerLockView s := by
  unfold enemyStartReload
  split_ifs <;> rfl

@[simp] theorem enemyFinishReload_playerLockView (now : ℚ) (s : GameState) :
    playerLockView (enemyFinishReload now s) = playerLockView s := by
  unfold enemyFinishReload
  split_ifs <;> rfl

@[simp] theorem enemyReload_playerLockView (now : ℚ) (s : GameState) :
    playerLockView (enemyReload now s) = playerLockView s := by
  unfold enemyReload
  simp

@[simp] theorem enemyChooseDirection_playerLockView (sense : EnemySense) (s : GameState) :
    playerLockView (enemyChooseDirection sense s) = playerLockView s := by
  unfold enemyChooseDirection
  split_ifs <;> rfl

@[simp] theorem enemyPolicyJump_playerLockView (now : ℚ) (sense : EnemySense) (s : GameState) :
    playerLockView (enemyPolicyJump now sense s) = playerLockView s := by
  unfold enemyPolicyJump
  split_ifs <;> rfl

@[simp] theorem restartDecisionClock_playerLockView (now : ℚ) (s : GameState) :
    playerLockView (restartDecisionClock now s) = playerLockView s := by
  rfl

@[simp] theorem enemyDecision_playerLockView (now : ℚ) (sense : EnemySense) (s : GameState) :
    playerLockView (enemyDecision now sense s) = playerLockView s := by
  unfold enemyDecision
  split_ifs <;> simp

@[simp] theorem enemyMove_playerLockView (delta : ℚ) (s : GameState) :
    playerLockView (enemyMove delta s) = playerLockView s := by
  rfl

@[simp] theorem enemyKeepJump_playerLockView (now : ℚ) (s : GameState) :
    playerLockView (enemyKeepJump now s) = playerLockView s := by
  unfold enemyKeepJump
  split_ifs <;> rfl

@[simp] theorem enemyFall_playerLockView (delta : ℚ) (s : GameState) :
    playerLockView (enemyFall delta s) = playerLockView s := by
  rfl

@[simp] theorem enemyLand_playerLockView (now : ℚ) (s : GameState) :
    playerLockView (enemyLand now s) = playerLockView s := by
  unfold enemyLand
  split_ifs <;> rfl

@[simp] theorem enemyAirborne_playerLockView (now delta : ℚ) (s : GameState) :
    playerLockView (enemyAirborne now delta s) = playerLockView s := by
  unfold enemyAirborne
  simp

@[simp] theorem enemyRest_playerLockView (s : GameState) :
    playerLockView (enemyRest s) = playerLockView s := by
  unfold enemyRest
  split_ifs <;> rfl

@[simp] theorem enemyToGround_playerLockView (s : GameState) :
    playerLockView (enemyToGround s) = playerLockView s := by
  rfl

@[simp] theorem enemyGroundedFall_playerLockView (delta : ℚ) (s : GameState) :
    playerLockView (enemyGroundedFall delta s) = playerLockView s := by
  unfold enemyGroundedFall
  split_ifs <;> simp

@[simp] theorem enemyGroundedSprite_playerLockView (now : ℚ) (s : GameState) :
    playerLockView (enemyGroundedSprite now s) = playerLockView s := by
  unfold enemyGroundedSprite
  split_ifs <;> rfl

@[simp] theorem enemyGrounded_playerLockView (now delta : ℚ) (s : GameState) :
    playerLockView (enemyGrounded now delta s) = playerLockView s := by
  unfold enemyGrounded
  simp

@[simp] theorem enemyVertical_playerLockView (now delta : ℚ) (s : GameState) :
    playerLockView (enemyVertical now delta s) = playerLockView s := by
  unfold enemyVertical
  split_ifs <;> simp

@[simp] theorem enemyFace_playerLockView (s : GameState) :
    playerLockView (enemyFace s) = playerLockView s := by
  rfl

@[simp] theorem enemySnap_playerLockView (s : GameState) :
    playerLockView (enemySnap s) = playerLockView s := by
  unfold enemySnap
  split_ifs <;> rfl

@[simp] theorem enemyPlaceSprite_playerLockView (s : GameState) :
    playerLockView (enemyPlaceSprite s) = playerLockView s := by
  rfl

@[simp] theorem enemyFacing_playerLockView (s : GameState) :
    playerLockView (enemyFacing s) = playerLockView s := by
  unfold enemyFacing
  simp

@[simp] theorem enemyShoot_playerLockView (now : ℚ) (s : GameState) :
    playerLockView (enemyShoot now s) = playerLockView s := by
  rfl

@[simp] theorem enemyDeath_playerLockView (now : ℚ) (s : GameState) :
    playerLockView (enemyDeath now s) = playerLockView s := by
  unfold enemyDeath
  split_ifs <;> rfl

@[simp] theorem playerDeadAnimation_playerLockView (delta : ℚ) (s : GameState) :
    playerLockView (playerDeadAnimation delta s) = playerLockView s := by
  unfold playerDeadAnimation
  split_ifs <;> rfl

@[simp] theorem enemyDeadAnimation_playerLockView (animationDelta : ℚ) (s : GameState) :
    playerLockView (enemyDeadAnimation animationDelta s) = playerLockView s := by
  unfold enemyDeadAnimation
  split_ifs <;> rfl

@[simp] theorem deadAnimation_playerLockView (delta animationDelta : ℚ) (s : GameState) :
    playerLockView (deadAnimation delta animationDelta s) = playerLockView s := by
  unfold deadAnimation
  simp

@[simp] theorem noteOutcome_playerLockView (now : ℚ) (s : GameState) :
    playerLockView (noteOutcome now s) = playerLockView s := by
  unfold noteOutcome
  split_ifs <;> rfl

@[simp] theorem clearIntents_playerLockView (s : GameState) :
    playerLockView (clearIntents s) = playerLockView s := by
  unfold clearIntents
  split_ifs <;> rfl

@[simp] theorem roundOutcome_playerLockView (now : ℚ) (s : GameState) :
    playerLockView (roundOutcome now s) = playerLockView s := by
  unfold roundOutcome
  simp

@[simp] theorem resetFighters_playerLockView (s : GameState) :
    playerLockView (resetFighters s) = playerLockView s := by
  rfl

@[simp] theorem resetEnemyAmmo_playerLockView (now : ℚ) (s : GameState) :
    playerLockView (resetEnemyAmmo now s) = playerLockView s := by
  rfl

@[simp] theorem endGame_playerLockView (s : GameState) :
    playerLockView (endGame s) = playerLockView s := by
  rfl

@[simp] theorem nextRound_playerLockView (s : GameState) :
    playerLockView (nextRound s) = playerLockView s := by
  rfl

@[simp] theorem reloadPlayer_enemyLockView (b : Bool) (s : GameState) :
    enemyLockView (reloadPlayer s b) = enemyLockView s := by
  unfold reloadPlayer
  split_ifs <;> rfl

@[simp] theorem jumpKey_enemyLockView (now : ℚ) (s : GameState) :
    enemyLockView (jumpKey now s) = enemyLockView s := by
  unfold jumpKey
  split_ifs <;> rfl

@[simp] theorem fireKey_enemyLockView (now : ℚ) (s : GameState) :
    enemyLockView (fireKey now s) = enemyLockView s := by
  unfold fireKey
  split_ifs <;> rfl

@[simp] theorem meleeSwing_enemyLockView (now : ℚ) (s : GameState) :
    enemyLockView (meleeSwing now s) = enemyLockView s := by
  rfl

@[simp] theorem meleeDone_enemyLockView (now : ℚ) (s : GameState) :
    enemyLockView (meleeDone now s) = enemyLockView s := by
  rfl

@[simp] theorem keyReleased_enemyLockView (code : Key) (s : GameState) :
    enemyLockView (keyReleased s code) = enemyLockView s := by
  cases code <;> rfl

@[simp] theorem updatePlayerHitStun_enemyLockView (now : ℚ) (s : GameState) :
    enemyLockView (updatePlayerHitStun now s) = enemyLockView s := by
  unfold updatePlayerHitStun
  split_ifs <;> rfl

@[simp] theorem updateEnemyHitStun_enemyLockView (now : ℚ) (s : GameState) :
    enemyLockView (updateEnemyHitStun now s) = enemyLockView s := by
  unfold updateEnemyHitStun
  split_ifs <;> rfl

@[simp] theorem updateHitStun_enemyLockView (now : ℚ) (s : GameState) :
    enemyLockView (updateHitStun now s) = enemyLockView s := by
  unfold updateHitStun
  simp

@[simp] theorem playerMove_enemyLockView (delta : ℚ) (s : GameState) :
    enemyLockView (playerMove delta s) = enemyLockView s := by
  rfl

@[simp] theorem playerFacing_enemyLockView (s : GameState) :
    enemyLockView (playerFacing s) = enemyLockView s := by
  unfold playerFacing
  split_ifs <;> rfl

@[simp] theorem playerKeepJump_enemyLockView (now : ℚ) (s : GameState) :
    enemyLockView (playerKeepJump now s) = enemyLockView s := by
  unfold playerKeepJump
  split_ifs <;> rfl

@[simp] theorem playerFall_enemyLockView (delta : ℚ) (s : GameState) :
    enemyLockView (playerFall delta s) = enemyLockView s := by
  rfl

@[simp] theorem playerLand_enemyLockView (now : ℚ) (s : GameState) :
    enemyLockView (playerLand now s) = enemyLockView s := by
  unfold playerLand
  split_ifs <;> rfl

@[simp] theorem playerAirborne_enemyLockView (now delta : ℚ) (s : GameState) :
    enemyLockView (playerAirborne now delta s) = enemyLockView s := by
  unfold playerAirborne
  simp

@[simp] theorem playerRest_enemyLockView (s : GameState) :
    enemyLockView (playerRest s) = enemyLockView s := by
  unfold playerRest
  split_ifs <;> rfl

@[simp] theorem playerToGround_enemyLockView (s : GameState) :
    enemyLockView (playerToGround s) = enemyLockView s := by
  rfl

@[simp] theorem playerGroundedFall_enemyLockView (delta : ℚ) (s : GameState) :
    enemyLockView (playerGroundedFall delta s) = enemyLockView s := by
  unfold playerGroundedFall
  split_ifs <;> simp

@[simp] theorem playerGroundedSprite_enemyLockView (now : ℚ) (s : GameState) :
    enemyLockView (playerGroundedSprite now s) = enemyLockView s := by
  unfold playerGroundedSprite
  split_ifs <;> rfl

@[simp] theorem playerGrounded_enemyLockView (now delta : ℚ) (s : GameState) :
    enemyLockView (playerGrounded now delta s) = enemyLockView s := by
  unfold playerGrounded
  simp

@[simp] theorem playerVertical_enemyLockView (now delta : ℚ) (s : GameState) :
    enemyLockView (playerVertical now delta s) = enemyLockView s := by
  unfold playerVertical
  split_ifs <;> simp

@[simp] theorem playerSnap_enemyLockView (s : GameState) :
    enemyLockView (playerSnap s) = enemyLockView s := by
  unfold playerSnap
  split_ifs <;> rfl

@[simp] theorem playerPlaceSprite_enemyLockView (s : GameState) :
    enemyLockView (playerPlaceSprite s) = enemyLockView s := by
  rfl

@[simp] theorem playerGroundSnap_enemyLockView (s : GameState) :
    enemyLockView (playerGroundSnap s) = enemyLockView s := by
  unfold playerGroundSnap
  simp

@[simp] theorem playerPhase_enemyLockView (now delta : ℚ) (s : GameState) :
    enemyLockView (playerPhase now delta s) = enemyLockView s := by
  unfold playerPhase
  simp

@[simp] theorem setBullets_enemyLockView (bs : List Bullet) (s : GameState) :
    enemyLockView (setBullets s bs) = enemyLockView s := by
  rfl

@[simp] theorem bulletHitPlayer_enemyLockView (now : ℚ) (b : Bullet) (s : GameState) :
    enemyLockView ((bulletHitPlayer now s b).1) = enemyLockView s := by
  unfold bulletHitPlayer
  split_ifs <;> rfl

@[simp] theorem enemyStartReload_enemyLockView (now : ℚ) (s : GameState) :
    enemyLockView (enemyStartReload now s) = enemyLockView s := by
  unfold enemyStartReload
  split_ifs <;> rfl

@[simp] theorem enemyFinishReload_enemyLockView (now : ℚ) (s : GameState) :
    enemyLockView (enemyFinishReload now s) = enemyLockView s := by
  unfold enemyFinishReload
  split_ifs <;> rfl

@[simp] theorem enemyReload_enemyLockView (now : ℚ) (s : GameState) :
    enemyLockView (enemyReload now s) = enemyLockView s := by
  unfold enemyReload
  simp

@[simp] theorem enemyChooseDirection_enemyLockView (sense : EnemySense) (s : GameState) :
    enemyLockView (enemyChooseDirection sense s) = enemyLockView s := by
  unfold enemyChooseDirection
  split_ifs <;> rfl

@[simp] theorem restartDecisionClock_enemyLockView (now : ℚ) (s : GameState) :
    enemyLockView (restartDecisionClock now s) = enemyLockView s := by
  rfl

@[simp] theorem enemyMove_enemyLockView (delta : ℚ) (s : GameState) :
    enemyLockView (enemyMove delta s) = enemyLockView s := by
  rfl

@[simp] theorem enemyFall_enemyLockView (delta : ℚ) (s : GameState) :
    enemyLockView (enemyFall delta s) = enemyLockView s := by
  rfl

@[simp] theorem enemyRest_enemyLockView (s : GameState) :
    enemyLockView (enemyRest s) = enemyLockView s := by
  unfold enemyRest
  split_ifs <;> rfl

@[simp] theorem enemyToGround_enemyLockView (s : GameState) :
    enemyLockView (enemyToGround s) = enemyLockView s := by
  rfl

@[simp] theorem enemyGroundedFall_enemyLockView (delta : ℚ) (s : GameState) :
    enemyLockView (enemyGroundedFall delta s) = enemyLockView s := by
  unfold enemyGroundedFall
  split_ifs <;> simp

@[simp] theorem enemyFace_enemyLockView (s : GameState) :
    enemyLockView (enemyFace s) = enemyLockView s := by
  rfl

@[simp] theorem enemySnap_enemyLockView (s : GameState) :
    enemyLockView (enemySnap s) = enemyLockView s := by
  unfold enemySnap
  split_ifs <;> rfl

@[simp] theorem enemyPlaceSprite_enemyLockView (s : GameState) :
    enemyLockView (enemyPlaceSprite s) = enemyLockView s := by
  rfl

@[simp] theorem enemyFacing_enemyLockView (s : GameState) :
    enemyLockView (enemyFacing s) = enemyLockView s := by
  unfold enemyFacing
  simp

@[simp] theorem playerDeath_enemyLockView (now : ℚ) (s : GameState) :
    enemyLockView (playerDeath now s) = enemyLockView s := by
  unfold playerDeath
  split_ifs <;> rfl

@[simp] theorem playerDeadAnimation_enemyLockView (delta : ℚ) (s : GameState) :
    enemyLockView (playerDeadAnimation delta s) = enemyLockView s := by
  unfold playerDeadAnimation
  split_ifs <;> rfl

@[simp] theorem enemyDeadAnimation_enemyLockView (animationDelta : ℚ) (s : GameState) :
    enemyLockView (enemyDeadAnimation animationDelta s) = enemyLockView s := by
  unfold enemyDeadAnimation
  split_ifs <;> rfl

@[simp] theorem deadAnimation_enemyLockView (delta animationDelta : ℚ) (s : GameState) :
    enemyLockView (deadAnimation delta animationDelta s) = enemyLockView s := by
  unfold deadAnimation
  simp

@[simp] theorem noteOutcome_enemyLockView (now : ℚ) (s : GameState) :
    enemyLockView (noteOutcome now s) = enemyLockView s := by
  unfold noteOutcome
  split_ifs <;> rfl

@[simp] theorem clearIntents_enemyLockView (s : GameState) :
    enemyLockView (clearIntents s) = enemyLockView s := by
  unfold clearIntents
  split_ifs <;> rfl

@[simp] theorem roundOutcome_enemyLockView (now : ℚ) (s : GameState) :
    enemyLockView (roundOutcome now s) = enemyLockView s := by
  unfold roundOutcome
  simp

@[simp] theorem resetFighters_enemyLockView (s : GameState) :
    enemyLockView (resetFighters s) = enemyLockView s := by
  rfl

@[simp] theorem resetEnemyAmmo_enemyLockView (now : ℚ) (s : GameState) :
    enemyLockView (resetEnemyAmmo now s) = enemyLockView s := by
  rfl

@[simp] theorem endGame_enemyLockView (s : GameState) :
    enemyLockView (endGame s) = enemyLockView s := by
  rfl

@[simp] theorem nextRound_enemyLockView (s : GameState) :
    enemyLockView (nextRound s) = enemyLockView s := by
  rfl

@[simp] theorem reloadPlayer_playerStunView (b : Bool) (s : GameState) :
    playerStunView (reloadPlayer s b) = playerStunView s := by
  unfold reloadPlayer
  split_ifs <;> rfl

@[simp] theorem jumpKey_playerStunView (now : ℚ) (s : GameState) :
    playerStunView (jumpKey now s) = playerStunView s := by
  unfold jumpKey
  split_ifs <;> rfl

@[simp] theorem fireKey_playerStunView (now : ℚ) (s : GameState) :
    playerStunView (fireKey now s) = playerStunView s := by
  unfold fireKey
  split_ifs <;> rfl

@[simp] theorem meleeSwing_playerStunView (now : ℚ) (s : GameState) :
    playerStunView (meleeSwing now s) = playerStunView s := by
  rfl

@[simp] theorem meleeHit_playerStunView (now : ℚ) (s : GameState) :
    playerStunView (meleeHit now s) = playerStunView s := by
  unfold meleeHit
  split_ifs <;> rfl

@[simp] theorem meleeDone_playerStunView (now : ℚ) (s : GameState) :
    playerStunView (meleeDone now s) = playerStunView s := by
  rfl

@[simp] theorem meleeKey_playerStunView (now : ℚ) (s : GameState) :
    playerStunView (meleeKey now s) = playerStunView s := by
  unfold meleeKey
  split_ifs <;> simp

@[simp] theorem keyPressed_playerStunView (now : ℚ) (code : Key) (s : GameState) :
    playerStunView (keyPressed now s code) = playerStunView s := by
  cases code <;> first | rfl | simp [keyPressed]

@[simp] theorem keyReleased_playerStunView (code : Key) (s : GameState) :
    playerStunView (keyReleased s code) = playerStunView s := by
  cases code <;> rfl

@[simp] theorem handleEvent_playerStunView (now : ℚ) (e : Event) (s : GameState) :
    playerStunView (handleEvent now s e) = playerStunView s := by
  cases e with
  | Closed => rfl
  | Other => rfl
  | KeyPressed code =>
    dsimp only [handleEvent]
    split_ifs <;> first | rfl | simp
  | KeyReleased code =>
    dsimp only [handleEvent]
    split_ifs <;> first | rfl | simp

@[simp] theorem updateEnemyHitStun_playerStunView (now : ℚ) (s : GameState) :
    playerStunView (updateEnemyHitStun now s) = playerStunView s := by
  unfold updateEnemyHitStun
  split_ifs <;> rfl

@[simp] theorem playerMove_playerStunView (delta : ℚ) (s : GameState) :
    playerStunView (playerMove delta s) = playerStunView s := by
  rfl

@[simp] theorem playerFacing_playerStunView (s : GameState) :
    playerStunView (playerFacing s) = playerStunView s := by
  unfold playerFacing
  split_ifs <;> rfl

@[simp] theorem playerKeepJump_playerStunView (now : ℚ) (s : GameState) :
    playerStunView (playerKeepJump now s) = playerStunView s := by
  unfold playerKeepJump
  split_ifs <;> rfl

@[simp] theorem playerFall_playerStunView (delta : ℚ) (s : GameState) :
    playerStunView (playerFall delta s) = playerStunView s := by
  rfl

@[simp] theorem playerLand_playerStunView (now : ℚ) (s : GameState) :
    playerStunView (playerLand now s) = playerStunView s := by
  unfold playerLand
  split_ifs <;> rfl

@[simp] theorem playerAirborne_playerStunView (now delta : ℚ) (s : GameState) :
    playerStunView (playerAirborne now delta s) = playerStunView s := by
  unfold playerAirborne
  simp

@[simp] theorem playerRest_playerStunView (s : GameState) :
    playerStunView (playerRest s) = playerStunView s := by
  unfold playerRest
  split_ifs <;> rfl

@[simp] theorem playerToGround_playerStunView (s : GameState) :
    playerStunView (playerToGround s) = playerStunView s := by
  rfl

@[simp] theorem playerGroundedFall_playerStunView (delta : ℚ) (s : GameState) :
    playerStunView (playerGroundedFall delta s) = playerStunView s := by
  unfold playerGroundedFall
  split_ifs <;> simp

@[simp] theorem playerGroundedSprite_playerStunView (now : ℚ) (s : GameState) :
    playerStunView (playerGroundedSprite now s) = playerStunView s := by
  unfold playerGroundedSprite
  split_ifs <;> rfl

@[simp] theorem playerGrounded_playerStunView (now delta : ℚ) (s : GameState) :
    playerStunView (playerGrounded now delta s) = playerStunView s := by
  unfold playerGrounded
  simp

@[simp] theorem playerVertical_playerStunView (now delta : ℚ) (s : GameState) :
    playerStunView (playerVertical now delta s) = playerStunView s := by
  unfold playerVertical
  split_ifs <;> simp

@[simp] theorem playerSnap_playerStunView (s : GameState) :
    playerStunView (playerSnap s) = playerStunView s := by
  unfold playerSnap
  split_ifs <;> rfl

@[simp] theorem playerPlaceSprite_playerStunView (s : GameState) :
    playerStunView (playerPlaceSprite s) = playerStunView s := by
  rfl

@[simp] theorem playerGroundSnap_playerStunView (s : GameState) :
    playerStunView (playerGroundSnap s) = playerStunView s := by
  unfold playerGroundSnap
  simp

@[simp] theorem setBullets_playerStunView (bs : List Bullet) (s : GameState) :
    playerStunView (setBullets s bs) = playerStunView s := by
  rfl

@[simp] theorem bulletHitEnemy_playerStunView (now : ℚ) (b : Bullet) (s : GameState) :
    playerStunView ((bulletHitEnemy now s b).1) = playerStunView s := by
  unfold bulletHitEnemy
  split_ifs <;> rfl

@[simp] theorem enemyStartReload_playerStunView (now : ℚ) (s : GameState) :
    playerStunView (enemyStartReload now s) = playerStunView s := by
  unfold enemyStartReload
  split_ifs <;> rfl

@[simp] theorem enemyFinishReload_playerStunView (now : ℚ) (s : GameState) :
    playerStunView (enemyFinishReload now s) = playerStunView s := by
  unfold enemyFinishReload
  split_ifs <;> rfl

@[simp] theorem enemyReload_playerStunView (now : ℚ) (s : GameState) :
    playerStunView (enemyReload now s) = playerStunView s := by
  unfold enemyReload
  simp

@[simp] theorem enemyChooseDirection_playerStunView (sense : EnemySense) (s : GameState) :
    playerStunView (enemyChooseDirection sense s) = playerStunView s := by
  unfold enemyChooseDirection
  split_ifs <;> rfl

@[simp] theorem enemyPolicyJump_playerStunView (now : ℚ) (sense : EnemySense) (s : GameState) :
    playerStunView (enemyPolicyJump now sense s) = playerStunView s := by
  unfold enemyPolicyJump
  split_ifs <;> rfl

@[simp] theorem restartDecisionClock_playerStunView (now : ℚ) (s : GameState) :
    playerStunView (restartDecisionClock now s) = playerStunView s := by
  rfl

@[simp] theorem enemyDecision_playerStunView (now : ℚ) (sense : EnemySense) (s : GameState) :
    playerStunView (enemyDecision now sense s) = playerStunView s := by
  unfold enemyDecision
  split_ifs <;> simp

@[simp] theorem enemyMove_playerStunView (delta : ℚ) (s : GameState) :
    playerStunView (enemyMove delta s) = playerStunView s := by
  rfl

@[simp] theorem enemyKeepJump_playerStunView (now : ℚ) (s : GameState) :
    playerStunView (enemyKeepJump now s) = playerStunView s := by
  unfold enemyKeepJump
  split_ifs <;> rfl

@[simp] theorem enemyFall_playerStunView (delta : ℚ) (s : GameState) :
    playerStunView (enemyFall delta s) = playerStunView s := by
  rfl

@[simp] theorem enemyLand_playerStunView (now : ℚ) (s : GameState) :
    playerStunView (enemyLand now s) = playerStunView s := by
  unfold enemyLand
  split_ifs <;> rfl

@[simp] theorem enemyAirborne_playerStunView (now delta : ℚ) (s : GameState) :
    playerStunView (enemyAirborne now delta s) = playerStunView s := by
  unfold enemyAirborne
  simp

@[simp] theorem enemyRest_playerStunView (s : GameState) :
    playerStunView (enemyRest s) = playerStunView s := by
  unfold enemyRest
  split_ifs <;> rfl

@[simp] theorem enemyToGround_playerStunView (s : GameState) :
    playerStunView (enemyToGround s) = playerStunView s := by
  rfl

@[simp] theorem enemyGroundedFall_playerStunView (delta : ℚ) (s : GameState) :
    playerStunView (enemyGroundedFall delta s) = playerStunView s := by
  unfold enemyGroundedFall
  split_ifs <;> simp

@[simp] theorem enemyGroundedSprite_playerStunView (now : ℚ) (s : GameState) :
    playerStunView (enemyGroundedSprite now s) = playerStunView s := by
  unfold enemyGroundedSprite
  split_ifs <;> rfl

@[simp] theorem enemyGrounded_playerStunView (now delta : ℚ) (s : GameState) :
    playerStunView (enemyGrounded now delta s) = playerStunView s := by
  unfold enemyGrounded
  simp

@[simp] theorem enemyVertical_playerStunView (now delta : ℚ) (s : GameState) :
    playerStunView (enemyVertical now delta s) = playerStunView s := by
  unfold enemyVertical
  split_ifs <;> simp

@[simp] theorem enemyFace_playerStunView (s : GameState) :
    playerStunView (enemyFace s) = playerStunView s := by
  rfl

@[simp] theorem enemySnap_playerStunView (s : GameState) :
    playerStunView (enemySnap s) = playerStunView s := by
  unfold enemySnap
  split_ifs <;> rfl

@[simp] theorem enemyPlaceSprite_playerStunView (s : GameState) :
    playerStunView (enemyPlaceSprite s) = playerStunView s := by
  rfl

@[simp] theorem enemyFacing_playerStunView (s : GameState) :
    playerStunView (enemyFacing s) = playerStunView s := by
  unfold enemyFacing
  simp

@[simp] theorem enemyShoot_playerStunView (now : ℚ) (s : GameState) :
    playerStunView (enemyShoot now s) = playerStunView s := by
  rfl

@[simp] theorem playerDeath_playerStunView (now : ℚ) (s : GameState) :
    playerStunView (playerDeath now s) = playerStunView s := by
  unfold playerDeath
  split_ifs <;> rfl

@[simp] theorem enemyDeath_playerStunView (now : ℚ) (s : GameState) :
    playerStunView (enemyDeath now s) = playerStunView s := by
  unfold enemyDeath
  split_ifs <;> rfl

@[simp] theorem playerDeadAnimation_playerStunView (delta : ℚ) (s : GameState) :
    playerStunView (playerDeadAnimation delta s) = playerStunView s := by
  unfold playerDeadAnimation
  split_ifs <;> rfl

@[simp] theorem enemyDeadAnimation_playerStunView (animationDelta : ℚ) (s : GameState) :
    playerStunView (enemyDeadAnimation animationDelta s) = playerStunView s := by
  unfold enemyDeadAnimation
  split_ifs <;> rfl

@[simp] theorem deadAnimation_playerStunView (delta animationDelta : ℚ) (s : GameState) :
    playerStunView (deadAnimation delta animationDelta s) = playerStunView s := by
  unfold deadAnimation
  simp

@[simp] theorem frameStart_playerStunView (now : ℚ) (s : GameState) :
    playerStunView (frameStart now s) = playerStunView s := by
  rfl

@[simp] theorem clearIntents_playerStunView (s : GameState) :
    playerStunView (clearIntents s) = playerStunView s := by
  unfold clearIntents
  split_ifs <;> rfl

@[simp] theorem resetSprites_playerStunView (now : ℚ) (s : GameState) :
    playerStunView (resetSprites now s) = playerStunView s := by
  rfl

@[simp] theorem resetEnemyAmmo_playerStunView (now : ℚ) (s : GameState) :
    playerStunView (resetEnemyAmmo now s) = playerStunView s := by
  rfl

@[simp] theorem endGame_playerStunView (s : GameState) :
    playerStunView (endGame s) = playerStunView s := by
  rfl

@[simp] theorem nextRound_playerStunView (s : GameState) :
    playerStunView (nextRound s) = playerStunView s := by
  rfl

/-! ## Health bounds -/

theorem damage_bounds (h k : ℚ) (hk : 0 ≤ k) (hh : h ≤ 100) :
    0 ≤ max 0 (h - k) ∧ max 0 (h - k) ≤ 100 :=
  ⟨le_max_left _ _, max_le (by norm_num) (by linarith)⟩

theorem healthOk_of_view {s s' : GameState} (hv : healthView s' = healthView s)
    (h : HealthOk s) : HealthOk s' := by
  have hp : s'.playerHealth = s.playerHealth := congrArg Prod.fst hv
  have he : s'.enemyHealth = s.enemyHealth := congrArg Prod.snd hv
  unfold HealthOk at *
  rw [hp, he]
  exact h

theorem meleeHit_healthOk (now : ℚ) (s : GameState) (h : HealthOk s) :
    HealthOk (meleeHit now s) := by
  obtain ⟨a, b, _, d⟩ := h
  have hb := damage_bounds s.enemyHealth 8 (by norm_num) d
  unfold meleeHit
  split_ifs
  · exact ⟨a, b, hb.1, hb.2⟩
  · exact ⟨a, b, by assumption, d⟩

theorem meleeKey_healthOk (now : ℚ) (s : GameState) (h : HealthOk s) :
    HealthOk (meleeKey now s) := by
  unfold meleeKey
  split_ifs
  · exact healthOk_of_view (meleeDone_healthView now _)
      (meleeHit_healthOk now _ (healthOk_of_view (meleeSwing_healthView now s) h))
  · exact h

theorem keyPressed_healthOk (now : ℚ) (s : GameState) (code : Key) (h : HealthOk s) :
    HealthOk (keyPressed now s code) := by
  cases code
  case S => exact meleeKey_healthOk now s h
  case Up => exact healthOk_of_view (jumpKey_healthView now s) h
  case A => exact healthOk_of_view (fireKey_healthView now s) h
  case R => exact healthOk_of_view (reloadPlayer_healthView false s) h
  all_goals exact h

theorem handleEvent_healthOk (now : ℚ) (s : GameState) (e : Event) (h : HealthOk s) :
    HealthOk (handleEvent now s e) := by
  cases e with
  | Closed => exact h
  | Other => exact h
  | KeyReleased code =>
    dsimp only [handleEvent]
    split_ifs
    · exact h
    · exact healthOk_of_view (keyReleased_healthView code s) h
  | KeyPressed code =>
    dsimp only [handleEvent]
    split_ifs
    · exact h
    · exact h
    · exact keyPressed_healthOk now s code h

theorem bulletHitEnemy_healthOk (now : ℚ) (s : GameState) (b : Bullet) (h : HealthOk s) :
    HealthOk (bulletHitEnemy now s b).1 := by
  obtain ⟨a, c, e, d⟩ := h
  have hb := damage_bounds s.enemyHealth 6 (by norm_num) d
  unfold bulletHitEnemy
  split_ifs
  · exact ⟨a, c, hb.1, hb.2⟩
  · exact ⟨a, c, e, d⟩
  · exact ⟨a, c, e, d⟩

theorem bulletHitPlayer_healthOk (now : ℚ) (s : GameState) (b : Bullet) (h : HealthOk s) :
    HealthOk (bulletHitPlayer now s b).1 := by
  obtain ⟨a, c, e, d⟩ := h
  have hb := damage_bounds s.playerHealth 5 (by norm_num) c
  unfold bulletHitPlayer
  split_ifs
  · exact ⟨hb.1, hb.2, e, d⟩
  · exact ⟨a, c, e, d⟩
  · exact ⟨a, c, e, d⟩

theorem updateBullet_healthOk (now delta : ℚ) (s : GameState) (b : Bullet) (h : HealthOk s) :
    HealthOk (updateBullet now delta s b).1 := by
  unfold updateBullet
  split_ifs
  · exact h
  · exact bulletHitPlayer_healthOk now _ _ (bulletHitEnemy_healthOk now s _ h)
  · exact h

theorem updateBulletList_healthOk (now delta : ℚ) (bs : List Bullet) (s : GameState)
    (h : HealthOk s) : HealthOk (updateBulletList now delta s bs).1 := by
  induction bs generalizing s with
  | nil => exact h
  | cons b bs ih => exact ih _ (updateBullet_healthOk now delta s b h)

theorem updateBullets_healthOk (now delta : ℚ) (s : GameState) (h : HealthOk s) :
    HealthOk (updateBullets now delta s) := by
  unfold updateBullets
  split_ifs
  · exact healthOk_of_view (setBullets_healthView _ _)
      (updateBulletList_healthOk now delta s.bullets s h)
  · exact h

theorem enemyMelee_healthOk (now : ℚ) (s : GameState) (h : HealthOk s) :
    HealthOk (enemyMelee now s) := by
  obtain ⟨_, c, e, d⟩ := h
  have hb := damage_bounds s.playerHealth 7 (by norm_num) c
  exact ⟨hb.1, hb.2, e, d⟩

theorem enemyAttack_healthOk (now : ℚ) (sense : EnemySense) (s : GameState)
    (h : HealthOk s) : HealthOk (enemyAttack now sense s) := by
  unfold enemyAttack
  split_ifs
  · exact enemyMelee_healthOk now s h
  · exact healthOk_of_view (enemyShoot_healthView now s) h
  · exact h
  · exact h

theorem enemyPhase_healthOk (now delta : ℚ) (s : GameState) (h : HealthOk s) :
    HealthOk (enemyPhase now delta s) := by
  unfold enemyPhase
  apply enemyAttack_healthOk
  exact healthOk_of_view (by simp) h

theorem simulate_healthOk (now delta animationDelta : ℚ) (s : GameState) (h : HealthOk s) :
    HealthOk (simulate now delta animationDelta s) := by
  unfold simulate
  refine healthOk_of_view (s := enemyPhase now delta (enemyReload now (updateBullets now delta
    (playerPhase now delta s)))) (by simp) ?_
  apply enemyPhase_healthOk
  refine healthOk_of_view (s := updateBullets now delta (playerPhase now delta s)) (by simp) ?_
  apply updateBullets_healthOk
  exact healthOk_of_view (by simp) h

theorem resetRound_healthOk (now : ℚ) (s : GameState) : HealthOk (resetRound now s) := by
  have hv : healthView (resetRound now s) = healthView (resetFighters s) := by
    unfold resetRound
    simp
  have h0 : HealthOk (resetFighters s) := by
    unfold HealthOk resetFighters
    norm_num
  exact healthOk_of_view hv h0

theorem roundEndHandling_healthOk (now : ℚ) (s : GameState) (h : HealthOk s) :
    HealthOk (roundEndHandling now s) := by
  unfold roundEndHandling
  split_ifs
  · exact h
  · exact h
  · exact resetRound_healthOk now _
  · exact h
  · exact h

theorem beforeOutcome_healthOk (now : ℚ) (s : GameState) (h : HealthOk s) :
    HealthOk (beforeOutcome now s) := by
  unfold beforeOutcome
  apply simulate_healthOk
  exact healthOk_of_view (frameStart_healthView now s) h

theorem tick_healthOk (now : ℚ) (s : GameState) (h : HealthOk s) : HealthOk (tick now s) := by
  unfold tick
  split_ifs
  · exact healthOk_of_view (frameStart_healthView now s) h
  · apply roundEndHandling_healthOk
    exact healthOk_of_view (roundOutcome_healthView now _) (beforeOutcome_healthOk now s h)

theorem initialState_healthOk (playerSheets enemySheets : SheetSizes) (bulletW bulletH : Nat)
    (history : List String) (deadAnimP deadAnimE : Bool) (t0 : ℚ) :
    HealthOk (initialState playerSheets enemySheets bulletW bulletH history deadAnimP
      deadAnimE t0) := by
  unfold initialState
  refine healthOk_of_view (reloadPlayer_healthView true _) ?_
  unfold HealthOk
  norm_num

/-- An invariant of the frame loop holds in every reachable state. -/
theorem Reachable.invariant (P : GameState → Prop)
    (hstart : ∀ ps es bw bh hist da db t0, P (initialState ps es bw bh hist da db t0))
    (hevent : ∀ now s e, s.gameEnded = false → P s → P (handleEvent now s e))
    (hframe : ∀ now s, s.gameEnded = false → P s → P (tick now s)) :
    ∀ s, Reachable s → P s := by
  intro s hs
  induction hs with
  | start ps es bw bh hist da db t0 => exact hstart ps es bw bh hist da db t0
  | step _ hstep ih =>
    cases hstep with
    | event now e s _ hg => exact hevent now _ e hg ih
    | frame now s _ hg => exact hframe now _ hg ih

/-- C1: in every state reachable from the initial state by any sequence of
events (player commands) and frame bodies (ticks, round resets included),
both `playerHealth` and `enemyHealth` lie between 0 and 100. -/
theorem reachable_health_bounds (s : GameState) (h : Reachable s) :
    0 ≤ s.playerHealth ∧ s.playerHealth ≤ 100 ∧ 0 ≤ s.enemyHealth ∧ s.enemyHealth ≤ 100 :=
  Reachable.invariant HealthOk initialState_healthOk
    (fun now s e _ hs => handleEvent_healthOk now s e hs)
    (fun now s _ hs => tick_healthOk now s hs) s h

theorem demoStart_reachable : Reachable demoStart :=
  Reachable.start demoSheets demoSheets 64 32 [] false false 0

theorem demoRunning_reachable : Reachable demoRunning :=
  Reachable.step demoStart_reachable (Step.event 1 _ demoStart rfl rfl)

/-- Witness of C1: the concrete session after the start key and one frame. -/
theorem reachable_health_bounds_witness :
    Reachable (tick 2 demoRunning) ∧
      (0 ≤ (tick 2 demoRunning).playerHealth ∧ (tick 2 demoRunning).playerHealth ≤ 100 ∧
        0 ≤ (tick 2 demoRunning).enemyHealth ∧ (tick 2 demoRunning).enemyHealth ≤ 100) :=
  ⟨Reachable.step demoRunning_reachable (Step.frame 2 demoRunning rfl rfl),
    reachable_health_bounds _
      (Reachable.step demoRunning_reachable (Step.frame 2 demoRunning rfl rfl))⟩

/-! ## Round bookkeeping -/

theorem matchView_fields {s s' : GameState} (h : matchView s' = matchView s) :
    s'.playerWins = s.playerWins ∧ s'.enemyWins = s.enemyWins ∧
      s'.winNoted = s.winNoted ∧ s'.defeatNoted = s.defeatNoted ∧
      s'.currentRound = s.currentRound ∧ s'.gameEnded = s.gameEnded ∧
      s'.roundEnded = s.roundEnded ∧ s'.roundEndClock = s.roundEndClock ∧
      s'.stageClock = s.stageClock ∧ s'.waitingForStart = s.waitingForStart ∧
      s'.windowOpen = s.windowOpen := by
  simpa only [matchView, Prod.mk.injEq] using h

theorem tallyView_of_matchView {s s' : GameState} (h : matchView s' = matchView s) :
    tallyView s' = tallyView s := by
  obtain ⟨h1, h2, h3, h4, _⟩ := matchView_fields h
  simp only [tallyView, h1, h2, h3, h4]

theorem handleEvent_tallyView (now : ℚ) (s : GameState) (e : Event) :
    tallyView (handleEvent now s e) = tallyView s := by
  cases e with
  | Closed => rfl
  | Other => rfl
  | KeyPressed code =>
    dsimp only [handleEvent]
    split_ifs
    · rfl
    · rfl
    · exact tallyView_of_matchView (keyPressed_matchView now code s)
  | KeyReleased code =>
    dsimp only [handleEvent]
    split_ifs
    · rfl
    · exact tallyView_of_matchView (keyReleased_matchView code s)

theorem resetRound_currentRound (now : ℚ) (s : GameState) :
    (resetRound now s).currentRound = s.currentRound := rfl

theorem resetRound_wins (now : ℚ) (s : GameState) :
    (resetRound now s).playerWins = s.playerWins ∧
      (resetRound now s).enemyWins = s.enemyWins := ⟨rfl, rfl⟩

/-- The round end handling never changes a tally. -/
theorem roundEndHandling_wins (now : ℚ) (s : GameState) :
    (roundEndHandling now s).playerWins = s.playerWins ∧
      (roundEndHandling now s).enemyWins = s.enemyWins := by
  unfold roundEndHandling
  split_ifs <;> exact ⟨rfl, rfl⟩

/-- Unless it moves to another round number, the round end handling keeps
the tallies and the noted flags. -/
theorem roundEndHandling_tallyView (now : ℚ) (s : GameState)
    (h : (roundEndHandling now s).currentRound = s.currentRound) :
    tallyView (roundEndHandling now s) = tallyView s := by
  unfold roundEndHandling at h ⊢
  split_ifs at h ⊢
  · rfl
  · exfalso
    have h2 : s.currentRound + 1 = s.currentRound := h
    omega
  · exfalso
    have h2 : s.currentRound + 1 = s.currentRound := h
    omega
  · rfl
  · rfl

theorem noteOutcome_playerWins (now : ℚ) (s : GameState) :
    (noteOutcome now s).playerWins =
      if playerWon s = true ∧ s.winNoted = false then s.playerWins + 1 else s.playerWins := by
  unfold noteOutcome
  split_ifs <;> first | rfl | simp_all

theorem noteOutcome_winNoted (now : ℚ) (s : GameState) :
    (noteOutcome now s).winNoted =
      if playerWon s = true ∧ s.winNoted = false then true else s.winNoted := by
  unfold noteOutcome
  split_ifs <;> first | rfl | simp_all

theorem noteOutcome_enemyWins (now : ℚ) (s : GameState) :
    (noteOutcome now s).enemyWins =
      if ¬ (playerWon s = true ∧ s.winNoted = false) ∧
          playerLost now s = true ∧ s.defeatNoted = false then s.enemyWins + 1
      else s.enemyWins := by
  unfold noteOutcome
  split_ifs <;> first | rfl | simp_all

theorem noteOutcome_defeatNoted (now : ℚ) (s : GameState) :
    (noteOutcome now s).defeatNoted =
      if ¬ (playerWon s = true ∧ s.winNoted = false) ∧
          playerLost now s = true ∧ s.defeatNoted = false then true
      else s.defeatNoted := by
  unfold noteOutcome
  split_ifs <;> first | rfl | simp_all

theorem noteOutcome_currentRound (now : ℚ) (s : GameState) :
    (noteOutcome now s).currentRound = s.currentRound := by
  unfold noteOutcome
  split_ifs <;> rfl

theorem roundOutcome_tallyView (now : ℚ) (s : GameState) :
    tallyView (roundOutcome now s) = tallyView (noteOutcome now s) :=
  tallyView_of_matchView (clearIntents_matchView _)

theorem roundOutcome_currentRound (now : ℚ) (s : GameState) :
    (roundOutcome now s).currentRound = s.currentRound := by
  have h := (matchView_fields (clearIntents_matchView (noteOutcome now s))).2.2.2.2.1
  exact h.trans (noteOutcome_currentRound now s)

/-- A frame body that does not run the round reset leaves the tallies and
the noted flags as the recording of the outcome made them. -/
theorem tick_tallyView_inRound (now : ℚ) (s : GameState) (hw : s.waitingForStart = false)
    (hr : resetsRound now s = false) :
    tallyView (tick now s) = tallyView (noteOutcome now (beforeOutcome now s)) := by
  rw [← roundOutcome_tallyView]
  unfold resetsRound at hr
  unfold tick roundEndHandling
  simp only [hw, Bool.false_eq_true, if_false]
  split_ifs with h1 h2 h3 h4
  · rfl
  · rfl
  · exfalso
    simp only [decide_eq_false_iff_not] at hr
    exact hr ⟨hw, h1, h2, h3, h4⟩
  · rfl
  · rfl

theorem tallyStep_of_view {s s' : GameState} (h : tallyView s' = tallyView s) :
    TallyStep s s' := by
  simp only [tallyView, Prod.mk.injEq] at h
  obtain ⟨h1, h2, h3, h4⟩ := h
  simp only [TallyStep, h1, h2, h3, h4, le_refl, and_self]

theorem tallyStep_congr {s t s' t' : GameState} (hs : tallyView t = tallyView s)
    (hs' : tallyView t' = tallyView s') (h : TallyStep s s') : TallyStep t t' := by
  simp only [tallyView, Prod.mk.injEq] at hs hs'
  obtain ⟨h1, h2, h3, h4⟩ := hs
  obtain ⟨k1, k2, k3, k4⟩ := hs'
  simpa only [TallyStep, h1, h2, h3, h4, k1, k2, k3, k4] using h

theorem noteOutcome_tallyStep (now : ℚ) (s : GameState) : TallyStep s (noteOutcome now s) := by
  unfold TallyStep
  rw [noteOutcome_playerWins, noteOutcome_winNoted, noteOutcome_enemyWins,
    noteOutcome_defeatNoted]
  cases hw : s.winNoted <;> cases hd : s.defeatNoted <;>
    split_ifs <;> simp_all [pending]

theorem roundStep_tallyStep {s s' : GameState} (h : RoundStep s s') : TallyStep s s' := by
  cases h with
  | event now e s _ _ => exact tallyStep_of_view (handleEvent_tallyView now s e)
  | frame now s _ _ hr =>
    by_cases hw : s.waitingForStart = true
    · apply tallyStep_of_view
      unfold tick
      rw [if_pos hw]
      exact tallyView_of_matchView (frameStart_matchView now s)
    · have hw' : s.waitingForStart = false := by simpa using hw
      have h0 : TallyStep (beforeOutcome now s) (noteOutcome now (beforeOutcome now s)) :=
        noteOutcome_tallyStep now _
      exact tallyStep_congr (tallyView_of_matchView (beforeOutcome_matchView now s)).symm
        (tick_tallyView_inRound now s hw' hr) h0

theorem pending_bounds (b : Bool) : 0 ≤ pending b ∧ pending b ≤ 1 := by
  cases b <;> simp [pending]

theorem roundRun_tallyStep {s s' : GameState} (h : RoundRun s s') : TallyStep s s' := by
  induction h with
  | refl => exact ⟨le_refl _, le_refl _, le_refl _, le_refl _⟩
  | tail _ hstep ih =>
    obtain ⟨a1, a2, a3, a4⟩ := ih
    obtain ⟨b1, b2, b3, b4⟩ := roundStep_tallyStep hstep
    exact ⟨a1.trans b1, b2.trans a2, a3.trans b3, b4.trans a4⟩

/-- C2: a frame body entered with the win already noted leaves `playerWins`
unchanged, one entered with the defeat already noted leaves `enemyWins`
unchanged, whatever the health values are; and over any run of the frame
loop between two round resets each tally never decreases and grows by at
most 1. -/
theorem tallies_once_per_round :
    (∀ (now : ℚ) (s : GameState), s.winNoted = true →
      (tick now s).playerWins = s.playerWins) ∧
    (∀ (now : ℚ) (s : GameState), s.defeatNoted = true →
      (tick now s).enemyWins = s.enemyWins) ∧
    (∀ s s' : GameState, RoundRun s s' →
      s.playerWins ≤ s'.playerWins ∧ s'.playerWins ≤ s.playerWins + 1 ∧
      s.enemyWins ≤ s'.enemyWins ∧ s'.enemyWins ≤ s.enemyWins + 1) := by
  refine ⟨?_, ?_, ?_⟩
  · intro now s hn
    unfold tick
    split_ifs with hw
    · exact (matchView_fields (frameStart_matchView now s)).1
    · rw [(roundEndHandling_wins now _).1]
      have h1 : (roundOutcome now (beforeOutcome now s)).playerWins =
          (noteOutcome now (beforeOutcome now s)).playerWins :=
        congrArg Prod.fst (roundOutcome_tallyView now _)
      obtain ⟨m1, _, m3, _⟩ := matchView_fields (beforeOutcome_matchView now s)
      rw [h1, noteOutcome_playerWins, m3, hn, m1]
      simp
  · intro now s hn
    unfold tick
    split_ifs with hw
    · exact (matchView_fields (frameStart_matchView now s)).2.1
    · rw [(roundEndHandling_wins now _).2]
      have h1 : (roundOutcome now (beforeOutcome now s)).enemyWins =
          (noteOutcome now (beforeOutcome now s)).enemyWins :=
        congrArg (fun v => v.2.1) (roundOutcome_tallyView now _)
      obtain ⟨_, m2, _, m4, _⟩ := matchView_fields (beforeOutcome_matchView now s)
      rw [h1, noteOutcome_enemyWins, m4, hn, m2]
      simp
  · intro s s' h
    obtain ⟨a1, a2, a3, a4⟩ := roundRun_tallyStep h
    have p1 := pending_bounds s.winNoted
    have p2 := pending_bounds s'.winNoted
    have p3 := pending_bounds s.defeatNoted
    have p4 := pending_bounds s'.defeatNoted
    refine ⟨a1, by linarith, a3, by linarith⟩

/-- Witness of C2: a concrete state of the running session in which the
enemy is down and the win is noted. -/
theorem tallies_once_per_round_witness :
    demoWon.winNoted = true ∧ (tick 2 demoWon).playerWins = 1 :=
  ⟨rfl, tallies_once_per_round.1 2 demoWon rfl⟩

/-! ## Match progression -/

theorem roundOk_of_matchView {s s' : GameState} (h : matchView s' = matchView s)
    (hs : RoundOk s) : RoundOk s' := by
  obtain ⟨_, _, _, _, h5, h6, _⟩ := matchView_fields h
  unfold RoundOk at *
  rw [h5, h6]
  exact hs

theorem handleEvent_round (now : ℚ) (s : GameState) (e : Event) :
    (handleEvent now s e).currentRound = s.currentRound ∧
      (handleEvent now s e).gameEnded = s.gameEnded := by
  cases e with
  | Closed => exact ⟨rfl, rfl⟩
  | Other => exact ⟨rfl, rfl⟩
  | KeyPressed code =>
    dsimp only [handleEvent]
    split_ifs
    · exact ⟨rfl, rfl⟩
    · exact ⟨rfl, rfl⟩
    · obtain ⟨_, _, _, _, h5, h6, _⟩ := matchView_fields (keyPressed_matchView now code s)
      exact ⟨h5, h6⟩
  | KeyReleased code =>
    dsimp only [handleEvent]
    split_ifs
    · exact ⟨rfl, rfl⟩
    · obtain ⟨_, _, _, _, h5, h6, _⟩ := matchView_fields (keyReleased_matchView code s)
      exact ⟨h5, h6⟩

theorem noteOutcome_gameEnded (now : ℚ) (s : GameState) :
    (noteOutcome now s).gameEnded = s.gameEnded := by
  unfold noteOutcome
  split_ifs <;> rfl

theorem roundOutcome_gameEnded (now : ℚ) (s : GameState) :
    (roundOutcome now s).gameEnded = s.gameEnded := by
  have h := (matchView_fields (clearIntents_matchView (noteOutcome now s))).2.2.2.2.2.1
  exact h.trans (noteOutcome_gameEnded now s)

theorem roundEndHandling_roundOk (now : ℚ) (s : GameState) (hg : s.gameEnded = false)
    (h : RoundOk s) : RoundOk (roundEndHandling now s) := by
  obtain ⟨h1, h2, h3⟩ := h
  have h4 := h3 hg
  unfold roundEndHandling
  split_ifs with c1 c2 c3 c4
  · exact ⟨h1, h2, fun _ => h4⟩
  · refine ⟨?_, ?_, ?_⟩
    · show 1 ≤ s.currentRound + 1
      omega
    · show s.currentRound + 1 ≤ 4
      omega
    · intro hc
      exact absurd hc (by simp [endGame])
  · have c5 : s.currentRound + 1 ≤ 3 := by
      have : ¬ (s.currentRound + 1 > maxRounds) := c4
      unfold maxRounds at this
      omega
    refine ⟨?_, ?_, ?_⟩
    · show 1 ≤ s.currentRound + 1
      omega
    · show s.currentRound + 1 ≤ 4
      omega
    · intro _
      show s.currentRound + 1 ≤ 3
      exact c5
  · exact ⟨h1, h2, h3⟩
  · exact ⟨h1, h2, h3⟩

theorem tick_roundOk (now : ℚ) (s : GameState) (hg : s.gameEnded = false) (h : RoundOk s) :
    RoundOk (tick now s) := by
  unfold tick
  split_ifs
  · exact roundOk_of_matchView (frameStart_matchView now s) h
  · have hb := matchView_fields (beforeOutcome_matchView now s)
    have hg2 : (roundOutcome now (beforeOutcome now s)).gameEnded = false := by
      rw [roundOutcome_gameEnded, hb.2.2.2.2.2.1, hg]
    apply roundEndHandling_roundOk now _ hg2
    unfold RoundOk
    rw [roundOutcome_gameEnded, roundOutcome_currentRound, hb.2.2.2.2.1, hb.2.2.2.2.2.1]
    exact h

theorem reachable_roundOk (s : GameState) (h : Reachable s) : RoundOk s := by
  refine Reachable.invariant RoundOk ?_ ?_ ?_ s h
  · intro ps es bw bh hist da db t0
    unfold RoundOk
    refine ⟨?_, ?_, ?_⟩
    · show (1 : Int) ≤ 1
      omega
    · show (1 : Int) ≤ 4
      omega
    · intro _
      show (1 : Int) ≤ 3
      omega
  · intro now s e _ hs
    obtain ⟨h1, h2⟩ := handleEvent_round now s e
    unfold RoundOk at *
    rw [h1, h2]
    exact hs
  · intro now s hg hs
    exact tick_roundOk now s hg hs

theorem roundOutcome_wins_ge (now : ℚ) (s : GameState) :
    s.playerWins ≤ (roundOutcome now s).playerWins ∧
      s.enemyWins ≤ (roundOutcome now s).enemyWins := by
  obtain ⟨a1, _, a3, _⟩ := tallyStep_congr rfl (roundOutcome_tallyView now s)
    (noteOutcome_tallyStep now s)
  exact ⟨a1, a3⟩

/-- C3: when the round end handling finds the round ended and the display
delay of 3.0 s elapsed, it ends the match if a tally is at least 2 or the
round just played is round 3 (or later), and otherwise runs the reset with
the round number incremented, the match going on; consequently, while the
frame loop runs the round number of a reachable state is between 1 and 3,
and no frame entered with a tally of 2 or more runs the round reset. -/
theorem match_ends_or_next_round :
    (∀ (now : ℚ) (s : GameState), s.roundEnded = true →
      now - s.roundEndClock ≥ roundEndDisplayTime →
      (s.playerWins ≥ 2 ∨ s.enemyWins ≥ 2 ∨ s.currentRound ≥ 3) →
      (roundEndHandling now s).gameEnded = true) ∧
    (∀ (now : ℚ) (s : GameState), s.roundEnded = true →
      now - s.roundEndClock ≥ roundEndDisplayTime →
      s.playerWins < 2 → s.enemyWins < 2 → s.currentRound < 3 →
      roundEndHandling now s = resetRound now (nextRound s) ∧
      (roundEndHandling now s).currentRound = s.currentRound + 1 ∧
      (roundEndHandling now s).roundEnded = false ∧
      (roundEndHandling now s).gameEnded = s.gameEnded) ∧
    (∀ s : GameState, Reachable s → s.gameEnded = false →
      1 ≤ s.currentRound ∧ s.currentRound ≤ 3) ∧
    (∀ (now : ℚ) (s : GameState), (s.playerWins ≥ 2 ∨ s.enemyWins ≥ 2) →
      resetsRound now s = false) := by
  refine ⟨?_, ?_, ?_, ?_⟩
  · intro now s h1 h2 h3
    unfold roundEndHandling
    rw [if_pos h1, if_pos h2]
    split_ifs with c1 c2
    · rfl
    · rfl
    · exfalso
      have c3 : ¬ (s.currentRound + 1 > maxRounds) := c2
      unfold maxRounds at c3
      omega
  · intro now s h1 h2 h3 h4 h5
    have c1 : ¬ (s.playerWins ≥ 2 ∨ s.enemyWins ≥ 2) := by omega
    have c2 : ¬ ((nextRound s).currentRound > maxRounds) := by
      show ¬ (s.currentRound + 1 > maxRounds)
      unfold maxRounds
      omega
    have heq : roundEndHandling now s = resetRound now (nextRound s) := by
      unfold roundEndHandling
      rw [if_pos h1, if_pos h2, if_neg c1, if_neg c2]
    rw [heq]
    exact ⟨rfl, rfl, rfl, rfl⟩
  · intro s hs hg
    obtain ⟨h1, _, h3⟩ := reachable_roundOk s hs
    exact ⟨h1, h3 hg⟩
  · intro now s h
    obtain ⟨a1, a2⟩ := roundOutcome_wins_ge now (beforeOutcome now s)
    obtain ⟨m1, m2, _⟩ := matchView_fields (beforeOutcome_matchView now s)
    unfold resetsRound
    rw [decide_eq_false_iff_not]
    rintro ⟨_, _, _, hn, _⟩
    apply hn
    omega

/-- Witness of C3: the running concrete session with the player at two
wins, the round ended at instant 2 and the delay elapsed at instant 5. -/
theorem match_ends_or_next_round_witness :
    (demoMatchWon.roundEnded = true ∧ 5 - demoMatchWon.roundEndClock ≥ roundEndDisplayTime ∧
      (demoMatchWon.playerWins ≥ 2 ∨ demoMatchWon.enemyWins ≥ 2 ∨
        demoMatchWon.currentRound ≥ 3)) ∧
      (roundEndHandling 5 demoMatchWon).gameEnded = true :=
  ⟨⟨rfl, by norm_num [roundEndDisplayTime, demoMatchWon], Or.inl (le_refl _)⟩,
    match_ends_or_next_round.1 5 demoMatchWon rfl
      (by norm_num [roundEndDisplayTime, demoMatchWon]) (Or.inl (le_refl _))⟩

/-! ## Time-out -/

theorem updateBullets_of_empty (now delta : ℚ) (s : GameState) (h : s.bullets = []) :
    updateBullets now delta s = s := by
  unfold updateBullets
  rw [if_neg (by simp [h])]

theorem enemyAttack_healthView_of_cooldown (now : ℚ) (sense : EnemySense) (s : GameState)
    (h : sense.canMelee = false) :
    healthView (enemyAttack now sense s) = healthView s := by
  unfold enemyAttack
  split_ifs with h1 h2 h3
  · exact absurd h2.2 (by simp [h])
  · exact enemyShoot_healthView now s
  · rfl
  · rfl

/-- A frame entered with an empty bullet pool and the enemy melee still on
cooldown changes no health before the outcome is evaluated. -/
theorem beforeOutcome_calm (now : ℚ) (s : GameState) (hb : s.bullets = [])
    (hc : now - s.enemyAttackClock < enemyAttackCooldown) :
    healthView (beforeOutcome now s) = healthView s := by
  have hpool : poolView (playerPhase now (now - s.deltaClock) (frameStart now s)) =
      poolView s := by simp
  have hb1 : (playerPhase now (now - s.deltaClock) (frameStart now s)).bullets = [] :=
    (congrArg Prod.fst hpool).trans hb
  have hc1 : (playerPhase now (now - s.deltaClock) (frameStart now s)).enemyAttackClock =
      s.enemyAttackClock := congrArg Prod.snd hpool
  have hmelee : (enemySense now (enemyReload now
      (playerPhase now (now - s.deltaClock) (frameStart now s)))).canMelee = false := by
    have hc2 : (enemyReload now
        (playerPhase now (now - s.deltaClock) (frameStart now s))).enemyAttackClock =
        s.enemyAttackClock :=
      (congrArg Prod.snd (enemyReload_poolView now _)).trans hc1
    unfold enemySense
    simp only [hc2, decide_eq_false_iff_not, not_and]
    intro h
    exact absurd h (not_le.mpr hc)
  unfold beforeOutcome simulate
  rw [updateBullets_of_empty _ _ _ hb1]
  simp only [deadAnimation_healthView, enemyDeath_healthView, playerDeath_healthView]
  unfold enemyPhase
  rw [enemyAttack_healthView_of_cooldown _ _ _ hmelee]
  simp

theorem noteOutcome_roundEnd (now : ℚ) (s : GameState)
    (h : (playerWon s = true ∧ s.winNoted = false) ∨
      (playerLost now s = true ∧ s.defeatNoted = false)) :
    (noteOutcome now s).roundEnded = true ∧ (noteOutcome now s).roundEndClock = now := by
  unfold noteOutcome
  split_ifs with h1 h2
  · exact ⟨rfl, rfl⟩
  · exact ⟨rfl, rfl⟩
  · exfalso
    rcases h with h | h
    · exact h1 ⟨h.1, by simp [h.2]⟩
    · exact h2 ⟨h.1, by simp [h.2]⟩

theorem roundEndHandling_of_fresh (now : ℚ) (s : GameState) (h : s.roundEndClock = now) :
    roundEndHandling now s = s := by
  unfold roundEndHandling
  have h2 : ¬ (now - s.roundEndClock ≥ roundEndDisplayTime) := by
    rw [h]
    norm_num [roundEndDisplayTime]
  rw [if_neg h2]
  simp

theorem timeLeft_of_matchView {s s' : GameState} (now : ℚ)
    (h : matchView s' = matchView s) : timeLeft now s' = timeLeft now s := by
  unfold timeLeft
  rw [(matchView_fields h).2.2.2.2.2.2.2.2.1]

/-- C4: in a frame of a started round in which the timer shows 0 seconds
left, both fighters have health above 0 when the outcome is evaluated and no
loss is noted yet, `enemyWins` grows by exactly 1, `playerWins` is unchanged
and the round is marked ended; the timer value is
`max(0, 60 - floor(elapsed))` for a non-negative elapsed time. -/
theorem timeout_credits_enemy :
    (∀ (now : ℚ) (s : GameState), s.waitingForStart = false →
      timeLeft now s = 0 →
      (beforeOutcome now s).playerHealth > 0 → (beforeOutcome now s).enemyHealth > 0 →
      s.defeatNoted = false →
      (tick now s).enemyWins = s.enemyWins + 1 ∧ (tick now s).playerWins = s.playerWins ∧
        (tick now s).roundEnded = true) ∧
    (∀ (now : ℚ) (s : GameState), s.stageClock ≤ now →
      timeLeft now s = max 0 (60 - ⌊now - s.stageClock⌋)) := by
  constructor
  · intro now s hw ht hp he hd
    have hm := matchView_fields (beforeOutcome_matchView now s)
    have htm : timeLeft now (beforeOutcome now s) = 0 :=
      (timeLeft_of_matchView now (beforeOutcome_matchView now s)).trans ht
    have hwon : playerWon (beforeOutcome now s) = false := by
      unfold playerWon
      rw [decide_eq_false_iff_not]
      exact not_le.mpr he
    have hlost : playerLost now (beforeOutcome now s) = true := by
      unfold playerLost
      rw [decide_eq_true_iff]
      exact Or.inr ⟨htm, by simp [hwon]⟩
    have hdm : (beforeOutcome now s).defeatNoted = false := hm.2.2.2.1.trans hd
    obtain ⟨r1, r2⟩ := noteOutcome_roundEnd now (beforeOutcome now s) (Or.inr ⟨hlost, hdm⟩)
    have hc := matchView_fields (clearIntents_matchView (noteOutcome now (beforeOutcome now s)))
    have hfresh : (roundOutcome now (beforeOutcome now s)).roundEndClock = now :=
      hc.2.2.2.2.2.2.2.1.trans r2
    have htick : tick now s = roundOutcome now (beforeOutcome now s) := by
      unfold tick
      rw [hw]
      simp only [Bool.false_eq_true, if_false]
      exact roundEndHandling_of_fresh now _ hfresh
    rw [htick]
    refine ⟨?_, ?_, ?_⟩
    · have h1 : (roundOutcome now (beforeOutcome now s)).enemyWins =
          (noteOutcome now (beforeOutcome now s)).enemyWins := hc.2.1
      rw [h1, noteOutcome_enemyWins, hm.2.1]
      simp [hwon, hlost, hdm]
    · have h1 : (roundOutcome now (beforeOutcome now s)).playerWins =
          (noteOutcome now (beforeOutcome now s)).playerWins := hc.1
      rw [h1, noteOutcome_playerWins, hm.1]
      simp [hwon]
    · exact hc.2.2.2.2.2.2.1.trans r1
  · intro now s h
    unfold timeLeft truncToInt kStageDurationSeconds
    rw [if_pos (sub_nonneg.mpr h)]

/-- Witness of C4: the running concrete session, the stage clock at 0, sixty
seconds later. -/
theorem timeout_credits_enemy_witness :
    (demoTimeout.waitingForStart = false ∧ timeLeft 60 demoTimeout = 0 ∧
      (beforeOutcome 60 demoTimeout).playerHealth > 0 ∧
      (beforeOutcome 60 demoTimeout).enemyHealth > 0 ∧ demoTimeout.defeatNoted = false) ∧
    ((tick 60 demoTimeout).enemyWins = demoTimeout.enemyWins + 1 ∧
      (tick 60 demoTimeout).playerWins = demoTimeout.playerWins ∧
      (tick 60 demoTimeout).roundEnded = true) := by
  have ht : timeLeft 60 demoTimeout = 0 := by
    norm_num [timeLeft, truncToInt, kStageDurationSeconds, demoTimeout]
  have hv := beforeOutcome_calm 60 demoTimeout rfl
    (by norm_num [demoTimeout, enemyAttackCooldown])
  have hp : (beforeOutcome 60 demoTimeout).playerHealth > 0 := by
    rw [show (beforeOutcome 60 demoTimeout).playerHealth = demoTimeout.playerHealth from
      congrArg Prod.fst hv]
    norm_num [demoTimeout, demoRunning, demoStart, initialState, reloadPlayer, handleEvent]
  have he : (beforeOutcome 60 demoTimeout).enemyHealth > 0 := by
    rw [show (beforeOutcome 60 demoTimeout).enemyHealth = demoTimeout.enemyHealth from
      congrArg Prod.snd hv]
    norm_num [demoTimeout, demoRunning, demoStart, initialState, reloadPlayer, handleEvent]
  exact ⟨⟨rfl, ht, hp, he, rfl⟩, timeout_credits_enemy.1 60 demoTimeout rfl ht hp he rfl⟩

/-! ## Player commands -/

theorem changeState_currentState (m : CharacterSpriteManager) (now : ℚ)
    (newState : SpriteState) (duration : ℚ) :
    (m.changeState now newState duration).currentState = newState := by
  unfold CharacterSpriteManager.changeState
  by_cases h : newState = m.currentState
  · rw [if_neg (not_not.mpr h)]
    exact h.symm
  · rw [if_pos h]
    rfl

/-- Once the round has started, a key press is handled by the key switch. -/
theorem handleEvent_keyPressed (now : ℚ) (s : GameState) (code : Key)
    (h : s.waitingForStart = false) :
    handleEvent now s (Event.KeyPressed code) = keyPressed now s code := by
  dsimp only [handleEvent]
  simp [h]

theorem meleeKey_of_accepted (now : ℚ) (s : GameState)
    (h1 : now - s.playerAttackCooldown ≥ attackCooldownTime)
    (h2 : s.playerSprites.canChangeState now = true) (h3 : s.playerHitStunned = false)
    (h4 : s.playerHealth > 0) (h5 : s.enemyHealth > 0) :
    meleeKey now s = meleeDone now (meleeHit now (meleeSwing now s)) := by
  have ha : meleeAccepted now s = true := by
    unfold meleeAccepted
    rw [decide_eq_true_iff]
    exact ⟨h1, h2, by simp [h3], h4, h5⟩
  unfold meleeKey
  rw [if_pos ha]

/-- C5: when the Melee command (case `S` of the key switch) is accepted, that
is the attack cooldown of 0.6 s has elapsed, `canChangeState` holds, the
player is not hit-stunned and both health values are above 0, then with
`|enemy.x - player.x| < 120` the enemy health becomes `max(0, h - 8)`, the
enemy is hit-stunned and in `Hurt`; with `|enemy.x - player.x| >= 120` the
enemy health, hit-stun flag and sprites (animation state included) are
unchanged; in both cases the player is in `Attack`. -/
theorem melee_command (now : ℚ) (s : GameState)
    (h1 : now - s.playerAttackCooldown ≥ 3 / 5)
    (h2 : s.playerSprites.canChangeState now = true) (h3 : s.playerHitStunned = false)
    (h4 : s.playerHealth > 0) (h5 : s.enemyHealth > 0) :
    (|s.enemyPosition.x - s.playerPosition.x| < 120 →
      (keyPressed now s Key.S).enemyHealth = max 0 (s.enemyHealth - 8) ∧
      (keyPressed now s Key.S).enemyHitStunned = true ∧
      (keyPressed now s Key.S).enemySprites.currentState = SpriteState.Hurt) ∧
    (|s.enemyPosition.x - s.playerPosition.x| ≥ 120 →
      (keyPressed now s Key.S).enemyHealth = s.enemyHealth ∧
      (keyPressed now s Key.S).enemyHitStunned = s.enemyHitStunned ∧
      (keyPressed now s Key.S).enemySprites = s.enemySprites) ∧
    (keyPressed now s Key.S).playerSprites.currentState = SpriteState.Attack := by
  have hk : keyPressed now s Key.S = meleeDone now (meleeHit now (meleeSwing now s)) :=
    meleeKey_of_accepted now s h1 h2 h3 h4 h5
  rw [hk]
  refine ⟨?_, ?_, ?_⟩
  · intro hd
    have hd2 : |(meleeSwing now s).enemyPosition.x - (meleeSwing now s).playerPosition.x| < 120 :=
      hd
    unfold meleeDone meleeHit
    rw [if_pos hd2]
    exact ⟨rfl, rfl, changeState_currentState _ _ _ _⟩
  · intro hd
    have hd2 : ¬ |(meleeSwing now s).enemyPosition.x - (meleeSwing now s).playerPosition.x| <
        120 := not_lt.mpr hd
    unfold meleeDone meleeHit
    rw [if_neg hd2]
    exact ⟨rfl, rfl, rfl⟩
  · have hp : (meleeDone now (meleeHit now (meleeSwing now s))).playerSprites =
        (meleeSwing now s).playerSprites := by
      unfold meleeDone meleeHit
      split_ifs <;> rfl
    rw [hp]
    exact changeState_currentState _ _ _ _

/-- Witness of C5: the concrete session at instant 3 with the enemy 80 units
from the player. -/
theorem melee_command_witness :
    (3 - demoClose.playerAttackCooldown ≥ 3 / 5 ∧
      demoClose.playerSprites.canChangeState 3 = true ∧ demoClose.playerHitStunned = false ∧
      demoClose.playerHealth > 0 ∧ demoClose.enemyHealth > 0) ∧
    (keyPressed 3 demoClose Key.S).playerSprites.currentState = SpriteState.Attack := by
  have h1 : 3 - demoClose.playerAttackCooldown ≥ 3 / 5 := by
    norm_num [demoClose, demoRunning, demoStart, initialState, reloadPlayer, handleEvent]
  have h2 : demoClose.playerSprites.canChangeState 3 = true := by
    simp [CharacterSpriteManager.canChangeState, demoClose, demoRunning, demoStart,
      initialState, reloadPlayer, handleEvent, CharacterSpriteManager.setPosition,
      CharacterSpriteManager.setScale, CharacterSpriteManager.updateScale,
      CharacterSpriteManager.loadAll]
  have h4 : demoClose.playerHealth > 0 := by
    norm_num [demoClose, demoRunning, demoStart, initialState, reloadPlayer, handleEvent]
  have h5 : demoClose.enemyHealth > 0 := by
    norm_num [demoClose, demoRunning, demoStart, initialState, reloadPlayer, handleEvent]
  exact ⟨⟨h1, h2, rfl, h4, h5⟩, (melee_command 3 demoClose h1 h2 rfl h4 h5).2.2⟩

/-- C6: in every state with `playerReloads = 0` the Reload command (case `R`
of the key switch, a non-initial `reloadPlayer`) changes nothing: the ammo
queue, `playerReloads` and the action history are as before. -/
theorem reload_without_charges (now : ℚ) (s : GameState) (h : s.playerReloads = 0) :
    keyPressed now s Key.R = s ∧
      (keyPressed now s Key.R).playerAmmo = s.playerAmmo ∧
      (keyPressed now s Key.R).playerReloads = s.playerReloads ∧
      (keyPressed now s Key.R).actionHistory = s.actionHistory := by
  have hk : keyPressed now s Key.R = s := by
    show reloadPlayer s false = s
    unfold reloadPlayer
    rw [if_neg]
    simp [h]
  rw [hk]
  exact ⟨rfl, rfl, rfl, rfl⟩

/-- Witness of C6: the concrete session with one unit left and no reload. -/
theorem reload_without_charges_witness :
    demoNoReloads.playerReloads = 0 ∧ keyPressed 3 demoNoReloads Key.R = demoNoReloads :=
  ⟨rfl, (reload_without_charges 3 demoNoReloads rfl).1⟩

theorem fullAmmo_eq : fullAmmo = [0, 1, 2, 3, 4] := by
  decide

/-- C7: in every state with `playerReloads = n > 0`, whatever the queue
holds, the Reload command leaves exactly the 5 units `0..4` in the queue and
`playerReloads = n - 1`; the initial-load call `reloadPlayer(true)` leaves
exactly 5 units and does not change `playerReloads`, and so the round reset
leaves 5 units with the budget it has just set to 2. -/
theorem reload_refills (now : ℚ) (s : GameState) (n : Int) (hn : s.playerReloads = n)
    (hpos : n > 0) :
    ((keyPressed now s Key.R).playerAmmo = [0, 1, 2, 3, 4] ∧
      (keyPressed now s Key.R).playerAmmo.length = 5 ∧
      (keyPressed now s Key.R).playerReloads = n - 1) ∧
    ((reloadPlayer s true).playerAmmo.length = 5 ∧
      (reloadPlayer s true).playerReloads = s.playerReloads) ∧
    ((resetRound now s).playerAmmo.length = 5 ∧ (resetRound now s).playerReloads = 2) := by
  have hk : keyPressed now s Key.R =
      { s with
        playerAmmo := fullAmmo
        playerReloads := s.playerReloads - 1
        actionHistory := "Reloaded ammo" :: s.actionHistory } := by
    show reloadPlayer s false = _
    unfold reloadPlayer
    rw [if_pos (Or.inr (by omega))]
    simp
  refine ⟨?_, ⟨rfl, rfl⟩, ⟨rfl, rfl⟩⟩
  rw [hk]
  refine ⟨fullAmmo_eq, ?_, ?_⟩
  · show fullAmmo.length = 5
    rw [fullAmmo_eq]
    rfl
  · show s.playerReloads - 1 = n - 1
    rw [hn]

/-- Witness of C7: the concrete session with three units and one reload. -/
theorem reload_refills_witness :
    (demoLowAmmo.playerReloads = 1 ∧ (1 : Int) > 0) ∧
      (keyPressed 3 demoLowAmmo Key.R).playerAmmo = [0, 1, 2, 3, 4] ∧
      (keyPressed 3 demoLowAmmo Key.R).playerReloads = 0 :=
  ⟨⟨rfl, by decide⟩,
    (reload_refills 3 demoLowAmmo 1 rfl (by decide)).1.1,
    (reload_refills 3 demoLowAmmo 1 rfl (by decide)).1.2.2⟩

/-! ## Animation state of the player -/

theorem playerOneShot_nonneg (st : SpriteState) : 0 ≤ playerOneShot st := by
  cases st <;> norm_num [playerOneShot, shootCooldownTime, attackCooldownTime, hitStunDuration]

theorem changeState_animView (m : CharacterSpriteManager) (now : ℚ) (newState : SpriteState)
    (d : ℚ) :
    animView (m.changeState now newState d) =
      if newState ≠ m.currentState then
        (newState, (if m.actionDuration ≤ 0 then m.currentState else m.previousState), d)
      else animView m := by
  unfold CharacterSpriteManager.changeState
  by_cases c : newState ≠ m.currentState
  · rw [if_pos c, if_pos c]
    rfl
  · rw [if_neg c, if_neg c]

theorem changeState_animOk (m : CharacterSpriteManager) (now : ℚ) (newState : SpriteState)
    (d : ℚ) (hd : d = playerOneShot newState) (h : AnimOk (animView m)) :
    AnimOk (animView (m.changeState now newState d)) := by
  have h1 : m.actionDuration = playerOneShot m.currentState := h.1
  have h2 : playerOneShot m.previousState = 0 := h.2
  rw [changeState_animView]
  by_cases c : newState ≠ m.currentState
  · rw [if_pos c]
    refine ⟨hd, ?_⟩
    show playerOneShot (if m.actionDuration ≤ 0 then m.currentState else m.previousState) = 0
    by_cases c2 : m.actionDuration ≤ 0
    · rw [if_pos c2]
      exact le_antisymm (h1 ▸ c2) (playerOneShot_nonneg _)
    · rw [if_neg c2]
      exact h2
  · rw [if_neg c]
    exact h

theorem update_animOk (m : CharacterSpriteManager) (now delta : ℚ) (h : AnimOk (animView m)) :
    AnimOk (animView (m.update now delta)) := by
  have h0 : AnimOk (animView (m.advanceSheets delta)) := h
  unfold CharacterSpriteManager.update CharacterSpriteManager.revertOneShot
  split_ifs
  · have h3 := changeState_animOk (m.advanceSheets delta) now
      (m.advanceSheets delta).previousState 0 h0.2.symm h0
    refine ⟨?_, h3.2⟩
    show (0 : ℚ) = playerOneShot
      ((m.advanceSheets delta).changeState now (m.advanceSheets delta).previousState
        0).currentState
    rw [changeState_currentState]
    exact h0.2.symm
  · exact h0

theorem playerAnimOk_of_view {s s' : GameState} (hv : playerAnimView s' = playerAnimView s)
    (h : PlayerAnimOk s) : PlayerAnimOk s' := by
  unfold PlayerAnimOk at *
  rw [hv]
  exact h

/-- A step that only changes the player state by `changeState` into
`newState` with its own duration keeps the animation invariant. -/
theorem playerAnimOk_changeState (s : GameState) (now : ℚ) (newState : SpriteState) (d : ℚ)
    (hd : d = playerOneShot newState) (h : PlayerAnimOk s) :
    AnimOk (animView (s.playerSprites.changeState now newState d)) :=
  changeState_animOk _ now newState d hd h

theorem jumpKey_playerAnimOk (now : ℚ) (s : GameState) (h : PlayerAnimOk s) :
    PlayerAnimOk (jumpKey now s) := by
  unfold jumpKey
  split_ifs <;> first | exact h | exact playerAnimOk_changeState s now _ _ rfl h

theorem fireKey_playerAnimOk (now : ℚ) (s : GameState) (h : PlayerAnimOk s) :
    PlayerAnimOk (fireKey now s) := by
  unfold fireKey
  split_ifs <;> first | exact h | exact playerAnimOk_changeState s now _ _ rfl h

theorem meleeKey_playerAnimOk (now : ℚ) (s : GameState) (h : PlayerAnimOk s) :
    PlayerAnimOk (meleeKey now s) := by
  unfold meleeKey
  split_ifs
  · refine playerAnimOk_of_view (meleeDone_playerAnimView now _) ?_
    refine playerAnimOk_of_view (meleeHit_playerAnimView now _) ?_
    exact playerAnimOk_changeState s now _ _ rfl h
  · exact h

theorem keyPressed_playerAnimOk (now : ℚ) (s : GameState) (code : Key) (h : PlayerAnimOk s) :
    PlayerAnimOk (keyPressed now s code) := by
  cases code
  case Up => exact jumpKey_playerAnimOk now s h
  case A => exact fireKey_playerAnimOk now s h
  case S => exact meleeKey_playerAnimOk now s h
  case R => exact playerAnimOk_of_view (reloadPlayer_playerAnimView false s) h
  all_goals exact h

theorem handleEvent_playerAnimOk (now : ℚ) (s : GameState) (e : Event) (h : PlayerAnimOk s) :
    PlayerAnimOk (handleEvent now s e) := by
  cases e with
  | Closed => exact h
  | Other => exact h
  | KeyReleased code =>
    dsimp only [handleEvent]
    split_ifs
    · exact h
    · exact playerAnimOk_of_view (keyReleased_playerAnimView code s) h
  | KeyPressed code =>
    dsimp only [handleEvent]
    split_ifs
    · exact h
    · exact h
    · exact keyPressed_playerAnimOk now s code h

theorem playerKeepJump_playerAnimOk (now : ℚ) (s : GameState) (h : PlayerAnimOk s) :
    PlayerAnimOk (playerKeepJump now s) := by
  unfold playerKeepJump
  split_ifs <;> first | exact h | exact playerAnimOk_changeState s now _ _ rfl h

theorem playerLand_playerAnimOk (now : ℚ) (s : GameState) (h : PlayerAnimOk s) :
    PlayerAnimOk (playerLand now s) := by
  unfold playerLand
  split_ifs <;> first | exact h | exact playerAnimOk_changeState s now _ _ rfl h

theorem playerGroundedSprite_playerAnimOk (now : ℚ) (s : GameState) (h : PlayerAnimOk s) :
    PlayerAnimOk (playerGroundedSprite now s) := by
  unfold playerGroundedSprite
  split_ifs <;> first | exact h | exact playerAnimOk_changeState s now _ _ rfl h

theorem playerVertical_playerAnimOk (now delta : ℚ) (s : GameState) (h : PlayerAnimOk s) :
    PlayerAnimOk (playerVertical now delta s) := by
  unfold playerVertical
  split_ifs
  · unfold playerAirborne
    apply playerLand_playerAnimOk
    refine playerAnimOk_of_view (playerFall_playerAnimView delta _) ?_
    exact playerKeepJump_playerAnimOk now s h
  · unfold playerGrounded
    apply playerGroundedSprite_playerAnimOk
    exact playerAnimOk_of_view (playerGroundedFall_playerAnimView delta s) h

theorem playerPhase_playerAnimOk (now delta : ℚ) (s : GameState) (h : PlayerAnimOk s) :
    PlayerAnimOk (playerPhase now delta s) := by
  unfold playerPhase
  refine playerAnimOk_of_view (playerGroundSnap_playerAnimView _) ?_
  apply playerVertical_playerAnimOk
  exact playerAnimOk_of_view (by simp) h

theorem bulletHitPlayer_playerAnimOk (now : ℚ) (s : GameState) (b : Bullet)
    (h : PlayerAnimOk s) : PlayerAnimOk (bulletHitPlayer now s b).1 := by
  unfold bulletHitPlayer
  split_ifs <;> first | exact h | exact playerAnimOk_changeState s now _ _ rfl h

theorem updateBullet_playerAnimOk (now delta : ℚ) (s : GameState) (b : Bullet)
    (h : PlayerAnimOk s) : PlayerAnimOk (updateBullet now delta s b).1 := by
  unfold updateBullet
  split_ifs
  · exact h
  · apply bulletHitPlayer_playerAnimOk
    exact playerAnimOk_of_view (bulletHitEnemy_playerAnimView now _ s) h
  · exact h

theorem updateBulletList_playerAnimOk (now delta : ℚ) (bs : List Bullet) (s : GameState)
    (h : PlayerAnimOk s) : PlayerAnimOk (updateBulletList now delta s bs).1 := by
  induction bs generalizing s with
  | nil => exact h
  | cons b bs ih => exact ih _ (updateBullet_playerAnimOk now delta s b h)

theorem updateBullets_playerAnimOk (now delta : ℚ) (s : GameState) (h : PlayerAnimOk s) :
    PlayerAnimOk (updateBullets now delta s) := by
  unfold updateBullets
  split_ifs
  · exact playerAnimOk_of_view (setBullets_playerAnimView _ _)
      (updateBulletList_playerAnimOk now delta s.bullets s h)
  · exact h

theorem enemyAttack_playerAnimOk (now : ℚ) (sense : EnemySense) (s : GameState)
    (h : PlayerAnimOk s) : PlayerAnimOk (enemyAttack now sense s) := by
  unfold enemyAttack
  split_ifs
  · exact playerAnimOk_changeState s now _ _ rfl h
  · exact playerAnimOk_of_view (enemyShoot_playerAnimView now s) h
  · exact h
  · exact h

theorem playerDeath_playerAnimOk (now : ℚ) (s : GameState) (h : PlayerAnimOk s) :
    PlayerAnimOk (playerDeath now s) := by
  unfold playerDeath
  split_ifs <;> first | exact h | exact playerAnimOk_changeState s now _ _ rfl h

theorem beforeOutcome_playerAnimOk (now : ℚ) (s : GameState) (h : PlayerAnimOk s) :
    PlayerAnimOk (beforeOutcome now s) := by
  unfold beforeOutcome simulate
  refine playerAnimOk_of_view (deadAnimation_playerAnimView _ _ _) ?_
  refine playerAnimOk_of_view (enemyDeath_playerAnimView _ _) ?_
  apply playerDeath_playerAnimOk
  unfold enemyPhase
  apply enemyAttack_playerAnimOk
  refine playerAnimOk_of_view (by simp) (?_ : PlayerAnimOk (updateBullets now
    (now - s.deltaClock) (playerPhase now (now - s.deltaClock) (frameStart now s))))
  apply updateBullets_playerAnimOk
  apply playerPhase_playerAnimOk
  exact update_animOk s.playerSprites now _ h

theorem roundEndHandling_playerAnimOk (now : ℚ) (s : GameState) (h : PlayerAnimOk s) :
    PlayerAnimOk (roundEndHandling now s) := by
  unfold roundEndHandling
  split_ifs
  · exact h
  · exact h
  · unfold resetRound
    refine playerAnimOk_of_view (resetEnemyAmmo_playerAnimView now _) ?_
    refine playerAnimOk_of_view (reloadPlayer_playerAnimView true _) ?_
    exact changeState_animOk _ now _ _ rfl h
  · exact h
  · exact h

theorem tick_playerAnimOk (now : ℚ) (s : GameState) (h : PlayerAnimOk s) :
    PlayerAnimOk (tick now s) := by
  unfold tick
  split_ifs
  · exact update_animOk s.playerSprites now _ h
  · apply roundEndHandling_playerAnimOk
    refine playerAnimOk_of_view (roundOutcome_playerAnimView now _) ?_
    exact beforeOutcome_playerAnimOk now s h

theorem reachable_playerAnimOk (s : GameState) (h : Reachable s) : PlayerAnimOk s := by
  refine Reachable.invariant PlayerAnimOk ?_ ?_ ?_ s h
  · intro ps es bw bh hist da db t0
    unfold initialState
    refine playerAnimOk_of_view (reloadPlayer_playerAnimView true _) ?_
    exact ⟨rfl, rfl⟩
  · intro now s e _ hs
    exact handleEvent_playerAnimOk now s e hs
  · intro now s _ hs
    exact tick_playerAnimOk now s hs

/-! ## The Fire command -/

theorem fireAccepted_iff (now : ℚ) (s : GameState) :
    fireAccepted now s = true ↔
      (s.playerAmmo ≠ [] ∧ now - s.playerShootCooldown ≥ 1 / 2 ∧
        s.playerSprites.canChangeState now = true ∧ s.playerHitStunned = false ∧
        s.playerHealth > 0 ∧ s.enemyHealth > 0) := by
  unfold fireAccepted shootCooldownTime
  rw [decide_eq_true_iff]
  simp only [Bool.not_eq_true]

theorem fireKey_of_rejected (now : ℚ) (s : GameState) (h : ¬ fireAccepted now s = true) :
    fireKey now s = s := by
  unfold fireKey
  rw [if_neg h]

theorem fireKey_playerAmmo (now : ℚ) (s : GameState) (h : fireAccepted now s = true) :
    (fireKey now s).playerAmmo = s.playerAmmo.tail := by
  unfold fireKey
  rw [if_pos h]

theorem fireKey_currentState (now : ℚ) (s : GameState) (h : fireAccepted now s = true) :
    (fireKey now s).playerSprites.currentState = SpriteState.Shot := by
  unfold fireKey
  rw [if_pos h]
  exact changeState_currentState _ _ _ _

/-- C8: in a reachable state the Fire command (case `A` of the key switch)
removes exactly one unit from the ammo queue and leaves the player in `Shot`
with action duration 0.5 s if and only if the queue is non-empty, at least
0.5 s have elapsed on the shoot cooldown, `canChangeState` holds, the player
is not hit-stunned and both health values are above 0; then the unit removed
is the front of the queue; in every other case the state is unchanged, in
particular the ammo queue, the projectile pool and the animation state of the
player. -/
theorem fire_command (now : ℚ) (s : GameState) (hs : Reachable s) :
    (((keyPressed now s Key.A).playerAmmo.length + 1 = s.playerAmmo.length ∧
        (keyPressed now s Key.A).playerSprites.currentState = SpriteState.Shot ∧
        (keyPressed now s Key.A).playerSprites.actionDuration = 1 / 2) ↔
      (s.playerAmmo ≠ [] ∧ now - s.playerShootCooldown ≥ 1 / 2 ∧
        s.playerSprites.canChangeState now = true ∧ s.playerHitStunned = false ∧
        s.playerHealth > 0 ∧ s.enemyHealth > 0)) ∧
    ((s.playerAmmo ≠ [] ∧ now - s.playerShootCooldown ≥ 1 / 2 ∧
        s.playerSprites.canChangeState now = true ∧ s.playerHitStunned = false ∧
        s.playerHealth > 0 ∧ s.enemyHealth > 0) →
      (keyPressed now s Key.A).playerAmmo = s.playerAmmo.tail) ∧
    (¬ (s.playerAmmo ≠ [] ∧ now - s.playerShootCooldown ≥ 1 / 2 ∧
        s.playerSprites.canChangeState now = true ∧ s.playerHitStunned = false ∧
        s.playerHealth > 0 ∧ s.enemyHealth > 0) →
      keyPressed now s Key.A = s ∧
      (keyPressed now s Key.A).playerAmmo = s.playerAmmo ∧
      (keyPressed now s Key.A).bullets = s.bullets ∧
      (keyPressed now s Key.A).playerSprites = s.playerSprites) := by
  have hk : keyPressed now s Key.A = fireKey now s := rfl
  rw [hk, ← fireAccepted_iff]
  refine ⟨⟨?_, ?_⟩, ?_, ?_⟩
  · intro h
    by_contra hn
    rw [fireKey_of_rejected now s hn] at h
    omega
  · intro ha
    have hne : s.playerAmmo ≠ [] := ((fireAccepted_iff now s).mp ha).1
    have hok : PlayerAnimOk (fireKey now s) :=
      fireKey_playerAnimOk now s (reachable_playerAnimOk s hs)
    have hdur : (fireKey now s).playerSprites.actionDuration =
        playerOneShot (fireKey now s).playerSprites.currentState := hok.1
    refine ⟨?_, fireKey_currentState now s ha, ?_⟩
    · rw [fireKey_playerAmmo now s ha, List.length_tail]
      have : 0 < s.playerAmmo.length := List.length_pos.mpr hne
      omega
    · rw [hdur, fireKey_currentState now s ha]
      norm_num [playerOneShot, shootCooldownTime]
  · exact fun ha => fireKey_playerAmmo now s ha
  · intro hn
    rw [fireKey_of_rejected now s hn]
    exact ⟨rfl, rfl, rfl, rfl⟩

/-- Witness of C8: the concrete session fires at instant 3 with a full
queue. -/
theorem fire_command_witness :
    Reachable demoRunning ∧
      (keyPressed 3 demoRunning Key.A).playerAmmo.length + 1 = demoRunning.playerAmmo.length ∧
      (keyPressed 3 demoRunning Key.A).playerSprites.currentState = SpriteState.Shot ∧
      (keyPressed 3 demoRunning Key.A).playerSprites.actionDuration = 1 / 2 := by
  refine ⟨demoRunning_reachable, (fire_command 3 demoRunning demoRunning_reachable).1.mpr ?_⟩
  refine ⟨?_, ?_, ?_, rfl, ?_, ?_⟩
  · simp [demoRunning, demoStart, initialState, reloadPlayer, handleEvent, fullAmmo_eq]
  · norm_num [demoRunning, demoStart, initialState, reloadPlayer, handleEvent]
  · simp [CharacterSpriteManager.canChangeState, demoRunning, demoStart,
      initialState, reloadPlayer, handleEvent, CharacterSpriteManager.setPosition,
      CharacterSpriteManager.setScale, CharacterSpriteManager.updateScale,
      CharacterSpriteManager.loadAll]
  · norm_num [demoRunning, demoStart, initialState, reloadPlayer, handleEvent]
  · norm_num [demoRunning, demoStart, initialState, reloadPlayer, handleEvent]

/-! ## Ammunition bounds -/

theorem ammoView_fields {s s' : GameState} (h : ammoView s' = ammoView s) :
    s'.playerAmmo = s.playerAmmo ∧ s'.playerReloads = s.playerReloads ∧
      s'.enemyAmmo = s.enemyAmmo ∧ s'.enemyReloads = s.enemyReloads := by
  simpa only [ammoView, Prod.mk.injEq] using h

theorem ammoOk_of_view {s s' : GameState} (hv : ammoView s' = ammoView s) (h : AmmoOk s) :
    AmmoOk s' := by
  obtain ⟨h1, _, h3, _⟩ := ammoView_fields hv
  unfold AmmoOk at *
  rw [h1, h3]
  exact h

theorem reloadPlayer_ammoOk (s : GameState) (b : Bool) (h : AmmoOk s) :
    AmmoOk (reloadPlayer s b) := by
  have hfull : fullAmmo.length ≤ 5 := by
    rw [fullAmmo_eq]
    decide
  unfold reloadPlayer
  by_cases c : (b = true ∨ s.playerReloads > 0)
  · rw [if_pos c]
    exact ⟨hfull, h.2.1, h.2.2⟩
  · rw [if_neg c]
    exact h

theorem fireKey_ammoOk (now : ℚ) (s : GameState) (h : AmmoOk s) : AmmoOk (fireKey now s) := by
  by_cases ha : fireAccepted now s = true
  · refine ⟨?_, ?_, ?_⟩
    · rw [fireKey_playerAmmo now s ha, List.length_tail]
      have := h.1
      omega
    · have he : (fireKey now s).enemyAmmo = s.enemyAmmo := by
        unfold fireKey
        rw [if_pos ha]
      rw [he]
      exact h.2.1
    · have he : (fireKey now s).enemyAmmo = s.enemyAmmo := by
        unfold fireKey
        rw [if_pos ha]
      rw [he]
      exact h.2.2
  · rw [fireKey_of_rejected now s ha]
    exact h

theorem keyPressed_ammoOk (now : ℚ) (s : GameState) (code : Key) (h : AmmoOk s) :
    AmmoOk (keyPressed now s code) := by
  cases code
  case Up => exact ammoOk_of_view (jumpKey_ammoView now s) h
  case A => exact fireKey_ammoOk now s h
  case S => exact ammoOk_of_view (meleeKey_ammoView now s) h
  case R => exact reloadPlayer_ammoOk s false h
  all_goals exact h

theorem handleEvent_ammoOk (now : ℚ) (s : GameState) (e : Event) (h : AmmoOk s) :
    AmmoOk (handleEvent now s e) := by
  cases e with
  | Closed => exact h
  | Other => exact h
  | KeyReleased code =>
    dsimp only [handleEvent]
    split_ifs
    · exact h
    · exact ammoOk_of_view (keyReleased_ammoView code s) h
  | KeyPressed code =>
    dsimp only [handleEvent]
    split_ifs
    · exact h
    · exact h
    · exact keyPressed_ammoOk now s code h

theorem enemyFinishReload_ammoOk (now : ℚ) (s : GameState) (h : AmmoOk s) :
    AmmoOk (enemyFinishReload now s) := by
  have k0 : (0 : Int) ≤ kMaxAmmo := by decide
  have k5 : kMaxAmmo ≤ 5 := by decide
  unfold enemyFinishReload
  split_ifs
  · exact ⟨h.1, k0, k5⟩
  · exact h
  · exact h

theorem enemyAttack_playerAmmo (now : ℚ) (sense : EnemySense) (s : GameState) :
    (enemyAttack now sense s).playerAmmo = s.playerAmmo := by
  unfold enemyAttack
  split_ifs <;> rfl

/-- The enemy attack decrements the counter by one when it shoots, which
needs `canShoot`, and leaves it alone otherwise. -/
theorem enemyAttack_enemyAmmo (now : ℚ) (sense : EnemySense) (s : GameState) :
    (enemyAttack now sense s).enemyAmmo = s.enemyAmmo ∨
      (sense.canShoot = true ∧ (enemyAttack now sense s).enemyAmmo = s.enemyAmmo - 1) := by
  unfold enemyAttack
  split_ifs with h1 h2 h3
  · exact Or.inl rfl
  · exact Or.inr ⟨h3.2, rfl⟩
  · exact Or.inl rfl
  · exact Or.inl rfl

theorem enemySense_canShoot (now : ℚ) (s : GameState)
    (h : (enemySense now s).canShoot = true) : s.enemyAmmo > 0 := by
  unfold enemySense at h
  simp only [decide_eq_true_iff] at h
  exact h.2.1

theorem enemyPhase_before_attack_ammoView (now delta : ℚ) (s : GameState) :
    ammoView (enemyFacing (enemyVertical now delta (enemyMove delta
      (enemyDecision now (enemySense now s) s)))) = ammoView s := by
  simp

theorem enemyPhase_playerAmmo (now delta : ℚ) (s : GameState) :
    (enemyPhase now delta s).playerAmmo = s.playerAmmo := by
  unfold enemyPhase
  rw [enemyAttack_playerAmmo]
  exact (ammoView_fields (enemyPhase_before_attack_ammoView now delta s)).1

/-- The enemy part of a frame leaves the counter alone or, when the counter
was above 0, decrements it by one. -/
theorem enemyPhase_enemyAmmo (now delta : ℚ) (s : GameState) :
    (enemyPhase now delta s).enemyAmmo = s.enemyAmmo ∨
      (s.enemyAmmo > 0 ∧ (enemyPhase now delta s).enemyAmmo = s.enemyAmmo - 1) := by
  have hv := (ammoView_fields (enemyPhase_before_attack_ammoView now delta s)).2.2.1
  unfold enemyPhase
  rcases enemyAttack_enemyAmmo now (enemySense now s) (enemyFacing (enemyVertical now delta
    (enemyMove delta (enemyDecision now (enemySense now s) s)))) with h | ⟨hc, h⟩
  · exact Or.inl (h.trans hv)
  · exact Or.inr ⟨enemySense_canShoot now s hc, by rw [h, hv]⟩

theorem enemyPhase_ammoOk (now delta : ℚ) (s : GameState) (h : AmmoOk s) :
    AmmoOk (enemyPhase now delta s) := by
  obtain ⟨h1, h2, h3⟩ := h
  refine ⟨by rw [enemyPhase_playerAmmo]; exact h1, ?_, ?_⟩ <;>
    rcases enemyPhase_enemyAmmo now delta s with h | ⟨hp, h⟩ <;> rw [h] <;> omega

theorem beforeOutcome_ammoOk (now : ℚ) (s : GameState) (h : AmmoOk s) :
    AmmoOk (beforeOutcome now s) := by
  unfold beforeOutcome simulate
  refine ammoOk_of_view (by simp) (?_ : AmmoOk (enemyPhase now (now - s.deltaClock)
    (enemyReload now (updateBullets now (now - s.deltaClock)
      (playerPhase now (now - s.deltaClock) (frameStart now s))))))
  apply enemyPhase_ammoOk
  unfold enemyReload
  apply enemyFinishReload_ammoOk
  exact ammoOk_of_view (by simp) h

theorem resetRound_ammoOk (now : ℚ) (s : GameState) : AmmoOk (resetRound now s) := by
  have k0 : (0 : Int) ≤ kMaxAmmo := by decide
  have k5 : kMaxAmmo ≤ 5 := by decide
  refine ⟨?_, k0, k5⟩
  show fullAmmo.length ≤ 5
  rw [fullAmmo_eq]
  decide

theorem roundEndHandling_ammoOk (now : ℚ) (s : GameState) (h : AmmoOk s) :
    AmmoOk (roundEndHandling now s) := by
  unfold roundEndHandling
  split_ifs
  · exact h
  · exact h
  · exact resetRound_ammoOk now _
  · exact h
  · exact h

theorem tick_ammoOk (now : ℚ) (s : GameState) (h : AmmoOk s) : AmmoOk (tick now s) := by
  unfold tick
  split_ifs
  · exact ammoOk_of_view (frameStart_ammoView now s) h
  · apply roundEndHandling_ammoOk
    exact ammoOk_of_view (roundOutcome_ammoView now _) (beforeOutcome_ammoOk now s h)

theorem reachable_ammoOk (s : GameState) (h : Reachable s) : AmmoOk s := by
  refine Reachable.invariant AmmoOk ?_ ?_ ?_ s h
  · intro ps es bw bh hist da db t0
    have k0 : (0 : Int) ≤ kMaxAmmo := by decide
    have k5 : kMaxAmmo ≤ 5 := by decide
    refine ⟨?_, k0, k5⟩
    show fullAmmo.length ≤ 5
    rw [fullAmmo_eq]
    decide
  · intro now s e _ hs
    exact handleEvent_ammoOk now s e hs
  · intro now s _ hs
    exact tick_ammoOk now s hs

/-- C9: in every reachable state the player queue holds between 0 and 5
units and the enemy counter is between 0 and 5; the Fire command with an
empty queue changes nothing (no pop), and the enemy part of a frame entered
with the counter at 0 or below leaves the counter as it is (no decrement). -/
theorem reachable_ammo_bounds :
    (∀ s : GameState, Reachable s →
      0 ≤ s.playerAmmo.length ∧ s.playerAmmo.length ≤ 5 ∧
      0 ≤ s.enemyAmmo ∧ s.enemyAmmo ≤ 5) ∧
    (∀ (now : ℚ) (s : GameState), s.playerAmmo = [] → keyPressed now s Key.A = s) ∧
    (∀ (now delta : ℚ) (s : GameState), s.enemyAmmo ≤ 0 →
      (enemyPhase now delta s).enemyAmmo = s.enemyAmmo) := by
  refine ⟨?_, ?_, ?_⟩
  · intro s hs
    obtain ⟨h1, h2, h3⟩ := reachable_ammoOk s hs
    exact ⟨Nat.zero_le _, h1, h2, h3⟩
  · intro now s h
    apply fireKey_of_rejected
    rw [fireAccepted_iff]
    intro hc
    exact hc.1 h
  · intro now delta s h
    rcases enemyPhase_enemyAmmo now delta s with h1 | ⟨hp, _⟩
    · exact h1
    · omega

/-- A key press leaves the match bookkeeping of the running concrete
session as it is. -/
theorem handleEvent_windowOpen (now : ℚ) (code : Key) :
    matchView (handleEvent now demoRunning (Event.KeyPressed code)) = matchView demoRunning := by
  rw [handleEvent_keyPressed now demoRunning code rfl]
  exact keyPressed_matchView now code demoRunning

/-- Witness of C9: the concrete session after the start key, a shot at
instant 3 and one frame. -/
theorem reachable_ammo_bounds_witness :
    Reachable (tick 4 (handleEvent 3 demoRunning (Event.KeyPressed Key.A))) ∧
      (tick 4 (handleEvent 3 demoRunning (Event.KeyPressed Key.A))).playerAmmo.length ≤ 5 ∧
      0 ≤ (tick 4 (handleEvent 3 demoRunning (Event.KeyPressed Key.A))).enemyAmmo :=
  have hr : Reachable (tick 4 (handleEvent 3 demoRunning (Event.KeyPressed Key.A))) :=
    Reachable.step (Reachable.step demoRunning_reachable (Step.event 3 _ demoRunning rfl rfl))
      (Step.frame 4 _
        ((matchView_fields (handleEvent_windowOpen 3 Key.A)).2.2.2.2.2.2.2.2.2.2)
        ((matchView_fields (handleEvent_windowOpen 3 Key.A)).2.2.2.2.2.1))
  ⟨hr, (reachable_ammo_bounds.1 _ hr).2.1, (reachable_ammo_bounds.1 _ hr).2.2.1⟩

/-! ## Projectile hits -/

theorem abs_baseScale : |(9 / 5 : ℚ)| = 9 / 5 :=
  abs_of_pos (by norm_num)

theorem demoEdge_enemyBounds :
    demoEdge.enemySprites.getGlobalBounds =
      { position := { x := 840, y := 300 }, size := { x := 1152 / 5, y := 1152 / 5 } } := by
  simp [demoEdge, demoRunning, demoStart, initialState, reloadPlayer, handleEvent,
    CharacterSpriteManager.getGlobalBounds, CharacterSpriteManager.getCurrentSprite,
    CharacterSpriteManager.setPosition, CharacterSpriteManager.setFacingDirection,
    CharacterSpriteManager.setScale, CharacterSpriteManager.updateScale,
    CharacterSpriteManager.loadAll, AnimatedSprite.load, demoSheets, groundY, windowWidth,
    abs_baseScale]
  norm_num

theorem demoEdge_enemyHealth : demoEdge.enemyHealth = 100 := by
  simp [demoEdge, demoRunning, demoStart, initialState, reloadPlayer, handleEvent]

theorem demoEdge_bulletTexture :
    demoEdge.bulletTextureWidth = 64 ∧ demoEdge.bulletTextureHeight = 32 := by
  simp [demoEdge, demoRunning, demoStart, initialState, reloadPlayer, handleEvent]

/-- Counterexample of C10 as stated: in the concrete session the enemy stands
at `x = 840` with health 100 and its box reaches `x = 1070.4`; the active
player bullet at `x = 1000` advances by `700 * 0.05` to `x = 1035`, its box
overlaps the box of the enemy, yet the step deals no damage and no hit-stun
and removes the bullet, because `1035 > 1010` takes the out-of-range exit
before the overlap test. -/
theorem out_of_range_bullet_counterexample :
    demoBulletFar.active = true ∧ demoBulletFar.fromPlayer = true ∧
    demoEdge.bullets = [demoBulletFar] ∧ demoEdge.enemyHealth > 0 ∧
    overlap (bulletBounds demoEdge.bulletTextureWidth demoEdge.bulletTextureHeight
      (demoBulletFar.advance (1 / 20)).position) demoEdge.enemySprites.getGlobalBounds = true ∧
    (updateBullets 3 (1 / 20) demoEdge).enemyHealth ≠ max 0 (demoEdge.enemyHealth - 6) ∧
    (updateBullets 3 (1 / 20) demoEdge).enemyHealth = 100 ∧
    (updateBullets 3 (1 / 20) demoEdge).enemyHitStunned = false ∧
    (updateBullets 3 (1 / 20) demoEdge).bullets = [] := by
  have hx : (demoBulletFar.advance (1 / 20)).position.x = 1035 := by
    norm_num [Bullet.advance, demoBulletFar]
  have hy : (demoBulletFar.advance (1 / 20)).position.y = 440 := by
    norm_num [Bullet.advance, demoBulletFar]
  have hov : overlap (bulletBounds demoEdge.bulletTextureWidth demoEdge.bulletTextureHeight
      (demoBulletFar.advance (1 / 20)).position) demoEdge.enemySprites.getGlobalBounds = true := by
    rw [demoEdge_enemyBounds, demoEdge_bulletTexture.1, demoEdge_bulletTexture.2]
    unfold overlap bulletBounds
    rw [decide_eq_true_iff]
    simp only [hx, hy]
    norm_num
  have hb : updateBullet 3 (1 / 20) demoEdge demoBulletFar =
      (demoEdge, (demoBulletFar.advance (1 / 20)).deactivate) := by
    unfold updateBullet
    rw [if_neg (by simp [demoBulletFar]), if_pos (Or.inr (by rw [hx]; norm_num [windowWidth]))]
  have hu : updateBullets 3 (1 / 20) demoEdge = setBullets demoEdge [] := by
    have hbs : demoEdge.bullets = [demoBulletFar] := rfl
    unfold updateBullets
    rw [if_pos (by rw [hbs]; simp), hbs]
    simp only [updateBulletList, hb]
    rfl
  refine ⟨rfl, rfl, rfl, ?_, hov, ?_, ?_, ?_, ?_⟩
  · rw [demoEdge_enemyHealth]
    norm_num
  · rw [hu]
    show demoEdge.enemyHealth ≠ max 0 (demoEdge.enemyHealth - 6)
    rw [demoEdge_enemyHealth]
    norm_num
  · rw [hu]
    exact demoEdge_enemyHealth
  · rw [hu]
    rfl
  · rw [hu]
    rfl

theorem bulletHitPlayer_of_fromPlayer (now : ℚ) (s : GameState) (b : Bullet)
    (h : b.fromPlayer = true) : bulletHitPlayer now s b = (s, b) := by
  unfold bulletHitPlayer
  rw [if_neg (by simp [h])]

theorem bulletHitEnemy_of_not_fromPlayer (now : ℚ) (s : GameState) (b : Bullet)
    (h : b.fromPlayer = false) : bulletHitEnemy now s b = (s, b) := by
  unfold bulletHitEnemy
  rw [if_neg (by simp [h])]

theorem updateBullet_of_inRange (now delta : ℚ) (s : GameState) (b : Bullet)
    (ha : b.active = true)
    (hr : -50 ≤ (b.advance delta).position.x ∧ (b.advance delta).position.x ≤ 1010) :
    updateBullet now delta s b =
      bulletHitPlayer now (bulletHitEnemy now s (b.advance delta)).1
        (bulletHitEnemy now s (b.advance delta)).2 := by
  have h2 : ¬ ((b.advance delta).position.x < -50 ∨
      (b.advance delta).position.x > windowWidth + 50) := by
    unfold windowWidth
    rintro (h | h)
    · linarith [hr.1]
    · linarith [hr.2]
  unfold updateBullet
  rw [if_neg (by simp [ha]), if_neg h2]

theorem bulletHitEnemy_fromPlayer (now : ℚ) (s : GameState) (b : Bullet) :
    (bulletHitEnemy now s b).2.fromPlayer = b.fromPlayer := by
  unfold bulletHitEnemy
  split_ifs <;> rfl

theorem updateBullet_of_player_bullet (now delta : ℚ) (s : GameState) (b : Bullet)
    (ha : b.active = true)
    (hr : -50 ≤ (b.advance delta).position.x ∧ (b.advance delta).position.x ≤ 1010)
    (hf : b.fromPlayer = true) :
    updateBullet now delta s b = bulletHitEnemy now s (b.advance delta) := by
  rw [updateBullet_of_inRange now delta s b ha hr]
  exact bulletHitPlayer_of_fromPlayer now _ _
    ((bulletHitEnemy_fromPlayer now s (b.advance delta)).trans hf)

theorem updateBullet_of_enemy_bullet (now delta : ℚ) (s : GameState) (b : Bullet)
    (ha : b.active = true)
    (hr : -50 ≤ (b.advance delta).position.x ∧ (b.advance delta).position.x ≤ 1010)
    (hf : b.fromPlayer = false) :
    updateBullet now delta s b = bulletHitPlayer now s (b.advance delta) := by
  have hf2 : (b.advance delta).fromPlayer = false := hf
  rw [updateBullet_of_inRange now delta s b ha hr,
    bulletHitEnemy_of_not_fromPlayer now s _ hf2]

/-- The amended C10 (the out-of-range exit taken into account): in the
bullet loop, an active player bullet whose advanced position has `x` in
`[-50, 1010]` and whose advanced box overlaps the bounds of an enemy with
health above 0 sets the enemy health to `max(0, h - 6)`, sets the enemy
hit-stun flag, puts the enemy in `Hurt` and is deactivated; an active enemy
bullet with advanced `x` in `[-50, 1010]` overlapping a player with health
above 0 does the same to the player with damage 5; and any bullet that does
not overlap its target, or whose target has health at most 0, changes
neither health value. -/
theorem bullet_hit (now delta : ℚ) (s : GameState) (b : Bullet) :
    (b.active = true →
      (-50 ≤ (b.advance delta).position.x ∧ (b.advance delta).position.x ≤ 1010) →
      b.fromPlayer = true → s.enemyHealth > 0 →
      overlap (bulletBounds s.bulletTextureWidth s.bulletTextureHeight
        (b.advance delta).position) s.enemySprites.getGlobalBounds = true →
      (updateBullet now delta s b).1.enemyHealth = max 0 (s.enemyHealth - 6) ∧
      (updateBullet now delta s b).1.enemyHitStunned = true ∧
      (updateBullet now delta s b).1.enemySprites.currentState = SpriteState.Hurt ∧
      (updateBullet now delta s b).2.active = false) ∧
    (b.active = true →
      (-50 ≤ (b.advance delta).position.x ∧ (b.advance delta).position.x ≤ 1010) →
      b.fromPlayer = false → s.playerHealth > 0 →
      overlap (bulletBounds s.bulletTextureWidth s.bulletTextureHeight
        (b.advance delta).position) s.playerSprites.getGlobalBounds = true →
      (updateBullet now delta s b).1.playerHealth = max 0 (s.playerHealth - 5) ∧
      (updateBullet now delta s b).1.playerHitStunned = true ∧
      (updateBullet now delta s b).1.playerSprites.currentState = SpriteState.Hurt ∧
      (updateBullet now delta s b).2.active = false) ∧
    ((b.fromPlayer = true →
        overlap (bulletBounds s.bulletTextureWidth s.bulletTextureHeight
          (b.advance delta).position) s.enemySprites.getGlobalBounds = false ∨
        s.enemyHealth ≤ 0) →
      (b.fromPlayer = false →
        overlap (bulletBounds s.bulletTextureWidth s.bulletTextureHeight
          (b.advance delta).position) s.playerSprites.getGlobalBounds = false ∨
        s.playerHealth ≤ 0) →
      (updateBullet now delta s b).1.playerHealth = s.playerHealth ∧
      (updateBullet now delta s b).1.enemyHealth = s.enemyHealth) := by
  refine ⟨?_, ?_, ?_⟩
  · intro ha hr hf he hov
    have hf2 : (b.advance delta).fromPlayer = true := hf
    rw [updateBullet_of_player_bullet now delta s b ha hr hf]
    unfold bulletHitEnemy
    rw [if_pos ⟨hf2, he⟩, if_pos hov]
    exact ⟨rfl, rfl, changeState_currentState _ _ _ _, rfl⟩
  · intro ha hr hf hp hov
    have hf2 : (b.advance delta).fromPlayer = false := hf
    rw [updateBullet_of_enemy_bullet now delta s b ha hr hf]
    unfold bulletHitPlayer
    rw [if_pos ⟨by simp [hf2], hp⟩, if_pos hov]
    exact ⟨rfl, rfl, changeState_currentState _ _ _ _, rfl⟩
  · intro h1 h2
    have hsame : (updateBullet now delta s b).1 = s ∨
        (updateBullet now delta s b).1 = (bulletHitPlayer now
          (bulletHitEnemy now s (b.advance delta)).1
          (bulletHitEnemy now s (b.advance delta)).2).1 := by
      unfold updateBullet
      split_ifs
      · exact Or.inl rfl
      · exact Or.inr rfl
      · exact Or.inl rfl
    rcases hsame with hs | hs
    · rw [hs]
      exact ⟨rfl, rfl⟩
    · rw [hs]
      cases hf : b.fromPlayer
      · have hf2 : (b.advance delta).fromPlayer = false := hf
        rw [bulletHitEnemy_of_not_fromPlayer now s _ hf2]
        unfold bulletHitPlayer
        rcases h2 hf with hno | hdead
        · split_ifs with c1 c2
          · exact absurd c2 (by simp [hno])
          · exact ⟨rfl, rfl⟩
          · exact ⟨rfl, rfl⟩
        · rw [if_neg (fun c => absurd c.2 (not_lt.mpr hdead))]
          exact ⟨rfl, rfl⟩
      · have hf2 : (b.advance delta).fromPlayer = true := hf
        have hskip : bulletHitEnemy now s (b.advance delta) = (s, b.advance delta) := by
          unfold bulletHitEnemy
          rcases h1 hf with hno | hdead
          · split_ifs with c1 c2
            · exact absurd c2 (by simp [hno])
            · rfl
            · rfl
          · rw [if_neg (fun c => absurd c.2 (not_lt.mpr hdead))]
        rw [hskip, bulletHitPlayer_of_fromPlayer now s _ hf2]
        exact ⟨rfl, rfl⟩

/-- Witness of the amended C10: in the concrete session the player bullet at
`x = 900` advances to `x = 935`, inside the box of the enemy, and takes 6
from the enemy health. -/
theorem bullet_hit_witness :
    (demoBulletNear.active = true ∧
      (-50 ≤ (demoBulletNear.advance (1 / 20)).position.x ∧
        (demoBulletNear.advance (1 / 20)).position.x ≤ 1010) ∧
      demoBulletNear.fromPlayer = true ∧ demoEdge.enemyHealth > 0 ∧
      overlap (bulletBounds demoEdge.bulletTextureWidth demoEdge.bulletTextureHeight
        (demoBulletNear.advance (1 / 20)).position)
        demoEdge.enemySprites.getGlobalBounds = true) ∧
    (updateBullet 3 (1 / 20) demoEdge demoBulletNear).1.enemyHealth = 94 := by
  have hx : (demoBulletNear.advance (1 / 20)).position.x = 935 := by
    norm_num [Bullet.advance, demoBulletNear]
  have hy : (demoBulletNear.advance (1 / 20)).position.y = 440 := by
    norm_num [Bullet.advance, demoBulletNear]
  have hr : -50 ≤ (demoBulletNear.advance (1 / 20)).position.x ∧
      (demoBulletNear.advance (1 / 20)).position.x ≤ 1010 := by
    rw [hx]
    norm_num
  have he : demoEdge.enemyHealth > 0 := by
    rw [demoEdge_enemyHealth]
    norm_num
  have hov : overlap (bulletBounds demoEdge.bulletTextureWidth demoEdge.bulletTextureHeight
      (demoBulletNear.advance (1 / 20)).position)
      demoEdge.enemySprites.getGlobalBounds = true := by
    rw [demoEdge_enemyBounds, demoEdge_bulletTexture.1, demoEdge_bulletTexture.2]
    unfold overlap bulletBounds
    rw [decide_eq_true_iff]
    simp only [hx, hy]
    norm_num
  refine ⟨⟨rfl, hr, rfl, he, hov⟩, ?_⟩
  rw [((bullet_hit 3 (1 / 20) demoEdge demoBulletNear).1 rfl hr rfl he hov).1,
    demoEdge_enemyHealth]
  norm_num

/-! ## Helpers for the later claims -/

/-- Equality of two animation states is equality of their indices: this
lets the simplifier settle the state tests of a concrete frame. -/
theorem SpriteState.eq_iff_idx (a b : SpriteState) :
    (a = b) = (a.toCtorIdx = b.toCtorIdx) := by
  cases a <;> cases b <;> simp [SpriteState.toCtorIdx]

@[simp] theorem playerMove_playerBodyView (delta : ℚ) (s : GameState) :
    playerBodyView (playerMove delta s) = playerBodyView s := by
  simp [playerMove, playerBodyView]

@[simp] theorem enemyMove_enemyBodyView (delta : ℚ) (s : GameState) :
    enemyBodyView (enemyMove delta s) = enemyBodyView s := by
  simp [enemyMove, enemyBodyView]

/-! ## Animation state machine -/

/-- What `changeState` does to the state, the previous state, the clock and
the duration. -/
theorem changeState_fields (m : CharacterSpriteManager) (now : ℚ) (newState : SpriteState)
    (d : ℚ) (h : newState ≠ m.currentState) :
    (m.changeState now newState d).currentState = newState ∧
    (m.changeState now newState d).previousState =
      (if m.actionDuration ≤ 0 then m.currentState else m.previousState) ∧
    (m.changeState now newState d).actionClock = now ∧
    (m.changeState now newState d).actionDuration = d := by
  unfold CharacterSpriteManager.changeState
  rw [if_pos h]
  exact ⟨rfl, rfl, rfl, rfl⟩

/-- A call of `changeState` with the current state changes nothing. -/
theorem changeState_same (m : CharacterSpriteManager) (now : ℚ) (newState : SpriteState)
    (d : ℚ) (h : newState = m.currentState) : m.changeState now newState d = m := by
  unfold CharacterSpriteManager.changeState
  rw [if_neg (not_not.mpr h)]

/-- Before the current duration has elapsed `update` keeps the state, the
previous state, the clock and the duration. -/
theorem update_of_running (m : CharacterSpriteManager) (now delta : ℚ)
    (h : now - m.actionClock < m.actionDuration) :
    (m.update now delta).currentState = m.currentState ∧
    (m.update now delta).previousState = m.previousState ∧
    (m.update now delta).actionClock = m.actionClock ∧
    (m.update now delta).actionDuration = m.actionDuration := by
  have h0 : ¬ ((m.advanceSheets delta).actionDuration > 0 ∧
      now - (m.advanceSheets delta).actionClock ≥ (m.advanceSheets delta).actionDuration) := by
    intro hc
    exact absurd h (not_lt.mpr hc.2)
  unfold CharacterSpriteManager.update CharacterSpriteManager.revertOneShot
  rw [if_neg h0]
  exact ⟨rfl, rfl, rfl, rfl⟩

/-- At or after the end of a positive duration `update` returns to the
previous state and clears the duration. -/
theorem update_of_expired (m : CharacterSpriteManager) (now delta : ℚ)
    (hd : 0 < m.actionDuration) (h : now - m.actionClock ≥ m.actionDuration) :
    (m.update now delta).currentState = m.previousState ∧
    (m.update now delta).actionDuration = 0 := by
  have h0 : (m.advanceSheets delta).actionDuration > 0 ∧
      now - (m.advanceSheets delta).actionClock ≥ (m.advanceSheets delta).actionDuration :=
    ⟨hd, h⟩
  unfold CharacterSpriteManager.update CharacterSpriteManager.revertOneShot
  rw [if_pos h0]
  refine ⟨?_, rfl⟩
  show ((m.advanceSheets delta).changeState now (m.advanceSheets delta).previousState
    0).currentState = m.previousState
  rw [changeState_currentState]
  rfl

/-- Along a run of one-shots entered from the state `P`, the previous state
stays `P` and the duration stays positive. -/
theorem OneShotRun.inv {P : SpriteState} {m : CharacterSpriteManager} (h : OneShotRun P m) :
    m.previousState = P ∧ 0 < m.actionDuration := by
  induction h with
  | enter m now X d hdur hcur _ hne hd =>
    have hx : X ≠ m.currentState := by rw [hcur]; exact hne
    obtain ⟨_, h2, _, h4⟩ := changeState_fields m now X d hx
    rw [h2, h4, if_pos hdur]
    exact ⟨hcur, hd⟩
  | again m now Y d _ _ hd ih =>
    by_cases hy : Y = m.currentState
    · rw [changeState_same m now Y d hy]
      exact ih
    · obtain ⟨_, h2, _, h4⟩ := changeState_fields m now Y d hy
      rw [h2, h4, if_neg (not_le.mpr ih.2)]
      exact ⟨ih.1, hd⟩
  | wait m now delta _ hlt ih =>
    obtain ⟨_, h2, _, h4⟩ := update_of_running m now delta hlt
    rw [h2, h4]
    exact ih

/-- C12: after a one-shot has been entered by `changeState` from a state `P`
held with `actionDuration <= 0`, and only entries into one-shots with a
positive duration and calls of `update` before expiry have followed, a call
of `update` made while the action clock is below the current duration leaves
`currentState` unchanged, and a call made at or after expiry sets
`currentState` to `P` and `actionDuration` to 0. -/
theorem one_shot_reverts (P : SpriteState) (m : CharacterSpriteManager) (now delta : ℚ)
    (h : OneShotRun P m) :
    (now - m.actionClock < m.actionDuration →
      (m.update now delta).currentState = m.currentState) ∧
    (now - m.actionClock ≥ m.actionDuration →
      (m.update now delta).currentState = P ∧ (m.update now delta).actionDuration = 0) := by
  constructor
  · intro hlt
    exact (update_of_running m now delta hlt).1
  · intro hge
    have hi := h.inv
    have hu := update_of_expired m now delta hi.2 hge
    rw [hi.1] at hu
    exact hu

theorem shotThenHurt_run : OneShotRun SpriteState.Idle shotThenHurt := by
  refine OneShotRun.again _ _ _ _ (OneShotRun.wait _ _ _
    (OneShotRun.enter _ 6 SpriteState.Shot shootCooldownTime ?_ rfl rfl (by decide) ?_) ?_) rfl ?_
  · norm_num [spritesAt]
  · norm_num [shootCooldownTime]
  · norm_num [spritesAt, shootCooldownTime, CharacterSpriteManager.changeState,
      CharacterSpriteManager.updateScale, SpriteState.eq_iff_idx, SpriteState.toCtorIdx]
  · norm_num [hitStunDuration]

theorem shotThenHurt_clock :
    shotThenHurt.actionClock = 31 / 5 ∧ shotThenHurt.actionDuration = 1 / 2 ∧
    shotThenHurt.currentState = SpriteState.Hurt := by
  norm_num [shotThenHurt, spritesAt, shootCooldownTime, hitStunDuration,
    CharacterSpriteManager.changeState, CharacterSpriteManager.update,
    CharacterSpriteManager.revertOneShot, CharacterSpriteManager.advanceSheets,
    CharacterSpriteManager.updateScale, SpriteState.eq_iff_idx, SpriteState.toCtorIdx]

/-- Witness of C12: the player sprites of `arena` after a shot at instant 6, an
update at instant 6.1 and a hit at instant 6.2 stay in `Hurt` at instant 6.5
and are back in `Idle` with duration 0 at instant 6.7. -/
theorem one_shot_reverts_witness :
    OneShotRun SpriteState.Idle shotThenHurt ∧
    (shotThenHurt.update (13 / 2) (1 / 100)).currentState = SpriteState.Hurt ∧
    (shotThenHurt.update (67 / 10) (1 / 100)).currentState = SpriteState.Idle ∧
    (shotThenHurt.update (67 / 10) (1 / 100)).actionDuration = 0 := by
  have h1 := (one_shot_reverts SpriteState.Idle shotThenHurt (13 / 2) (1 / 100)
    shotThenHurt_run).1
  have h2 := (one_shot_reverts SpriteState.Idle shotThenHurt (67 / 10) (1 / 100)
    shotThenHurt_run).2
  obtain ⟨c1, c2, c3⟩ := shotThenHurt_clock
  rw [c1, c2] at h1 h2
  rw [c3] at h1
  exact ⟨shotThenHurt_run, h1 (by norm_num), (h2 (by norm_num)).1, (h2 (by norm_num)).2⟩

/-! ## Damage of the enemy hits -/

/-- The hit branch of `bulletHitPlayer` is `projectileHitsPlayer`. -/
theorem bulletHitPlayer_of_hit (now : ℚ) (s : GameState) (b : Bullet)
    (hb : b.fromPlayer = false) (hh : s.playerHealth > 0)
    (ho : overlap (bulletBounds s.bulletTextureWidth s.bulletTextureHeight b.position)
      s.playerSprites.getGlobalBounds) :
    (bulletHitPlayer now s b).1 = projectileHitsPlayer now s := by
  unfold bulletHitPlayer
  rw [if_pos ⟨by simp [hb], hh⟩, if_pos ho]
  rfl

theorem roundTally_of_matchView {s s' : GameState} (hv : matchView s' = matchView s)
    (h : RoundTally s) : RoundTally s' := by
  obtain ⟨h1, h2, _, _, h5, _, h7, _⟩ := matchView_fields hv
  unfold RoundTally
  rw [h1, h2, h5, h7]
  exact h

theorem handleEvent_roundTally (now : ℚ) (s : GameState) (e : Event) (h : RoundTally s) :
    RoundTally (handleEvent now s e) := by
  cases e with
  | Closed => exact h
  | Other => exact h
  | KeyPressed code =>
    dsimp only [handleEvent]
    split_ifs
    · exact h
    · exact h
    · exact roundTally_of_matchView (keyPressed_matchView now code s) h
  | KeyReleased code =>
    dsimp only [handleEvent]
    split_ifs
    · exact h
    · exact roundTally_of_matchView (keyReleased_matchView code s) h

theorem noteOutcome_roundTally (now : ℚ) (s : GameState) (h : RoundTally s) :
    RoundTally (noteOutcome now s) := by
  obtain ⟨h1, h2, h3, h4⟩ := h
  unfold noteOutcome
  split_ifs
  · refine ⟨h1, h2, ?_, ?_⟩
    · show s.currentRound ≤ s.playerWins + 1 + s.enemyWins + 1
      omega
    · intro _
      show s.currentRound ≤ s.playerWins + 1 + s.enemyWins
      omega
  · refine ⟨h1, h2, ?_, ?_⟩
    · show s.currentRound ≤ s.playerWins + (s.enemyWins + 1) + 1
      omega
    · intro _
      show s.currentRound ≤ s.playerWins + (s.enemyWins + 1)
      omega
  · exact ⟨h1, h2, h3, h4⟩

/-- The round end handling keeps the round number within 1 and 3: with the
round ended the number is at most the sum of the tallies, so when no tally
has reached 2 it is at most 2 and the incremented number does not exceed
`maxRounds`. -/
theorem roundEndHandling_roundTally (now : ℚ) (s : GameState) (h : RoundTally s) :
    RoundTally (roundEndHandling now s) := by
  obtain ⟨h1, h2, h3, h4⟩ := h
  unfold roundEndHandling
  split_ifs with c1 c2 c3 c4
  · exact ⟨h1, h2, h3, h4⟩
  · exfalso
    have h5 := h4 c1
    have c5 : s.currentRound + 1 > maxRounds := c4
    unfold maxRounds at c5
    omega
  · have h5 := h4 c1
    have c5 : ¬ (s.currentRound + 1 > maxRounds) := c4
    unfold maxRounds at c5
    refine ⟨?_, ?_, ?_, ?_⟩
    · show 1 ≤ s.currentRound + 1
      omega
    · show s.currentRound + 1 ≤ 3
      omega
    · show s.currentRound + 1 ≤ s.playerWins + s.enemyWins + 1
      omega
    · intro hc
      exact absurd hc (by simp [resetRound, resetEnemyAmmo, resetSprites, resetFighters,
        reloadPlayer, nextRound])
  · exact ⟨h1, h2, h3, h4⟩
  · exact ⟨h1, h2, h3, h4⟩

theorem tick_roundTally (now : ℚ) (s : GameState) (h : RoundTally s) :
    RoundTally (tick now s) := by
  unfold tick
  split_ifs
  · exact roundTally_of_matchView (frameStart_matchView now s) h
  · apply roundEndHandling_roundTally
    unfold roundOutcome
    apply roundTally_of_matchView (clearIntents_matchView _)
    apply noteOutcome_roundTally
    exact roundTally_of_matchView (beforeOutcome_matchView now s) h

theorem reachable_roundTally (s : GameState) (h : Reachable s) : RoundTally s := by
  refine Reachable.invariant RoundTally ?_ ?_ ?_ s h
  · intro ps es bw bh hist da db t0
    refine ⟨?_, ?_, ?_, ?_⟩
    · show (1 : Int) ≤ 1
      omega
    · show (1 : Int) ≤ 3
      omega
    · show (1 : Int) ≤ 0 + 0 + 1
      omega
    · intro hc
      exact absurd hc (by simp [initialState, reloadPlayer])
  · intro now s e _ hs
    exact handleEvent_roundTally now s e hs
  · intro now s _ hs
    exact tick_roundTally now s hs

/-- C15: in every state reachable from the initial state by events and frame
bodies, the states in which the frame loop has exited because the match
ended included, `1 <= currentRound <= 3`. -/
theorem reachable_round_bounds (s : GameState) (h : Reachable s) :
    1 ≤ s.currentRound ∧ s.currentRound ≤ 3 :=
  ⟨(reachable_roundTally s h).1, (reachable_roundTally s h).2.1⟩

set_option maxHeartbeats 16000000 in
/-- The loop is running in every state of the run but the last, which has
left it. -/
theorem exitRun_running :
    ((tick 62 demoRunning).windowOpen = true ∧ (tick 62 demoRunning).gameEnded = false) ∧
    ((tick 65 (tick 62 demoRunning)).windowOpen = true ∧
      (tick 65 (tick 62 demoRunning)).gameEnded = false) ∧
    ((tick 127 (tick 65 (tick 62 demoRunning))).windowOpen = true ∧
      (tick 127 (tick 65 (tick 62 demoRunning))).gameEnded = false) ∧
    exitRun.gameEnded = true := by
  norm_num [exitRun, demoRunning, demoStart, demoSheets, initialState,
    CharacterSpriteManager.loadAll, AnimatedSprite.load, CharacterSpriteManager.setScale,
    SpriteState.eq_iff_idx, SpriteState.toCtorIdx, abs_of_nonneg, abs_of_neg,
    kStageDurationSeconds, kMaxAmmo, kFrameTime, windowWidth, groundY, playerSpeed, enemySpeed,
    jumpStrength, gravity, enemyFireCooldown, enemyAttackCooldown, enemyReloadTime,
    attackCooldownTime, shootCooldownTime, maxRounds, roundEndDisplayTime, hitStunDuration,
    AnimatedSprite.update, CharacterSpriteManager.updateScale,
    CharacterSpriteManager.setFacingDirection, CharacterSpriteManager.setPosition,
    CharacterSpriteManager.canChangeState, CharacterSpriteManager.changeState,
    CharacterSpriteManager.advanceSheets, CharacterSpriteManager.clearDuration,
    CharacterSpriteManager.revertOneShot, CharacterSpriteManager.update,
    CharacterSpriteManager.resetDead, CharacterSpriteManager.getCurrentSprite,
    CharacterSpriteManager.getGlobalBounds, bulletBounds, overlap, clamp, truncToInt, fullAmmo,
    reloadPlayer, playerBullet, jumpKey, fireAccepted, fireKey, meleeAccepted, meleeSwing,
    meleeHit, meleeDone, meleeKey, keyPressed, keyReleased, handleEvent, updatePlayerHitStun,
    updateEnemyHitStun, updateHitStun, playerMotionX, canJumpOver, playerMove, playerFacing,
    playerKeepJump, playerFall, playerLand, playerAirborne, playerRest, playerToGround,
    playerGroundedFall, playerGroundedSprite, playerGrounded, playerVertical, playerSnap,
    playerPlaceSprite, playerGroundSnap, bulletHitEnemy, bulletHitPlayer, Bullet.advance,
    Bullet.deactivate, updateBullet, updateBulletList, setBullets, updateBullets,
    enemyStartReload, enemyFinishReload, enemyReload, enemySense, enemyChooseDirection,
    enemyPolicyJump, restartDecisionClock, enemyDecision, enemyMotionX, minEnemyX, enemyMove,
    enemyKeepJump, enemyFall, enemyLand, enemyAirborne, enemyRest, enemyToGround,
    enemyGroundedFall, enemyGroundedSprite, enemyGrounded, enemyVertical, enemyShouldFaceLeft,
    enemyFace, enemySnap, enemyPlaceSprite, enemyFacing, enemyMelee, enemyBullet, enemyShoot,
    enemyAttack, timeLeft, playerDeath, enemyDeath, deadSheetStep,
    CharacterSpriteManager.setDead, playerDeadAnimation, enemyDeadAnimation, deadAnimation,
    playerWon, playerLost, noteOutcome, clearIntents, roundOutcome, resetFighters, resetSprites,
    resetEnemyAmmo, resetRound, endGame, nextRound, roundEndHandling, frameStart, playerPhase,
    enemyPhase, simulate, beforeOutcome, tick]

theorem exitRun_reachable : Reachable exitRun := by
  obtain ⟨h1, h2, h3, _⟩ := exitRun_running
  have r1 : Reachable (tick 62 demoRunning) :=
    Reachable.step demoRunning_reachable (Step.frame _ _ rfl rfl)
  have r2 : Reachable (tick 65 (tick 62 demoRunning)) :=
    Reachable.step r1 (Step.frame _ _ h1.1 h1.2)
  have r3 : Reachable (tick 127 (tick 65 (tick 62 demoRunning))) :=
    Reachable.step r2 (Step.frame _ _ h2.1 h2.2)
  exact Reachable.step r3 (Step.frame _ _ h3.1 h3.2)

/-- Witness of C15: the concrete session run to the end of the match. -/
theorem reachable_round_bounds_witness :
    Reachable exitRun ∧ exitRun.gameEnded = true ∧
    (1 ≤ exitRun.currentRound ∧ exitRun.currentRound ≤ 3) :=
  ⟨exitRun_reachable, exitRun_running.2.2.2, reachable_round_bounds exitRun exitRun_reachable⟩

/-! ## Ground snap -/

theorem playerAtRest_of {s s' : GameState} (hv : playerBodyView s' = playerBodyView s)
    (hh : 0 < s'.playerHealth → 0 < s.playerHealth) (h : PlayerAtRest s) : PlayerAtRest s' := by
  have h1 : s'.playerPosition.y = s.playerPosition.y := congrArg Prod.fst hv
  have h2 : s'.playerVerticalVelocity = s.playerVerticalVelocity :=
    congrArg (fun v => v.2.1) hv
  have h3 : s'.playerJumping = s.playerJumping := congrArg (fun v => v.2.2) hv
  intro ha hj
  rw [h1, h2]
  exact h (hh ha) (h3 ▸ hj)

theorem enemyAtRest_of {s s' : GameState} (hv : enemyBodyView s' = enemyBodyView s)
    (hh : 0 < s'.enemyHealth → 0 < s.enemyHealth) (h : EnemyAtRest s) : EnemyAtRest s' := by
  have h1 : s'.enemyPosition.y = s.enemyPosition.y := congrArg Prod.fst hv
  have h2 : s'.enemyVerticalVelocity = s.enemyVerticalVelocity :=
    congrArg (fun v => v.2.1) hv
  have h3 : s'.enemyJumping = s.enemyJumping := congrArg (fun v => v.2.2) hv
  intro ha hj
  rw [h1, h2]
  exact h (hh ha) (h3 ▸ hj)

theorem playerHealth_of_view {s s' : GameState} (hv : healthView s' = healthView s) :
    s'.playerHealth = s.playerHealth := congrArg Prod.fst hv

theorem enemyHealth_of_view {s s' : GameState} (hv : healthView s' = healthView s) :
    s'.enemyHealth = s.enemyHealth := congrArg Prod.snd hv

/-- The final ground snap of the player (lines 769-772). -/
theorem playerSnap_atRest (s : GameState) : PlayerAtRest (playerSnap s) := by
  unfold playerSnap
  split_ifs with c
  · intro _ _
    exact ⟨rfl, rfl⟩
  · intro ha hj
    exact absurd ⟨by simp [hj], ha⟩ c

/-- The final ground snap of the enemy (lines 1010-1013). -/
theorem enemySnap_atRest (s : GameState) : EnemyAtRest (enemySnap s) := by
  unfold enemySnap
  split_ifs with c
  · intro _ _
    exact ⟨rfl, rfl⟩
  · intro ha hj
    exact absurd ⟨by simp [hj], ha⟩ c

theorem playerPhase_atRest (now delta : ℚ) (s : GameState) :
    PlayerAtRest (playerPhase now delta s) := by
  unfold playerPhase playerGroundSnap
  exact playerAtRest_of (playerPlaceSprite_playerBodyView _)
    (fun h => (playerHealth_of_view (playerPlaceSprite_healthView _)) ▸ h) (playerSnap_atRest _)

theorem damage_pos (h k : ℚ) (hk : 0 ≤ k) (hp : 0 < max 0 (h - k)) : 0 < h := by
  rcases lt_max_iff.mp hp with h1 | h1
  · exact absurd h1 (lt_irrefl _)
  · linarith

theorem bulletHitEnemy_playerHealth (now : ℚ) (s : GameState) (b : Bullet) :
    (bulletHitEnemy now s b).1.playerHealth = s.playerHealth := by
  unfold bulletHitEnemy
  split_ifs <;> rfl

theorem bulletHitPlayer_alive (now : ℚ) (s : GameState) (b : Bullet)
    (h : 0 < (bulletHitPlayer now s b).1.playerHealth) : 0 < s.playerHealth := by
  unfold bulletHitPlayer at h
  split_ifs at h
  · exact damage_pos s.playerHealth 5 (by norm_num) h
  · exact h
  · exact h

theorem updateBullet_alive (now delta : ℚ) (s : GameState) (b : Bullet)
    (h : 0 < (updateBullet now delta s b).1.playerHealth) : 0 < s.playerHealth := by
  unfold updateBullet at h
  split_ifs at h
  all_goals first
    | exact h
    | (have h2 := bulletHitPlayer_alive now _ _ h
       rw [bulletHitEnemy_playerHealth] at h2
       exact h2)

theorem updateBulletList_alive (now delta : ℚ) (bs : List Bullet) (s : GameState)
    (h : 0 < (updateBulletList now delta s bs).1.playerHealth) : 0 < s.playerHealth := by
  induction bs generalizing s with
  | nil => exact h
  | cons b bs ih => exact updateBullet_alive now delta s b (ih _ h)

theorem updateBullets_alive (now delta : ℚ) (s : GameState)
    (h : 0 < (updateBullets now delta s).playerHealth) : 0 < s.playerHealth := by
  unfold updateBullets at h
  split_ifs at h
  · rw [playerHealth_of_view (setBullets_healthView _ _)] at h
    exact updateBulletList_alive now delta s.bullets s h
  · exact h

theorem enemyAttack_alive (now : ℚ) (sense : EnemySense) (s : GameState)
    (h : 0 < (enemyAttack now sense s).playerHealth) : 0 < s.playerHealth := by
  unfold enemyAttack at h
  split_ifs at h
  · exact damage_pos s.playerHealth 7 (by norm_num) h
  · rw [playerHealth_of_view (enemyShoot_healthView now s)] at h
    exact h
  · exact h
  · exact h

theorem enemyAttack_enemyHealth (now : ℚ) (sense : EnemySense) (s : GameState) :
    (enemyAttack now sense s).enemyHealth = s.enemyHealth := by
  unfold enemyAttack
  split_ifs
  · rfl
  · rfl
  · rfl
  · rfl

theorem enemyPhase_alive (now delta : ℚ) (s : GameState)
    (h : 0 < (enemyPhase now delta s).playerHealth) : 0 < s.playerHealth := by
  unfold enemyPhase at h
  have h2 := enemyAttack_alive now _ _ h
  have hv : healthView (enemyFacing (enemyVertical now delta
      (enemyMove delta (enemyDecision now (enemySense now s) s)))) = healthView s := by simp
  rw [playerHealth_of_view hv] at h2
  exact h2

/-- Just before the death transitions of a started frame the player is at
rest: the final ground snap of the player part has put it there, and what
follows moves the player no more and only takes health away. -/
theorem beforeDeath_playerAtRest (now : ℚ) (s : GameState) :
    PlayerAtRest (beforeDeath now s) := by
  unfold beforeDeath beforeEnemy
  refine playerAtRest_of (by simp) ?_ (playerPhase_atRest now (now - s.deltaClock)
    (frameStart now s))
  intro h
  have h1 := enemyPhase_alive now _ _ h
  rw [playerHealth_of_view (enemyReload_healthView now _)] at h1
  exact updateBullets_alive now _ _ h1

/-- Just before the death transitions of a started frame the enemy is at
rest: the final ground snap of the enemy part has put it there, and the
enemy attack that follows changes neither its height nor its health. -/
theorem beforeDeath_enemyAtRest (now : ℚ) (s : GameState) :
    EnemyAtRest (beforeDeath now s) := by
  unfold beforeDeath enemyPhase enemyFacing
  refine enemyAtRest_of ?_ ?_ (enemySnap_atRest (enemyFace (enemyVertical now
    (now - s.deltaClock) (enemyMove (now - s.deltaClock)
      (enemyDecision now (enemySense now (beforeEnemy now s)) (beforeEnemy now s))))))
  · rw [enemyAttack_enemyBodyView, enemyPlaceSprite_enemyBodyView]
  · intro h
    rw [enemyAttack_enemyHealth, enemyHealth_of_view (enemyPlaceSprite_healthView _)] at h
    exact h

theorem beforeOutcome_eq (now : ℚ) (s : GameState) :
    beforeOutcome now s = deadAnimation (now - s.deltaClock) (now - s.animationClock)
      (enemyDeath now (playerDeath now (beforeDeath now s))) := rfl

theorem playerDeath_of_not (now : ℚ) (s : GameState) (h : playerDies now s = false) :
    playerDeath now (beforeDeath now s) = beforeDeath now s := by
  unfold playerDies at h
  rw [decide_eq_false_iff_not] at h
  unfold playerDeath
  rw [if_neg h]

theorem enemyDeath_of_not (now : ℚ) (s : GameState) (h : enemyDies now s = false) :
    enemyDeath now (playerDeath now (beforeDeath now s)) =
      playerDeath now (beforeDeath now s) := by
  unfold enemyDies at h
  rw [decide_eq_false_iff_not] at h
  unfold enemyDeath
  rw [if_neg h]

/-- A started frame that does not run the round reset ends in the state
left by the round outcome, possibly with the round number incremented and
the match ended. -/
theorem tick_noReset_cases (now : ℚ) (s : GameState) (hw : s.waitingForStart = false)
    (hr : resetsRound now s = false) :
    tick now s = roundOutcome now (beforeOutcome now s) ∨
    tick now s = endGame (roundOutcome now (beforeOutcome now s)) ∨
    tick now s = endGame (nextRound (roundOutcome now (beforeOutcome now s))) := by
  unfold resetsRound at hr
  unfold tick roundEndHandling
  simp only [hw, Bool.false_eq_true, if_false]
  split_ifs with h1 h2 h3 h4
  · right; left; rfl
  · right; right; rfl
  · exfalso
    simp only [decide_eq_false_iff_not] at hr
    exact hr ⟨hw, h1, h2, h3, h4⟩
  · left; rfl
  · left; rfl

/-- In a started frame without death transition and without round reset, the
height, the vertical velocity, the jumping flags and the health values at
the end of the frame are those found just before the death transitions. -/
theorem tick_body_of_calm (now : ℚ) (s : GameState) (hw : s.waitingForStart = false)
    (hp : playerDies now s = false) (he : enemyDies now s = false)
    (hr : resetsRound now s = false) :
    playerBodyView (tick now s) = playerBodyView (beforeDeath now s) ∧
    enemyBodyView (tick now s) = enemyBodyView (beforeDeath now s) ∧
    healthView (tick now s) = healthView (beforeDeath now s) := by
  have hb : beforeOutcome now s = deadAnimation (now - s.deltaClock) (now - s.animationClock)
      (beforeDeath now s) := by
    rw [beforeOutcome_eq, enemyDeath_of_not now s he, playerDeath_of_not now s hp]
  rcases tick_noReset_cases now s hw hr with h | h | h
  · rw [h, hb]
    simp
  · rw [h, hb]
    simp
  · rw [h, hb]
    simp

/-- C16, amended: at the end of every frame of a started round in which
no death transition fires and the round reset does not run, each fighter
that has health above 0 and is not jumping has `y = groundY` and vertical
velocity 0. -/
theorem grounded_when_not_jumping (now : ℚ) (s : GameState) (hw : s.waitingForStart = false)
    (hp : playerDies now s = false) (he : enemyDies now s = false)
    (hr : resetsRound now s = false) :
    ((tick now s).playerHealth > 0 → (tick now s).playerJumping = false →
      (tick now s).playerPosition.y = groundY ∧ (tick now s).playerVerticalVelocity = 0) ∧
    ((tick now s).enemyHealth > 0 → (tick now s).enemyJumping = false →
      (tick now s).enemyPosition.y = groundY ∧ (tick now s).enemyVerticalVelocity = 0) := by
  obtain ⟨h1, h2, h3⟩ := tick_body_of_calm now s hw hp he hr
  constructor
  · exact playerAtRest_of h1 (fun h => (playerHealth_of_view h3) ▸ h)
      (beforeDeath_playerAtRest now s)
  · exact enemyAtRest_of h2 (fun h => (enemyHealth_of_view h3) ▸ h)
      (beforeDeath_enemyAtRest now s)

set_option maxHeartbeats 8000000 in
/-- The melee key at instant 6 and the frame at instant 6.01 on
`airStrike`: the enemy death transition fires with the player in the air. -/
theorem airStrike_values :
    (handleEvent 6 airStrike (Event.KeyPressed Key.S)).waitingForStart = false ∧
    enemyDies (601 / 100) (handleEvent 6 airStrike (Event.KeyPressed Key.S)) = true ∧
    (tick (601 / 100) (handleEvent 6 airStrike (Event.KeyPressed Key.S))).playerHealth = 100 ∧
    (tick (601 / 100) (handleEvent 6 airStrike (Event.KeyPressed Key.S))).playerJumping =
      false ∧
    (tick (601 / 100) (handleEvent 6 airStrike
      (Event.KeyPressed Key.S))).playerPosition.y = 4862 / 25 ∧
    (tick (601 / 100) (handleEvent 6 airStrike
      (Event.KeyPressed Key.S))).playerVerticalVelocity = -276 := by
  norm_num [airStrike, arena, spritesAt, sheet128, enemyDies, beforeDeath, beforeEnemy,
    SpriteState.eq_iff_idx, SpriteState.toCtorIdx, abs_of_nonneg, abs_of_neg,
    kStageDurationSeconds, kMaxAmmo, kFrameTime, windowWidth, groundY, playerSpeed, enemySpeed,
    jumpStrength, gravity, enemyFireCooldown, enemyAttackCooldown, enemyReloadTime,
    attackCooldownTime, shootCooldownTime, maxRounds, roundEndDisplayTime, hitStunDuration,
    AnimatedSprite.update, CharacterSpriteManager.updateScale,
    CharacterSpriteManager.setFacingDirection, CharacterSpriteManager.setPosition,
    CharacterSpriteManager.canChangeState, CharacterSpriteManager.changeState,
    CharacterSpriteManager.advanceSheets, CharacterSpriteManager.clearDuration,
    CharacterSpriteManager.revertOneShot, CharacterSpriteManager.update,
    CharacterSpriteManager.resetDead, CharacterSpriteManager.getCurrentSprite,
    CharacterSpriteManager.getGlobalBounds, bulletBounds, overlap, clamp, truncToInt, fullAmmo,
    reloadPlayer, playerBullet, jumpKey, fireAccepted, fireKey, meleeAccepted, meleeSwing,
    meleeHit, meleeDone, meleeKey, keyPressed, keyReleased, handleEvent, updatePlayerHitStun,
    updateEnemyHitStun, updateHitStun, playerMotionX, canJumpOver, playerMove, playerFacing,
    playerKeepJump, playerFall, playerLand, playerAirborne, playerRest, playerToGround,
    playerGroundedFall, playerGroundedSprite, playerGrounded, playerVertical, playerSnap,
    playerPlaceSprite, playerGroundSnap, bulletHitEnemy, bulletHitPlayer, Bullet.advance,
    Bullet.deactivate, updateBullet, updateBulletList, setBullets, updateBullets,
    enemyStartReload, enemyFinishReload, enemyReload, enemySense, enemyChooseDirection,
    enemyPolicyJump, restartDecisionClock, enemyDecision, enemyMotionX, minEnemyX, enemyMove,
    enemyKeepJump, enemyFall, enemyLand, enemyAirborne, enemyRest, enemyToGround,
    enemyGroundedFall, enemyGroundedSprite, enemyGrounded, enemyVertical, enemyShouldFaceLeft,
    enemyFace, enemySnap, enemyPlaceSprite, enemyFacing, enemyMelee, enemyBullet, enemyShoot,
    enemyAttack, timeLeft, playerDeath, enemyDeath, deadSheetStep,
    CharacterSpriteManager.setDead, playerDeadAnimation, enemyDeadAnimation, deadAnimation,
    playerWon, playerLost, noteOutcome, clearIntents, roundOutcome, resetFighters, resetSprites,
    resetEnemyAmmo, resetRound, endGame, nextRound, roundEndHandling, frameStart, playerPhase,
    enemyPhase, simulate, beforeOutcome, tick]

/-- Counterexample to C16: the player of `airStrike`, in the air, fells the
enemy with a melee attack; the enemy death transition of the next frame
clears the jumping flag of the player, and the frame ends with the player at
health 100, not jumping, above the ground and with a vertical velocity. -/
theorem airborne_after_kill_counterexample :
    (handleEvent 6 airStrike (Event.KeyPressed Key.S)).waitingForStart = false ∧
    enemyDies (601 / 100) (handleEvent 6 airStrike (Event.KeyPressed Key.S)) = true ∧
    (tick (601 / 100) (handleEvent 6 airStrike (Event.KeyPressed Key.S))).playerHealth > 0 ∧
    (tick (601 / 100) (handleEvent 6 airStrike (Event.KeyPressed Key.S))).playerJumping =
      false ∧
    ¬ ((tick (601 / 100) (handleEvent 6 airStrike
        (Event.KeyPressed Key.S))).playerPosition.y = groundY ∧
      (tick (601 / 100) (handleEvent 6 airStrike
        (Event.KeyPressed Key.S))).playerVerticalVelocity = 0) := by
  obtain ⟨h1, h2, h3, h4, h5, h6⟩ := airStrike_values
  refine ⟨h1, h2, ?_, h4, ?_⟩
  · rw [h3]
    norm_num
  · rw [h5, h6]
    norm_num [groundY]

set_option maxHeartbeats 8000000 in
/-- In the frame at instant 6 on `arena` no death transition fires and the
round reset does not run. -/
theorem arena_calm :
    playerDies 6 arena = false ∧ enemyDies 6 arena = false ∧ resetsRound 6 arena = false := by
  norm_num [arena, spritesAt, sheet128, playerDies, enemyDies, resetsRound, beforeDeath,
    beforeEnemy, SpriteState.eq_iff_idx, SpriteState.toCtorIdx, abs_of_nonneg, abs_of_neg,
    kStageDurationSeconds, kMaxAmmo, kFrameTime, windowWidth, groundY, playerSpeed, enemySpeed,
    jumpStrength, gravity, enemyFireCooldown, enemyAttackCooldown, enemyReloadTime,
    attackCooldownTime, shootCooldownTime, maxRounds, roundEndDisplayTime, hitStunDuration,
    AnimatedSprite.update, CharacterSpriteManager.updateScale,
    CharacterSpriteManager.setFacingDirection, CharacterSpriteManager.setPosition,
    CharacterSpriteManager.canChangeState, CharacterSpriteManager.changeState,
    CharacterSpriteManager.advanceSheets, CharacterSpriteManager.clearDuration,
    CharacterSpriteManager.revertOneShot, CharacterSpriteManager.update,
    CharacterSpriteManager.resetDead, CharacterSpriteManager.getCurrentSprite,
    CharacterSpriteManager.getGlobalBounds, bulletBounds, overlap, clamp, truncToInt, fullAmmo,
    reloadPlayer, playerBullet, jumpKey, fireAccepted, fireKey, meleeAccepted, meleeSwing,
    meleeHit, meleeDone, meleeKey, keyPressed, keyReleased, handleEvent, updatePlayerHitStun,
    updateEnemyHitStun, updateHitStun, playerMotionX, canJumpOver, playerMove, playerFacing,
    playerKeepJump, playerFall, playerLand, playerAirborne, playerRest, playerToGround,
    playerGroundedFall, playerGroundedSprite, playerGrounded, playerVertical, playerSnap,
    playerPlaceSprite, playerGroundSnap, bulletHitEnemy, bulletHitPlayer, Bullet.advance,
    Bullet.deactivate, updateBullet, updateBulletList, setBullets, updateBullets,
    enemyStartReload, enemyFinishReload, enemyReload, enemySense, enemyChooseDirection,
    enemyPolicyJump, restartDecisionClock, enemyDecision, enemyMotionX, minEnemyX, enemyMove,
    enemyKeepJump, enemyFall, enemyLand, enemyAirborne, enemyRest, enemyToGround,
    enemyGroundedFall, enemyGroundedSprite, enemyGrounded, enemyVertical, enemyShouldFaceLeft,
    enemyFace, enemySnap, enemyPlaceSprite, enemyFacing, enemyMelee, enemyBullet, enemyShoot,
    enemyAttack, timeLeft, playerDeath, enemyDeath, deadSheetStep,
    CharacterSpriteManager.setDead, playerDeadAnimation, enemyDeadAnimation, deadAnimation,
    playerWon, playerLost, noteOutcome, clearIntents, roundOutcome, resetFighters, resetSprites,
    resetEnemyAmmo, resetRound, endGame, nextRound, roundEndHandling, frameStart, playerPhase,
    enemyPhase, simulate, beforeOutcome, tick]

/-- Witness of C16: the frame at instant 6 on `arena`. -/
theorem grounded_when_not_jumping_witness :
    arena.waitingForStart = false ∧ playerDies 6 arena = false ∧ enemyDies 6 arena = false ∧
    resetsRound 6 arena = false ∧
    ((tick 6 arena).playerHealth > 0 → (tick 6 arena).playerJumping = false →
      (tick 6 arena).playerPosition.y = groundY ∧ (tick 6 arena).playerVerticalVelocity = 0) ∧
    ((tick 6 arena).enemyHealth > 0 → (tick 6 arena).enemyJumping = false →
      (tick 6 arena).enemyPosition.y = groundY ∧ (tick 6 arena).enemyVerticalVelocity = 0) :=
  ⟨rfl, arena_calm.1, arena_calm.2.1, arena_calm.2.2,
    grounded_when_not_jumping 6 arena rfl arena_calm.1 arena_calm.2.1 arena_calm.2.2⟩

/-! ## Horizontal bounds and enemy projectiles -/

/-- The result of `clamp` lies between its bounds when they are ordered. -/
theorem clamp_bounds (v lo hi : ℚ) (h : lo ≤ hi) :
    lo ≤ clamp v lo hi ∧ clamp v lo hi ≤ hi := by
  unfold clamp
  split_ifs with h1 h2
  · exact ⟨le_refl _, h⟩
  · exact ⟨h, le_refl _⟩
  · exact ⟨not_lt.mp h1, not_lt.mp h2⟩

/-- C17: the player movement step leaves `player.x` in `[40, 900]`; and when
the player has health above 0 and the jump-over condition, evaluated on the
state before the move, is false, it leaves `player.x` in `[40, 420]`. The
step changes nothing else of the state than the player position. -/
theorem player_move_bounds (delta : ℚ) (s : GameState) :
    (40 ≤ (playerMove delta s).playerPosition.x ∧
      (playerMove delta s).playerPosition.x ≤ 900) ∧
    (s.playerHealth > 0 → canJumpOver s = false →
      40 ≤ (playerMove delta s).playerPosition.x ∧
      (playerMove delta s).playerPosition.x ≤ 420) ∧
    (playerMove delta s).playerPosition.y = s.playerPosition.y ∧
    (playerMove delta s).playerHealth = s.playerHealth ∧
    (playerMove delta s).enemyPosition = s.enemyPosition := by
  have hw : clamp (s.playerPosition.x + playerMotionX delta s) 40 (windowWidth - 60) ∈
      Set.Icc (40 : ℚ) 900 := by
    have h := clamp_bounds (s.playerPosition.x + playerMotionX delta s) 40 (windowWidth - 60)
      (by norm_num [windowWidth])
    exact ⟨h.1, le_trans h.2 (by norm_num [windowWidth])⟩
  have hn : clamp (s.playerPosition.x + playerMotionX delta s) 40 (windowWidth / 2 - 60) ∈
      Set.Icc (40 : ℚ) 420 := by
    have h := clamp_bounds (s.playerPosition.x + playerMotionX delta s) 40
      (windowWidth / 2 - 60) (by norm_num [windowWidth])
    exact ⟨h.1, le_trans h.2 (by norm_num [windowWidth])⟩
  refine ⟨?_, ?_, ?_, rfl, rfl⟩
  · show 40 ≤ (if s.playerHealth ≤ 0 then _ else if canJumpOver s = true then _ else _) ∧
      (if s.playerHealth ≤ 0 then _ else if canJumpOver s = true then _ else _) ≤ (900 : ℚ)
    split_ifs
    · exact ⟨hw.1, hw.2⟩
    · exact ⟨hw.1, hw.2⟩
    · exact ⟨hn.1, le_trans hn.2 (by norm_num)⟩
  · intro hh hj
    show 40 ≤ (if s.playerHealth ≤ 0 then _ else if canJumpOver s = true then _ else _) ∧
      (if s.playerHealth ≤ 0 then _ else if canJumpOver s = true then _ else _) ≤ (420 : ℚ)
    rw [if_neg (not_le.mpr hh), if_neg (by simp [hj])]
    exact ⟨hn.1, hn.2⟩
  · show s.playerPosition.y + 0 = s.playerPosition.y
    exact add_zero _

/-- In `arena` the fighters are 590 units apart, so the jump-over condition is
false. -/
theorem arena_canJumpOver : canJumpOver arena = false := by
  simp [canJumpOver, arena]

/-- Witness of C17: the player movement step of a frame of 0.01 s on `arena`. -/
theorem player_move_bounds_witness :
    arena.playerHealth > 0 ∧ canJumpOver arena = false ∧
    40 ≤ (playerMove (1 / 100) arena).playerPosition.x ∧
    (playerMove (1 / 100) arena).playerPosition.x ≤ 420 :=
  ⟨by decide, arena_canJumpOver,
    (player_move_bounds (1 / 100) arena).2.1 (by decide) arena_canJumpOver⟩

/-- C20: the enemy ranged branch, with a bullet texture loaded, appends
exactly one projectile; it is enemy-owned and active, and its velocity is
`(+700, 0)` if `player.x >= enemy.x` and `(-700, 0)` otherwise, so the
horizontal velocity has magnitude 700 and the sign of `player.x - enemy.x`.
The enemy attack step spawns projectiles in no other way. -/
theorem enemy_projectile_velocity (now : ℚ) (sense : EnemySense) (s : GameState)
    (htex : s.bulletTextureWidth > 0 ∧ s.bulletTextureHeight > 0) :
    (∃ b : Bullet, (enemyShoot now s).bullets = s.bullets ++ [b] ∧
      b.fromPlayer = false ∧ b.active = true ∧
      b.velocity = (if s.playerPosition.x ≥ s.enemyPosition.x
        then { x := 700, y := 0 } else { x := -700, y := 0 }) ∧
      |b.velocity.x| = 700 ∧ b.velocity.y = 0 ∧
      0 ≤ b.velocity.x * (s.playerPosition.x - s.enemyPosition.x)) ∧
    ((enemyAttack now sense s).bullets = s.bullets ∨
      (enemyAttack now sense s).bullets = (enemyShoot now s).bullets) := by
  constructor
  · refine ⟨enemyBullet s ((s.enemySprites.setFacingDirection (enemyShouldFaceLeft s)).setPosition
      s.enemyPosition), ?_, rfl, rfl, ?_, ?_, rfl, ?_⟩
    · show (if s.bulletTextureWidth > 0 ∧ s.bulletTextureHeight > 0 then _ else _) = _
      rw [if_pos htex]
    · by_cases h : s.playerPosition.x ≥ s.enemyPosition.x
      · simp [enemyBullet, h]
      · simp [enemyBullet, h]
    · by_cases h : s.playerPosition.x ≥ s.enemyPosition.x
      · simp [enemyBullet, h]
      · simp [enemyBullet, h]
    · by_cases h : s.playerPosition.x ≥ s.enemyPosition.x
      · simp [enemyBullet, h]
      · simp only [enemyBullet, if_neg h]
        nlinarith [not_le.mp h]
  · unfold enemyAttack
    split_ifs
    · left; rfl
    · right; rfl
    · left; rfl
    · left; rfl

/-- Witness of C20: the enemy ranged branch on `arena`, where the player
stands left of the enemy. -/
theorem enemy_projectile_velocity_witness :
    ∃ b : Bullet, (enemyShoot 6 arena).bullets = arena.bullets ++ [b] ∧
      b.fromPlayer = false ∧ b.active = true ∧
      b.velocity = (if arena.playerPosition.x ≥ arena.enemyPosition.x
        then { x := 700, y := 0 } else { x := -700, y := 0 }) ∧
      |b.velocity.x| = 700 ∧ b.velocity.y = 0 ∧
      0 ≤ b.velocity.x * (arena.playerPosition.x - arena.enemyPosition.x) :=
  (enemy_projectile_velocity 6 (enemySense 6 arena) arena ⟨by decide, by decide⟩).1

set_option maxHeartbeats 8000000 in
/-- The loop is still running after the first frame of the run and after
the jump key. -/
theorem overtakeRun_running :
    ((tick (12 / 5) (handleEvent 1 demoRunning (Event.KeyPressed Key.Right))).windowOpen = true ∧
      (tick (12 / 5) (handleEvent 1 demoRunning (Event.KeyPressed Key.Right))).gameEnded =
        false) ∧
    ((handleEvent (12 / 5)
        (tick (12 / 5) (handleEvent 1 demoRunning (Event.KeyPressed Key.Right)))
        (Event.KeyPressed Key.Up)).windowOpen = true ∧
      (handleEvent (12 / 5)
        (tick (12 / 5) (handleEvent 1 demoRunning (Event.KeyPressed Key.Right)))
        (Event.KeyPressed Key.Up)).gameEnded = false) := by
  norm_num [demoRunning, demoStart, demoSheets, initialState,
    CharacterSpriteManager.loadAll, AnimatedSprite.load, CharacterSpriteManager.setScale,
    SpriteState.eq_iff_idx, SpriteState.toCtorIdx, abs_of_nonneg, abs_of_neg,
    kStageDurationSeconds, kMaxAmmo, kFrameTime, windowWidth, groundY, playerSpeed, enemySpeed,
    jumpStrength, gravity, enemyFireCooldown, enemyAttackCooldown, enemyReloadTime,
    attackCooldownTime, shootCooldownTime, maxRounds, roundEndDisplayTime, hitStunDuration,
    AnimatedSprite.update, CharacterSpriteManager.updateScale,
    CharacterSpriteManager.setFacingDirection, CharacterSpriteManager.setPosition,
    CharacterSpriteManager.canChangeState, CharacterSpriteManager.changeState,
    CharacterSpriteManager.advanceSheets, CharacterSpriteManager.clearDuration,
    CharacterSpriteManager.revertOneShot, CharacterSpriteManager.update,
    CharacterSpriteManager.resetDead, CharacterSpriteManager.getCurrentSprite,
    CharacterSpriteManager.getGlobalBounds, bulletBounds, overlap, clamp, truncToInt, fullAmmo,
    reloadPlayer, playerBullet, jumpKey, fireAccepted, fireKey, meleeAccepted, meleeSwing,
    meleeHit, meleeDone, meleeKey, keyPressed, keyReleased, handleEvent, updatePlayerHitStun,
    updateEnemyHitStun, updateHitStun, playerMotionX, canJumpOver, playerMove, playerFacing,
    playerKeepJump, playerFall, playerLand, playerAirborne, playerRest, playerToGround,
    playerGroundedFall, playerGroundedSprite, playerGrounded, playerVertical, playerSnap,
    playerPlaceSprite, playerGroundSnap, bulletHitEnemy, bulletHitPlayer, Bullet.advance,
    Bullet.deactivate, updateBullet, updateBulletList, setBullets, updateBullets,
    enemyStartReload, enemyFinishReload, enemyReload, enemySense, enemyChooseDirection,
    enemyPolicyJump, restartDecisionClock, enemyDecision, enemyMotionX, minEnemyX, enemyMove,
    enemyKeepJump, enemyFall, enemyLand, enemyAirborne, enemyRest, enemyToGround,
    enemyGroundedFall, enemyGroundedSprite, enemyGrounded, enemyVertical, enemyShouldFaceLeft,
    enemyFace, enemySnap, enemyPlaceSprite, enemyFacing, enemyMelee, enemyBullet, enemyShoot,
    enemyAttack, timeLeft, playerDeath, enemyDeath, deadSheetStep,
    CharacterSpriteManager.setDead, playerDeadAnimation, enemyDeadAnimation, deadAnimation,
    playerWon, playerLost, noteOutcome, clearIntents, roundOutcome, resetFighters, resetSprites,
    resetEnemyAmmo, resetRound, endGame, nextRound, roundEndHandling, frameStart, playerPhase,
    enemyPhase, simulate, beforeOutcome, tick]

theorem overtakeRun_reachable : Reachable overtakeRun := by
  have h1 : Reachable (handleEvent 1 demoRunning (Event.KeyPressed Key.Right)) :=
    Reachable.step demoRunning_reachable (Step.event 1 _ demoRunning rfl rfl)
  have h2 : Reachable (tick (12 / 5) (handleEvent 1 demoRunning (Event.KeyPressed Key.Right))) :=
    Reachable.step h1 (Step.frame _ _ rfl rfl)
  have h3 : Reachable (handleEvent (12 / 5)
      (tick (12 / 5) (handleEvent 1 demoRunning (Event.KeyPressed Key.Right)))
      (Event.KeyPressed Key.Up)) :=
    Reachable.step h2 (Step.event _ _ _ overtakeRun_running.1.1 overtakeRun_running.1.2)
  exact Reachable.step h3 (Step.frame _ _ overtakeRun_running.2.1 overtakeRun_running.2.2)

set_option maxHeartbeats 8000000 in
/-- The positions and health values at the end of the run. -/
theorem overtakeRun_values :
    overtakeRun.playerPosition.x = 860 ∧ overtakeRun.playerHealth = 100 ∧
    overtakeRun.enemyHealth = 100 ∧ overtakeRun.enemyPosition.x = 840 := by
  norm_num [overtakeRun, demoRunning, demoStart, demoSheets, initialState,
    CharacterSpriteManager.loadAll, AnimatedSprite.load, CharacterSpriteManager.setScale,
    SpriteState.eq_iff_idx, SpriteState.toCtorIdx, abs_of_nonneg, abs_of_neg,
    kStageDurationSeconds, kMaxAmmo, kFrameTime, windowWidth, groundY, playerSpeed, enemySpeed,
    jumpStrength, gravity, enemyFireCooldown, enemyAttackCooldown, enemyReloadTime,
    attackCooldownTime, shootCooldownTime, maxRounds, roundEndDisplayTime, hitStunDuration,
    AnimatedSprite.update, CharacterSpriteManager.updateScale,
    CharacterSpriteManager.setFacingDirection, CharacterSpriteManager.setPosition,
    CharacterSpriteManager.canChangeState, CharacterSpriteManager.changeState,
    CharacterSpriteManager.advanceSheets, CharacterSpriteManager.clearDuration,
    CharacterSpriteManager.revertOneShot, CharacterSpriteManager.update,
    CharacterSpriteManager.resetDead, CharacterSpriteManager.getCurrentSprite,
    CharacterSpriteManager.getGlobalBounds, bulletBounds, overlap, clamp, truncToInt, fullAmmo,
    reloadPlayer, playerBullet, jumpKey, fireAccepted, fireKey, meleeAccepted, meleeSwing,
    meleeHit, meleeDone, meleeKey, keyPressed, keyReleased, handleEvent, updatePlayerHitStun,
    updateEnemyHitStun, updateHitStun, playerMotionX, canJumpOver, playerMove, playerFacing,
    playerKeepJump, playerFall, playerLand, playerAirborne, playerRest, playerToGround,
    playerGroundedFall, playerGroundedSprite, playerGrounded, playerVertical, playerSnap,
    playerPlaceSprite, playerGroundSnap, bulletHitEnemy, bulletHitPlayer, Bullet.advance,
    Bullet.deactivate, updateBullet, updateBulletList, setBullets, updateBullets,
    enemyStartReload, enemyFinishReload, enemyReload, enemySense, enemyChooseDirection,
    enemyPolicyJump, restartDecisionClock, enemyDecision, enemyMotionX, minEnemyX, enemyMove,
    enemyKeepJump, enemyFall, enemyLand, enemyAirborne, enemyRest, enemyToGround,
    enemyGroundedFall, enemyGroundedSprite, enemyGrounded, enemyVertical, enemyShouldFaceLeft,
    enemyFace, enemySnap, enemyPlaceSprite, enemyFacing, enemyMelee, enemyBullet, enemyShoot,
    enemyAttack, timeLeft, playerDeath, enemyDeath, deadSheetStep,
    CharacterSpriteManager.setDead, playerDeadAnimation, enemyDeadAnimation, deadAnimation,
    playerWon, playerLost, noteOutcome, clearIntents, roundOutcome, resetFighters, resetSprites,
    resetEnemyAmmo, resetRound, endGame, nextRound, roundEndHandling, frameStart, playerPhase,
    enemyPhase, simulate, beforeOutcome, tick]

/-- Counterexample to C18: at the end of a frame of a reachable state both
fighters have health 100 and the player stands at `x = 860`, so that
`player.x + 40 <= enemy.x <= 840` is false. -/
theorem enemy_clamp_counterexample :
    Reachable overtakeRun ∧ overtakeRun.playerHealth > 0 ∧ overtakeRun.enemyHealth > 0 ∧
    ¬ (overtakeRun.playerPosition.x + 40 ≤ overtakeRun.enemyPosition.x ∧
      overtakeRun.enemyPosition.x ≤ windowWidth - 120) := by
  obtain ⟨h1, h2, h3, h4⟩ := overtakeRun_values
  refine ⟨overtakeRun_reachable, ?_, ?_, ?_⟩
  · rw [h2]; norm_num
  · rw [h3]; norm_num
  · rw [h1, h4]; norm_num

/-- C18, amended: the enemy movement step of a frame in which both fighters
have health above 0 and the player stands at `x <= 800` leaves
`player.x + 40 <= enemy.x <= 840`; the step does not move the player. -/
theorem enemy_move_bounds (delta : ℚ) (s : GameState) (he : s.enemyHealth > 0)
    (hp : s.playerHealth > 0) (hx : s.playerPosition.x ≤ 800) :
    s.playerPosition.x + 40 ≤ (enemyMove delta s).enemyPosition.x ∧
    (enemyMove delta s).enemyPosition.x ≤ 840 ∧
    (enemyMove delta s).playerPosition = s.playerPosition := by
  have hm : minEnemyX s = s.playerPosition.x + 40 := by
    unfold minEnemyX
    rw [if_pos ⟨he, hp⟩]
  have hb := clamp_bounds (s.enemyPosition.x + enemyMotionX delta s) (minEnemyX s)
    (windowWidth - 120) (by rw [hm]; norm_num [windowWidth]; linarith)
  rw [hm] at hb
  refine ⟨?_, ?_, rfl⟩
  · show s.playerPosition.x + 40 ≤
      clamp (s.enemyPosition.x + enemyMotionX delta s) (minEnemyX s) (windowWidth - 120)
    rw [hm]
    exact hb.1
  · show clamp (s.enemyPosition.x + enemyMotionX delta s) (minEnemyX s) (windowWidth - 120) ≤ 840
    rw [hm]
    exact le_trans hb.2 (by norm_num [windowWidth])

/-- Witness of C18: the enemy movement step of a frame of 0.01 s on `arena`. -/
theorem enemy_move_bounds_witness :
    arena.enemyHealth > 0 ∧ arena.playerHealth > 0 ∧ arena.playerPosition.x ≤ 800 ∧
    arena.playerPosition.x + 40 ≤ (enemyMove (1 / 100) arena).enemyPosition.x ∧
    (enemyMove (1 / 100) arena).enemyPosition.x ≤ 840 :=
  ⟨by decide, by decide, by decide,
    (enemy_move_bounds (1 / 100) arena (by decide) (by decide) (by decide)).1,
    (enemy_move_bounds (1 / 100) arena (by decide) (by decide) (by decide)).2.1⟩

/-! ## Jumps of dead and hit-stunned fighters -/

set_option maxHeartbeats 8000000 in
/-- The frame at instant 6 takes the player of `lastBlow` to health 0 and
into `Dead`; the jump key pressed next puts the player into `Jump`. -/
theorem lastBlow_values :
    (tick 6 lastBlow).playerHealth = 0 ∧
    (tick 6 lastBlow).playerSprites.currentState = SpriteState.Dead ∧
    (handleEvent (601 / 100) (tick 6 lastBlow)
      (Event.KeyPressed Key.Up)).playerSprites.currentState = SpriteState.Jump := by
  norm_num [lastBlow, arena, spritesAt, sheet128,
    SpriteState.eq_iff_idx, SpriteState.toCtorIdx, abs_of_nonneg, abs_of_neg,
    kStageDurationSeconds, kMaxAmmo, kFrameTime, windowWidth, groundY, playerSpeed, enemySpeed,
    jumpStrength, gravity, enemyFireCooldown, enemyAttackCooldown, enemyReloadTime,
    attackCooldownTime, shootCooldownTime, maxRounds, roundEndDisplayTime, hitStunDuration,
    AnimatedSprite.update, CharacterSpriteManager.updateScale,
    CharacterSpriteManager.setFacingDirection, CharacterSpriteManager.setPosition,
    CharacterSpriteManager.canChangeState, CharacterSpriteManager.changeState,
    CharacterSpriteManager.advanceSheets, CharacterSpriteManager.clearDuration,
    CharacterSpriteManager.revertOneShot, CharacterSpriteManager.update,
    CharacterSpriteManager.resetDead, CharacterSpriteManager.getCurrentSprite,
    CharacterSpriteManager.getGlobalBounds, bulletBounds, overlap, clamp, truncToInt, fullAmmo,
    reloadPlayer, playerBullet, jumpKey, fireAccepted, fireKey, meleeAccepted, meleeSwing,
    meleeHit, meleeDone, meleeKey, keyPressed, keyReleased, handleEvent, updatePlayerHitStun,
    updateEnemyHitStun, updateHitStun, playerMotionX, canJumpOver, playerMove, playerFacing,
    playerKeepJump, playerFall, playerLand, playerAirborne, playerRest, playerToGround,
    playerGroundedFall, playerGroundedSprite, playerGrounded, playerVertical, playerSnap,
    playerPlaceSprite, playerGroundSnap, bulletHitEnemy, bulletHitPlayer, Bullet.advance,
    Bullet.deactivate, updateBullet, updateBulletList, setBullets, updateBullets,
    enemyStartReload, enemyFinishReload, enemyReload, enemySense, enemyChooseDirection,
    enemyPolicyJump, restartDecisionClock, enemyDecision, enemyMotionX, minEnemyX, enemyMove,
    enemyKeepJump, enemyFall, enemyLand, enemyAirborne, enemyRest, enemyToGround,
    enemyGroundedFall, enemyGroundedSprite, enemyGrounded, enemyVertical, enemyShouldFaceLeft,
    enemyFace, enemySnap, enemyPlaceSprite, enemyFacing, enemyMelee, enemyBullet, enemyShoot,
    enemyAttack, timeLeft, playerDeath, enemyDeath, deadSheetStep,
    CharacterSpriteManager.setDead, playerDeadAnimation, enemyDeadAnimation, deadAnimation,
    playerWon, playerLost, noteOutcome, clearIntents, roundOutcome, resetFighters, resetSprites,
    resetEnemyAmmo, resetRound, endGame, nextRound, roundEndHandling, frameStart, playerPhase,
    enemyPhase, simulate, beforeOutcome, tick]

set_option maxHeartbeats 8000000 in
/-- In the frame at instant 6 the decision step puts the dead enemy of
`enemyDown` into `Jump`, and the enemy death transition fires again. -/
theorem enemyDown_values :
    (enemyDecision 6 (enemySense 6 (beforeEnemy 6 enemyDown))
      (beforeEnemy 6 enemyDown)).enemySprites.currentState = SpriteState.Jump ∧
    enemyDies 6 enemyDown = true := by
  norm_num [enemyDown, arena, spritesAt, sheet128, beforeEnemy, enemyDies, beforeDeath,
    SpriteState.eq_iff_idx, SpriteState.toCtorIdx, abs_of_nonneg, abs_of_neg,
    kStageDurationSeconds, kMaxAmmo, kFrameTime, windowWidth, groundY, playerSpeed, enemySpeed,
    jumpStrength, gravity, enemyFireCooldown, enemyAttackCooldown, enemyReloadTime,
    attackCooldownTime, shootCooldownTime, maxRounds, roundEndDisplayTime, hitStunDuration,
    AnimatedSprite.update, CharacterSpriteManager.updateScale,
    CharacterSpriteManager.setFacingDirection, CharacterSpriteManager.setPosition,
    CharacterSpriteManager.canChangeState, CharacterSpriteManager.changeState,
    CharacterSpriteManager.advanceSheets, CharacterSpriteManager.clearDuration,
    CharacterSpriteManager.revertOneShot, CharacterSpriteManager.update,
    CharacterSpriteManager.resetDead, CharacterSpriteManager.getCurrentSprite,
    CharacterSpriteManager.getGlobalBounds, bulletBounds, overlap, clamp, truncToInt, fullAmmo,
    reloadPlayer, playerBullet, jumpKey, fireAccepted, fireKey, meleeAccepted, meleeSwing,
    meleeHit, meleeDone, meleeKey, keyPressed, keyReleased, handleEvent, updatePlayerHitStun,
    updateEnemyHitStun, updateHitStun, playerMotionX, canJumpOver, playerMove, playerFacing,
    playerKeepJump, playerFall, playerLand, playerAirborne, playerRest, playerToGround,
    playerGroundedFall, playerGroundedSprite, playerGrounded, playerVertical, playerSnap,
    playerPlaceSprite, playerGroundSnap, bulletHitEnemy, bulletHitPlayer, Bullet.advance,
    Bullet.deactivate, updateBullet, updateBulletList, setBullets, updateBullets,
    enemyStartReload, enemyFinishReload, enemyReload, enemySense, enemyChooseDirection,
    enemyPolicyJump, restartDecisionClock, enemyDecision, enemyMotionX, minEnemyX, enemyMove,
    enemyKeepJump, enemyFall, enemyLand, enemyAirborne, enemyRest, enemyToGround,
    enemyGroundedFall, enemyGroundedSprite, enemyGrounded, enemyVertical, enemyShouldFaceLeft,
    enemyFace, enemySnap, enemyPlaceSprite, enemyFacing, enemyMelee, enemyBullet, enemyShoot,
    enemyAttack, timeLeft, playerDeath, enemyDeath, deadSheetStep,
    CharacterSpriteManager.setDead, playerDeadAnimation, enemyDeadAnimation, deadAnimation,
    playerWon, playerLost, noteOutcome, clearIntents, roundOutcome, resetFighters, resetSprites,
    resetEnemyAmmo, resetRound, endGame, nextRound, roundEndHandling, frameStart, playerPhase,
    enemyPhase, simulate, beforeOutcome, tick]

/-- C11, divergence: a player in `Dead` with health 0 is put into `Jump` by
the jump key, whose case tests neither the health nor the animation state;
and an enemy in `Dead` with health 0 is put into `Jump` by the jump of the
enemy policy in the decision step of a frame, after which the enemy death
transition of the same frame fires a second time. -/
theorem dead_fighter_jumps :
    ((tick 6 lastBlow).playerHealth = 0 ∧
      (tick 6 lastBlow).playerSprites.currentState = SpriteState.Dead ∧
      (handleEvent (601 / 100) (tick 6 lastBlow)
        (Event.KeyPressed Key.Up)).playerSprites.currentState = SpriteState.Jump) ∧
    (enemyDown.enemyHealth = 0 ∧
      enemyDown.enemySprites.currentState = SpriteState.Dead ∧
      (enemyDecision 6 (enemySense 6 (beforeEnemy 6 enemyDown))
        (beforeEnemy 6 enemyDown)).enemySprites.currentState = SpriteState.Jump ∧
      enemyDies 6 enemyDown = true) :=
  ⟨lastBlow_values, rfl, rfl, enemyDown_values.1, enemyDown_values.2⟩

set_option maxHeartbeats 8000000 in
/-- The frame at instant 6 on `stunnedEnemy`. -/
theorem stunnedEnemy_values :
    (tick 6 stunnedEnemy).enemyHitStunned = true ∧
    (tick 6 stunnedEnemy).enemyJumping = true ∧
    (tick 6 stunnedEnemy).enemySprites.currentState = SpriteState.Jump ∧
    (tick 6 stunnedEnemy).enemyPosition.y = 5931 / 20 := by
  norm_num [stunnedEnemy, arena, spritesAt, sheet128,
    SpriteState.eq_iff_idx, SpriteState.toCtorIdx, abs_of_nonneg, abs_of_neg,
    kStageDurationSeconds, kMaxAmmo, kFrameTime, windowWidth, groundY, playerSpeed, enemySpeed,
    jumpStrength, gravity, enemyFireCooldown, enemyAttackCooldown, enemyReloadTime,
    attackCooldownTime, shootCooldownTime, maxRounds, roundEndDisplayTime, hitStunDuration,
    AnimatedSprite.update, CharacterSpriteManager.updateScale,
    CharacterSpriteManager.setFacingDirection, CharacterSpriteManager.setPosition,
    CharacterSpriteManager.canChangeState, CharacterSpriteManager.changeState,
    CharacterSpriteManager.advanceSheets, CharacterSpriteManager.clearDuration,
    CharacterSpriteManager.revertOneShot, CharacterSpriteManager.update,
    CharacterSpriteManager.resetDead, CharacterSpriteManager.getCurrentSprite,
    CharacterSpriteManager.getGlobalBounds, bulletBounds, overlap, clamp, truncToInt, fullAmmo,
    reloadPlayer, playerBullet, jumpKey, fireAccepted, fireKey, meleeAccepted, meleeSwing,
    meleeHit, meleeDone, meleeKey, keyPressed, keyReleased, handleEvent, updatePlayerHitStun,
    updateEnemyHitStun, updateHitStun, playerMotionX, canJumpOver, playerMove, playerFacing,
    playerKeepJump, playerFall, playerLand, playerAirborne, playerRest, playerToGround,
    playerGroundedFall, playerGroundedSprite, playerGrounded, playerVertical, playerSnap,
    playerPlaceSprite, playerGroundSnap, bulletHitEnemy, bulletHitPlayer, Bullet.advance,
    Bullet.deactivate, updateBullet, updateBulletList, setBullets, updateBullets,
    enemyStartReload, enemyFinishReload, enemyReload, enemySense, enemyChooseDirection,
    enemyPolicyJump, restartDecisionClock, enemyDecision, enemyMotionX, minEnemyX, enemyMove,
    enemyKeepJump, enemyFall, enemyLand, enemyAirborne, enemyRest, enemyToGround,
    enemyGroundedFall, enemyGroundedSprite, enemyGrounded, enemyVertical, enemyShouldFaceLeft,
    enemyFace, enemySnap, enemyPlaceSprite, enemyFacing, enemyMelee, enemyBullet, enemyShoot,
    enemyAttack, timeLeft, playerDeath, enemyDeath, deadSheetStep,
    CharacterSpriteManager.setDead, playerDeadAnimation, enemyDeadAnimation, deadAnimation,
    playerWon, playerLost, noteOutcome, clearIntents, roundOutcome, resetFighters, resetSprites,
    resetEnemyAmmo, resetRound, endGame, nextRound, roundEndHandling, frameStart, playerPhase,
    enemyPhase, simulate, beforeOutcome, tick]

/-- C19, divergence: an enemy whose hit-stun flag is set and stays set
through the frame, standing on the ground 70 units from the player, starts a
jump in that frame: the jump of the enemy policy does not test the flag. -/
theorem stunned_enemy_jumps :
    stunnedEnemy.enemyHitStunned = true ∧ stunnedEnemy.enemyJumping = false ∧
    (tick 6 stunnedEnemy).enemyHitStunned = true ∧
    (tick 6 stunnedEnemy).enemyJumping = true ∧
    (tick 6 stunnedEnemy).enemySprites.currentState = SpriteState.Jump ∧
    (tick 6 stunnedEnemy).enemyPosition.y < groundY := by
  obtain ⟨h1, h2, h3, h4⟩ := stunnedEnemy_values
  refine ⟨rfl, rfl, h1, h2, h3, ?_⟩
  rw [h4]
  norm_num [groundY]

/-! ## One-shot lock -/

theorem lockView_fields {m m' : CharacterSpriteManager} (h : lockView m' = lockView m) :
    m'.currentState = m.currentState ∧ m'.actionClock = m.actionClock ∧
      m'.actionDuration = m.actionDuration := by
  simpa only [lockView, Prod.mk.injEq] using h

theorem canChangeState_of_lockView {m m' : CharacterSpriteManager}
    (h : lockView m' = lockView m) (now : ℚ) :
    m'.canChangeState now = m.canChangeState now := by
  obtain ⟨_, h2, h3⟩ := lockView_fields h
  unfold CharacterSpriteManager.canChangeState
  rw [h2, h3]

theorem held_of_lockView {c : SpriteState} {now : ℚ} {m m' : CharacterSpriteManager}
    (hv : lockView m' = lockView m) (h : Held c now m) : Held c now m' := by
  unfold Held
  rw [canChangeState_of_lockView hv, (lockView_fields hv).1]
  exact h

/-- With `canChangeState` false the duration is positive and has not
elapsed. -/
theorem lock_running {now : ℚ} {m : CharacterSpriteManager}
    (h : m.canChangeState now = false) :
    0 < m.actionDuration ∧ now - m.actionClock < m.actionDuration := by
  unfold CharacterSpriteManager.canChangeState at h
  rw [decide_eq_false_iff_not] at h
  push_neg at h
  exact h

theorem update_lockView {now : ℚ} {m : CharacterSpriteManager}
    (h : m.canChangeState now = false) (delta : ℚ) :
    lockView (m.update now delta) = lockView m := by
  obtain ⟨h1, _, h3, h4⟩ := update_of_running m now delta (lock_running h).2
  unfold lockView
  rw [h1, h3, h4]

/-- The forced entry into `Hurt` keeps a held sprite manager held. -/
theorem changeState_hurt_held {c : SpriteState} {now : ℚ} {m : CharacterSpriteManager}
    (h : Held c now m) : Held c now (m.changeState now SpriteState.Hurt hitStunDuration) := by
  by_cases hs : SpriteState.Hurt = m.currentState
  · rw [changeState_same m now _ _ hs]
    exact h
  · obtain ⟨h1, _, h3, h4⟩ := changeState_fields m now SpriteState.Hurt hitStunDuration hs
    refine ⟨?_, Or.inr h1⟩
    unfold CharacterSpriteManager.canChangeState
    rw [h3, h4, decide_eq_false_iff_not]
    norm_num [hitStunDuration]

/-- A state `c` or `Hurt`, with `c` a one-shot, fails the test that guards
the sprite update of a fighter on the ground. -/
theorem held_guard {c : SpriteState} {now : ℚ} {m : CharacterSpriteManager}
    (hc : c.isOneShot = true) (h : Held c now m) :
    ¬ (m.currentState ≠ SpriteState.Jump ∧ m.currentState ≠ SpriteState.Shot ∧
      m.currentState ≠ SpriteState.Attack ∧ m.currentState ≠ SpriteState.Hurt ∧
      m.currentState ≠ SpriteState.Dead) := by
  rintro ⟨_, g2, g3, g4, _⟩
  rcases h.2 with h1 | h1
  · rw [h1] at g2 g3 g4
    cases c
    all_goals first
      | exact g2 rfl
      | exact g3 rfl
      | exact g4 rfl
      | exact absurd hc (by decide)
  · exact g4 h1

theorem playerHeld_of_view {c : SpriteState} {now : ℚ} {s s' : GameState}
    (hv : playerLockView s' = playerLockView s) (h : Held c now s.playerSprites) :
    Held c now s'.playerSprites :=
  held_of_lockView hv h

theorem playerJumping_of_view {s s' : GameState} (hv : playerBodyView s' = playerBodyView s) :
    s'.playerJumping = s.playerJumping := congrArg (fun v => v.2.2) hv

theorem frameStart_playerHeld {c : SpriteState} (now : ℚ) (s : GameState)
    (h : Held c now s.playerSprites) : Held c now (frameStart now s).playerSprites :=
  held_of_lockView (update_lockView h.1 _) h

theorem playerGroundedSprite_of_held {c : SpriteState} (now : ℚ) (s : GameState)
    (hc : c.isOneShot = true) (h : Held c now s.playerSprites) :
    playerGroundedSprite now s = s := by
  unfold playerGroundedSprite
  rw [if_neg (held_guard hc h)]

theorem playerVertical_playerHeld {c : SpriteState} (now delta : ℚ) (s : GameState)
    (hc : c.isOneShot = true) (hj : s.playerJumping = false) (h : Held c now s.playerSprites) :
    Held c now (playerVertical now delta s).playerSprites := by
  have h1 : Held c now (playerGroundedFall delta s).playerSprites :=
    playerHeld_of_view (playerGroundedFall_playerLockView delta s) h
  unfold playerVertical playerGrounded
  rw [if_neg (by simp [hj]), playerGroundedSprite_of_held now _ hc h1]
  exact h1

theorem playerPhase_playerHeld {c : SpriteState} (now delta : ℚ) (s : GameState)
    (hc : c.isOneShot = true) (hj : s.playerJumping = false) (h : Held c now s.playerSprites) :
    Held c now (playerPhase now delta s).playerSprites := by
  unfold playerPhase
  refine playerHeld_of_view (playerGroundSnap_playerLockView _) ?_
  apply playerVertical_playerHeld now delta _ hc
  · rw [playerJumping_of_view (by simp : playerBodyView (playerFacing (playerMove delta
      (updateHitStun now s))) = playerBodyView s)]
    exact hj
  · exact playerHeld_of_view (by simp) h

theorem bulletHitPlayer_playerHeld {c : SpriteState} (now : ℚ) (s : GameState) (b : Bullet)
    (h : Held c now s.playerSprites) : Held c now (bulletHitPlayer now s b).1.playerSprites := by
  unfold bulletHitPlayer
  split_ifs
  · exact changeState_hurt_held h
  · exact h
  · exact h

theorem updateBullet_playerHeld {c : SpriteState} (now delta : ℚ) (s : GameState) (b : Bullet)
    (h : Held c now s.playerSprites) :
    Held c now (updateBullet now delta s b).1.playerSprites := by
  unfold updateBullet
  split_ifs
  all_goals first
    | exact h
    | exact bulletHitPlayer_playerHeld now _ _
        (playerHeld_of_view (bulletHitEnemy_playerLockView now _ s) h)

theorem updateBulletList_playerHeld {c : SpriteState} (now delta : ℚ) (bs : List Bullet)
    (s : GameState) (h : Held c now s.playerSprites) :
    Held c now (updateBulletList now delta s bs).1.playerSprites := by
  induction bs generalizing s with
  | nil => exact h
  | cons b bs ih => exact ih _ (updateBullet_playerHeld now delta s b h)

theorem updateBullets_playerHeld {c : SpriteState} (now delta : ℚ) (s : GameState)
    (h : Held c now s.playerSprites) : Held c now (updateBullets now delta s).playerSprites := by
  unfold updateBullets
  split_ifs
  · exact playerHeld_of_view (setBullets_playerLockView _ _)
      (updateBulletList_playerHeld now delta s.bullets s h)
  · exact h

theorem enemyAttack_playerHeld {c : SpriteState} (now : ℚ) (sense : EnemySense) (s : GameState)
    (h : Held c now s.playerSprites) :
    Held c now (enemyAttack now sense s).playerSprites := by
  unfold enemyAttack
  split_ifs
  · exact changeState_hurt_held h
  · exact playerHeld_of_view (enemyShoot_playerLockView now s) h
  · exact h
  · exact h

theorem enemyPhase_playerHeld {c : SpriteState} (now delta : ℚ) (s : GameState)
    (h : Held c now s.playerSprites) : Held c now (enemyPhase now delta s).playerSprites := by
  unfold enemyPhase
  apply enemyAttack_playerHeld
  exact playerHeld_of_view (by simp) h

theorem beforeDeath_playerHeld {c : SpriteState} (now : ℚ) (s : GameState)
    (hc : c.isOneShot = true) (hj : s.playerJumping = false) (h : Held c now s.playerSprites) :
    Held c now (beforeDeath now s).playerSprites := by
  unfold beforeDeath beforeEnemy
  apply enemyPhase_playerHeld
  refine playerHeld_of_view (enemyReload_playerLockView now _) ?_
  apply updateBullets_playerHeld
  apply playerPhase_playerHeld now _ _ hc
  · rw [playerJumping_of_view (frameStart_playerBodyView now s)]
    exact hj
  · exact frameStart_playerHeld now s h

theorem playerDeath_state (now : ℚ) (s : GameState) :
    (playerDeath now s).playerSprites.currentState = s.playerSprites.currentState ∨
    (playerDeath now s).playerSprites.currentState = SpriteState.Dead := by
  unfold playerDeath
  split_ifs
  · right
    exact changeState_currentState _ _ _ _
  · left
    rfl

theorem enemyDeath_state (now : ℚ) (s : GameState) :
    (enemyDeath now s).enemySprites.currentState = s.enemySprites.currentState ∨
    (enemyDeath now s).enemySprites.currentState = SpriteState.Dead := by
  unfold enemyDeath
  split_ifs
  · right
    exact changeState_currentState _ _ _ _
  · left
    rfl

theorem playerState_of_view {s s' : GameState} (hv : playerLockView s' = playerLockView s) :
    s'.playerSprites.currentState = s.playerSprites.currentState :=
  (lockView_fields hv).1

theorem enemyState_of_view {s s' : GameState} (hv : enemyLockView s' = enemyLockView s) :
    s'.enemySprites.currentState = s.enemySprites.currentState :=
  (lockView_fields hv).1

/-- In a started frame that does not run the round reset, the animation
states at the end of the frame are those left by the death transitions. -/
theorem tick_state_of_noReset (now : ℚ) (s : GameState) (hw : s.waitingForStart = false)
    (hr : resetsRound now s = false) :
    (tick now s).playerSprites.currentState =
      (playerDeath now (beforeDeath now s)).playerSprites.currentState ∧
    (tick now s).enemySprites.currentState =
      (enemyDeath now (playerDeath now (beforeDeath now s))).enemySprites.currentState := by
  have hp : ∀ t : GameState, playerLockView t = playerLockView (beforeOutcome now s) →
      t.playerSprites.currentState =
        (playerDeath now (beforeDeath now s)).playerSprites.currentState := by
    intro t ht
    rw [playerState_of_view ht, beforeOutcome_eq]
    exact playerState_of_view (by simp)
  have he : ∀ t : GameState, enemyLockView t = enemyLockView (beforeOutcome now s) →
      t.enemySprites.currentState =
        (enemyDeath now (playerDeath now (beforeDeath now s))).enemySprites.currentState := by
    intro t ht
    rw [enemyState_of_view ht, beforeOutcome_eq]
    exact enemyState_of_view (by simp)
  rcases tick_noReset_cases now s hw hr with h | h | h
  · rw [h]
    exact ⟨hp _ (by simp), he _ (by simp)⟩
  · rw [h]
    exact ⟨hp _ (by simp), he _ (by simp)⟩
  · rw [h]
    exact ⟨hp _ (by simp), he _ (by simp)⟩

theorem enemyHeld_of_view {c : SpriteState} {now : ℚ} {s s' : GameState}
    (hv : enemyLockView s' = enemyLockView s) (h : Held c now s.enemySprites) :
    Held c now s'.enemySprites :=
  held_of_lockView hv h

theorem enemyJumping_of_view {s s' : GameState} (hv : enemyBodyView s' = enemyBodyView s) :
    s'.enemyJumping = s.enemyJumping := congrArg (fun v => v.2.2) hv

theorem frameStart_enemyHeld {c : SpriteState} (now : ℚ) (s : GameState)
    (h : Held c now s.enemySprites) : Held c now (frameStart now s).enemySprites :=
  held_of_lockView (update_lockView h.1 _) h

theorem bulletHitEnemy_enemyHeld {c : SpriteState} (now : ℚ) (s : GameState) (b : Bullet)
    (h : Held c now s.enemySprites) : Held c now (bulletHitEnemy now s b).1.enemySprites := by
  unfold bulletHitEnemy
  split_ifs
  · exact changeState_hurt_held h
  · exact h
  · exact h

theorem updateBullet_enemyHeld {c : SpriteState} (now delta : ℚ) (s : GameState) (b : Bullet)
    (h : Held c now s.enemySprites) :
    Held c now (updateBullet now delta s b).1.enemySprites := by
  unfold updateBullet
  split_ifs
  all_goals first
    | exact h
    | exact enemyHeld_of_view (bulletHitPlayer_enemyLockView now _ _)
        (bulletHitEnemy_enemyHeld now s _ h)

theorem updateBulletList_enemyHeld {c : SpriteState} (now delta : ℚ) (bs : List Bullet)
    (s : GameState) (h : Held c now s.enemySprites) :
    Held c now (updateBulletList now delta s bs).1.enemySprites := by
  induction bs generalizing s with
  | nil => exact h
  | cons b bs ih => exact ih _ (updateBullet_enemyHeld now delta s b h)

theorem updateBullets_enemyHeld {c : SpriteState} (now delta : ℚ) (s : GameState)
    (h : Held c now s.enemySprites) : Held c now (updateBullets now delta s).enemySprites := by
  unfold updateBullets
  split_ifs
  · exact enemyHeld_of_view (setBullets_enemyLockView _ _)
      (updateBulletList_enemyHeld now delta s.bullets s h)
  · exact h

theorem beforeEnemy_enemyHeld {c : SpriteState} (now : ℚ) (s : GameState)
    (h : Held c now s.enemySprites) : Held c now (beforeEnemy now s).enemySprites := by
  unfold beforeEnemy
  refine enemyHeld_of_view (enemyReload_enemyLockView now _) ?_
  apply updateBullets_enemyHeld
  exact enemyHeld_of_view (playerPhase_enemyLockView now _ _) (frameStart_enemyHeld now s h)

/-- A held enemy can neither shoot nor strike: both locals read
`canChangeState`. -/
theorem enemySense_of_held {c : SpriteState} (now : ℚ) (s : GameState)
    (h : Held c now s.enemySprites) :
    (enemySense now s).canMelee = false ∧ (enemySense now s).canShoot = false := by
  have h1 := h.1
  constructor
  · show decide _ = false
    rw [decide_eq_false_iff_not]
    rintro ⟨_, h2⟩
    rw [h1] at h2
    exact absurd h2 (by decide)
  · show decide _ = false
    rw [decide_eq_false_iff_not]
    rintro ⟨_, _, _, h2⟩
    rw [h1] at h2
    exact absurd h2 (by decide)

theorem enemyAttack_of_cannot (now : ℚ) (sense : EnemySense) (s : GameState)
    (h1 : sense.canMelee = false) (h2 : sense.canShoot = false) :
    enemyAttack now sense s = s := by
  unfold enemyAttack
  split_ifs with c1 c2 c3
  · exact absurd c2.2 (by simp [h1])
  · exact absurd c3.2 (by simp [h2])
  · rfl
  · rfl

/-- A decision step after which the enemy is not jumping has not taken the
jump of the policy, and leaves the enemy sprites as they were. -/
theorem enemyDecision_lockView (now : ℚ) (sense : EnemySense) (s : GameState)
    (h : (enemyDecision now sense s).enemyJumping = false) :
    enemyLockView (enemyDecision now sense s) = enemyLockView s := by
  unfold enemyDecision at h ⊢
  split_ifs at h ⊢
  · unfold enemyPolicyJump at h ⊢
    split_ifs at h ⊢
    all_goals simp
  · simp
  · rfl

theorem enemyGroundedSprite_of_held {c : SpriteState} (now : ℚ) (s : GameState)
    (hc : c.isOneShot = true) (h : Held c now s.enemySprites) :
    enemyGroundedSprite now s = s := by
  unfold enemyGroundedSprite
  rw [if_neg (held_guard hc h)]

theorem enemyVertical_enemyHeld {c : SpriteState} (now delta : ℚ) (s : GameState)
    (hc : c.isOneShot = true) (hj : s.enemyJumping = false) (h : Held c now s.enemySprites) :
    Held c now (enemyVertical now delta s).enemySprites := by
  have h1 : Held c now (enemyGroundedFall delta s).enemySprites :=
    enemyHeld_of_view (enemyGroundedFall_enemyLockView delta s) h
  unfold enemyVertical enemyGrounded
  rw [if_neg (by simp [hj]), enemyGroundedSprite_of_held now _ hc h1]
  exact h1

theorem beforeDeath_enemyHeld {c : SpriteState} (now : ℚ) (s : GameState)
    (hc : c.isOneShot = true) (hj : enemyJumps now s = false) (h : Held c now s.enemySprites) :
    Held c now (beforeDeath now s).enemySprites := by
  have h0 := beforeEnemy_enemyHeld now s h
  have hs := enemySense_of_held now _ h0
  unfold enemyJumps at hj
  unfold beforeDeath enemyPhase
  rw [enemyAttack_of_cannot now _ _ hs.1 hs.2]
  refine enemyHeld_of_view (enemyFacing_enemyLockView _) ?_
  apply enemyVertical_enemyHeld now _ _ hc
  · rw [enemyJumping_of_view (enemyMove_enemyBodyView _ _)]
    exact hj
  · refine enemyHeld_of_view (enemyMove_enemyLockView _ _) ?_
    exact enemyHeld_of_view (enemyDecision_lockView now _ _ hj) h0

theorem keyPressed_playerState_of_locked (now : ℚ) (s : GameState) (code : Key)
    (hk : code ≠ Key.Up) (h : s.playerSprites.canChangeState now = false) :
    (keyPressed now s code).playerSprites.currentState = s.playerSprites.currentState := by
  cases code
  case Up => exact absurd rfl hk
  case A =>
    have hr : ¬ fireAccepted now s = true := by
      rw [fireAccepted_iff]
      rintro ⟨_, _, h3, _⟩
      rw [h] at h3
      exact absurd h3 (by decide)
    show (fireKey now s).playerSprites.currentState = _
    rw [fireKey_of_rejected now s hr]
  case S =>
    have hr : ¬ meleeAccepted now s = true := by
      unfold meleeAccepted
      rw [decide_eq_true_iff]
      rintro ⟨_, h3, _⟩
      rw [h] at h3
      exact absurd h3 (by decide)
    show (meleeKey now s).playerSprites.currentState = _
    unfold meleeKey
    rw [if_neg hr]
  case R => exact playerState_of_view (reloadPlayer_playerLockView false s)
  all_goals rfl

theorem handleEvent_playerState_of_locked (now : ℚ) (s : GameState) (e : Event)
    (hk : e ≠ Event.KeyPressed Key.Up) (h : s.playerSprites.canChangeState now = false) :
    (handleEvent now s e).playerSprites.currentState = s.playerSprites.currentState := by
  cases e with
  | Closed => rfl
  | Other => rfl
  | KeyReleased code =>
    dsimp only [handleEvent]
    split_ifs
    · rfl
    · exact playerState_of_view (keyReleased_playerLockView code s)
  | KeyPressed code =>
    have hc : code ≠ Key.Up := fun hc => hk (by rw [hc])
    dsimp only [handleEvent]
    split_ifs
    · rfl
    · rfl
    · exact keyPressed_playerState_of_locked now s code hc h

theorem meleeKey_enemyState (now : ℚ) (s : GameState) :
    (meleeKey now s).enemySprites.currentState = s.enemySprites.currentState ∨
    (meleeKey now s).enemySprites.currentState = SpriteState.Hurt := by
  unfold meleeKey
  split_ifs
  · have h1 : (meleeDone now (meleeHit now (meleeSwing now s))).enemySprites =
        (meleeHit now (meleeSwing now s)).enemySprites := rfl
    rw [h1]
    unfold meleeHit
    split_ifs
    · right
      exact changeState_currentState _ _ _ _
    · left
      rfl
  · left
    rfl

theorem keyPressed_enemyState (now : ℚ) (s : GameState) (code : Key) :
    (keyPressed now s code).enemySprites.currentState = s.enemySprites.currentState ∨
    (keyPressed now s code).enemySprites.currentState = SpriteState.Hurt := by
  cases code
  case S => exact meleeKey_enemyState now s
  case Up => exact Or.inl (enemyState_of_view (jumpKey_enemyLockView now s))
  case A => exact Or.inl (enemyState_of_view (fireKey_enemyLockView now s))
  case R => exact Or.inl (enemyState_of_view (reloadPlayer_enemyLockView false s))
  all_goals exact Or.inl rfl

theorem handleEvent_enemyState (now : ℚ) (s : GameState) (e : Event) :
    (handleEvent now s e).enemySprites.currentState = s.enemySprites.currentState ∨
    (handleEvent now s e).enemySprites.currentState = SpriteState.Hurt := by
  cases e with
  | Closed => exact Or.inl rfl
  | Other => exact Or.inl rfl
  | KeyReleased code =>
    dsimp only [handleEvent]
    split_ifs
    · exact Or.inl rfl
    · exact Or.inl (enemyState_of_view (keyReleased_enemyLockView code s))
  | KeyPressed code =>
    dsimp only [handleEvent]
    split_ifs
    · exact Or.inl rfl
    · exact Or.inl rfl
    · exact keyPressed_enemyState now s code

theorem tick_of_waiting (now : ℚ) (s : GameState) (h : s.waitingForStart = true) :
    tick now s = frameStart now s := by
  unfold tick
  rw [if_pos h]

/-- The lock of an unexpired one-shot where no jump is involved: while a
fighter is in a one-shot (`Shot`, `Attack` or `Hurt`) whose duration has not
elapsed (`canChangeState` is false), no event other than the jump key changes
the animation state of the player, and no event changes that of the enemy to
a state other than `Hurt`; and a frame that does not run the round reset,
entered with the fighter not jumping (for the enemy: with the enemy not
jumping once its decision step has run), leaves the animation state of the
fighter unchanged or changes it to `Hurt` or `Dead`. -/
theorem one_shot_holds (now : ℚ) (s : GameState) :
    (s.playerSprites.currentState.isOneShot = true →
      s.playerSprites.canChangeState now = false →
      (∀ e : Event, e ≠ Event.KeyPressed Key.Up →
        (handleEvent now s e).playerSprites.currentState = s.playerSprites.currentState) ∧
      (s.playerJumping = false → resetsRound now s = false →
        (tick now s).playerSprites.currentState = s.playerSprites.currentState ∨
        (tick now s).playerSprites.currentState = SpriteState.Hurt ∨
        (tick now s).playerSprites.currentState = SpriteState.Dead)) ∧
    (s.enemySprites.currentState.isOneShot = true →
      s.enemySprites.canChangeState now = false →
      (∀ e : Event,
        (handleEvent now s e).enemySprites.currentState = s.enemySprites.currentState ∨
        (handleEvent now s e).enemySprites.currentState = SpriteState.Hurt) ∧
      (enemyJumps now s = false → resetsRound now s = false →
        (tick now s).enemySprites.currentState = s.enemySprites.currentState ∨
        (tick now s).enemySprites.currentState = SpriteState.Hurt ∨
        (tick now s).enemySprites.currentState = SpriteState.Dead)) := by
  constructor
  · intro hc hl
    have hh : Held s.playerSprites.currentState now s.playerSprites := ⟨hl, Or.inl rfl⟩
    refine ⟨fun e he => handleEvent_playerState_of_locked now s e he hl, ?_⟩
    intro hj hr
    by_cases hw : s.waitingForStart = true
    · rw [tick_of_waiting now s hw]
      rcases (frameStart_playerHeld now s hh).2 with h | h
      · exact Or.inl h
      · exact Or.inr (Or.inl h)
    · have hw2 : s.waitingForStart = false := by simpa using hw
      rw [(tick_state_of_noReset now s hw2 hr).1]
      have hb := (beforeDeath_playerHeld now s hc hj hh).2
      rcases playerDeath_state now (beforeDeath now s) with h | h
      · rw [h]
        rcases hb with h2 | h2
        · exact Or.inl h2
        · exact Or.inr (Or.inl h2)
      · exact Or.inr (Or.inr h)
  · intro hc hl
    have hh : Held s.enemySprites.currentState now s.enemySprites := ⟨hl, Or.inl rfl⟩
    refine ⟨fun e => handleEvent_enemyState now s e, ?_⟩
    intro hj hr
    by_cases hw : s.waitingForStart = true
    · rw [tick_of_waiting now s hw]
      rcases (frameStart_enemyHeld now s hh).2 with h | h
      · exact Or.inl h
      · exact Or.inr (Or.inl h)
    · have hw2 : s.waitingForStart = false := by simpa using hw
      rw [(tick_state_of_noReset now s hw2 hr).2]
      have hb : (playerDeath now (beforeDeath now s)).enemySprites.currentState =
          s.enemySprites.currentState ∨
          (playerDeath now (beforeDeath now s)).enemySprites.currentState =
            SpriteState.Hurt := by
        rw [enemyState_of_view (playerDeath_enemyLockView now _)]
        exact (beforeDeath_enemyHeld now s hc hj hh).2
      rcases enemyDeath_state now (playerDeath now (beforeDeath now s)) with h | h
      · rw [h]
        rcases hb with h2 | h2
        · exact Or.inl h2
        · exact Or.inr (Or.inl h2)
      · exact Or.inr (Or.inr h)

set_option maxHeartbeats 8000000 in
/-- The melee key at instant 6 on `airStrike` puts the jumping player into
`Attack` for 0.6 s; the frame at instant 6.01 puts it back into `Jump`. -/
theorem airStrike_attack_values :
    (handleEvent 6 airStrike (Event.KeyPressed Key.S)).playerSprites.currentState =
      SpriteState.Attack ∧
    (handleEvent 6 airStrike (Event.KeyPressed Key.S)).playerSprites.canChangeState
      (601 / 100) = false ∧
    resetsRound (601 / 100) (handleEvent 6 airStrike (Event.KeyPressed Key.S)) = false ∧
    (tick (601 / 100) (handleEvent 6 airStrike
      (Event.KeyPressed Key.S))).playerSprites.currentState = SpriteState.Jump := by
  norm_num [airStrike, arena, spritesAt, sheet128, resetsRound,
    SpriteState.eq_iff_idx, SpriteState.toCtorIdx, abs_of_nonneg, abs_of_neg,
    kStageDurationSeconds, kMaxAmmo, kFrameTime, windowWidth, groundY, playerSpeed, enemySpeed,
    jumpStrength, gravity, enemyFireCooldown, enemyAttackCooldown, enemyReloadTime,
    attackCooldownTime, shootCooldownTime, maxRounds, roundEndDisplayTime, hitStunDuration,
    AnimatedSprite.update, CharacterSpriteManager.updateScale,
    CharacterSpriteManager.setFacingDirection, CharacterSpriteManager.setPosition,
    CharacterSpriteManager.canChangeState, CharacterSpriteManager.changeState,
    CharacterSpriteManager.advanceSheets, CharacterSpriteManager.clearDuration,
    CharacterSpriteManager.revertOneShot, CharacterSpriteManager.update,
    CharacterSpriteManager.resetDead, CharacterSpriteManager.getCurrentSprite,
    CharacterSpriteManager.getGlobalBounds, bulletBounds, overlap, clamp, truncToInt, fullAmmo,
    reloadPlayer, playerBullet, jumpKey, fireAccepted, fireKey, meleeAccepted, meleeSwing,
    meleeHit, meleeDone, meleeKey, keyPressed, keyReleased, handleEvent, updatePlayerHitStun,
    updateEnemyHitStun, updateHitStun, playerMotionX, canJumpOver, playerMove, playerFacing,
    playerKeepJump, playerFall, playerLand, playerAirborne, playerRest, playerToGround,
    playerGroundedFall, playerGroundedSprite, playerGrounded, playerVertical, playerSnap,
    playerPlaceSprite, playerGroundSnap, bulletHitEnemy, bulletHitPlayer, Bullet.advance,
    Bullet.deactivate, updateBullet, updateBulletList, setBullets, updateBullets,
    enemyStartReload, enemyFinishReload, enemyReload, enemySense, enemyChooseDirection,
    enemyPolicyJump, restartDecisionClock, enemyDecision, enemyMotionX, minEnemyX, enemyMove,
    enemyKeepJump, enemyFall, enemyLand, enemyAirborne, enemyRest, enemyToGround,
    enemyGroundedFall, enemyGroundedSprite, enemyGrounded, enemyVertical, enemyShouldFaceLeft,
    enemyFace, enemySnap, enemyPlaceSprite, enemyFacing, enemyMelee, enemyBullet, enemyShoot,
    enemyAttack, timeLeft, playerDeath, enemyDeath, deadSheetStep,
    CharacterSpriteManager.setDead, playerDeadAnimation, enemyDeadAnimation, deadAnimation,
    playerWon, playerLost, noteOutcome, clearIntents, roundOutcome, resetFighters, resetSprites,
    resetEnemyAmmo, resetRound, endGame, nextRound, roundEndHandling, frameStart, playerPhase,
    enemyPhase, simulate, beforeOutcome, tick]

set_option maxHeartbeats 8000000 in
/-- The locks of `lockedPair` at instant 6, the jump key on it, and the
frame at instant 6 on it. -/
theorem lockedPair_values :
    (lockedPair.playerSprites.canChangeState 6 = false ∧
      lockedPair.enemySprites.canChangeState 6 = false) ∧
    (handleEvent 6 lockedPair (Event.KeyPressed Key.Up)).playerSprites.currentState =
      SpriteState.Jump ∧
    resetsRound 6 lockedPair = false ∧ enemyJumps 6 lockedPair = false := by
  norm_num [lockedPair, arena, spritesAt, sheet128, resetsRound, enemyJumps, beforeEnemy,
    SpriteState.eq_iff_idx, SpriteState.toCtorIdx, abs_of_nonneg, abs_of_neg,
    kStageDurationSeconds, kMaxAmmo, kFrameTime, windowWidth, groundY, playerSpeed, enemySpeed,
    jumpStrength, gravity, enemyFireCooldown, enemyAttackCooldown, enemyReloadTime,
    attackCooldownTime, shootCooldownTime, maxRounds, roundEndDisplayTime, hitStunDuration,
    AnimatedSprite.update, CharacterSpriteManager.updateScale,
    CharacterSpriteManager.setFacingDirection, CharacterSpriteManager.setPosition,
    CharacterSpriteManager.canChangeState, CharacterSpriteManager.changeState,
    CharacterSpriteManager.advanceSheets, CharacterSpriteManager.clearDuration,
    CharacterSpriteManager.revertOneShot, CharacterSpriteManager.update,
    CharacterSpriteManager.resetDead, CharacterSpriteManager.getCurrentSprite,
    CharacterSpriteManager.getGlobalBounds, bulletBounds, overlap, clamp, truncToInt, fullAmmo,
    reloadPlayer, playerBullet, jumpKey, fireAccepted, fireKey, meleeAccepted, meleeSwing,
    meleeHit, meleeDone, meleeKey, keyPressed, keyReleased, handleEvent, updatePlayerHitStun,
    updateEnemyHitStun, updateHitStun, playerMotionX, canJumpOver, playerMove, playerFacing,
    playerKeepJump, playerFall, playerLand, playerAirborne, playerRest, playerToGround,
    playerGroundedFall, playerGroundedSprite, playerGrounded, playerVertical, playerSnap,
    playerPlaceSprite, playerGroundSnap, bulletHitEnemy, bulletHitPlayer, Bullet.advance,
    Bullet.deactivate, updateBullet, updateBulletList, setBullets, updateBullets,
    enemyStartReload, enemyFinishReload, enemyReload, enemySense, enemyChooseDirection,
    enemyPolicyJump, restartDecisionClock, enemyDecision, enemyMotionX, minEnemyX, enemyMove,
    enemyKeepJump, enemyFall, enemyLand, enemyAirborne, enemyRest, enemyToGround,
    enemyGroundedFall, enemyGroundedSprite, enemyGrounded, enemyVertical, enemyShouldFaceLeft,
    enemyFace, enemySnap, enemyPlaceSprite, enemyFacing, enemyMelee, enemyBullet, enemyShoot,
    enemyAttack, timeLeft, playerDeath, enemyDeath, deadSheetStep,
    CharacterSpriteManager.setDead, playerDeadAnimation, enemyDeadAnimation, deadAnimation,
    playerWon, playerLost, noteOutcome, clearIntents, roundOutcome, resetFighters, resetSprites,
    resetEnemyAmmo, resetRound, endGame, nextRound, roundEndHandling, frameStart, playerPhase,
    enemyPhase, simulate, beforeOutcome, tick]

/-- An instance of `one_shot_holds`: the frame at instant 6 on `lockedPair`,
with the player in `Shot` and the enemy in `Hurt`, both entered at instant
5.9. -/
theorem one_shot_holds_witness :
    (lockedPair.playerSprites.currentState.isOneShot = true ∧
      lockedPair.playerSprites.canChangeState 6 = false ∧
      lockedPair.playerJumping = false ∧ resetsRound 6 lockedPair = false ∧
      ((tick 6 lockedPair).playerSprites.currentState =
          lockedPair.playerSprites.currentState ∨
        (tick 6 lockedPair).playerSprites.currentState = SpriteState.Hurt ∨
        (tick 6 lockedPair).playerSprites.currentState = SpriteState.Dead)) ∧
    (lockedPair.enemySprites.currentState.isOneShot = true ∧
      lockedPair.enemySprites.canChangeState 6 = false ∧
      enemyJumps 6 lockedPair = false ∧
      ((tick 6 lockedPair).enemySprites.currentState =
          lockedPair.enemySprites.currentState ∨
        (tick 6 lockedPair).enemySprites.currentState = SpriteState.Hurt ∨
        (tick 6 lockedPair).enemySprites.currentState = SpriteState.Dead)) :=
  ⟨⟨rfl, lockedPair_values.1.1, rfl, lockedPair_values.2.2.1,
      ((one_shot_holds 6 lockedPair).1 rfl lockedPair_values.1.1).2 rfl
        lockedPair_values.2.2.1⟩,
    ⟨rfl, lockedPair_values.1.2, lockedPair_values.2.2.2,
      ((one_shot_holds 6 lockedPair).2 rfl lockedPair_values.1.2).2 lockedPair_values.2.2.2
        lockedPair_values.2.2.1⟩⟩

/-! ## The enemy policy -/

/-- The direction left by the decision step when it chooses one. -/
theorem enemyDecision_direction (now : ℚ) (sense : EnemySense) (s : GameState)
    (hc : now - s.enemyDecisionClock > 3 / 10)
    (hj : s.enemyIsReloading = true ∨ s.enemyJumping = false) :
    (enemyDecision now sense s).enemyDirection = (enemyChooseDirection sense s).enemyDirection ∧
    (enemyDecision now sense s).enemyIsRunning = (enemyChooseDirection sense s).enemyIsRunning := by
  have hj2 : s.enemyIsReloading = true ∨ ¬ s.enemyJumping = true := by
    rcases hj with h | h
    · exact Or.inl h
    · exact Or.inr (by simp [h])
  unfold enemyDecision
  rw [if_pos hc, if_pos hj2]
  unfold enemyPolicyJump
  split_ifs
  · unfold enemyChooseDirection restartDecisionClock
    constructor <;> (split_ifs <;> rfl)
  · unfold enemyChooseDirection restartDecisionClock
    constructor <;> (split_ifs <;> rfl)

/-- C29: the direction chosen by the enemy policy from the locals of lines
864-871 is 0, or 1 with the enemy left of the player, or -1 with the enemy
right of the player, so it never points away from the player; at a distance
of 300 or more it is not 0 and the running flag is set; and a decision step
on its cadence, with the enemy reloading or not jumping, leaves exactly this
direction and running flag. -/
theorem policy_direction (now : ℚ) (s : GameState) :
    ((enemyChooseDirection (enemySense now s) s).enemyDirection = 0 ∨
      ((enemyChooseDirection (enemySense now s) s).enemyDirection = 1 ∧
        s.enemyPosition.x < s.playerPosition.x) ∨
      ((enemyChooseDirection (enemySense now s) s).enemyDirection = -1 ∧
        s.playerPosition.x < s.enemyPosition.x)) ∧
    (|s.enemyPosition.x - s.playerPosition.x| ≥ 300 →
      (enemyChooseDirection (enemySense now s) s).enemyDirection ≠ 0 ∧
      (enemyChooseDirection (enemySense now s) s).enemyIsRunning = true) ∧
    (now - s.enemyDecisionClock > 3 / 10 →
      (s.enemyIsReloading = true ∨ s.enemyJumping = false) →
      (enemyDecision now (enemySense now s) s).enemyDirection =
        (enemyChooseDirection (enemySense now s) s).enemyDirection ∧
      (enemyDecision now (enemySense now s) s).enemyIsRunning =
        (enemyChooseDirection (enemySense now s) s).enemyIsRunning) := by
  have hclose : (enemySense now s).isClose = true ↔
      |s.enemyPosition.x - s.playerPosition.x| < 120 := by
    show decide _ = true ↔ _
    rw [decide_eq_true_iff]
  have hmid : (enemySense now s).isMidRange = true ↔
      (|s.enemyPosition.x - s.playerPosition.x| ≥ 120 ∧
        |s.enemyPosition.x - s.playerPosition.x| < 300) := by
    show decide _ = true ↔ _
    rw [decide_eq_true_iff]
  refine ⟨?_, ?_, fun hc hj => enemyDecision_direction now _ s hc hj⟩
  · unfold enemyChooseDirection
    split_ifs with c1 c2 c3 c4
    · right; right
      exact ⟨rfl, by linarith⟩
    · right; left
      exact ⟨rfl, by linarith⟩
    · left; rfl
    · right; right
      exact ⟨rfl, by linarith⟩
    · right; left
      exact ⟨rfl, by linarith⟩
    · left; rfl
    · right; right
      exact ⟨rfl, by linarith⟩
    · right; left
      refine ⟨rfl, ?_⟩
      have h1 : ¬ |s.enemyPosition.x - s.playerPosition.x| < 120 := fun h => c1 (hclose.mpr h)
      have h2 : ¬ |s.enemyPosition.x - s.playerPosition.x| < 300 := fun h =>
        c4 (hmid.mpr ⟨not_lt.mp h1, h⟩)
      have h3 := not_lt.mp h2
      rcases le_abs'.mp h3 with h4 | h4
      · linarith
      · exfalso
        have c7 : ¬ s.enemyPosition.x > s.playerPosition.x + 100 := by assumption
        linarith [not_lt.mp c7]
  · intro hfar
    have h1 : ¬ (enemySense now s).isClose = true := fun h => by
      have := hclose.mp h
      linarith
    have h2 : ¬ (enemySense now s).isMidRange = true := fun h => by
      have := (hmid.mp h).2
      linarith
    unfold enemyChooseDirection
    rw [if_neg h1, if_neg h2]
    split_ifs
    · refine ⟨?_, rfl⟩
      show (-1 : Int) ≠ 0
      decide
    · refine ⟨?_, rfl⟩
      show (1 : Int) ≠ 0
      decide

/-- Witness of C29: in `arena` the enemy stands 590 units right of the
player; the decision taken at instant 7 makes it run toward the player. -/
theorem policy_direction_witness :
    |arena.enemyPosition.x - arena.playerPosition.x| ≥ 300 ∧
    7 - arena.enemyDecisionClock > 3 / 10 ∧
    (arena.enemyIsReloading = true ∨ arena.enemyJumping = false) ∧
    ((enemyChooseDirection (enemySense 7 arena) arena).enemyDirection ≠ 0 ∧
      (enemyChooseDirection (enemySense 7 arena) arena).enemyIsRunning = true) ∧
    ((enemyDecision 7 (enemySense 7 arena) arena).enemyDirection =
        (enemyChooseDirection (enemySense 7 arena) arena).enemyDirection ∧
      (enemyDecision 7 (enemySense 7 arena) arena).enemyIsRunning =
        (enemyChooseDirection (enemySense 7 arena) arena).enemyIsRunning) := by
  have h1 : |arena.enemyPosition.x - arena.playerPosition.x| ≥ 300 := by
    norm_num [arena, abs_of_nonneg]
  have h2 : 7 - arena.enemyDecisionClock > 3 / 10 := by
    norm_num [arena]
  exact ⟨h1, h2, Or.inr rfl, (policy_direction 7 arena).2.1 h1,
    (policy_direction 7 arena).2.2 h2 (Or.inr rfl)⟩

set_option maxHeartbeats 8000000 in
/-- The state `nearEnemy` just before the enemy decision of the frames at
instants 6 and 6.2, and the jumping flag after them. -/
theorem nearEnemy_values :
    ((beforeEnemy 6 nearEnemy).enemyJumping = false ∧
      |(beforeEnemy 6 nearEnemy).enemyPosition.x -
        (beforeEnemy 6 nearEnemy).playerPosition.x| < 80 ∧
      |(beforeEnemy 6 nearEnemy).enemyPosition.y -
        (beforeEnemy 6 nearEnemy).playerPosition.y| < 10 ∧
      ¬ (6 - (beforeEnemy 6 nearEnemy).enemyDecisionClock > 3 / 10)) ∧
    (enemyJumps 6 nearEnemy = false ∧ (tick 6 nearEnemy).enemyJumping = false ∧
      (tick 6 nearEnemy).enemyVerticalVelocity = 0) ∧
    ((beforeEnemy (31 / 5) nearEnemy).enemyJumping = false ∧
      |(beforeEnemy (31 / 5) nearEnemy).enemyPosition.x -
        (beforeEnemy (31 / 5) nearEnemy).playerPosition.x| < 80 ∧
      |(beforeEnemy (31 / 5) nearEnemy).enemyPosition.y -
        (beforeEnemy (31 / 5) nearEnemy).playerPosition.y| < 10 ∧
      31 / 5 - (beforeEnemy (31 / 5) nearEnemy).enemyDecisionClock > 3 / 10) := by
  norm_num [nearEnemy, arena, spritesAt, sheet128, beforeEnemy, enemyJumps,
    SpriteState.eq_iff_idx, SpriteState.toCtorIdx, abs_of_nonneg, abs_of_neg,
    kStageDurationSeconds, kMaxAmmo, kFrameTime, windowWidth, groundY, playerSpeed, enemySpeed,
    jumpStrength, gravity, enemyFireCooldown, enemyAttackCooldown, enemyReloadTime,
    attackCooldownTime, shootCooldownTime, maxRounds, roundEndDisplayTime, hitStunDuration,
    AnimatedSprite.update, CharacterSpriteManager.updateScale,
    CharacterSpriteManager.setFacingDirection, CharacterSpriteManager.setPosition,
    CharacterSpriteManager.canChangeState, CharacterSpriteManager.changeState,
    CharacterSpriteManager.advanceSheets, CharacterSpriteManager.clearDuration,
    CharacterSpriteManager.revertOneShot, CharacterSpriteManager.update,
    CharacterSpriteManager.resetDead, CharacterSpriteManager.getCurrentSprite,
    CharacterSpriteManager.getGlobalBounds, bulletBounds, overlap, clamp, truncToInt, fullAmmo,
    reloadPlayer, playerBullet, jumpKey, fireAccepted, fireKey, meleeAccepted, meleeSwing,
    meleeHit, meleeDone, meleeKey, keyPressed, keyReleased, handleEvent, updatePlayerHitStun,
    updateEnemyHitStun, updateHitStun, playerMotionX, canJumpOver, playerMove, playerFacing,
    playerKeepJump, playerFall, playerLand, playerAirborne, playerRest, playerToGround,
    playerGroundedFall, playerGroundedSprite, playerGrounded, playerVertical, playerSnap,
    playerPlaceSprite, playerGroundSnap, bulletHitEnemy, bulletHitPlayer, Bullet.advance,
    Bullet.deactivate, updateBullet, updateBulletList, setBullets, updateBullets,
    enemyStartReload, enemyFinishReload, enemyReload, enemySense, enemyChooseDirection,
    enemyPolicyJump, restartDecisionClock, enemyDecision, enemyMotionX, minEnemyX, enemyMove,
    enemyKeepJump, enemyFall, enemyLand, enemyAirborne, enemyRest, enemyToGround,
    enemyGroundedFall, enemyGroundedSprite, enemyGrounded, enemyVertical, enemyShouldFaceLeft,
    enemyFace, enemySnap, enemyPlaceSprite, enemyFacing, enemyMelee, enemyBullet, enemyShoot,
    enemyAttack, timeLeft, playerDeath, enemyDeath, deadSheetStep,
    CharacterSpriteManager.setDead, playerDeadAnimation, enemyDeadAnimation, deadAnimation,
    playerWon, playerLost, noteOutcome, clearIntents, roundOutcome, resetFighters, resetSprites,
    resetEnemyAmmo, resetRound, endGame, nextRound, roundEndHandling, frameStart, playerPhase,
    enemyPhase, simulate, beforeOutcome, tick]

/-- Counterexample to C27: in the frame at instant 6 on `nearEnemy` the enemy
stands 70 units from the player, level with it and not jumping, the started
round running; the last decision was taken 0.2 s before, and the enemy
starts no jump. -/
theorem jump_waits_for_cadence_counterexample :
    nearEnemy.waitingForStart = false ∧
    (beforeEnemy 6 nearEnemy).enemyJumping = false ∧
    |(beforeEnemy 6 nearEnemy).enemyPosition.x -
      (beforeEnemy 6 nearEnemy).playerPosition.x| < 80 ∧
    |(beforeEnemy 6 nearEnemy).enemyPosition.y -
      (beforeEnemy 6 nearEnemy).playerPosition.y| < 10 ∧
    enemyJumps 6 nearEnemy = false ∧ (tick 6 nearEnemy).enemyJumping = false ∧
    (tick 6 nearEnemy).enemyVerticalVelocity = 0 :=
  ⟨rfl, nearEnemy_values.1.1, nearEnemy_values.1.2.1, nearEnemy_values.1.2.2.1,
    nearEnemy_values.2.1.1, nearEnemy_values.2.1.2.1, nearEnemy_values.2.1.2.2⟩

/-- C27, amended: in a frame of a started round in which, when the enemy
decision is evaluated, the enemy is not jumping, `|enemy.x - player.x| < 80`
and `|enemy.y - player.y| < 10`: if more than 0.3 s have passed since the
last decision, the decision step starts a jump (`enemyJumping` becomes true,
the vertical velocity `0.85 * jumpStrength = -357`, upward); if not, the
step starts none. -/
theorem policy_jump_on_cadence (now : ℚ) (s : GameState)
    (hj : (beforeEnemy now s).enemyJumping = false)
    (hx : |(beforeEnemy now s).enemyPosition.x - (beforeEnemy now s).playerPosition.x| < 80)
    (hy : |(beforeEnemy now s).enemyPosition.y - (beforeEnemy now s).playerPosition.y| < 10) :
    (now - (beforeEnemy now s).enemyDecisionClock > 3 / 10 →
      enemyJumps now s = true ∧
      (enemyDecision now (enemySense now (beforeEnemy now s))
        (beforeEnemy now s)).enemyVerticalVelocity = -357) ∧
    (¬ (now - (beforeEnemy now s).enemyDecisionClock > 3 / 10) →
      enemyJumps now s = false) := by
  unfold enemyJumps
  constructor
  · intro hc
    have hd : (enemySense now (beforeEnemy now s)).distanceToPlayer < 80 := hx
    have hg : (beforeEnemy now s).enemyIsReloading = true ∨
        ¬ (beforeEnemy now s).enemyJumping = true := Or.inr (by simp [hj])
    have hp : ¬ (enemyChooseDirection (enemySense now (beforeEnemy now s))
          (restartDecisionClock now (beforeEnemy now s))).enemyJumping = true ∧
        (enemySense now (beforeEnemy now s)).distanceToPlayer < 80 ∧
        |(enemyChooseDirection (enemySense now (beforeEnemy now s))
            (restartDecisionClock now (beforeEnemy now s))).enemyPosition.y -
          (enemyChooseDirection (enemySense now (beforeEnemy now s))
            (restartDecisionClock now (beforeEnemy now s))).playerPosition.y| < 10 := by
      have e1 : enemyBodyView (enemyChooseDirection (enemySense now (beforeEnemy now s))
          (restartDecisionClock now (beforeEnemy now s))) = enemyBodyView (beforeEnemy now s) := by
        simp
      have e2 : playerBodyView (enemyChooseDirection (enemySense now (beforeEnemy now s))
          (restartDecisionClock now (beforeEnemy now s))) = playerBodyView (beforeEnemy now s) := by
        simp
      have e3 := congrArg Prod.fst e1
      have e4 := congrArg Prod.fst e2
      have e5 := congrArg (fun v => v.2.2) e1
      simp only [enemyBodyView, playerBodyView] at e3 e4 e5
      rw [e3, e4, e5, hj]
      exact ⟨by simp, hd, hy⟩
    unfold enemyDecision
    rw [if_pos hc, if_pos hg]
    unfold enemyPolicyJump
    rw [if_pos hp]
    refine ⟨rfl, ?_⟩
    show jumpStrength * (17 / 20) = -357
    norm_num [jumpStrength]
  · intro hc
    unfold enemyDecision
    rw [if_neg hc]
    exact hj

/-- Witness of C27: the frame at instant 6.2 on `nearEnemy`, 0.4 s after the
last decision. -/
theorem policy_jump_on_cadence_witness :
    (beforeEnemy (31 / 5) nearEnemy).enemyJumping = false ∧
    |(beforeEnemy (31 / 5) nearEnemy).enemyPosition.x -
      (beforeEnemy (31 / 5) nearEnemy).playerPosition.x| < 80 ∧
    |(beforeEnemy (31 / 5) nearEnemy).enemyPosition.y -
      (beforeEnemy (31 / 5) nearEnemy).playerPosition.y| < 10 ∧
    31 / 5 - (beforeEnemy (31 / 5) nearEnemy).enemyDecisionClock > 3 / 10 ∧
    enemyJumps (31 / 5) nearEnemy = true :=
  ⟨nearEnemy_values.2.2.1, nearEnemy_values.2.2.2.1, nearEnemy_values.2.2.2.2.1,
    nearEnemy_values.2.2.2.2.2,
    ((policy_jump_on_cadence (31 / 5) nearEnemy nearEnemy_values.2.2.1
      nearEnemy_values.2.2.2.1 nearEnemy_values.2.2.2.2.1).1
      nearEnemy_values.2.2.2.2.2).1⟩

/-! ## Round reset, sprite sheets and degenerate boxes -/

/-- With the round ended, the display delay over, both tallies below 2 and
the round number below 3, the round end handling runs the reset with the
round number incremented. -/
theorem roundEndHandling_reset (now : ℚ) (s : GameState) (h1 : s.roundEnded = true)
    (h2 : now - s.roundEndClock ≥ roundEndDisplayTime) (h3 : s.playerWins < 2)
    (h4 : s.enemyWins < 2) (h5 : s.currentRound < 3) :
    roundEndHandling now s = resetRound now (nextRound s) := by
  have c1 : ¬ (s.playerWins ≥ 2 ∨ s.enemyWins ≥ 2) := by omega
  have c2 : ¬ ((nextRound s).currentRound > maxRounds) := by
    show ¬ (s.currentRound + 1 > maxRounds)
    unfold maxRounds
    omega
  unfold roundEndHandling
  rw [if_pos h1, if_pos h2, if_neg c1, if_neg c2]

/-- C24: when the round end handling finds the round ended, the display
delay of 3.0 s elapsed, both tallies below 2 and `currentRound < 3`, the
reset leaves both health values at 100, the player at `(120, 300)`, the enemy
at `(710, 300)`, both animation states `Walk`, the player queue with the 5
units `0..4` and `playerReloads = 2`, `enemyAmmo = 5` and `enemyReloads = 2`,
the noted flags, the hit-stun flags and the jumping flags cleared,
`currentRound` incremented by 1 and both tallies unchanged. -/
theorem round_reset (now : ℚ) (s : GameState) (h1 : s.roundEnded = true)
    (h2 : now - s.roundEndClock ≥ roundEndDisplayTime) (h3 : s.playerWins < 2)
    (h4 : s.enemyWins < 2) (h5 : s.currentRound < 3) :
    ((roundEndHandling now s).playerHealth = 100 ∧
      (roundEndHandling now s).enemyHealth = 100) ∧
    ((roundEndHandling now s).playerPosition = { x := 120, y := 300 } ∧
      (roundEndHandling now s).enemyPosition = { x := 710, y := 300 }) ∧
    ((roundEndHandling now s).playerSprites.currentState = SpriteState.Walk ∧
      (roundEndHandling now s).enemySprites.currentState = SpriteState.Walk) ∧
    ((roundEndHandling now s).playerAmmo = [0, 1, 2, 3, 4] ∧
      (roundEndHandling now s).playerAmmo.length = 5 ∧
      (roundEndHandling now s).playerReloads = 2 ∧
      (roundEndHandling now s).enemyAmmo = 5 ∧
      (roundEndHandling now s).enemyReloads = 2) ∧
    ((roundEndHandling now s).winNoted = false ∧
      (roundEndHandling now s).defeatNoted = false ∧
      (roundEndHandling now s).playerHitStunned = false ∧
      (roundEndHandling now s).enemyHitStunned = false ∧
      (roundEndHandling now s).playerJumping = false ∧
      (roundEndHandling now s).enemyJumping = false) ∧
    ((roundEndHandling now s).currentRound = s.currentRound + 1 ∧
      (roundEndHandling now s).playerWins = s.playerWins ∧
      (roundEndHandling now s).enemyWins = s.enemyWins) := by
  rw [roundEndHandling_reset now s h1 h2 h3 h4 h5]
  have ha : (resetRound now (nextRound s)).playerAmmo = fullAmmo := rfl
  refine ⟨⟨rfl, rfl⟩, ⟨?_, ?_⟩, ⟨?_, ?_⟩, ⟨?_, ?_, rfl, rfl, rfl⟩,
    ⟨rfl, rfl, rfl, rfl, rfl, rfl⟩, ⟨rfl, rfl, rfl⟩⟩
  · show ({ x := 120, y := groundY } : Vector2f) = _
    rw [groundY]
  · show ({ x := windowWidth - 250, y := groundY } : Vector2f) = _
    rw [groundY, windowWidth]
    norm_num
  · exact changeState_currentState _ _ _ _
  · exact changeState_currentState _ _ _ _
  · rw [ha, fullAmmo_eq]
  · rw [ha, fullAmmo_eq]
    rfl

/-- Witness of C24: the concrete session with the win of round 1 noted at
instant 1.5, handled at instant 5. -/
theorem round_reset_witness :
    demoWon.roundEnded = true ∧ 5 - demoWon.roundEndClock ≥ roundEndDisplayTime ∧
    demoWon.playerWins < 2 ∧ demoWon.enemyWins < 2 ∧ demoWon.currentRound < 3 ∧
    (roundEndHandling 5 demoWon).playerHealth = 100 ∧
    (roundEndHandling 5 demoWon).enemyHealth = 100 ∧
    (roundEndHandling 5 demoWon).currentRound = demoWon.currentRound + 1 := by
  have h2 : 5 - demoWon.roundEndClock ≥ roundEndDisplayTime := by
    norm_num [roundEndDisplayTime, demoWon]
  have h := round_reset 5 demoWon rfl h2 (by decide) (by decide) (by decide)
  exact ⟨rfl, h2, by decide, by decide, by decide, h.1.1, h.1.2, h.2.2.2.2.2.1⟩

theorem AnimatedSprite.update_frame (a : AnimatedSprite) (delta : ℚ)
    (h : 0 ≤ a.currentFrame ∧ a.currentFrame < a.frameCount) :
    (0 ≤ (a.update delta).currentFrame ∧ (a.update delta).currentFrame < (a.update delta).frameCount) ∧
    (a.update delta).frameCount = a.frameCount ∧ (a.update delta).frameWidth = a.frameWidth := by
  have hc : 0 < a.frameCount := lt_of_le_of_lt h.1 h.2
  unfold AnimatedSprite.update
  dsimp only
  split_ifs
  · refine ⟨⟨?_, ?_⟩, rfl, rfl⟩
    · show 0 ≤ Int.tmod (a.currentFrame + 1) a.frameCount
      rw [Int.tmod_eq_emod (by omega) (le_of_lt hc)]
      exact Int.emod_nonneg _ (ne_of_gt hc)
    · show Int.tmod (a.currentFrame + 1) a.frameCount < a.frameCount
      rw [Int.tmod_eq_emod (by omega) (le_of_lt hc)]
      exact Int.emod_lt_of_pos _ hc
  · exact ⟨h, rfl, rfl⟩

theorem AnimatedSprite.updates_frame (deltas : List ℚ) (a : AnimatedSprite)
    (h : 0 ≤ a.currentFrame ∧ a.currentFrame < a.frameCount) :
    (0 ≤ (a.updates deltas).currentFrame ∧
      (a.updates deltas).currentFrame < (a.updates deltas).frameCount) ∧
    (a.updates deltas).frameCount = a.frameCount ∧
    (a.updates deltas).frameWidth = a.frameWidth := by
  induction deltas generalizing a with
  | nil => exact ⟨h, rfl, rfl⟩
  | cons d ds ih =>
    obtain ⟨h1, h2, h3⟩ := AnimatedSprite.update_frame a d h
    obtain ⟨i1, i2, i3⟩ := ih (a.update d) h1
    exact ⟨i1, i2.trans h2, i3.trans h3⟩

/-- C30: for a sheet of `w > 0` by `h > 0` pixels (both below `2 ^ 31`, the
range in which the casts to `int` keep the value), `AnimatedSprite::load`
yields `frameCount = max(1, w / h) >= 1` and `frameWidth = w / frameCount`
(unsigned divisions) with `frameCount * frameWidth <= w`; any sequence of
calls of `AnimatedSprite::update` keeps `0 <= currentFrame < frameCount`, and
the texture rectangle it selects starts at `currentFrame * frameWidth >= 0`
and ends at most at `w`; `applyFirstFrame` computes the same frame width and
height. -/
theorem sheet_frames (w h : Nat) (hw : 0 < w) (hh : 0 < h) (_hw : w < 2 ^ 31)
    (_hh : h < 2 ^ 31) (deltas : List ℚ) :
    ((AnimatedSprite.load w h).frameCount = ((max 1 (w / h) : Nat) : Int) ∧
      1 ≤ (AnimatedSprite.load w h).frameCount) ∧
    ((AnimatedSprite.load w h).frameWidth = ((w / max 1 (w / h) : Nat) : Int) ∧
      (AnimatedSprite.load w h).frameCount * (AnimatedSprite.load w h).frameWidth ≤ (w : Int)) ∧
    (0 ≤ ((AnimatedSprite.load w h).updates deltas).currentFrame ∧
      ((AnimatedSprite.load w h).updates deltas).currentFrame <
        (AnimatedSprite.load w h).frameCount) ∧
    (0 ≤ ((AnimatedSprite.load w h).updates deltas).textureRect.1 ∧
      ((AnimatedSprite.load w h).updates deltas).textureRect.1 +
        ((AnimatedSprite.load w h).updates deltas).textureRect.2 ≤ (w : Int)) ∧
    applyFirstFrame w h =
      some ((AnimatedSprite.load w h).frameWidth, (AnimatedSprite.load w h).frameHeight) := by
  have hfc : (AnimatedSprite.load w h).frameCount = ((max 1 (w / h) : Nat) : Int) := rfl
  have hfw : (AnimatedSprite.load w h).frameWidth = ((w / max 1 (w / h) : Nat) : Int) := rfl
  have hcf : (AnimatedSprite.load w h).currentFrame = 0 := rfl
  have h1 : 1 ≤ max 1 (w / h) := le_max_left _ _
  have hmul : max 1 (w / h) * (w / max 1 (w / h)) ≤ w := Nat.mul_div_le w _
  have hmulz : (AnimatedSprite.load w h).frameCount * (AnimatedSprite.load w h).frameWidth ≤
      (w : Int) := by
    rw [hfc, hfw]
    exact_mod_cast hmul
  have hpos : 1 ≤ (AnimatedSprite.load w h).frameCount := by
    rw [hfc]
    exact_mod_cast h1
  have hwnn : 0 ≤ (AnimatedSprite.load w h).frameWidth := by
    rw [hfw]
    exact Int.natCast_nonneg _
  obtain ⟨⟨u1, u2⟩, u3, u4⟩ := AnimatedSprite.updates_frame deltas (AnimatedSprite.load w h)
    ⟨by rw [hcf], by rw [hcf]; omega⟩
  rw [u3] at u2
  refine ⟨⟨hfc, hpos⟩, ⟨hfw, hmulz⟩, ⟨u1, u2⟩, ⟨?_, ?_⟩, ?_⟩
  · show 0 ≤ ((AnimatedSprite.load w h).updates deltas).currentFrame *
      ((AnimatedSprite.load w h).updates deltas).frameWidth
    rw [u4]
    exact mul_nonneg u1 hwnn
  · show ((AnimatedSprite.load w h).updates deltas).currentFrame *
        ((AnimatedSprite.load w h).updates deltas).frameWidth +
      ((AnimatedSprite.load w h).updates deltas).frameWidth ≤ (w : Int)
    rw [u4]
    have h3 : (((AnimatedSprite.load w h).updates deltas).currentFrame + 1) *
        (AnimatedSprite.load w h).frameWidth ≤
        (AnimatedSprite.load w h).frameCount * (AnimatedSprite.load w h).frameWidth :=
      mul_le_mul_of_nonneg_right (by omega) hwnn
    linarith
  · unfold applyFirstFrame
    rw [if_neg (by omega)]
    have hp : ((h : Int) > 0) := by exact_mod_cast hh
    simp only [hp, if_true]
    rfl

/-- Witness of C30: the walk sheet of the concrete session, 1280 by 128
pixels, after three updates of 0.2 s. -/
theorem sheet_frames_witness :
    0 < 1280 ∧ 0 < 128 ∧ 1280 < 2 ^ 31 ∧ 128 < 2 ^ 31 ∧
    (AnimatedSprite.load 1280 128).frameCount = 10 ∧
    (AnimatedSprite.load 1280 128).frameWidth = 128 ∧
    0 ≤ ((AnimatedSprite.load 1280 128).updates [1 / 5, 1 / 5, 1 / 5]).currentFrame ∧
    ((AnimatedSprite.load 1280 128).updates [1 / 5, 1 / 5, 1 / 5]).currentFrame <
      (AnimatedSprite.load 1280 128).frameCount :=
  ⟨by decide, by decide, by norm_num, by norm_num, by decide, by decide,
    (sheet_frames 1280 128 (by decide) (by decide) (by norm_num) (by norm_num)
      [1 / 5, 1 / 5, 1 / 5]).2.2.1.1,
    (sheet_frames 1280 128 (by decide) (by decide) (by norm_num) (by norm_num)
      [1 / 5, 1 / 5, 1 / 5]).2.2.1.2⟩

theorem overlap_iff (bb tb : FloatRect) :
    overlap bb tb = true ↔
      (bb.position.x < tb.position.x + tb.size.x ∧
        bb.position.x + bb.size.x > tb.position.x ∧
        bb.position.y < tb.position.y + tb.size.y ∧
        bb.position.y + bb.size.y > tb.position.y) := by
  unfold overlap
  rw [decide_eq_true_iff]

/-- Without overlap the test of a player bullet against the enemy changes
nothing. -/
theorem bulletHitEnemy_of_apart (now : ℚ) (s : GameState) (b : Bullet)
    (h : overlap (bulletBounds s.bulletTextureWidth s.bulletTextureHeight b.position)
      s.enemySprites.getGlobalBounds = false) :
    bulletHitEnemy now s b = (s, b) := by
  unfold bulletHitEnemy
  split_ifs with c1 c2
  · exact absurd c2 (by simp [h])
  · rfl
  · rfl

/-- Without overlap the test of an enemy bullet against the player changes
nothing. -/
theorem bulletHitPlayer_of_apart (now : ℚ) (s : GameState) (b : Bullet)
    (h : overlap (bulletBounds s.bulletTextureWidth s.bulletTextureHeight b.position)
      s.playerSprites.getGlobalBounds = false) :
    bulletHitPlayer now s b = (s, b) := by
  unfold bulletHitPlayer
  split_ifs with c1 c2
  · exact absurd c2 (by simp [h])
  · rfl
  · rfl

set_option maxHeartbeats 4000000 in
/-- The bounds of the enemy of `emptyTarget` and the test of `grazing`
against it. -/
theorem emptyTarget_values :
    (emptyTarget.enemySprites.getGlobalBounds.size.x = 0 ∧
      emptyTarget.enemySprites.getGlobalBounds.size.y = 0) ∧
    (bulletHitEnemy 6 emptyTarget grazing).1.enemyHealth = 94 ∧
    (bulletHitEnemy 6 emptyTarget grazing).1.enemyHitStunned = true ∧
    (bulletHitEnemy 6 emptyTarget grazing).2.active = false := by
  norm_num [emptyTarget, emptySprites, grazing, arena, spritesAt, sheet128, bulletHitEnemy,
    bulletBounds, overlap, CharacterSpriteManager.getGlobalBounds,
    CharacterSpriteManager.getCurrentSprite, CharacterSpriteManager.changeState,
    CharacterSpriteManager.updateScale, hitStunDuration,
    SpriteState.eq_iff_idx, SpriteState.toCtorIdx, abs_of_nonneg, abs_of_neg]

/-- Counterexample to C22: the target box `pointBox` has zero width and zero
height and lies inside the projectile box `wideBox`, and the test reports an
overlap; in the loop, the player projectile `grazing` hits the enemy of
`emptyTarget`, whose bounds have zero width and zero height: the enemy loses
6 health points and is hit-stunned, and the projectile is deactivated. -/
theorem degenerate_overlap_counterexample :
    (pointBox.size.x = 0 ∧ pointBox.size.y = 0 ∧ overlap wideBox pointBox = true) ∧
    (emptyTarget.enemySprites.getGlobalBounds.size.x = 0 ∧
      emptyTarget.enemySprites.getGlobalBounds.size.y = 0) ∧
    emptyTarget.enemyHealth = 100 ∧
    (bulletHitEnemy 6 emptyTarget grazing).1.enemyHealth = 94 ∧
    (bulletHitEnemy 6 emptyTarget grazing).1.enemyHitStunned = true ∧
    (bulletHitEnemy 6 emptyTarget grazing).2.active = false := by
  refine ⟨⟨rfl, rfl, ?_⟩, emptyTarget_values.1, rfl, emptyTarget_values.2⟩
  rw [overlap_iff]
  norm_num [wideBox, pointBox]

/-- C22, amended: for a target box of zero width the overlap test of the
projectile update reports an overlap exactly when the x of the target lies
strictly between the left and right edges of the projectile box and the two
boxes overlap vertically, and likewise with the axes exchanged for a target
box of zero height; so it reports none when the projectile box has no
extent in that axis either, or when the target lies outside the open span of
the projectile box; and when it reports none, the hit tests change neither
the state nor the projectile. -/
theorem degenerate_target_overlap (bb tb : FloatRect) :
    (tb.size.x = 0 →
      (overlap bb tb = true ↔
        (bb.position.x < tb.position.x ∧ tb.position.x < bb.position.x + bb.size.x ∧
          bb.position.y < tb.position.y + tb.size.y ∧
          bb.position.y + bb.size.y > tb.position.y)) ∧
      (bb.size.x ≤ 0 → overlap bb tb = false)) ∧
    (tb.size.y = 0 →
      (overlap bb tb = true ↔
        (bb.position.y < tb.position.y ∧ tb.position.y < bb.position.y + bb.size.y ∧
          bb.position.x < tb.position.x + tb.size.x ∧
          bb.position.x + bb.size.x > tb.position.x)) ∧
      (bb.size.y ≤ 0 → overlap bb tb = false)) ∧
    (∀ (now : ℚ) (s : GameState) (b : Bullet),
      (overlap (bulletBounds s.bulletTextureWidth s.bulletTextureHeight b.position)
          s.enemySprites.getGlobalBounds = false → bulletHitEnemy now s b = (s, b)) ∧
      (overlap (bulletBounds s.bulletTextureWidth s.bulletTextureHeight b.position)
          s.playerSprites.getGlobalBounds = false → bulletHitPlayer now s b = (s, b))) := by
  refine ⟨?_, ?_, fun now s b =>
    ⟨bulletHitEnemy_of_apart now s b, bulletHitPlayer_of_apart now s b⟩⟩
  · intro hx
    constructor
    · rw [overlap_iff, hx, add_zero]
    · intro hb
      rw [← Bool.not_eq_true, overlap_iff, hx, add_zero]
      rintro ⟨a, b, _, _⟩
      linarith
  · intro hy
    constructor
    · rw [overlap_iff, hy, add_zero]
      constructor
      · rintro ⟨a, b, c, d⟩
        exact ⟨c, d, a, b⟩
      · rintro ⟨a, b, c, d⟩
        exact ⟨c, d, a, b⟩
    · intro hb
      rw [← Bool.not_eq_true, overlap_iff, hy, add_zero]
      rintro ⟨_, _, c, d⟩
      linarith

/-- Witness of C22: a target box of zero width at `x = 20`, right of the
projectile box `wideBox`. -/
theorem degenerate_target_overlap_witness :
    ({ position := { x := 20, y := 5 }, size := { x := 0, y := 4 } } : FloatRect).size.x = 0 ∧
    ¬ (overlap wideBox { position := { x := 20, y := 5 }, size := { x := 0, y := 4 } } = true) := by
  refine ⟨rfl, ?_⟩
  rw [((degenerate_target_overlap wideBox
    { position := { x := 20, y := 5 }, size := { x := 0, y := 4 } }).1 rfl).1]
  norm_num [wideBox]

/-! ## The projectile pool -/

theorem poolActive_of_view {s s' : GameState} (hv : poolView s' = poolView s)
    (h : PoolActive s) : PoolActive s' := by
  have hb : s'.bullets = s.bullets := congrArg Prod.fst hv
  unfold PoolActive
  rw [hb]
  exact h

theorem poolActive_append {s s' : GameState} (b : Bullet) (hb : b.active = true)
    (hs : s'.bullets = s.bullets ++ [b] ∨ s'.bullets = s.bullets)
    (h : PoolActive s) : PoolActive s' := by
  intro c hc
  rcases hs with hs | hs
  · rw [hs, List.mem_append, List.mem_singleton] at hc
    rcases hc with hc | hc
    · exact h c hc
    · rw [hc]
      exact hb
  · rw [hs] at hc
    exact h c hc

theorem fireKey_poolActive (now : ℚ) (s : GameState) (h : PoolActive s) :
    PoolActive (fireKey now s) := by
  unfold fireKey
  split_ifs
  · exact poolActive_append (playerBullet s) rfl (Or.inl rfl) h
  · exact poolActive_append (playerBullet s) rfl (Or.inr rfl) h
  · exact h

theorem keyPressed_poolActive (now : ℚ) (s : GameState) (code : Key) (h : PoolActive s) :
    PoolActive (keyPressed now s code) := by
  cases code
  case A => exact fireKey_poolActive now s h
  case S => exact poolActive_of_view (meleeKey_poolView now s) h
  case Up => exact poolActive_of_view (jumpKey_poolView now s) h
  case R => exact poolActive_of_view (reloadPlayer_poolView false s) h
  all_goals exact h

theorem handleEvent_poolActive (now : ℚ) (s : GameState) (e : Event) (h : PoolActive s) :
    PoolActive (handleEvent now s e) := by
  cases e with
  | Closed => exact h
  | Other => exact h
  | KeyReleased code =>
    dsimp only [handleEvent]
    split_ifs
    · exact h
    · exact poolActive_of_view (keyReleased_poolView code s) h
  | KeyPressed code =>
    dsimp only [handleEvent]
    split_ifs
    · exact h
    · exact h
    · exact keyPressed_poolActive now s code h

theorem updateBullets_poolActive (now delta : ℚ) (s : GameState) (h : PoolActive s) :
    PoolActive (updateBullets now delta s) := by
  unfold updateBullets
  split_ifs
  · intro b hb
    have hb2 : b ∈ (updateBulletList now delta s s.bullets).2.filter (fun b => b.active) := hb
    exact (List.mem_filter.mp hb2).2
  · exact h

theorem enemyAttack_poolActive (now : ℚ) (sense : EnemySense) (s : GameState)
    (h : PoolActive s) : PoolActive (enemyAttack now sense s) := by
  unfold enemyAttack
  split_ifs
  · exact fun b hb => h b hb
  · refine poolActive_append (enemyBullet s
      ((s.enemySprites.setFacingDirection (enemyShouldFaceLeft s)).setPosition
        s.enemyPosition)) rfl ?_ h
    show (if s.bulletTextureWidth > 0 ∧ s.bulletTextureHeight > 0 then _ else _) = _ ∨
      (if s.bulletTextureWidth > 0 ∧ s.bulletTextureHeight > 0 then _ else _) = _
    split_ifs
    · exact Or.inl rfl
    · exact Or.inr rfl
  · exact h
  · exact h

theorem tick_poolActive (now : ℚ) (s : GameState) (h : PoolActive s) :
    PoolActive (tick now s) := by
  unfold tick
  split_ifs
  · exact poolActive_of_view (frameStart_poolView now s) h
  · refine poolActive_of_view (roundEndHandling_poolView now _) ?_
    refine poolActive_of_view (roundOutcome_poolView now _) ?_
    unfold beforeOutcome simulate
    refine poolActive_of_view (s := enemyPhase now (now - s.deltaClock) (enemyReload now
      (updateBullets now (now - s.deltaClock) (playerPhase now (now - s.deltaClock)
        (frameStart now s))))) (by simp) ?_
    unfold enemyPhase
    apply enemyAttack_poolActive
    refine poolActive_of_view (s := updateBullets now (now - s.deltaClock)
      (playerPhase now (now - s.deltaClock) (frameStart now s))) (by simp) ?_
    apply updateBullets_poolActive
    exact poolActive_of_view (by simp) h

theorem reachable_poolActive (s : GameState) (h : Reachable s) : PoolActive s := by
  refine Reachable.invariant PoolActive ?_ ?_ ?_ s h
  · intro ps es bw bh hist da db t0 b hb
    have he : (initialState ps es bw bh hist da db t0).bullets = [] := rfl
    rw [he] at hb
    exact absurd hb (List.not_mem_nil b)
  · intro now s e _ hs
    exact handleEvent_poolActive now s e hs
  · intro now s _ hs
    exact tick_poolActive now s hs

/-- What the loop body leaves of an active projectile: it stays active
exactly when its advanced position is in range and it does not hit its
target, and is then the advanced projectile. -/
theorem updateBullet_kept (now delta : ℚ) (s : GameState) (b : Bullet) (ha : b.active = true) :
    ((updateBullet now delta s b).2.active = true ↔
      (-50 ≤ (b.advance delta).position.x ∧ (b.advance delta).position.x ≤ windowWidth + 50 ∧
        hitsTarget s (b.advance delta) = false)) ∧
    ((updateBullet now delta s b).2.active = true →
      (updateBullet now delta s b).2 = b.advance delta) := by
  have hadv : (b.advance delta).active = true := ha
  by_cases hr : (b.advance delta).position.x < -50 ∨
      (b.advance delta).position.x > windowWidth + 50
  · have hu : updateBullet now delta s b = (s, (b.advance delta).deactivate) := by
      unfold updateBullet
      rw [if_neg (by simp [ha]), if_pos hr]
    rw [hu]
    have hd : ((b.advance delta).deactivate).active = false := rfl
    constructor
    · constructor
      · intro h
        rw [hd] at h
        exact absurd h (by decide)
      · rintro ⟨h1, h2, _⟩
        rcases hr with h | h
        · linarith
        · linarith
    · intro h
      rw [hd] at h
      exact absurd h (by decide)
  · have hu : updateBullet now delta s b =
        bulletHitPlayer now (bulletHitEnemy now s (b.advance delta)).1
          (bulletHitEnemy now s (b.advance delta)).2 := by
      unfold updateBullet
      rw [if_neg (by simp [ha]), if_neg hr]
    have hr2 : -50 ≤ (b.advance delta).position.x ∧
        (b.advance delta).position.x ≤ windowWidth + 50 := by
      push_neg at hr
      exact hr
    rw [hu]
    cases hf : (b.advance delta).fromPlayer
    · rw [bulletHitEnemy_of_not_fromPlayer now s _ hf]
      unfold bulletHitPlayer hitsTarget
      by_cases hp : s.playerHealth > 0
      · cases ho : overlap (bulletBounds s.bulletTextureWidth s.bulletTextureHeight
            (b.advance delta).position) s.playerSprites.getGlobalBounds
        · simp [hf, hp, ho, hadv, hr2]
        · simp [hf, hp, ho, hr2]
      · simp [hf, hp, hadv, hr2]
    · unfold hitsTarget
      by_cases hp : s.enemyHealth > 0
      · cases ho : overlap (bulletBounds s.bulletTextureWidth s.bulletTextureHeight
            (b.advance delta).position) s.enemySprites.getGlobalBounds
        · have he : bulletHitEnemy now s (b.advance delta) = (s, b.advance delta) := by
            unfold bulletHitEnemy
            simp [hf, hp, ho]
          rw [he, bulletHitPlayer_of_fromPlayer now s _ hf]
          simp [hf, hp, ho, hadv, hr2]
        · have he : (bulletHitEnemy now s (b.advance delta)).2.active = false ∧
              (bulletHitEnemy now s (b.advance delta)).2.fromPlayer = true := by
            unfold bulletHitEnemy
            simp [hf, hp, ho]
          rw [bulletHitPlayer_of_fromPlayer now _ _ he.2]
          simp [hf, hp, ho, he.1]
      · have he : bulletHitEnemy now s (b.advance delta) = (s, b.advance delta) := by
          unfold bulletHitEnemy
          simp [hf, hp]
        rw [he, bulletHitPlayer_of_fromPlayer now s _ hf]
        simp [hf, hp, hadv, hr2]

/-- The purge after the loop leaves the pool the claim describes. -/
theorem updateBulletList_kept (now delta : ℚ) (bs : List Bullet) (s : GameState)
    (h : ∀ b ∈ bs, b.active = true) :
    (updateBulletList now delta s bs).2.filter (fun b => b.active) =
      keptPool now delta s bs := by
  induction bs generalizing s with
  | nil => rfl
  | cons b bs ih =>
    have hb : b.active = true := h b (List.mem_cons_self _ _)
    have hbs : ∀ c ∈ bs, c.active = true := fun c hc => h c (List.mem_cons_of_mem _ hc)
    obtain ⟨k1, k2⟩ := updateBullet_kept now delta s b hb
    show ((updateBullet now delta s b).2 ::
      (updateBulletList now delta (updateBullet now delta s b).1 bs).2).filter
        (fun b => b.active) = keptPool now delta s (b :: bs)
    unfold keptPool
    by_cases hk : (updateBullet now delta s b).2.active = true
    · rw [List.filter_cons_of_pos hk, if_pos (k1.mp hk), k2 hk, ih _ hbs]
    · rw [List.filter_cons_of_neg hk, if_neg (fun hc => hk (k1.mpr hc)), ih _ hbs]

theorem keptPool_sublist (now delta : ℚ) (bs : List Bullet) (s : GameState) :
    List.Sublist (keptPool now delta s bs) (bs.map (fun b => b.advance delta)) := by
  induction bs generalizing s with
  | nil => exact List.Sublist.slnil
  | cons b bs ih =>
    unfold keptPool
    split_ifs
    · exact List.Sublist.cons₂ _ (ih _)
    · exact List.Sublist.cons _ (ih _)

theorem keptPool_mem (now delta : ℚ) (bs : List Bullet) (s : GameState) (c : Bullet)
    (hc : c ∈ keptPool now delta s bs) :
    -50 ≤ c.position.x ∧ c.position.x ≤ windowWidth + 50 := by
  induction bs generalizing s with
  | nil => exact absurd hc (List.not_mem_nil c)
  | cons b bs ih =>
    unfold keptPool at hc
    split_ifs at hc with hk
    · rcases List.mem_cons.mp hc with h | h
      · rw [h]
        exact ⟨hk.1, hk.2.1⟩
      · exact ih _ h
    · exact ih _ hc

/-- C21: in the frame at instant `now` of a reachable state, the projectile
update step leaves in the pool exactly the projectiles that were in it,
each advanced by `velocity * delta`, whose advanced position has `x` in
`[-50, 1010]` and that did not hit their target, in their original order
(`keptPool`); every projectile left in the pool is active and has `x` in
`[-50, 1010]`. -/
theorem pool_after_update (now : ℚ) (s : GameState) (hs : Reachable s) :
    (updateBullets now (now - s.deltaClock)
        (playerPhase now (now - s.deltaClock) (frameStart now s))).bullets =
      keptPool now (now - s.deltaClock)
        (playerPhase now (now - s.deltaClock) (frameStart now s)) s.bullets ∧
    List.Sublist
      (updateBullets now (now - s.deltaClock)
        (playerPhase now (now - s.deltaClock) (frameStart now s))).bullets
      (s.bullets.map (fun b => b.advance (now - s.deltaClock))) ∧
    (∀ b ∈ (updateBullets now (now - s.deltaClock)
        (playerPhase now (now - s.deltaClock) (frameStart now s))).bullets,
      b.active = true ∧ -50 ≤ b.position.x ∧ b.position.x ≤ 1010) := by
  have hb : (playerPhase now (now - s.deltaClock) (frameStart now s)).bullets = s.bullets :=
    congrArg Prod.fst (by simp : poolView (playerPhase now (now - s.deltaClock)
      (frameStart now s)) = poolView s)
  have hact : PoolActive (playerPhase now (now - s.deltaClock) (frameStart now s)) :=
    poolActive_of_view (by simp) (reachable_poolActive s hs)
  have heq : (updateBullets now (now - s.deltaClock)
        (playerPhase now (now - s.deltaClock) (frameStart now s))).bullets =
      keptPool now (now - s.deltaClock)
        (playerPhase now (now - s.deltaClock) (frameStart now s)) s.bullets := by
    unfold updateBullets
    split_ifs with c
    · show ((updateBulletList now (now - s.deltaClock) _ _).2.filter (fun b => b.active)) = _
      rw [updateBulletList_kept now _ _ _ hact, hb]
    · have hnil : s.bullets = [] := by
        rw [← hb]
        simpa using c
      rw [hb, hnil]
      rfl
  refine ⟨heq, ?_, ?_⟩
  · rw [heq]
    exact keptPool_sublist _ _ _ _
  · intro b hbm
    have h1 := updateBullets_poolActive now (now - s.deltaClock) _ hact b hbm
    rw [heq] at hbm
    have h2 := keptPool_mem _ _ _ _ b hbm
    refine ⟨h1, h2.1, ?_⟩
    have h3 := h2.2
    unfold windowWidth at h3
    linarith

/-- The concrete session after the shot is reachable. -/
theorem demoFired_reachable : Reachable demoFired :=
  Reachable.step demoRunning_reachable (Step.event 3 _ demoRunning rfl rfl)

/-- Witness of C21: the frame at instant 3.01 of the concrete session after
a shot of the player at instant 3. -/
theorem pool_after_update_witness :
    Reachable demoFired ∧
    (∀ b ∈ (updateBullets (301 / 100) (301 / 100 - demoFired.deltaClock)
        (playerPhase (301 / 100) (301 / 100 - demoFired.deltaClock)
          (frameStart (301 / 100) demoFired))).bullets,
      b.active = true ∧ -50 ≤ b.position.x ∧ b.position.x ≤ 1010) :=
  ⟨demoFired_reachable, (pool_after_update (301 / 100) demoFired demoFired_reachable).2.2⟩

/-! ## Round end, melee range and credits -/

theorem updateBulletList_nil (now delta : ℚ) (s : GameState) :
    updateBulletList now delta s [] = (s, []) := rfl

theorem updateBulletList_cons (now delta : ℚ) (s : GameState) (b : Bullet) (bs : List Bullet) :
    updateBulletList now delta s (b :: bs) =
      ((updateBulletList now delta (updateBullet now delta s b).1 bs).1,
        (updateBullet now delta s b).2 ::
          (updateBulletList now delta (updateBullet now delta s b).1 bs).2) := rfl

set_option maxHeartbeats 8000000 in
/-- The frame at instant 6 on `lastSecond` records the time-out; the melee
key and the fire key at instant 6.5 and the frame at instant 6.7 follow. -/
theorem lastSecond_values :
    ((tick 6 lastSecond).roundEnded = true ∧ (tick 6 lastSecond).defeatNoted = true ∧
      (tick 6 lastSecond).playerHealth = 100 ∧ (tick 6 lastSecond).enemyHealth = 100 ∧
      (tick 6 lastSecond).playerAmmo.length = 5 ∧ (tick 6 lastSecond).bullets = []) ∧
    ((handleEvent (13 / 2) (tick 6 lastSecond) (Event.KeyPressed Key.S)).enemyHealth = 92 ∧
      (handleEvent (13 / 2) (tick 6 lastSecond) (Event.KeyPressed Key.S)).roundEnded = true) ∧
    ((handleEvent (13 / 2) (tick 6 lastSecond) (Event.KeyPressed Key.A)).playerAmmo.length = 4 ∧
      (handleEvent (13 / 2) (tick 6 lastSecond) (Event.KeyPressed Key.A)).bullets.length = 1) ∧
    ((tick (67 / 10) (tick 6 lastSecond)).playerHealth = 93 ∧
      (tick (67 / 10) (tick 6 lastSecond)).playerHitStunned = true ∧
      (tick (67 / 10) (tick 6 lastSecond)).roundEnded = true) := by
  norm_num [List.cons_ne_nil, lastSecond, arena, spritesAt, sheet128, updateBulletList_nil, updateBulletList_cons,
    SpriteState.eq_iff_idx, SpriteState.toCtorIdx, abs_of_nonneg, abs_of_neg,
    kStageDurationSeconds, kMaxAmmo, kFrameTime, windowWidth, groundY, playerSpeed, enemySpeed,
    jumpStrength, gravity, enemyFireCooldown, enemyAttackCooldown, enemyReloadTime,
    attackCooldownTime, shootCooldownTime, maxRounds, roundEndDisplayTime, hitStunDuration,
    AnimatedSprite.update, CharacterSpriteManager.updateScale,
    CharacterSpriteManager.setFacingDirection, CharacterSpriteManager.setPosition,
    CharacterSpriteManager.canChangeState, CharacterSpriteManager.changeState,
    CharacterSpriteManager.advanceSheets, CharacterSpriteManager.clearDuration,
    CharacterSpriteManager.revertOneShot, CharacterSpriteManager.update,
    CharacterSpriteManager.resetDead, CharacterSpriteManager.getCurrentSprite,
    CharacterSpriteManager.getGlobalBounds, bulletBounds, overlap, clamp, truncToInt, fullAmmo,
    reloadPlayer, playerBullet, jumpKey, fireAccepted, fireKey, meleeAccepted, meleeSwing,
    meleeHit, meleeDone, meleeKey, keyPressed, keyReleased, handleEvent, updatePlayerHitStun,
    updateEnemyHitStun, updateHitStun, playerMotionX, canJumpOver, playerMove, playerFacing,
    playerKeepJump, playerFall, playerLand, playerAirborne, playerRest, playerToGround,
    playerGroundedFall, playerGroundedSprite, playerGrounded, playerVertical, playerSnap,
    playerPlaceSprite, playerGroundSnap, bulletHitEnemy, bulletHitPlayer, Bullet.advance,
    Bullet.deactivate, updateBullet, setBullets, updateBullets,
    enemyStartReload, enemyFinishReload, enemyReload, enemySense, enemyChooseDirection,
    enemyPolicyJump, restartDecisionClock, enemyDecision, enemyMotionX, minEnemyX, enemyMove,
    enemyKeepJump, enemyFall, enemyLand, enemyAirborne, enemyRest, enemyToGround,
    enemyGroundedFall, enemyGroundedSprite, enemyGrounded, enemyVertical, enemyShouldFaceLeft,
    enemyFace, enemySnap, enemyPlaceSprite, enemyFacing, enemyMelee, enemyBullet, enemyShoot,
    enemyAttack, timeLeft, playerDeath, enemyDeath, deadSheetStep,
    CharacterSpriteManager.setDead, playerDeadAnimation, enemyDeadAnimation, deadAnimation,
    playerWon, playerLost, noteOutcome, clearIntents, roundOutcome, resetFighters, resetSprites,
    resetEnemyAmmo, resetRound, endGame, nextRound, roundEndHandling, frameStart, playerPhase,
    enemyPhase, simulate, beforeOutcome, tick]

/-- C23, divergence: after the frame at instant 6 has recorded a time-out
with both fighters at health 100 (`roundEnded` is true), the melee key takes
8 health points from the enemy, the fire key takes a unit from the queue and
adds a projectile to the pool, and the frame at instant 6.7 runs the enemy
melee attack, which takes 7 health points from the player, the round still
ended. -/
theorem attacks_after_round_end :
    ((tick 6 lastSecond).roundEnded = true ∧ (tick 6 lastSecond).defeatNoted = true ∧
      (tick 6 lastSecond).playerHealth = 100 ∧ (tick 6 lastSecond).enemyHealth = 100 ∧
      (tick 6 lastSecond).playerAmmo.length = 5 ∧ (tick 6 lastSecond).bullets = []) ∧
    ((handleEvent (13 / 2) (tick 6 lastSecond) (Event.KeyPressed Key.S)).enemyHealth = 92 ∧
      (handleEvent (13 / 2) (tick 6 lastSecond) (Event.KeyPressed Key.S)).roundEnded = true) ∧
    ((handleEvent (13 / 2) (tick 6 lastSecond) (Event.KeyPressed Key.A)).playerAmmo.length = 4 ∧
      (handleEvent (13 / 2) (tick 6 lastSecond) (Event.KeyPressed Key.A)).bullets.length = 1) ∧
    ((tick (67 / 10) (tick 6 lastSecond)).playerHealth = 93 ∧
      (tick (67 / 10) (tick 6 lastSecond)).playerHitStunned = true ∧
      (tick (67 / 10) (tick 6 lastSecond)).roundEnded = true) :=
  lastSecond_values

theorem playerStun_fields {s s' : GameState} (h : playerStunView s' = playerStunView s) :
    s'.playerHitStunned = s.playerHitStunned ∧ s'.playerHitStunClock = s.playerHitStunClock := by
  simpa only [playerStunView, Prod.mk.injEq] using h

/-- An enemy attack decided with `isClose` false runs no melee branch: it
leaves the health and the hit-stun of the player as they are. -/
theorem enemyAttack_of_not_close (now : ℚ) (sense : EnemySense) (s : GameState)
    (h : sense.isClose = false) :
    healthView (enemyAttack now sense s) = healthView s ∧
    playerStunView (enemyAttack now sense s) = playerStunView s := by
  unfold enemyAttack
  split_ifs with c1 c2 c3
  · exact absurd c2.1 (by simp [h])
  · exact ⟨enemyShoot_healthView now s, enemyShoot_playerStunView now s⟩
  · exact ⟨rfl, rfl⟩
  · exact ⟨rfl, rfl⟩

/-- The enemy part of a frame in which the range test finds the player at
120 units or more leaves the health and the hit-stun of the player as they
are. -/
theorem enemyPhase_of_not_close (now delta : ℚ) (s : GameState)
    (h : |s.enemyPosition.x - s.playerPosition.x| ≥ 120) :
    healthView (enemyPhase now delta s) = healthView s ∧
    playerStunView (enemyPhase now delta s) = playerStunView s := by
  have hc : (enemySense now s).isClose = false := by
    show decide _ = false
    rw [decide_eq_false_iff_not]
    exact not_lt.mpr h
  unfold enemyPhase
  obtain ⟨h1, h2⟩ := enemyAttack_of_not_close now (enemySense now s)
    (enemyFacing (enemyVertical now delta (enemyMove delta
      (enemyDecision now (enemySense now s) s)))) hc
  rw [h1, h2]
  constructor
  · simp
  · simp

set_option maxHeartbeats 8000000 in
/-- The run that ends in `turnBack`, and the frame at instant 4.15 on it. -/
theorem turnBack_values :
    ((closeIn.windowOpen = true ∧ closeIn.gameEnded = false) ∧
      ((handleEvent (7 / 2) closeIn (Event.KeyPressed Key.S)).windowOpen = true ∧
        (handleEvent (7 / 2) closeIn (Event.KeyPressed Key.S)).gameEnded = false) ∧
      ((handleEvent (7 / 2) (handleEvent (7 / 2) closeIn (Event.KeyPressed Key.S))
          (Event.KeyPressed Key.Right)).windowOpen = true ∧
        (handleEvent (7 / 2) (handleEvent (7 / 2) closeIn (Event.KeyPressed Key.S))
          (Event.KeyPressed Key.Right)).gameEnded = false) ∧
      (passBy.windowOpen = true ∧ passBy.gameEnded = false) ∧
      ((handleEvent (39 / 10) passBy (Event.KeyReleased Key.Right)).windowOpen = true ∧
        (handleEvent (39 / 10) passBy (Event.KeyReleased Key.Right)).gameEnded = false)) ∧
    (passBy.playerPosition.x = 208 ∧ passBy.enemyPosition.x = 248 ∧
      passBy.enemyDirection = 1 ∧ passBy.enemyDecisionClock = 39 / 10) ∧
    ((beforeEnemy (83 / 20) turnBack).playerPosition.x = 153 ∧
      (beforeEnemy (83 / 20) turnBack).enemyPosition.x = 248 ∧
      (beforeEnemy (83 / 20) turnBack).playerHealth = 100 ∧
      (beforeEnemy (83 / 20) turnBack).playerHitStunned = false) ∧
    ((tick (83 / 20) turnBack).playerPosition.x = 153 ∧
      (tick (83 / 20) turnBack).enemyPosition.x = 304 ∧
      (tick (83 / 20) turnBack).playerHealth = 93 ∧
      (tick (83 / 20) turnBack).playerHitStunned = true) := by
  norm_num [List.cons_ne_nil, turnBack, passBy, closeIn, beforeEnemy, demoRunning, demoStart,
    demoSheets, initialState, CharacterSpriteManager.loadAll, AnimatedSprite.load,
    CharacterSpriteManager.setScale, updateBulletList_nil, updateBulletList_cons,
    SpriteState.eq_iff_idx, SpriteState.toCtorIdx, abs_of_nonneg, abs_of_neg,
    kStageDurationSeconds, kMaxAmmo, kFrameTime, windowWidth, groundY, playerSpeed, enemySpeed,
    jumpStrength, gravity, enemyFireCooldown, enemyAttackCooldown, enemyReloadTime,
    attackCooldownTime, shootCooldownTime, maxRounds, roundEndDisplayTime, hitStunDuration,
    AnimatedSprite.update, CharacterSpriteManager.updateScale,
    CharacterSpriteManager.setFacingDirection, CharacterSpriteManager.setPosition,
    CharacterSpriteManager.canChangeState, CharacterSpriteManager.changeState,
    CharacterSpriteManager.advanceSheets, CharacterSpriteManager.clearDuration,
    CharacterSpriteManager.revertOneShot, CharacterSpriteManager.update,
    CharacterSpriteManager.resetDead, CharacterSpriteManager.getCurrentSprite,
    CharacterSpriteManager.getGlobalBounds, bulletBounds, overlap, clamp, truncToInt, fullAmmo,
    reloadPlayer, playerBullet, jumpKey, fireAccepted, fireKey, meleeAccepted, meleeSwing,
    meleeHit, meleeDone, meleeKey, keyPressed, keyReleased, handleEvent, updatePlayerHitStun,
    updateEnemyHitStun, updateHitStun, playerMotionX, canJumpOver, playerMove, playerFacing,
    playerKeepJump, playerFall, playerLand, playerAirborne, playerRest, playerToGround,
    playerGroundedFall, playerGroundedSprite, playerGrounded, playerVertical, playerSnap,
    playerPlaceSprite, playerGroundSnap, bulletHitEnemy, bulletHitPlayer, Bullet.advance,
    Bullet.deactivate, updateBullet, setBullets, updateBullets,
    enemyStartReload, enemyFinishReload, enemyReload, enemySense, enemyChooseDirection,
    enemyPolicyJump, restartDecisionClock, enemyDecision, enemyMotionX, minEnemyX, enemyMove,
    enemyKeepJump, enemyFall, enemyLand, enemyAirborne, enemyRest, enemyToGround,
    enemyGroundedFall, enemyGroundedSprite, enemyGrounded, enemyVertical, enemyShouldFaceLeft,
    enemyFace, enemySnap, enemyPlaceSprite, enemyFacing, enemyMelee, enemyBullet, enemyShoot,
    enemyAttack, timeLeft, playerDeath, enemyDeath, deadSheetStep,
    CharacterSpriteManager.setDead, playerDeadAnimation, enemyDeadAnimation, deadAnimation,
    playerWon, playerLost, noteOutcome, clearIntents, roundOutcome, resetFighters, resetSprites,
    resetEnemyAmmo, resetRound, endGame, nextRound, roundEndHandling, frameStart, playerPhase,
    enemyPhase, simulate, beforeOutcome, tick]

theorem turnBack_reachable : Reachable turnBack := by
  obtain ⟨⟨⟨a1, a2⟩, ⟨b1, b2⟩, ⟨c1, c2⟩, ⟨d1, d2⟩, ⟨e1, e2⟩⟩, _⟩ := turnBack_values
  have h1 : Reachable closeIn :=
    Reachable.step demoRunning_reachable (Step.frame (7 / 2) demoRunning rfl rfl)
  have h2 : Reachable (handleEvent (7 / 2) closeIn (Event.KeyPressed Key.S)) :=
    Reachable.step h1 (Step.event _ _ _ a1 a2)
  have h3 : Reachable (handleEvent (7 / 2) (handleEvent (7 / 2) closeIn (Event.KeyPressed Key.S))
      (Event.KeyPressed Key.Right)) :=
    Reachable.step h2 (Step.event _ _ _ b1 b2)
  have h4 : Reachable passBy := Reachable.step h3 (Step.frame _ _ c1 c2)
  have h5 : Reachable (handleEvent (39 / 10) passBy (Event.KeyReleased Key.Right)) :=
    Reachable.step h4 (Step.event _ _ _ d1 d2)
  exact Reachable.step h5 (Step.event _ _ _ e1 e2)

/-- Counterexample to C25: the state `turnBack` is reached from the start of
the concrete session by two frames, of 2.5 s and 0.4 s, and four key events;
the last enemy decision, taken at instant 3.9 with the player on the right
of the enemy, has left the direction `+1`. In the frame at instant 4.15, of
0.25 s, the player walks left to `x = 153`, the range test finds the enemy,
at `x = 248`, 95 units from the player, no decision is due, the enemy moves
56 units to the right, and its melee attack takes 7 health points from the
player and sets the hit-stun flag with the fighters 151 units apart. -/
theorem stale_range_counterexample :
    Reachable turnBack ∧
    |(beforeEnemy (83 / 20) turnBack).enemyPosition.x -
      (beforeEnemy (83 / 20) turnBack).playerPosition.x| = 95 ∧
    (beforeEnemy (83 / 20) turnBack).playerHealth = 100 ∧
    (beforeEnemy (83 / 20) turnBack).playerHitStunned = false ∧
    (tick (83 / 20) turnBack).playerHealth = 93 ∧
    (tick (83 / 20) turnBack).playerHitStunned = true ∧
    |(tick (83 / 20) turnBack).enemyPosition.x - (tick (83 / 20) turnBack).playerPosition.x| =
      151 ∧
    ¬ (|(tick (83 / 20) turnBack).enemyPosition.x -
      (tick (83 / 20) turnBack).playerPosition.x| < 120) := by
  obtain ⟨_, _, ⟨p1, p2, p3, p4⟩, q1, q2, q3, q4⟩ := turnBack_values
  refine ⟨turnBack_reachable, ?_, p3, p4, q3, q4, ?_, ?_⟩
  · rw [p1, p2]
    norm_num [abs_of_nonneg]
  · rw [q1, q2]
    norm_num [abs_of_nonneg]
  · rw [q1, q2]
    norm_num [abs_of_nonneg]

/-- C25, amended: whenever the enemy part of a frame reduces the health of
the player, `|enemy.x - player.x| < 120` holds for the positions at the
range test of that frame (lines 864-871: after the movement of the player,
before the decision and the movement of the enemy); when that distance is
120 or more, the enemy part of the frame changes neither the health nor the
hit-stun flag and clock of the player. -/
theorem melee_range_at_test (now delta : ℚ) (s : GameState) :
    ((enemyPhase now delta s).playerHealth < s.playerHealth →
      |s.enemyPosition.x - s.playerPosition.x| < 120) ∧
    (|s.enemyPosition.x - s.playerPosition.x| ≥ 120 →
      (enemyPhase now delta s).playerHealth = s.playerHealth ∧
      (enemyPhase now delta s).playerHitStunned = s.playerHitStunned ∧
      (enemyPhase now delta s).playerHitStunClock = s.playerHitStunClock) := by
  have hfar : |s.enemyPosition.x - s.playerPosition.x| ≥ 120 →
      (enemyPhase now delta s).playerHealth = s.playerHealth ∧
      (enemyPhase now delta s).playerHitStunned = s.playerHitStunned ∧
      (enemyPhase now delta s).playerHitStunClock = s.playerHitStunClock := by
    intro h
    obtain ⟨h1, h2⟩ := enemyPhase_of_not_close now delta s h
    exact ⟨congrArg Prod.fst h1, (playerStun_fields h2).1, (playerStun_fields h2).2⟩
  refine ⟨?_, hfar⟩
  intro hlt
  by_contra hc
  have h := (hfar (not_lt.mp hc)).1
  rw [h] at hlt
  exact lt_irrefl _ hlt

/-- Witness of C25: in `arena` the fighters stand 590 units apart. -/
theorem melee_range_at_test_witness :
    |arena.enemyPosition.x - arena.playerPosition.x| ≥ 120 ∧
    (enemyPhase 6 (1 / 100) arena).playerHealth = arena.playerHealth ∧
    (enemyPhase 6 (1 / 100) arena).playerHitStunned = arena.playerHitStunned := by
  have h1 : |arena.enemyPosition.x - arena.playerPosition.x| ≥ 120 := by
    norm_num [arena, abs_of_nonneg]
  exact ⟨h1, ((melee_range_at_test 6 (1 / 100) arena).2 h1).1,
    ((melee_range_at_test 6 (1 / 100) arena).2 h1).2.1⟩

theorem roundCredit_of_matchView {s0 s s' : GameState} (hv : matchView s' = matchView s)
    (h : RoundCredit s0 s) : RoundCredit s0 s' := by
  obtain ⟨h1, h2, h3, h4, _, _, h7, _⟩ := matchView_fields hv
  unfold RoundCredit
  rw [h1, h2, h3, h4, h7]
  exact h

theorem handleEvent_roundCredit (s0 : GameState) (now : ℚ) (s : GameState) (e : Event)
    (h : RoundCredit s0 s) : RoundCredit s0 (handleEvent now s e) := by
  cases e with
  | Closed => exact h
  | Other => exact h
  | KeyPressed code =>
    dsimp only [handleEvent]
    split_ifs
    · exact h
    · exact h
    · exact roundCredit_of_matchView (keyPressed_matchView now code s) h
  | KeyReleased code =>
    dsimp only [handleEvent]
    split_ifs
    · exact h
    · exact roundCredit_of_matchView (keyReleased_matchView code s) h

theorem noteOutcome_roundCredit (s0 : GameState) (now : ℚ) (s : GameState)
    (h : RoundCredit s0 s) : RoundCredit s0 (noteOutcome now s) := by
  obtain ⟨h1, h2, h3⟩ := h
  unfold noteOutcome
  split_ifs with c1 c2
  · have hn : s.winNoted = false := by simpa using c1.2
    refine ⟨?_, h2, fun _ => Or.inl rfl⟩
    show s.playerWins + 1 = s0.playerWins + (if true = true then 1 else 0)
    rw [h1, hn]
    simp
  · have hn : s.defeatNoted = false := by simpa using c2.2
    refine ⟨h1, ?_, fun _ => Or.inr rfl⟩
    show s.enemyWins + 1 = s0.enemyWins + (if true = true then 1 else 0)
    rw [h2, hn]
    simp
  · exact ⟨h1, h2, h3⟩

theorem roundOutcome_roundCredit (s0 : GameState) (now : ℚ) (s : GameState)
    (h : RoundCredit s0 s) : RoundCredit s0 (roundOutcome now (beforeOutcome now s)) := by
  unfold roundOutcome
  apply roundCredit_of_matchView (clearIntents_matchView _)
  apply noteOutcome_roundCredit
  exact roundCredit_of_matchView (beforeOutcome_matchView now s) h

theorem roundStep_roundCredit (s0 : GameState) {s s' : GameState} (hstep : RoundStep s s')
    (h : RoundCredit s0 s) : RoundCredit s0 s' := by
  cases hstep with
  | event now e s _ _ => exact handleEvent_roundCredit s0 now s e h
  | frame now s _ _ hr =>
    by_cases hw : s.waitingForStart = true
    · rw [tick_of_waiting now s hw]
      exact roundCredit_of_matchView (frameStart_matchView now s) h
    · have hw2 : s.waitingForStart = false := by simpa using hw
      have ho := roundOutcome_roundCredit s0 now s h
      rcases tick_noReset_cases now s hw2 hr with e | e | e
      · rw [e]
        exact ho
      · rw [e]
        exact ho
      · rw [e]
        generalize roundOutcome now (beforeOutcome now s) = o at ho
        have hne : (endGame (nextRound o)).roundEnded = false := rfl
        have h1 : (endGame (nextRound o)).playerWins = o.playerWins := rfl
        have h2 : (endGame (nextRound o)).enemyWins = o.enemyWins := rfl
        have h3 : (endGame (nextRound o)).winNoted = o.winNoted := rfl
        have h4 : (endGame (nextRound o)).defeatNoted = o.defeatNoted := rfl
        unfold RoundCredit
        rw [h1, h2, h3, h4, hne]
        exact ⟨ho.1, ho.2.1, fun hc => absurd hc (by decide)⟩

theorem roundRun_roundCredit {s0 s : GameState} (hrun : RoundRun s0 s)
    (h0 : RoundCredit s0 s0) : RoundCredit s0 s := by
  induction hrun with
  | refl => exact h0
  | tail _ hstep ih => exact roundStep_roundCredit s0 hstep ih

/-- A frame that runs the round reset ends in the reset of the state left by
the round outcome, the round number incremented. -/
theorem tick_of_reset (now : ℚ) (s : GameState) (h : resetsRound now s = true) :
    (roundOutcome now (beforeOutcome now s)).roundEnded = true ∧
    tick now s = resetRound now (nextRound (roundOutcome now (beforeOutcome now s))) := by
  unfold resetsRound at h
  rw [decide_eq_true_iff] at h
  obtain ⟨hw, h1, h2, h3, h4⟩ := h
  refine ⟨h1, ?_⟩
  unfold tick roundEndHandling
  rw [if_neg (by simp [hw]), if_pos h1, if_pos h2, if_neg h3, if_neg h4]

/-- C28, amended: between two consecutive round resets, that is over a run of
events and frames without reset that starts with neither outcome noted and
the round not ended, followed by a frame that runs the reset,
`playerWins + enemyWins` increases by 1 or by 2: each tally grows by at most
1 and at least one of them grows; the reset leaves again neither outcome
noted and the round not ended. -/
theorem round_credit (s0 s : GameState) (now : ℚ) (hw0 : s0.winNoted = false)
    (hd0 : s0.defeatNoted = false) (hr0 : s0.roundEnded = false) (hrun : RoundRun s0 s)
    (hreset : resetsRound now s = true) :
    ((tick now s).playerWins + (tick now s).enemyWins = s0.playerWins + s0.enemyWins + 1 ∨
      (tick now s).playerWins + (tick now s).enemyWins = s0.playerWins + s0.enemyWins + 2) ∧
    (s0.playerWins ≤ (tick now s).playerWins ∧ (tick now s).playerWins ≤ s0.playerWins + 1) ∧
    (s0.enemyWins ≤ (tick now s).enemyWins ∧ (tick now s).enemyWins ≤ s0.enemyWins + 1) ∧
    ((tick now s).winNoted = false ∧ (tick now s).defeatNoted = false ∧
      (tick now s).roundEnded = false) := by
  have h0 : RoundCredit s0 s0 := by
    refine ⟨?_, ?_, ?_⟩
    · rw [hw0]
      simp
    · rw [hd0]
      simp
    · intro hc
      rw [hr0] at hc
      exact absurd hc (by decide)
  obtain ⟨c1, c2, c3⟩ := roundOutcome_roundCredit s0 now s (roundRun_roundCredit hrun h0)
  obtain ⟨he, ht⟩ := tick_of_reset now s hreset
  have hp : (tick now s).playerWins = (roundOutcome now (beforeOutcome now s)).playerWins := by
    rw [ht]
    rfl
  have hq : (tick now s).enemyWins = (roundOutcome now (beforeOutcome now s)).enemyWins := by
    rw [ht]
    rfl
  have hf : (tick now s).winNoted = false ∧ (tick now s).defeatNoted = false ∧
      (tick now s).roundEnded = false := by
    rw [ht]
    exact ⟨rfl, rfl, rfl⟩
  have b1 : (0 : Int) ≤ (if (roundOutcome now (beforeOutcome now s)).winNoted = true then 1
      else 0) ∧ (if (roundOutcome now (beforeOutcome now s)).winNoted = true then (1 : Int)
      else 0) ≤ 1 := by
    split_ifs <;> constructor <;> norm_num
  have b2 : (0 : Int) ≤ (if (roundOutcome now (beforeOutcome now s)).defeatNoted = true then 1
      else 0) ∧ (if (roundOutcome now (beforeOutcome now s)).defeatNoted = true then (1 : Int)
      else 0) ≤ 1 := by
    split_ifs <;> constructor <;> norm_num
  have b3 : (1 : Int) ≤ (if (roundOutcome now (beforeOutcome now s)).winNoted = true then 1
      else 0) + (if (roundOutcome now (beforeOutcome now s)).defeatNoted = true then 1
      else 0) := by
    rcases c3 he with hn | hn
    · rw [if_pos hn]
      linarith [b2.1]
    · rw [if_pos hn]
      linarith [b1.1]
  rw [hp, hq, c1, c2]
  refine ⟨?_, ⟨?_, ?_⟩, ⟨?_, ?_⟩, hf⟩
  · omega
  · omega
  · omega
  · omega
  · omega

set_option maxHeartbeats 16000000 in
/-- The frames at instants 6, 6.01 and 10 on `crossfire`: both projectiles
hit in the first, which notes the win; the second notes the defeat; the
third runs the reset. -/
theorem crossfire_values :
    (resetsRound 6 crossfire = false ∧
      (tick 6 crossfire).playerHealth = 0 ∧ (tick 6 crossfire).enemyHealth = 0 ∧
      (tick 6 crossfire).playerWins = 1 ∧ (tick 6 crossfire).enemyWins = 0 ∧
      (tick 6 crossfire).windowOpen = true ∧ (tick 6 crossfire).gameEnded = false) ∧
    (resetsRound (601 / 100) (tick 6 crossfire) = false ∧
      (tick (601 / 100) (tick 6 crossfire)).playerWins = 1 ∧
      (tick (601 / 100) (tick 6 crossfire)).enemyWins = 1) ∧
    (resetsRound 10 (tick (601 / 100) (tick 6 crossfire)) = true ∧
      (tick 10 (tick (601 / 100) (tick 6 crossfire))).playerWins = 1 ∧
      (tick 10 (tick (601 / 100) (tick 6 crossfire))).enemyWins = 1 ∧
      (tick 10 (tick (601 / 100) (tick 6 crossfire))).currentRound = 2) := by
  norm_num [List.cons_ne_nil, crossfire, arena, spritesAt, sheet128, resetsRound, updateBulletList_nil,
    updateBulletList_cons, SpriteState.eq_iff_idx, SpriteState.toCtorIdx, abs_of_nonneg,
    abs_of_neg,
    kStageDurationSeconds, kMaxAmmo, kFrameTime, windowWidth, groundY, playerSpeed, enemySpeed,
    jumpStrength, gravity, enemyFireCooldown, enemyAttackCooldown, enemyReloadTime,
    attackCooldownTime, shootCooldownTime, maxRounds, roundEndDisplayTime, hitStunDuration,
    AnimatedSprite.update, CharacterSpriteManager.updateScale,
    CharacterSpriteManager.setFacingDirection, CharacterSpriteManager.setPosition,
    CharacterSpriteManager.canChangeState, CharacterSpriteManager.changeState,
    CharacterSpriteManager.advanceSheets, CharacterSpriteManager.clearDuration,
    CharacterSpriteManager.revertOneShot, CharacterSpriteManager.update,
    CharacterSpriteManager.resetDead, CharacterSpriteManager.getCurrentSprite,
    CharacterSpriteManager.getGlobalBounds, bulletBounds, overlap, clamp, truncToInt, fullAmmo,
    reloadPlayer, playerBullet, jumpKey, fireAccepted, fireKey, meleeAccepted, meleeSwing,
    meleeHit, meleeDone, meleeKey, keyPressed, keyReleased, handleEvent, updatePlayerHitStun,
    updateEnemyHitStun, updateHitStun, playerMotionX, canJumpOver, playerMove, playerFacing,
    playerKeepJump, playerFall, playerLand, playerAirborne, playerRest, playerToGround,
    playerGroundedFall, playerGroundedSprite, playerGrounded, playerVertical, playerSnap,
    playerPlaceSprite, playerGroundSnap, bulletHitEnemy, bulletHitPlayer, Bullet.advance,
    Bullet.deactivate, updateBullet, setBullets, updateBullets,
    enemyStartReload, enemyFinishReload, enemyReload, enemySense, enemyChooseDirection,
    enemyPolicyJump, restartDecisionClock, enemyDecision, enemyMotionX, minEnemyX, enemyMove,
    enemyKeepJump, enemyFall, enemyLand, enemyAirborne, enemyRest, enemyToGround,
    enemyGroundedFall, enemyGroundedSprite, enemyGrounded, enemyVertical, enemyShouldFaceLeft,
    enemyFace, enemySnap, enemyPlaceSprite, enemyFacing, enemyMelee, enemyBullet, enemyShoot,
    enemyAttack, timeLeft, playerDeath, enemyDeath, deadSheetStep,
    CharacterSpriteManager.setDead, playerDeadAnimation, enemyDeadAnimation, deadAnimation,
    playerWon, playerLost, noteOutcome, clearIntents, roundOutcome, resetFighters, resetSprites,
    resetEnemyAmmo, resetRound, endGame, nextRound, roundEndHandling, frameStart, playerPhase,
    enemyPhase, simulate, beforeOutcome, tick]

theorem crossfire_run : RoundRun crossfire (tick (601 / 100) (tick 6 crossfire)) := by
  obtain ⟨⟨a1, _, _, _, _, a6, a7⟩, ⟨b1, _, _⟩, _⟩ := crossfire_values
  have s1 : RoundStep crossfire (tick 6 crossfire) := RoundStep.frame 6 crossfire rfl rfl a1
  have s2 : RoundStep (tick 6 crossfire) (tick (601 / 100) (tick 6 crossfire)) :=
    RoundStep.frame (601 / 100) (tick 6 crossfire) a6 a7 b1
  exact Relation.ReflTransGen.tail (Relation.ReflTransGen.single s1) s2

/-- Counterexample to C28: `crossfire` is a round start state with both
tallies at 0. In the frame at instant 6 the projectile of the enemy takes
the last health points of the player and the projectile of the player those
of the enemy, and the win is noted; the frame at instant 6.01 notes the
defeat; no reset runs in between, and the reset of the frame at instant 10
finds `playerWins + enemyWins = 2`: the round is credited to both
fighters. -/
theorem both_credited_counterexample :
    (crossfire.winNoted = false ∧ crossfire.defeatNoted = false ∧
      crossfire.roundEnded = false ∧ crossfire.playerWins + crossfire.enemyWins = 0) ∧
    RoundRun crossfire (tick (601 / 100) (tick 6 crossfire)) ∧
    resetsRound 10 (tick (601 / 100) (tick 6 crossfire)) = true ∧
    (tick 10 (tick (601 / 100) (tick 6 crossfire))).playerWins +
      (tick 10 (tick (601 / 100) (tick 6 crossfire))).enemyWins = 2 := by
  obtain ⟨_, _, c1, c2, c3, _⟩ := crossfire_values
  refine ⟨⟨rfl, rfl, rfl, rfl⟩, crossfire_run, c1, ?_⟩
  rw [c2, c3]
  rfl

/-- Witness of C28: the run of `crossfire` and the reset at instant 10. -/
theorem round_credit_witness :
    crossfire.winNoted = false ∧ crossfire.defeatNoted = false ∧
    crossfire.roundEnded = false ∧
    RoundRun crossfire (tick (601 / 100) (tick 6 crossfire)) ∧
    resetsRound 10 (tick (601 / 100) (tick 6 crossfire)) = true ∧
    ((tick 10 (tick (601 / 100) (tick 6 crossfire))).playerWins +
        (tick 10 (tick (601 / 100) (tick 6 crossfire))).enemyWins =
        crossfire.playerWins + crossfire.enemyWins + 1 ∨
      (tick 10 (tick (601 / 100) (tick 6 crossfire))).playerWins +
        (tick 10 (tick (601 / 100) (tick 6 crossfire))).enemyWins =
        crossfire.playerWins + crossfire.enemyWins + 2) :=
  ⟨rfl, rfl, rfl, crossfire_run, crossfire_values.2.2.1,
    (round_credit crossfire (tick (601 / 100) (tick 6 crossfire)) 10 rfl rfl rfl crossfire_run
      crossfire_values.2.2.1).1⟩

/-! ## Jump requests during a one-shot -/

set_option maxHeartbeats 8000000 in
/-- The jump key, the melee key and the fire key at instant 3.2 on
`demoFired`, where the player is in `Shot` since instant 3. -/
theorem demoFired_values :
    demoFired.playerSprites.currentState = SpriteState.Shot ∧
    demoFired.playerSprites.canChangeState (16 / 5) = false ∧
    ((handleEvent (16 / 5) demoFired (Event.KeyPressed Key.Up)).playerSprites.currentState =
        SpriteState.Jump ∧
      (handleEvent (16 / 5) demoFired (Event.KeyPressed Key.Up)).playerJumping = true) ∧
    (meleeAccepted (16 / 5) demoFired = false ∧
      (handleEvent (16 / 5) demoFired (Event.KeyPressed Key.S)).playerSprites.currentState =
        SpriteState.Shot) ∧
    (fireAccepted (16 / 5) demoFired = false ∧
      (handleEvent (16 / 5) demoFired (Event.KeyPressed Key.A)).playerSprites.currentState =
        SpriteState.Shot) := by
  norm_num [List.cons_ne_nil, demoFired, demoRunning, demoStart,
    demoSheets, initialState, CharacterSpriteManager.loadAll, AnimatedSprite.load,
    CharacterSpriteManager.setScale, updateBulletList_nil, updateBulletList_cons,
    SpriteState.eq_iff_idx, SpriteState.toCtorIdx, abs_of_nonneg, abs_of_neg,
    kStageDurationSeconds, kMaxAmmo, kFrameTime, windowWidth, groundY, playerSpeed, enemySpeed,
    jumpStrength, gravity, enemyFireCooldown, enemyAttackCooldown, enemyReloadTime,
    attackCooldownTime, shootCooldownTime, maxRounds, roundEndDisplayTime, hitStunDuration,
    AnimatedSprite.update, CharacterSpriteManager.updateScale,
    CharacterSpriteManager.setFacingDirection, CharacterSpriteManager.setPosition,
    CharacterSpriteManager.canChangeState, CharacterSpriteManager.changeState,
    CharacterSpriteManager.advanceSheets, CharacterSpriteManager.clearDuration,
    CharacterSpriteManager.revertOneShot, CharacterSpriteManager.update,
    CharacterSpriteManager.resetDead, CharacterSpriteManager.getCurrentSprite,
    CharacterSpriteManager.getGlobalBounds, bulletBounds, overlap, clamp, truncToInt, fullAmmo,
    reloadPlayer, playerBullet, jumpKey, fireAccepted, fireKey, meleeAccepted, meleeSwing,
    meleeHit, meleeDone, meleeKey, keyPressed, keyReleased, handleEvent, updatePlayerHitStun,
    updateEnemyHitStun, updateHitStun, playerMotionX, canJumpOver, playerMove, playerFacing,
    playerKeepJump, playerFall, playerLand, playerAirborne, playerRest, playerToGround,
    playerGroundedFall, playerGroundedSprite, playerGrounded, playerVertical, playerSnap,
    playerPlaceSprite, playerGroundSnap, bulletHitEnemy, bulletHitPlayer, Bullet.advance,
    Bullet.deactivate, updateBullet, setBullets, updateBullets,
    enemyStartReload, enemyFinishReload, enemyReload, enemySense, enemyChooseDirection,
    enemyPolicyJump, restartDecisionClock, enemyDecision, enemyMotionX, minEnemyX, enemyMove,
    enemyKeepJump, enemyFall, enemyLand, enemyAirborne, enemyRest, enemyToGround,
    enemyGroundedFall, enemyGroundedSprite, enemyGrounded, enemyVertical, enemyShouldFaceLeft,
    enemyFace, enemySnap, enemyPlaceSprite, enemyFacing, enemyMelee, enemyBullet, enemyShoot,
    enemyAttack, timeLeft, playerDeath, enemyDeath, deadSheetStep,
    CharacterSpriteManager.setDead, playerDeadAnimation, enemyDeadAnimation, deadAnimation,
    playerWon, playerLost, noteOutcome, clearIntents, roundOutcome, resetFighters, resetSprites,
    resetEnemyAmmo, resetRound, endGame, nextRound, roundEndHandling, frameStart, playerPhase,
    enemyPhase, simulate, beforeOutcome, tick]

set_option maxHeartbeats 8000000 in
/-- The run that ends in `struck`, and the frame at instant 3.85 on it. -/
theorem struck_values :
    ((closeIn.windowOpen = true ∧ closeIn.gameEnded = false) ∧
      (struck.windowOpen = true ∧ struck.gameEnded = false)) ∧
    (struck.enemySprites.currentState = SpriteState.Attack ∧
      struck.enemyJumping = false ∧ resetsRound (77 / 20) struck = false) ∧
    ((beforeEnemy (77 / 20) struck).enemySprites.currentState = SpriteState.Attack ∧
      (beforeEnemy (77 / 20) struck).enemySprites.canChangeState (77 / 20) = false ∧
      (enemySense (77 / 20) (beforeEnemy (77 / 20) struck)).canMelee = false ∧
      (enemyDecision (77 / 20) (enemySense (77 / 20) (beforeEnemy (77 / 20) struck))
        (beforeEnemy (77 / 20) struck)).enemySprites.currentState = SpriteState.Jump) ∧
    (tick (77 / 20) struck).enemySprites.currentState = SpriteState.Jump := by
  norm_num [List.cons_ne_nil, struck, closeIn, beforeEnemy, resetsRound, demoRunning, demoStart,
    demoSheets, initialState, CharacterSpriteManager.loadAll, AnimatedSprite.load,
    CharacterSpriteManager.setScale, updateBulletList_nil, updateBulletList_cons,
    SpriteState.eq_iff_idx, SpriteState.toCtorIdx, abs_of_nonneg, abs_of_neg,
    kStageDurationSeconds, kMaxAmmo, kFrameTime, windowWidth, groundY, playerSpeed, enemySpeed,
    jumpStrength, gravity, enemyFireCooldown, enemyAttackCooldown, enemyReloadTime,
    attackCooldownTime, shootCooldownTime, maxRounds, roundEndDisplayTime, hitStunDuration,
    AnimatedSprite.update, CharacterSpriteManager.updateScale,
    CharacterSpriteManager.setFacingDirection, CharacterSpriteManager.setPosition,
    CharacterSpriteManager.canChangeState, CharacterSpriteManager.changeState,
    CharacterSpriteManager.advanceSheets, CharacterSpriteManager.clearDuration,
    CharacterSpriteManager.revertOneShot, CharacterSpriteManager.update,
    CharacterSpriteManager.resetDead, CharacterSpriteManager.getCurrentSprite,
    CharacterSpriteManager.getGlobalBounds, bulletBounds, overlap, clamp, truncToInt, fullAmmo,
    reloadPlayer, playerBullet, jumpKey, fireAccepted, fireKey, meleeAccepted, meleeSwing,
    meleeHit, meleeDone, meleeKey, keyPressed, keyReleased, handleEvent, updatePlayerHitStun,
    updateEnemyHitStun, updateHitStun, playerMotionX, canJumpOver, playerMove, playerFacing,
    playerKeepJump, playerFall, playerLand, playerAirborne, playerRest, playerToGround,
    playerGroundedFall, playerGroundedSprite, playerGrounded, playerVertical, playerSnap,
    playerPlaceSprite, playerGroundSnap, bulletHitEnemy, bulletHitPlayer, Bullet.advance,
    Bullet.deactivate, updateBullet, setBullets, updateBullets,
    enemyStartReload, enemyFinishReload, enemyReload, enemySense, enemyChooseDirection,
    enemyPolicyJump, restartDecisionClock, enemyDecision, enemyMotionX, minEnemyX, enemyMove,
    enemyKeepJump, enemyFall, enemyLand, enemyAirborne, enemyRest, enemyToGround,
    enemyGroundedFall, enemyGroundedSprite, enemyGrounded, enemyVertical, enemyShouldFaceLeft,
    enemyFace, enemySnap, enemyPlaceSprite, enemyFacing, enemyMelee, enemyBullet, enemyShoot,
    enemyAttack, timeLeft, playerDeath, enemyDeath, deadSheetStep,
    CharacterSpriteManager.setDead, playerDeadAnimation, enemyDeadAnimation, deadAnimation,
    playerWon, playerLost, noteOutcome, clearIntents, roundOutcome, resetFighters, resetSprites,
    resetEnemyAmmo, resetRound, endGame, nextRound, roundEndHandling, frameStart, playerPhase,
    enemyPhase, simulate, beforeOutcome, tick]

theorem struck_reachable : Reachable struck := by
  obtain ⟨⟨⟨a1, a2⟩, _⟩, _⟩ := struck_values
  have h1 : Reachable closeIn :=
    Reachable.step demoRunning_reachable (Step.frame (7 / 2) demoRunning rfl rfl)
  exact Reachable.step h1 (Step.frame _ _ a1 a2)

/-- C13, divergence: a jump request made while the one-shot of the fighter
has not elapsed changes its animation state. In the concrete session the
player fires at instant 3 and is in `Shot` with `canChangeState` false; the
jump key at instant 3.2 puts it into `Jump` with `playerJumping` set, while
the melee key and the fire key at that instant are refused and leave it in
`Shot`. The enemy strikes in the frame at instant 3.6 and is in `Attack`,
not jumping; in the frame at instant 3.85, which runs no round reset, its
`canChangeState` is false at the decision step, its melee attack is refused
(`canMelee` false), and the jump of the policy puts it into `Jump`, the
state in which the frame ends. -/
theorem jump_request_breaks_lock :
    (Reachable demoFired ∧
      demoFired.playerSprites.currentState = SpriteState.Shot ∧
      demoFired.playerSprites.canChangeState (16 / 5) = false ∧
      ((handleEvent (16 / 5) demoFired (Event.KeyPressed Key.Up)).playerSprites.currentState =
          SpriteState.Jump ∧
        (handleEvent (16 / 5) demoFired (Event.KeyPressed Key.Up)).playerJumping = true) ∧
      (meleeAccepted (16 / 5) demoFired = false ∧
        (handleEvent (16 / 5) demoFired (Event.KeyPressed Key.S)).playerSprites.currentState =
          SpriteState.Shot) ∧
      (fireAccepted (16 / 5) demoFired = false ∧
        (handleEvent (16 / 5) demoFired (Event.KeyPressed Key.A)).playerSprites.currentState =
          SpriteState.Shot)) ∧
    (Reachable struck ∧
      (struck.enemySprites.currentState = SpriteState.Attack ∧
        struck.enemyJumping = false ∧ resetsRound (77 / 20) struck = false) ∧
      ((beforeEnemy (77 / 20) struck).enemySprites.currentState = SpriteState.Attack ∧
        (beforeEnemy (77 / 20) struck).enemySprites.canChangeState (77 / 20) = false ∧
        (enemySense (77 / 20) (beforeEnemy (77 / 20) struck)).canMelee = false ∧
        (enemyDecision (77 / 20) (enemySense (77 / 20) (beforeEnemy (77 / 20) struck))
          (beforeEnemy (77 / 20) struck)).enemySprites.currentState = SpriteState.Jump) ∧
      (tick (77 / 20) struck).enemySprites.currentState = SpriteState.Jump) :=
  ⟨⟨demoFired_reachable, demoFired_values.1, demoFired_values.2.1, demoFired_values.2.2.1,
      demoFired_values.2.2.2.1, demoFired_values.2.2.2.2⟩,
    ⟨struck_reachable, struck_values.2.1, struck_values.2.2.1, struck_values.2.2.2⟩⟩

end ElChavacano
